import Mathlib

/-!
Verification of the galactic_credit elliptic-curve core.

Shallow embedding of the arbitrary-precision backend
(src/ecc/field.rs, src/ecc/curve.rs, src/ecc/secp256k1.rs) and of the
machine-width backend constructors (src/ecc/field_element.rs,
src/ecc/elliptic_curve.rs).  Rust panics are modelled as Option.none;
arbitrary-precision signed integers are modelled as Int, with values
stored as Nat because every construction path in the source keeps them
non-negative.  The source's rem_euc (always-non-negative remainder)
is Int.emod.
-/

set_option maxRecDepth 20000

namespace GalacticCredit

/-- Field element of the arbitrary-precision backend (src/ecc/field.rs):
a value and a prime modulus, both arbitrary-precision integers that every
construction path keeps non-negative, hence modelled as Nat. -/
structure FieldElement where
  value : Nat
  order : Nat
deriving DecidableEq, Repr

/-- Iterative binary modular exponentiation, accumulator style, mirroring
the square-and-multiply loop the source relies on (math_helpers.rs mod_pow
for the machine-width backend, GMP pow_mod for the arbitrary-precision
backend).  The first argument is fuel bounding the number of halvings of
the exponent; powMod always supplies enough. -/
def powModAux : Nat → Nat → Nat → Nat → Nat → Nat
  | 0, result, _, _, _ => result
  | fuel + 1, result, base, e, m =>
    if 0 < e then
      powModAux fuel (if e % 2 = 1 then result * base % m else result)
        (base * base % m) (e / 2) m
    else result

/-- Modular exponentiation: base to the e, mod m.  The m = 1 early return
mirrors mod_pow in math_helpers.rs; GMP pow_mod agrees on that case. -/
def powMod (b e m : Nat) : Nat :=
  if m = 1 then 0 else powModAux (e + 1) 1 (b % m) e m

/-- FieldElement::new (field.rs): asserts value non-negative and
value less than OR EQUAL to order (the source's off-by-one), else panics. -/
def fieldNew (value order : Int) : Option FieldElement :=
  if 0 ≤ value ∧ value ≤ order then some ⟨value.toNat, order.toNat⟩ else none

/-- FieldElement::is_zero (field.rs). -/
def fieldIsZero (a : FieldElement) : Bool := a.value == 0

/-- FieldElement::scale (field.rs): multiply by an i32 scalar, then
rem_euc by the order. -/
def fieldScale (a : FieldElement) (k : Int) : FieldElement :=
  ⟨(((a.value : Int) * k).emod (a.order : Int)).toNat, a.order⟩

/-- Add for FieldElement (field.rs): asserts equal orders (panic
otherwise), adds, rem_euc by the order. -/
def fieldAdd (a b : FieldElement) : Option FieldElement :=
  if a.order = b.order then some ⟨(a.value + b.value) % a.order, a.order⟩
  else none

/-- Sub for FieldElement (field.rs): asserts equal orders, subtracts in
the integers, rem_euc by the order. -/
def fieldSub (a b : FieldElement) : Option FieldElement :=
  if a.order = b.order then
    some ⟨(((a.value : Int) - (b.value : Int)).emod (a.order : Int)).toNat, a.order⟩
  else none

/-- Mul for FieldElement (field.rs): asserts equal orders, multiplies,
rem_euc by the order. -/
def fieldMul (a b : FieldElement) : Option FieldElement :=
  if a.order = b.order then some ⟨a.value * b.value % a.order, a.order⟩
  else none

/-- Div for FieldElement (field.rs): asserts equal orders, then multiplies
self by other raised to (order - 2) mod order.  No zero check: a zero
divisor flows straight into the exponentiation. -/
def fieldDiv (a b : FieldElement) : Option FieldElement :=
  if a.order = b.order then
    some ⟨a.value * powMod b.value (a.order - 2) a.order % a.order, a.order⟩
  else none

/-- Pow for FieldElement (field.rs): the exponent, a signed integer, is
first reduced rem_euc modulo (order - 1), then pow_mod is applied. -/
def fieldPow (a : FieldElement) (exp : Int) : FieldElement :=
  ⟨powMod a.value ((exp.emod ((a.order : Int) - 1)).toNat) a.order, a.order⟩

/-- Field element of the machine-width backend
(src/ecc/field_element.rs): a u64 value and u64 prime. -/
structure FieldElementW where
  num : Nat
  prime : Nat
deriving DecidableEq, Repr

/-- FieldElement::new (field_element.rs): strict bound num < prime,
panics otherwise. -/
def fieldNewW (num prime : Nat) : Option FieldElementW :=
  if num < prime then some ⟨num, prime⟩ else none

/-- The while loop of FieldElement::pow (field_element.rs) that lifts a
negative i32 exponent into a non-negative one by repeatedly adding
(prime - 1).  Fuel bounds the iterations; powW always supplies enough. -/
def powWFix : Nat → Int → Int → Int
  | 0, e, _ => e
  | fuel + 1, e, pm1 => if e < 0 then powWFix fuel (e + pm1) pm1 else e

/-- FieldElement::pow (field_element.rs): fix up a negative exponent by
adding (prime - 1) until non-negative, then mod_pow. -/
def powW (a : FieldElementW) (exp : Int) : FieldElementW :=
  ⟨powMod a.num (powWFix (exp.natAbs + 1) exp ((a.prime : Int) - 1)).toNat a.prime,
    a.prime⟩

/-- Add for FieldElement (field_element.rs): asserts equal primes, adds
through an i128 intermediate (never overflows for u64 inputs), then
rem_euclid by the prime. -/
def addW (a b : FieldElementW) : Option FieldElementW :=
  if a.prime = b.prime then some ⟨(a.num + b.num) % a.prime, a.prime⟩ else none

/-- Mul for FieldElement (field_element.rs): asserts equal primes,
multiplies through an i128 intermediate, rem_euclid by the prime. -/
def mulW (a b : FieldElementW) : Option FieldElementW :=
  if a.prime = b.prime then some ⟨a.num * b.num % a.prime, a.prime⟩ else none

/-- Bounded coordinate (curve.rs / elliptic_curve.rs): Finite over a
payload, or the point-at-infinity tag. -/
inductive Bounded (T : Type) where
  | Finite : T → Bounded T
  | Infinity : Bounded T
deriving DecidableEq, Repr

open Bounded in
/-- EcPoint (curve.rs): two bounded coordinates and the two curve
coefficients of the arbitrary-precision backend. -/
structure EcPoint where
  x : Bounded FieldElement
  y : Bounded FieldElement
  a : FieldElement
  b : FieldElement
deriving DecidableEq, Repr

/-- The point at infinity on the curve with coefficients a, b. -/
def infPoint (a b : FieldElement) : EcPoint :=
  ⟨Bounded.Infinity, Bounded.Infinity, a, b⟩

/-- EcPoint::new (curve.rs): when both coordinates are Finite, check the
curve equation with the field operations and panic if it fails; in every
other case (both Infinity, or mixed) return the point at infinity. -/
def ecNew (x y : Bounded FieldElement) (a b : FieldElement) :
    Option EcPoint :=
  match x, y with
  | Bounded.Finite xf, Bounded.Finite yf => do
    let ax ← fieldMul a xf
    let t ← fieldAdd (fieldPow xf 3) ax
    let rhs ← fieldAdd t b
    if fieldPow yf 2 ≠ rhs then none
    else some ⟨Bounded.Finite xf, Bounded.Finite yf, a, b⟩
  | _, _ => some ⟨Bounded.Infinity, Bounded.Infinity, a, b⟩

/-- Add for EcPoint (curve.rs): panic on curve mismatch, then the match
arms in source order.  The arm for a doubled point with zero y
coordinate sits after the unconditional doubling arm, exactly as in the
source, and is therefore unreachable. -/
def ecAdd (p q : EcPoint) : Option EcPoint :=
  if p.a ≠ q.a ∨ p.b ≠ q.b then none
  else
    match p.x, p.y, q.x, q.y with
    | Bounded.Infinity, Bounded.Infinity, Bounded.Infinity, Bounded.Infinity =>
      some ⟨Bounded.Infinity, Bounded.Infinity, p.a, p.b⟩
    | Bounded.Infinity, Bounded.Infinity, Bounded.Finite x2, Bounded.Finite y2 =>
      some ⟨Bounded.Finite x2, Bounded.Finite y2, p.a, p.b⟩
    | Bounded.Finite x1, Bounded.Finite y1, Bounded.Infinity, Bounded.Infinity =>
      some ⟨Bounded.Finite x1, Bounded.Finite y1, p.a, p.b⟩
    | Bounded.Finite x1, Bounded.Finite y1, Bounded.Finite x2, Bounded.Finite y2 =>
      if x1 = x2 ∧ y1 ≠ y2 then
        some ⟨Bounded.Infinity, Bounded.Infinity, p.a, p.b⟩
      else if x1 ≠ x2 then do
        let num ← fieldSub y2 y1
        let den ← fieldSub x2 x1
        let s ← fieldDiv num den
        let t ← fieldSub (fieldPow s 2) x1
        let x3 ← fieldSub t x2
        let u ← fieldSub x1 x3
        let v ← fieldMul s u
        let y3 ← fieldSub v y1
        some ⟨Bounded.Finite x3, Bounded.Finite y3, p.a, p.b⟩
      else if x1 = x2 ∧ y1 = y2 then do
        let num ← fieldAdd (fieldScale (fieldPow x1 2) 3) p.a
        let s ← fieldDiv num (fieldScale y1 2)
        let x3 ← fieldSub (fieldPow s 2) (fieldScale x1 2)
        let u ← fieldSub x1 x3
        let v ← fieldMul s u
        let y3 ← fieldSub v y1
        some ⟨Bounded.Finite x3, Bounded.Finite y3, p.a, p.b⟩
      else if x1 = x2 ∧ y1 = y2 ∧ fieldIsZero y1 then
        some ⟨Bounded.Infinity, Bounded.Infinity, p.a, p.b⟩
      else none
    | _, _, _, _ => none

/-- The double-and-add loop shared by the Mul implementations of
curve.rs: on each iteration, add the running value into the accumulator
when the low bit of the scalar is set, double the running value, shift
the scalar right; stop as soon as the scalar is no longer positive.
Fuel bounds the iterations; the callers always supply enough. -/
def ecMulAux : Nat → EcPoint → EcPoint → Int → Option EcPoint
  | 0, result, _, _ => some result
  | fuel + 1, result, current, k =>
    if 0 < k then do
      let r ← if k % 2 = 1 then ecAdd result current else some result
      let c ← ecAdd current current
      ecMulAux fuel r c (k / 2)
    else some result

/-- Mul of an EcPoint by a rug Integer scalar (curve.rs, impl for a
point reference): accumulator initialised to the point at infinity via
the constructor, then the double-and-add loop. -/
def ecMulInt (p : EcPoint) (k : Int) : Option EcPoint := do
  let r ← ecNew Bounded.Infinity Bounded.Infinity p.a p.b
  ecMulAux (k.toNat + 1) r p k

/-- Mul of an EcPoint by an i32 scalar (curve.rs): identical loop over a
machine-width signed scalar. -/
def ecMulI32 (p : EcPoint) (k : Int) : Option EcPoint := do
  let r ← ecNew Bounded.Infinity Bounded.Infinity p.a p.b
  ecMulAux (k.toNat + 1) r p k

/-- The sum of k copies of P computed by repeated add, the empty sum
being the point at infinity of the curve of P.  This is the comparison
object of the scalar-multiplication consistency property in the spec. -/
def repAdd : Nat → EcPoint → Option EcPoint
  | 0, p => some (infPoint p.a p.b)
  | n + 1, p => do
    let r ← repAdd n p
    ecAdd r p

/-- A point is valid when the validating constructor accepts exactly its
components and returns it unchanged: both coordinates Finite and on the
curve, or both Infinity. -/
def IsValid (P : EcPoint) : Prop := ecNew P.x P.y P.a P.b = some P

instance (P : EcPoint) : Decidable (IsValid P) :=
  inferInstanceAs (Decidable (_ = _))

/-- EcPoint of the machine-width generic backend (elliptic_curve.rs),
instantiated at the field_element.rs FieldElement. -/
structure EcPointW where
  x : Bounded FieldElementW
  y : Bounded FieldElementW
  a : FieldElementW
  b : FieldElementW
deriving DecidableEq, Repr

/-- EcPoint::new (elliptic_curve.rs): both Infinity is accepted
directly, both Finite is validated against the curve equation, and a
mixed pair panics. -/
def ecNewG (x y : Bounded FieldElementW) (a b : FieldElementW) :
    Option EcPointW :=
  match x, y with
  | Bounded.Infinity, Bounded.Infinity =>
    some ⟨Bounded.Infinity, Bounded.Infinity, a, b⟩
  | Bounded.Finite xf, Bounded.Finite yf => do
    let ax ← mulW a xf
    let t ← addW (powW xf 3) ax
    let rhs ← addW t b
    if powW yf 2 ≠ rhs then none
    else some ⟨Bounded.Finite xf, Bounded.Finite yf, a, b⟩
  | _, _ => none

/-- secp256k1 field prime, the value the source parses from PRIME_STR. -/
def secpP : Nat :=
  115792089237316195423570985008687907853269984665640564039457584007908834671663

/-- secp256k1 curve coefficient a, parsed from A_STR. -/
def secpA : Nat := 0

/-- secp256k1 curve coefficient b, parsed from B_STR. -/
def secpB : Nat := 7

/-- secp256k1 generator x coordinate, parsed from GX_STR. -/
def secpGx : Nat :=
  55066263022277343669578718895168534326250603453777594175500187360389116729240

/-- secp256k1 generator y coordinate, parsed from GY_STR. -/
def secpGy : Nat :=
  32670510020758816978083085130507043184471273380659243275938904335757337482424

/-- secp256k1 subgroup order, parsed from N_STR. -/
def secpN : Nat :=
  115792089237316195423570985008687907852837564279074904382605163141518161494337

/-- S256Field::new (secp256k1.rs): FieldElement::from_str with the
secp256k1 prime as the order: asserts the value is non-negative and at
most the order (hexadecimal parsing itself is out of scope and the
already-parsed value is taken as input). -/
def s256FieldNew (v : Nat) : Option FieldElement :=
  if v ≤ secpP then some ⟨v, secpP⟩ else none

/-- S256Point::get_generator (secp256k1.rs): build a, b, Gx, Gy as
S256Field elements and construct the generator through the validating
EcPoint constructor. -/
def getGenerator : Option EcPoint := do
  let a ← s256FieldNew secpA
  let b ← s256FieldNew secpB
  let x ← s256FieldNew secpGx
  let y ← s256FieldNew secpGy
  ecNew (Bounded.Finite x) (Bounded.Finite y) a b

/-- The secp256k1 generator point with its curve coefficients. -/
def secpG : EcPoint :=
  ⟨Bounded.Finite ⟨secpGx, secpP⟩, Bounded.Finite ⟨secpGy, secpP⟩,
    ⟨secpA, secpP⟩, ⟨secpB, secpP⟩⟩

/-!  Supporting lemmas about the modular exponentiation loop. -/

lemma powModAux_lt {m : Nat} (hm : 0 < m) :
    ∀ fuel result base e, result < m → powModAux fuel result base e m < m := by
  intro fuel
  induction fuel with
  | zero => intro result base e hr; simpa [powModAux] using hr
  | succ n ih =>
    intro result base e hr
    rw [powModAux]
    split
    · exact ih _ _ _ (by split <;> [exact Nat.mod_lt _ hm; exact hr])
    · exact hr

lemma powMod_lt {m : Nat} (hm : 0 < m) (b e : Nat) : powMod b e m < m := by
  rw [powMod]
  split
  · omega
  · exact powModAux_lt hm _ _ _ _ (by omega)

lemma powModAux_eq {m : Nat} (hm : 1 < m) :
    ∀ fuel e result base, e < 2 ^ fuel → result < m →
      powModAux fuel result base e m = result * base ^ e % m := by
  intro fuel
  induction fuel with
  | zero =>
    intro e result base he hr
    have he0 : e = 0 := by simpa using he
    subst he0
    simp [powModAux, Nat.mod_eq_of_lt hr]
  | succ n ih =>
    intro e result base he hr
    rw [powModAux]
    split
    case isTrue hpos =>
      have hlt : e / 2 < 2 ^ n := by
        have : 2 ^ (n + 1) = 2 * 2 ^ n := by rw [pow_succ]; ring
        omega
      have hr2 : (if e % 2 = 1 then result * base % m else result) < m := by
        split
        · exact Nat.mod_lt _ (by omega)
        · exact hr
      rw [ih _ _ _ hlt hr2]
      have hbase : (base * base % m) ^ (e / 2) ≡ (base * base) ^ (e / 2) [MOD m] :=
        (Nat.mod_modEq (base * base) m).pow _
      rcases Nat.mod_two_eq_zero_or_one e with hpar | hpar
      · have heq : e = 2 * (e / 2) := by omega
        have hmain :
            result * (base * base % m) ^ (e / 2) ≡ result * base ^ e [MOD m] := by
          calc result * (base * base % m) ^ (e / 2)
              ≡ result * (base * base) ^ (e / 2) [MOD m] := hbase.mul_left _
            _ = result * base ^ e := by
                conv_rhs => rw [heq]
                ring
        rw [if_neg (by omega)]
        exact hmain
      · have heq : e = 2 * (e / 2) + 1 := by omega
        have hmain :
            result * base % m * (base * base % m) ^ (e / 2)
              ≡ result * base ^ e [MOD m] := by
          calc result * base % m * (base * base % m) ^ (e / 2)
              ≡ result * base * (base * base) ^ (e / 2) [MOD m] :=
                (Nat.mod_modEq (result * base) m).mul hbase
            _ = result * base ^ e := by
                conv_rhs => rw [heq]
                ring
        rw [if_pos hpar]
        exact hmain
    case isFalse hpos =>
      have he0 : e = 0 := by omega
      subst he0
      simp [Nat.mod_eq_of_lt hr]

lemma powMod_eq {m : Nat} (hm : 0 < m) (b e : Nat) : powMod b e m = b ^ e % m := by
  rw [powMod]
  split
  case isTrue h => simp [h, Nat.mod_one]
  case isFalse h =>
    have hm1 : 1 < m := by omega
    have hfuel : e < 2 ^ (e + 1) :=
      lt_of_lt_of_le (Nat.lt_two_pow e) (Nat.pow_le_pow_right (by omega) (Nat.le_succ e))
    rw [powModAux_eq hm1 _ _ _ _ hfuel (by omega), one_mul, ← Nat.pow_mod]

/-!  Claim theorems. -/

/-- Claim C1: the spec requires add(P, P) to return the point at
infinity when the shared y coordinate is zero.  The code instead reaches
the unconditional doubling arm first (the zero-y arm is unreachable):
for the valid 2-torsion point (2, 0) on the curve with a = 0, b = 2 over
the 5-element field, add(P, P) applies the tangent formula, whose
division by the zero element silently yields zero, producing the finite
point (1, 0) instead of Infinity. -/
theorem c1_two_torsion_doubling_eval :
    ecNew (Bounded.Finite ⟨2, 5⟩) (Bounded.Finite ⟨0, 5⟩) ⟨0, 5⟩ ⟨2, 5⟩
      = some ⟨Bounded.Finite ⟨2, 5⟩, Bounded.Finite ⟨0, 5⟩, ⟨0, 5⟩, ⟨2, 5⟩⟩ ∧
    ecAdd ⟨Bounded.Finite ⟨2, 5⟩, Bounded.Finite ⟨0, 5⟩, ⟨0, 5⟩, ⟨2, 5⟩⟩
        ⟨Bounded.Finite ⟨2, 5⟩, Bounded.Finite ⟨0, 5⟩, ⟨0, 5⟩, ⟨2, 5⟩⟩
      = some ⟨Bounded.Finite ⟨1, 5⟩, Bounded.Finite ⟨0, 5⟩, ⟨0, 5⟩, ⟨2, 5⟩⟩ := by
  decide

/-- Claim C2: closure fails on the code.  The constructor accepts the
2-torsion point (2, 0) on a = 0, b = 2 over the 5-element field, but
add(P, P) and the scalar multiple 2P both produce the finite point
(1, 0), which the validating constructor rejects because it does not
satisfy the curve equation. -/
theorem c2_closure_violation_eval :
    IsValid ⟨Bounded.Finite ⟨2, 5⟩, Bounded.Finite ⟨0, 5⟩, ⟨0, 5⟩, ⟨2, 5⟩⟩ ∧
    ecAdd ⟨Bounded.Finite ⟨2, 5⟩, Bounded.Finite ⟨0, 5⟩, ⟨0, 5⟩, ⟨2, 5⟩⟩
        ⟨Bounded.Finite ⟨2, 5⟩, Bounded.Finite ⟨0, 5⟩, ⟨0, 5⟩, ⟨2, 5⟩⟩
      = some ⟨Bounded.Finite ⟨1, 5⟩, Bounded.Finite ⟨0, 5⟩, ⟨0, 5⟩, ⟨2, 5⟩⟩ ∧
    ecMulInt ⟨Bounded.Finite ⟨2, 5⟩, Bounded.Finite ⟨0, 5⟩, ⟨0, 5⟩, ⟨2, 5⟩⟩ 2
      = some ⟨Bounded.Finite ⟨1, 5⟩, Bounded.Finite ⟨0, 5⟩, ⟨0, 5⟩, ⟨2, 5⟩⟩ ∧
    ¬ IsValid ⟨Bounded.Finite ⟨1, 5⟩, Bounded.Finite ⟨0, 5⟩, ⟨0, 5⟩, ⟨2, 5⟩⟩ := by
  decide

/-- Claim C3, counterexample: the arbitrary-precision constructor
(curve.rs) does not fail on a mixed finite/infinite coordinate pair; it
returns the point at infinity, discarding the finite coordinate. -/
theorem c3_mixed_coordinate_counterexample :
    ecNew (Bounded.Finite ⟨1, 5⟩) Bounded.Infinity ⟨0, 5⟩ ⟨2, 5⟩
      = some (infPoint ⟨0, 5⟩ ⟨2, 5⟩) := by
  decide

/-- Claim C3, amended: only the generic constructor (elliptic_curve.rs)
fails on a mixed finite/infinite coordinate pair; the arbitrary-precision
constructor (curve.rs) instead silently normalizes such input to the
point at infinity. -/
theorem c3_mixed_coordinate_amended :
    ∀ (e a b : FieldElement) (ew aw bw : FieldElementW),
      ecNew (Bounded.Finite e) Bounded.Infinity a b = some (infPoint a b) ∧
      ecNew Bounded.Infinity (Bounded.Finite e) a b = some (infPoint a b) ∧
      ecNewG (Bounded.Finite ew) Bounded.Infinity aw bw = none ∧
      ecNewG Bounded.Infinity (Bounded.Finite ew) aw bw = none := by
  intro e a b ew aw bw
  exact ⟨rfl, rfl, rfl, rfl⟩

/-- Claim C4: the machine-width constructor (field_element.rs) enforces
the strict bound, but the arbitrary-precision constructor (field.rs)
accepts value equal to order: new(19, 19) succeeds and returns the
out-of-range element 19 of the 19-element field. -/
theorem c4_range_check_eval :
    fieldNew 19 19 = some ⟨19, 19⟩ ∧ fieldNewW 19 19 = none := by
  decide

/-- Claim C5, counterexample: division by the zero field element does
not fail; it silently returns the zero element, because the inverse is
computed as zero to the power (order minus 2). -/
theorem c5_div_zero_counterexample :
    fieldDiv ⟨1, 5⟩ ⟨0, 5⟩ = some ⟨0, 5⟩ := by
  decide

/-- Claim C5, amended: div performs no zero check.  Over a prime order,
dividing by an element that is zero modulo the order (order above 2)
returns the zero element instead of failing, and dividing by a nonzero
element returns the product of the dividend with the true multiplicative
inverse of the divisor: the quotient times the divisor is congruent to
the dividend. -/
theorem c5_div_amended (e d : FieldElement) (horder : e.order = d.order)
    (hp : Nat.Prime e.order) :
    (d.value % e.order ≠ 0 →
      ∃ r, fieldDiv e d = some r ∧
        r.value * d.value % e.order = e.value % e.order) ∧
    (d.value % e.order = 0 → 2 < e.order → fieldDiv e d = some ⟨0, e.order⟩) := by
  have hpos : 0 < e.order := hp.pos
  rw [fieldDiv, if_pos horder]
  constructor
  · intro hd
    refine ⟨_, rfl, ?_⟩
    rw [powMod_eq hpos]
    have hndvd : ¬ e.order ∣ d.value :=
      fun hdvd => hd (Nat.dvd_iff_mod_eq_zero.mp hdvd)
    have hco : Nat.Coprime d.value e.order :=
      ((hp.coprime_iff_not_dvd).mpr hndvd).symm
    have hflt : d.value ^ (e.order - 1) ≡ 1 [MOD e.order] := by
      have h := Nat.ModEq.pow_totient hco
      rwa [Nat.totient_prime hp] at h
    show Nat.ModEq e.order
      (e.value * (d.value ^ (e.order - 2) % e.order) % e.order * d.value) e.value
    calc e.value * (d.value ^ (e.order - 2) % e.order) % e.order * d.value
        ≡ e.value * (d.value ^ (e.order - 2) % e.order) * d.value [MOD e.order] :=
          (Nat.mod_modEq _ _).mul_right _
      _ ≡ e.value * d.value ^ (e.order - 2) * d.value [MOD e.order] :=
          ((Nat.mod_modEq _ _).mul_left e.value).mul_right _
      _ = e.value * (d.value ^ (e.order - 2) * d.value) := by ring
      _ = e.value * d.value ^ (e.order - 1) := by
          rw [← pow_succ, show e.order - 2 + 1 = e.order - 1 from by
            have := hp.two_le; omega]
      _ ≡ e.value * 1 [MOD e.order] := hflt.mul_left _
      _ = e.value := mul_one _
  · intro hd0 h2
    have hpow : powMod d.value (e.order - 2) e.order = 0 := by
      rw [powMod_eq hpos]
      exact Nat.dvd_iff_mod_eq_zero.mp
        (dvd_pow (Nat.dvd_of_mod_eq_zero hd0) (by omega))
    rw [hpow]
    simp

/-- Claim C5 witness: dividing 1 by 2 in the 5-element field gives 3,
and 3 times 2 is congruent to 1 modulo 5. -/
theorem c5_div_amended_witness :
    (⟨1, 5⟩ : FieldElement).order = (⟨2, 5⟩ : FieldElement).order ∧
    Nat.Prime (⟨1, 5⟩ : FieldElement).order ∧
    ((2 % 5 ≠ 0 →
      ∃ r, fieldDiv ⟨1, 5⟩ ⟨2, 5⟩ = some r ∧ r.value * 2 % 5 = 1 % 5) ∧
     (2 % 5 = 0 → 2 < 5 → fieldDiv ⟨1, 5⟩ ⟨2, 5⟩ = some ⟨0, 5⟩)) :=
  ⟨rfl, by norm_num, c5_div_amended ⟨1, 5⟩ ⟨2, 5⟩ rfl (by norm_num)⟩

/-- Claim C6: scalar-multiplying by 0 does yield Infinity, but the
repeated-add consistency fails at the small scalar k = 4 for the valid
2-torsion point (2, 0) on a = 0, b = 2 over the 5-element field:
double-and-add computes (3, 0) while four repeated additions compute
(1, 0), because doubling a zero-y point takes the broken tangent arm. -/
theorem c6_scalar_consistency_eval :
    IsValid ⟨Bounded.Finite ⟨2, 5⟩, Bounded.Finite ⟨0, 5⟩, ⟨0, 5⟩, ⟨2, 5⟩⟩ ∧
    ecMulInt ⟨Bounded.Finite ⟨2, 5⟩, Bounded.Finite ⟨0, 5⟩, ⟨0, 5⟩, ⟨2, 5⟩⟩ 0
      = some (infPoint ⟨0, 5⟩ ⟨2, 5⟩) ∧
    ecMulInt ⟨Bounded.Finite ⟨2, 5⟩, Bounded.Finite ⟨0, 5⟩, ⟨0, 5⟩, ⟨2, 5⟩⟩ 4
      = some ⟨Bounded.Finite ⟨3, 5⟩, Bounded.Finite ⟨0, 5⟩, ⟨0, 5⟩, ⟨2, 5⟩⟩ ∧
    repAdd 4 ⟨Bounded.Finite ⟨2, 5⟩, Bounded.Finite ⟨0, 5⟩, ⟨0, 5⟩, ⟨2, 5⟩⟩
      = some ⟨Bounded.Finite ⟨1, 5⟩, Bounded.Finite ⟨0, 5⟩, ⟨0, 5⟩, ⟨2, 5⟩⟩ ∧
    ecMulInt ⟨Bounded.Finite ⟨2, 5⟩, Bounded.Finite ⟨0, 5⟩, ⟨0, 5⟩, ⟨2, 5⟩⟩ 4
      ≠ repAdd 4 ⟨Bounded.Finite ⟨2, 5⟩, Bounded.Finite ⟨0, 5⟩, ⟨0, 5⟩, ⟨2, 5⟩⟩ := by
  decide

/-- Claim C7: identity law.  For every point the validating constructor
accepts, adding the point at infinity of its curve on either side
returns the point unchanged. -/
theorem c7_identity_law (P : EcPoint) (h : IsValid P) :
    ecAdd P (infPoint P.a P.b) = some P ∧
    ecAdd (infPoint P.a P.b) P = some P := by
  obtain ⟨x, y, a, b⟩ := P
  cases x with
  | Finite xf =>
    cases y with
    | Finite yf => constructor <;> simp [ecAdd, infPoint]
    | Infinity => simp [IsValid, ecNew] at h
  | Infinity =>
    cases y with
    | Finite yf => simp [IsValid, ecNew] at h
    | Infinity => constructor <;> simp [ecAdd, infPoint]

/-- Claim C7 witness: the identity law applied to the concrete valid
point (192, 105) on a = 0, b = 7 over the 223-element field. -/
theorem c7_identity_law_witness :
    IsValid ⟨Bounded.Finite ⟨192, 223⟩, Bounded.Finite ⟨105, 223⟩, ⟨0, 223⟩, ⟨7, 223⟩⟩ ∧
    (ecAdd ⟨Bounded.Finite ⟨192, 223⟩, Bounded.Finite ⟨105, 223⟩, ⟨0, 223⟩, ⟨7, 223⟩⟩
        (infPoint ⟨0, 223⟩ ⟨7, 223⟩)
      = some ⟨Bounded.Finite ⟨192, 223⟩, Bounded.Finite ⟨105, 223⟩, ⟨0, 223⟩, ⟨7, 223⟩⟩ ∧
     ecAdd (infPoint ⟨0, 223⟩ ⟨7, 223⟩)
        ⟨Bounded.Finite ⟨192, 223⟩, Bounded.Finite ⟨105, 223⟩, ⟨0, 223⟩, ⟨7, 223⟩⟩
      = some ⟨Bounded.Finite ⟨192, 223⟩, Bounded.Finite ⟨105, 223⟩, ⟨0, 223⟩, ⟨7, 223⟩⟩) :=
  ⟨by decide, c7_identity_law _ (by decide)⟩

/-- Claim C9: a negative scalar leaves the double-and-add accumulator at
its initial point-at-infinity value, for the arbitrary-width scalar
operator and the machine-width one alike. -/
theorem c9_negative_scalar (P : EcPoint) (k : Int) (hk : k < 0) :
    ecMulInt P k = some (infPoint P.a P.b) ∧
    ecMulI32 P k = some (infPoint P.a P.b) := by
  have ht : k.toNat = 0 := Int.toNat_of_nonpos (le_of_lt hk)
  have hk2 : ¬ 0 < k := by omega
  constructor <;>
    simp [ecMulInt, ecMulI32, ecNew, ht, ecMulAux, hk2, infPoint]

/-- Claim C9 witness: scalar -5 applied to the valid point (2, 0) on
a = 0, b = 2 over the 5-element field yields the point at infinity. -/
theorem c9_negative_scalar_witness :
    (-5 : Int) < 0 ∧
    (ecMulInt ⟨Bounded.Finite ⟨2, 5⟩, Bounded.Finite ⟨0, 5⟩, ⟨0, 5⟩, ⟨2, 5⟩⟩ (-5)
      = some (infPoint ⟨0, 5⟩ ⟨2, 5⟩) ∧
     ecMulI32 ⟨Bounded.Finite ⟨2, 5⟩, Bounded.Finite ⟨0, 5⟩, ⟨0, 5⟩, ⟨2, 5⟩⟩ (-5)
      = some (infPoint ⟨0, 5⟩ ⟨2, 5⟩)) :=
  ⟨by decide, c9_negative_scalar _ (-5) (by decide)⟩

/-- Claim C10: every arbitrary-precision field operation on elements of
one common order at least 2 succeeds and returns an element whose value
is strictly below the order and whose order is the left operand's order,
with no assumption that the operand values are themselves reduced. -/
theorem c10_field_op_invariants (a b : FieldElement) (exp k : Int)
    (horder : a.order = b.order) (h2 : 2 ≤ a.order) :
    (∃ r, fieldAdd a b = some r ∧ r.value < a.order ∧ r.order = a.order) ∧
    (∃ r, fieldSub a b = some r ∧ r.value < a.order ∧ r.order = a.order) ∧
    (∃ r, fieldMul a b = some r ∧ r.value < a.order ∧ r.order = a.order) ∧
    (∃ r, fieldDiv a b = some r ∧ r.value < a.order ∧ r.order = a.order) ∧
    ((fieldPow a exp).value < a.order ∧ (fieldPow a exp).order = a.order) ∧
    ((fieldScale a k).value < a.order ∧ (fieldScale a k).order = a.order) := by
  have hpos : 0 < a.order := by omega
  have hne : ((a.order : Int)) ≠ 0 := by exact_mod_cast Nat.pos_iff_ne_zero.mp hpos
  have hposI : (0 : Int) < (a.order : Int) := by exact_mod_cast hpos
  refine ⟨?_, ?_, ?_, ?_, ?_, ?_⟩
  · exact ⟨⟨(a.value + b.value) % a.order, a.order⟩,
      by rw [fieldAdd, if_pos horder], Nat.mod_lt _ hpos, rfl⟩
  · refine ⟨⟨(((a.value : Int) - (b.value : Int)).emod (a.order : Int)).toNat, a.order⟩,
      by rw [fieldSub, if_pos horder], ?_, rfl⟩
    show (((a.value : Int) - (b.value : Int)) % (a.order : Int)).toNat < a.order
    have h1 := Int.emod_nonneg ((a.value : Int) - (b.value : Int)) hne
    have hlt := Int.emod_lt_of_pos ((a.value : Int) - (b.value : Int)) hposI
    omega
  · exact ⟨⟨a.value * b.value % a.order, a.order⟩,
      by rw [fieldMul, if_pos horder], Nat.mod_lt _ hpos, rfl⟩
  · exact ⟨⟨a.value * powMod b.value (a.order - 2) a.order % a.order, a.order⟩,
      by rw [fieldDiv, if_pos horder], Nat.mod_lt _ hpos, rfl⟩
  · exact ⟨powMod_lt hpos _ _, rfl⟩
  · refine ⟨?_, rfl⟩
    show ((((a.value : Int) * k) % (a.order : Int)).toNat) < a.order
    have h1 := Int.emod_nonneg ((a.value : Int) * k) hne
    have hlt := Int.emod_lt_of_pos ((a.value : Int) * k) hposI
    omega

/-- Claim C10 witness: the invariants instantiated at the unreduced
element 5 of the 5-element field (which the constructor accepts) paired
with the element 3, a negative exponent and a negative scale factor. -/
theorem c10_field_op_invariants_witness :
    (⟨5, 5⟩ : FieldElement).order = (⟨3, 5⟩ : FieldElement).order ∧
    2 ≤ (⟨5, 5⟩ : FieldElement).order ∧
    ((∃ r, fieldAdd ⟨5, 5⟩ ⟨3, 5⟩ = some r ∧ r.value < 5 ∧ r.order = 5) ∧
     (∃ r, fieldSub ⟨5, 5⟩ ⟨3, 5⟩ = some r ∧ r.value < 5 ∧ r.order = 5) ∧
     (∃ r, fieldMul ⟨5, 5⟩ ⟨3, 5⟩ = some r ∧ r.value < 5 ∧ r.order = 5) ∧
     (∃ r, fieldDiv ⟨5, 5⟩ ⟨3, 5⟩ = some r ∧ r.value < 5 ∧ r.order = 5) ∧
     ((fieldPow ⟨5, 5⟩ (-3)).value < 5 ∧ (fieldPow ⟨5, 5⟩ (-3)).order = 5) ∧
     ((fieldScale ⟨5, 5⟩ (-2)).value < 5 ∧ (fieldScale ⟨5, 5⟩ (-2)).order = 5)) :=
  ⟨rfl, by norm_num, c10_field_op_invariants ⟨5, 5⟩ ⟨3, 5⟩ (-3) (-2) rfl (by norm_num)⟩

lemma ecMulAux_zero (fuel : Nat) (r c : EcPoint) :
    ecMulAux fuel r c 0 = some r := by
  cases fuel with
  | zero => rfl
  | succ n => rw [ecMulAux, if_neg (by simp)]

/-- Unfolding of the scalar-multiplication entry point into the
double-and-add loop with its initial accumulator. -/
lemma ecMulInt_eq (p : EcPoint) (k : Int) :
    ecMulInt p k = ecMulAux (k.toNat + 1) (infPoint p.a p.b) p k := rfl

/-- One loop iteration on a set scalar bit: accumulate, double, halve. -/
lemma ecMulAux_step_odd (fuel fuel2 : Nat) (k k2 : Int) {r c r2 c2 : EcPoint}
    (hfuel : fuel = fuel2 + 1) (hk : 0 < k) (hodd : k % 2 = 1) (hdiv : k / 2 = k2)
    (h1 : ecAdd r c = some r2) (h2 : ecAdd c c = some c2) :
    ecMulAux fuel r c k = ecMulAux fuel2 r2 c2 k2 := by
  subst hfuel
  rw [ecMulAux, if_pos hk, if_pos hodd, h1, h2, hdiv]
  rfl

/-- One loop iteration on a clear scalar bit: double and halve only. -/
lemma ecMulAux_step_even (fuel fuel2 : Nat) (k k2 : Int) {r c c2 : EcPoint}
    (hfuel : fuel = fuel2 + 1) (hk : 0 < k) (heven : ¬ k % 2 = 1) (hdiv : k / 2 = k2)
    (h2 : ecAdd c c = some c2) :
    ecMulAux fuel r c k = ecMulAux fuel2 r c2 k2 := by
  subst hfuel
  rw [ecMulAux, if_pos hk, if_neg heven, h2, hdiv]
  rfl

/-!  Concrete double-and-add trace for the secp256k1 generator times the
subgroup order n: c8dbl states that the running doubling value at
iteration i added to itself gives the value at iteration i + 1, and
c8acc states the accumulator update at each set bit of n. -/

lemma c8acc0 : ecAdd (infPoint ⟨secpA, secpP⟩ ⟨secpB, secpP⟩) (⟨Bounded.Finite ⟨55066263022277343669578718895168534326250603453777594175500187360389116729240, secpP⟩, Bounded.Finite ⟨32670510020758816978083085130507043184471273380659243275938904335757337482424, secpP⟩, ⟨secpA, secpP⟩, ⟨secpB, secpP⟩⟩ : EcPoint) = some (⟨Bounded.Finite ⟨55066263022277343669578718895168534326250603453777594175500187360389116729240, secpP⟩, Bounded.Finite ⟨32670510020758816978083085130507043184471273380659243275938904335757337482424, secpP⟩, ⟨secpA, secpP⟩, ⟨secpB, secpP⟩⟩ : EcPoint) := by rfl
lemma c8dbl0 : ecAdd (⟨Bounded.Finite ⟨55066263022277343669578718895168534326250603453777594175500187360389116729240, secpP⟩, Bounded.Finite ⟨32670510020758816978083085130507043184471273380659243275938904335757337482424, secpP⟩, ⟨secpA, secpP⟩, ⟨secpB, secpP⟩⟩ : EcPoint) (⟨Bounded.Finite ⟨55066263022277343669578718895168534326250603453777594175500187360389116729240, secpP⟩, Bounded.Finite ⟨32670510020758816978083085130507043184471273380659243275938904335757337482424, secpP⟩, ⟨secpA, secpP⟩, ⟨secpB, secpP⟩⟩ : EcPoint) = some (⟨Bounded.Finite ⟨89565891926547004231252920425935692360644145829622209833684329913297188986597, secpP⟩, Bounded.Finite ⟨12158399299693830322967808612713398636155367887041628176798871954788371653930, secpP⟩, ⟨secpA, secpP⟩, ⟨secpB, secpP⟩⟩ : EcPoint) := by rfl
lemma c8dbl1 : ecAdd (⟨Bounded.Finite ⟨89565891926547004231252920425935692360644145829622209833684329913297188986597, secpP⟩, Bounded.Finite ⟨12158399299693830322967808612713398636155367887041628176798871954788371653930, secpP⟩, ⟨secpA, secpP⟩, ⟨secpB, secpP⟩⟩ : EcPoint) (⟨Bounded.Finite ⟨89565891926547004231252920425935692360644145829622209833684329913297188986597, secpP⟩, Bounded.Finite ⟨12158399299693830322967808612713398636155367887041628176798871954788371653930, secpP⟩, ⟨secpA, secpP⟩, ⟨secpB, secpP⟩⟩ : EcPoint) = some (⟨Bounded.Finite ⟨103388573995635080359749164254216598308788835304023601477803095234286494993683, secpP⟩, Bounded.Finite ⟨37057141145242123013015316630864329550140216928701153669873286428255828810018, secpP⟩, ⟨secpA, secpP⟩, ⟨secpB, secpP⟩⟩ : EcPoint) := by rfl
lemma c8dbl2 : ecAdd (⟨Bounded.Finite ⟨103388573995635080359749164254216598308788835304023601477803095234286494993683, secpP⟩, Bounded.Finite ⟨37057141145242123013015316630864329550140216928701153669873286428255828810018, secpP⟩, ⟨secpA, secpP⟩, ⟨secpB, secpP⟩⟩ : EcPoint) (⟨Bounded.Finite ⟨103388573995635080359749164254216598308788835304023601477803095234286494993683, secpP⟩, Bounded.Finite ⟨37057141145242123013015316630864329550140216928701153669873286428255828810018, secpP⟩, ⟨secpA, secpP⟩, ⟨secpB, secpP⟩⟩ : EcPoint) = some (⟨Bounded.Finite ⟨21262057306151627953595685090280431278183829487175876377991189246716355947009, secpP⟩, Bounded.Finite ⟨41749993296225487051377864631615517161996906063147759678534462689479575333124, secpP⟩, ⟨secpA, secpP⟩, ⟨secpB, secpP⟩⟩ : EcPoint) := by rfl
lemma c8dbl3 : ecAdd (⟨Bounded.Finite ⟨21262057306151627953595685090280431278183829487175876377991189246716355947009, secpP⟩, Bounded.Finite ⟨41749993296225487051377864631615517161996906063147759678534462689479575333124, secpP⟩, ⟨secpA, secpP⟩, ⟨secpB, secpP⟩⟩ : EcPoint) (⟨Bounded.Finite ⟨21262057306151627953595685090280431278183829487175876377991189246716355947009, secpP⟩, Bounded.Finite ⟨41749993296225487051377864631615517161996906063147759678534462689479575333124, secpP⟩, ⟨secpA, secpP⟩, ⟨secpB, secpP⟩⟩ : EcPoint) = some (⟨Bounded.Finite ⟨104059883622109321374094289636044428849728529177856482232626205340719788190730, secpP⟩, Bounded.Finite ⟨112122903140080327253741791678230372394936108416576609264408917599318947489825, secpP⟩, ⟨secpA, secpP⟩, ⟨secpB, secpP⟩⟩ : EcPoint) := by rfl
lemma c8dbl4 : ecAdd (⟨Bounded.Finite ⟨104059883622109321374094289636044428849728529177856482232626205340719788190730, secpP⟩, Bounded.Finite ⟨112122903140080327253741791678230372394936108416576609264408917599318947489825, secpP⟩, ⟨secpA, secpP⟩, ⟨secpB, secpP⟩⟩ : EcPoint) (⟨Bounded.Finite ⟨104059883622109321374094289636044428849728529177856482232626205340719788190730, secpP⟩, Bounded.Finite ⟨112122903140080327253741791678230372394936108416576609264408917599318947489825, secpP⟩, ⟨secpA, secpP⟩, ⟨secpB, secpP⟩⟩ : EcPoint) = some (⟨Bounded.Finite ⟨95440839670107969455973995843666399663662641812074432045896568980475242364517, secpP⟩, Bounded.Finite ⟨67400892360194400039319989411395972789004161889863182881857158544061243615929, secpP⟩, ⟨secpA, secpP⟩, ⟨secpB, secpP⟩⟩ : EcPoint) := by rfl
lemma c8dbl5 : ecAdd (⟨Bounded.Finite ⟨95440839670107969455973995843666399663662641812074432045896568980475242364517, secpP⟩, Bounded.Finite ⟨67400892360194400039319989411395972789004161889863182881857158544061243615929, secpP⟩, ⟨secpA, secpP⟩, ⟨secpB, secpP⟩⟩ : EcPoint) (⟨Bounded.Finite ⟨95440839670107969455973995843666399663662641812074432045896568980475242364517, secpP⟩, Bounded.Finite ⟨67400892360194400039319989411395972789004161889863182881857158544061243615929, secpP⟩, ⟨secpA, secpP⟩, ⟨secpB, secpP⟩⟩ : EcPoint) = some (⟨Bounded.Finite ⟨86454928033100054822938644242727206101601557724291916072342392316125160730507, secpP⟩, Bounded.Finite ⟨41929975541376036990359335647717381527212342035893043668288666074313354583455, secpP⟩, ⟨secpA, secpP⟩, ⟨secpB, secpP⟩⟩ : EcPoint) := by rfl
lemma c8acc6 : ecAdd (⟨Bounded.Finite ⟨55066263022277343669578718895168534326250603453777594175500187360389116729240, secpP⟩, Bounded.Finite ⟨32670510020758816978083085130507043184471273380659243275938904335757337482424, secpP⟩, ⟨secpA, secpP⟩, ⟨secpB, secpP⟩⟩ : EcPoint) (⟨Bounded.Finite ⟨86454928033100054822938644242727206101601557724291916072342392316125160730507, secpP⟩, Bounded.Finite ⟨41929975541376036990359335647717381527212342035893043668288666074313354583455, secpP⟩, ⟨secpA, secpP⟩, ⟨secpB, secpP⟩⟩ : EcPoint) = some (⟨Bounded.Finite ⟨11045059572793568563399009827450521654436229950346969273826455203229685425899, secpP⟩, Bounded.Finite ⟨26950030226550877209429637342197821712469081306958210747276495411981785794699, secpP⟩, ⟨secpA, secpP⟩, ⟨secpB, secpP⟩⟩ : EcPoint) := by rfl
lemma c8dbl6 : ecAdd (⟨Bounded.Finite ⟨86454928033100054822938644242727206101601557724291916072342392316125160730507, secpP⟩, Bounded.Finite ⟨41929975541376036990359335647717381527212342035893043668288666074313354583455, secpP⟩, ⟨secpA, secpP⟩, ⟨secpB, secpP⟩⟩ : EcPoint) (⟨Bounded.Finite ⟨86454928033100054822938644242727206101601557724291916072342392316125160730507, secpP⟩, Bounded.Finite ⟨41929975541376036990359335647717381527212342035893043668288666074313354583455, secpP⟩, ⟨secpA, secpP⟩, ⟨secpB, secpP⟩⟩ : EcPoint) = some (⟨Bounded.Finite ⟨23971227478092690611538379282579297124953800109492367109857348294863777014350, secpP⟩, Bounded.Finite ⟨42342609885299334444880650568116455571250837701978463648617679521175848103706, secpP⟩, ⟨secpA, secpP⟩, ⟨secpB, secpP⟩⟩ : EcPoint) := by rfl
lemma c8dbl7 : ecAdd (⟨Bounded.Finite ⟨23971227478092690611538379282579297124953800109492367109857348294863777014350, secpP⟩, Bounded.Finite ⟨42342609885299334444880650568116455571250837701978463648617679521175848103706, secpP⟩, ⟨secpA, secpP⟩, ⟨secpB, secpP⟩⟩ : EcPoint) (⟨Bounded.Finite ⟨23971227478092690611538379282579297124953800109492367109857348294863777014350, secpP⟩, Bounded.Finite ⟨42342609885299334444880650568116455571250837701978463648617679521175848103706, secpP⟩, ⟨secpA, secpP⟩, ⟨secpB, secpP⟩⟩ : EcPoint) = some (⟨Bounded.Finite ⟨59030624050581421406270513075794029219285200067000787157698366092408912155912, secpP⟩, Bounded.Finite ⟨8128656248049033031875480515138402531865803579197128279783442554673902546095, secpP⟩, ⟨secpA, secpP⟩, ⟨secpB, secpP⟩⟩ : EcPoint) := by rfl
lemma c8acc8 : ecAdd (⟨Bounded.Finite ⟨11045059572793568563399009827450521654436229950346969273826455203229685425899, secpP⟩, Bounded.Finite ⟨26950030226550877209429637342197821712469081306958210747276495411981785794699, secpP⟩, ⟨secpA, secpP⟩, ⟨secpB, secpP⟩⟩ : EcPoint) (⟨Bounded.Finite ⟨59030624050581421406270513075794029219285200067000787157698366092408912155912, secpP⟩, Bounded.Finite ⟨8128656248049033031875480515138402531865803579197128279783442554673902546095, secpP⟩, ⟨secpA, secpP⟩, ⟨secpB, secpP⟩⟩ : EcPoint) = some (⟨Bounded.Finite ⟨62993874516558554105998507783025790934389611786421029894195191716181730180203, secpP⟩, Bounded.Finite ⟨103084015873580191872113386278634009007605873809987838839171888914212736480525, secpP⟩, ⟨secpA, secpP⟩, ⟨secpB, secpP⟩⟩ : EcPoint) := by rfl
lemma c8dbl8 : ecAdd (⟨Bounded.Finite ⟨59030624050581421406270513075794029219285200067000787157698366092408912155912, secpP⟩, Bounded.Finite ⟨8128656248049033031875480515138402531865803579197128279783442554673902546095, secpP⟩, ⟨secpA, secpP⟩, ⟨secpB, secpP⟩⟩ : EcPoint) (⟨Bounded.Finite ⟨59030624050581421406270513075794029219285200067000787157698366092408912155912, secpP⟩, Bounded.Finite ⟨8128656248049033031875480515138402531865803579197128279783442554673902546095, secpP⟩, ⟨secpA, secpP⟩, ⟨secpB, secpP⟩⟩ : EcPoint) = some (⟨Bounded.Finite ⟨31809325515952716603993860438135646801954922215901515683284707473623428145741, secpP⟩, Bounded.Finite ⟨24377531977987817432088011602449325046972761657480460991275213238540072159220, secpP⟩, ⟨secpA, secpP⟩, ⟨secpB, secpP⟩⟩ : EcPoint) := by rfl
lemma c8dbl9 : ecAdd (⟨Bounded.Finite ⟨31809325515952716603993860438135646801954922215901515683284707473623428145741, secpP⟩, Bounded.Finite ⟨24377531977987817432088011602449325046972761657480460991275213238540072159220, secpP⟩, ⟨secpA, secpP⟩, ⟨secpB, secpP⟩⟩ : EcPoint) (⟨Bounded.Finite ⟨31809325515952716603993860438135646801954922215901515683284707473623428145741, secpP⟩, Bounded.Finite ⟨24377531977987817432088011602449325046972761657480460991275213238540072159220, secpP⟩, ⟨secpA, secpP⟩, ⟨secpB, secpP⟩⟩ : EcPoint) = some (⟨Bounded.Finite ⟨16339661702852967382840638396154683021742565846854739320600712521008743256863, secpP⟩, Bounded.Finite ⟨36728284022334234592863792440353097018527397507662959793213172092233334129261, secpP⟩, ⟨secpA, secpP⟩, ⟨secpB, secpP⟩⟩ : EcPoint) := by rfl
lemma c8dbl10 : ecAdd (⟨Bounded.Finite ⟨16339661702852967382840638396154683021742565846854739320600712521008743256863, secpP⟩, Bounded.Finite ⟨36728284022334234592863792440353097018527397507662959793213172092233334129261, secpP⟩, ⟨secpA, secpP⟩, ⟨secpB, secpP⟩⟩ : EcPoint) (⟨Bounded.Finite ⟨16339661702852967382840638396154683021742565846854739320600712521008743256863, secpP⟩, Bounded.Finite ⟨36728284022334234592863792440353097018527397507662959793213172092233334129261, secpP⟩, ⟨secpA, secpP⟩, ⟨secpB, secpP⟩⟩ : EcPoint) = some (⟨Bounded.Finite ⟨42114313391321156005599920754056349597018482182309287550535575450912996590705, secpP⟩, Bounded.Finite ⟨18211792713336063942313736004207749605328499756363387606667481967702897602819, secpP⟩, ⟨secpA, secpP⟩, ⟨secpB, secpP⟩⟩ : EcPoint) := by rfl
lemma c8dbl11 : ecAdd (⟨Bounded.Finite ⟨42114313391321156005599920754056349597018482182309287550535575450912996590705, secpP⟩, Bounded.Finite ⟨18211792713336063942313736004207749605328499756363387606667481967702897602819, secpP⟩, ⟨secpA, secpP⟩, ⟨secpB, secpP⟩⟩ : EcPoint) (⟨Bounded.Finite ⟨42114313391321156005599920754056349597018482182309287550535575450912996590705, secpP⟩, Bounded.Finite ⟨18211792713336063942313736004207749605328499756363387606667481967702897602819, secpP⟩, ⟨secpA, secpP⟩, ⟨secpB, secpP⟩⟩ : EcPoint) = some (⟨Bounded.Finite ⟨10569428376872096169397247199835207726595431926877749141789405073030710146873, secpP⟩, Bounded.Finite ⟨95580118375493152898771330185112988759633284070886792649665201458589961475733, secpP⟩, ⟨secpA, secpP⟩, ⟨secpB, secpP⟩⟩ : EcPoint) := by rfl
lemma c8dbl12 : ecAdd (⟨Bounded.Finite ⟨10569428376872096169397247199835207726595431926877749141789405073030710146873, secpP⟩, Bounded.Finite ⟨95580118375493152898771330185112988759633284070886792649665201458589961475733, secpP⟩, ⟨secpA, secpP⟩, ⟨secpB, secpP⟩⟩ : EcPoint) (⟨Bounded.Finite ⟨10569428376872096169397247199835207726595431926877749141789405073030710146873, secpP⟩, Bounded.Finite ⟨95580118375493152898771330185112988759633284070886792649665201458589961475733, secpP⟩, ⟨secpA, secpP⟩, ⟨secpB, secpP⟩⟩ : EcPoint) = some (⟨Bounded.Finite ⟨29955133736896634235893587837609964910900820068836768599575322235881802975190, secpP⟩, Bounded.Finite ⟨83725361430957575604497772232028370201521594201253320640285202099397696195124, secpP⟩, ⟨secpA, secpP⟩, ⟨secpB, secpP⟩⟩ : EcPoint) := by rfl
lemma c8dbl13 : ecAdd (⟨Bounded.Finite ⟨29955133736896634235893587837609964910900820068836768599575322235881802975190, secpP⟩, Bounded.Finite ⟨83725361430957575604497772232028370201521594201253320640285202099397696195124, secpP⟩, ⟨secpA, secpP⟩, ⟨secpB, secpP⟩⟩ : EcPoint) (⟨Bounded.Finite ⟨29955133736896634235893587837609964910900820068836768599575322235881802975190, secpP⟩, Bounded.Finite ⟨83725361430957575604497772232028370201521594201253320640285202099397696195124, secpP⟩, ⟨secpA, secpP⟩, ⟨secpB, secpP⟩⟩ : EcPoint) = some (⟨Bounded.Finite ⟨7741290454269945723504810030002187313337519274815056282137434463684850516554, secpP⟩, Bounded.Finite ⟨2979905666851018206144735065445742806952013006906430309532921989383330523600, secpP⟩, ⟨secpA, secpP⟩, ⟨secpB, secpP⟩⟩ : EcPoint) := by rfl
lemma c8acc14 : ecAdd (⟨Bounded.Finite ⟨62993874516558554105998507783025790934389611786421029894195191716181730180203, secpP⟩, Bounded.Finite ⟨103084015873580191872113386278634009007605873809987838839171888914212736480525, secpP⟩, ⟨secpA, secpP⟩, ⟨secpB, secpP⟩⟩ : EcPoint) (⟨Bounded.Finite ⟨7741290454269945723504810030002187313337519274815056282137434463684850516554, secpP⟩, Bounded.Finite ⟨2979905666851018206144735065445742806952013006906430309532921989383330523600, secpP⟩, ⟨secpA, secpP⟩, ⟨secpB, secpP⟩⟩ : EcPoint) = some (⟨Bounded.Finite ⟨94913787221764930918395305492653186337662262006421321283318132192378151570664, secpP⟩, Bounded.Finite ⟨38121777075044651756879505076685935625833052072522374266672280044016621196774, secpP⟩, ⟨secpA, secpP⟩, ⟨secpB, secpP⟩⟩ : EcPoint) := by rfl
lemma c8dbl14 : ecAdd (⟨Bounded.Finite ⟨7741290454269945723504810030002187313337519274815056282137434463684850516554, secpP⟩, Bounded.Finite ⟨2979905666851018206144735065445742806952013006906430309532921989383330523600, secpP⟩, ⟨secpA, secpP⟩, ⟨secpB, secpP⟩⟩ : EcPoint) (⟨Bounded.Finite ⟨7741290454269945723504810030002187313337519274815056282137434463684850516554, secpP⟩, Bounded.Finite ⟨2979905666851018206144735065445742806952013006906430309532921989383330523600, secpP⟩, ⟨secpA, secpP⟩, ⟨secpB, secpP⟩⟩ : EcPoint) = some (⟨Bounded.Finite ⟨33602655200186679430886431101373729519010186911116350037909320311808627496821, secpP⟩, Bounded.Finite ⟨37360103261735091089003680850413001554296156453961728314327616229790563817069, secpP⟩, ⟨secpA, secpP⟩, ⟨secpB, secpP⟩⟩ : EcPoint) := by rfl
lemma c8dbl15 : ecAdd (⟨Bounded.Finite ⟨33602655200186679430886431101373729519010186911116350037909320311808627496821, secpP⟩, Bounded.Finite ⟨37360103261735091089003680850413001554296156453961728314327616229790563817069, secpP⟩, ⟨secpA, secpP⟩, ⟨secpB, secpP⟩⟩ : EcPoint) (⟨Bounded.Finite ⟨33602655200186679430886431101373729519010186911116350037909320311808627496821, secpP⟩, Bounded.Finite ⟨37360103261735091089003680850413001554296156453961728314327616229790563817069, secpP⟩, ⟨secpA, secpP⟩, ⟨secpB, secpP⟩⟩ : EcPoint) = some (⟨Bounded.Finite ⟨24533671068980092868630552346995129420983823672304585196401986911541584152128, secpP⟩, Bounded.Finite ⟨2209357222459695347071765155987393997305194371900031813817445740077485301225, secpP⟩, ⟨secpA, secpP⟩, ⟨secpB, secpP⟩⟩ : EcPoint) := by rfl
lemma c8dbl16 : ecAdd (⟨Bounded.Finite ⟨24533671068980092868630552346995129420983823672304585196401986911541584152128, secpP⟩, Bounded.Finite ⟨2209357222459695347071765155987393997305194371900031813817445740077485301225, secpP⟩, ⟨secpA, secpP⟩, ⟨secpB, secpP⟩⟩ : EcPoint) (⟨Bounded.Finite ⟨24533671068980092868630552346995129420983823672304585196401986911541584152128, secpP⟩, Bounded.Finite ⟨2209357222459695347071765155987393997305194371900031813817445740077485301225, secpP⟩, ⟨secpA, secpP⟩, ⟨secpB, secpP⟩⟩ : EcPoint) = some (⟨Bounded.Finite ⟨34424533203459102608471296411716955901929203809676354171491737723302766101825, secpP⟩, Bounded.Finite ⟨87733804348534428731161926933835660863551297059124747814746905172819546464288, secpP⟩, ⟨secpA, secpP⟩, ⟨secpB, secpP⟩⟩ : EcPoint) := by rfl
lemma c8acc17 : ecAdd (⟨Bounded.Finite ⟨94913787221764930918395305492653186337662262006421321283318132192378151570664, secpP⟩, Bounded.Finite ⟨38121777075044651756879505076685935625833052072522374266672280044016621196774, secpP⟩, ⟨secpA, secpP⟩, ⟨secpB, secpP⟩⟩ : EcPoint) (⟨Bounded.Finite ⟨34424533203459102608471296411716955901929203809676354171491737723302766101825, secpP⟩, Bounded.Finite ⟨87733804348534428731161926933835660863551297059124747814746905172819546464288, secpP⟩, ⟨secpA, secpP⟩, ⟨secpB, secpP⟩⟩ : EcPoint) = some (⟨Bounded.Finite ⟨29143731705339141020573143536865033240207337756459069554333709854927801226474, secpP⟩, Bounded.Finite ⟨111697187642339357432029595148178850493560050683050466215971168162100425174313, secpP⟩, ⟨secpA, secpP⟩, ⟨secpB, secpP⟩⟩ : EcPoint) := by rfl
lemma c8dbl17 : ecAdd (⟨Bounded.Finite ⟨34424533203459102608471296411716955901929203809676354171491737723302766101825, secpP⟩, Bounded.Finite ⟨87733804348534428731161926933835660863551297059124747814746905172819546464288, secpP⟩, ⟨secpA, secpP⟩, ⟨secpB, secpP⟩⟩ : EcPoint) (⟨Bounded.Finite ⟨34424533203459102608471296411716955901929203809676354171491737723302766101825, secpP⟩, Bounded.Finite ⟨87733804348534428731161926933835660863551297059124747814746905172819546464288, secpP⟩, ⟨secpA, secpP⟩, ⟨secpB, secpP⟩⟩ : EcPoint) = some (⟨Bounded.Finite ⟨74193831669845249654938577341216601539929459848933807922451592200153851425745, secpP⟩, Bounded.Finite ⟨29361396017150706741613988342393505196301946421006103373231627829781191611577, secpP⟩, ⟨secpA, secpP⟩, ⟨secpB, secpP⟩⟩ : EcPoint) := by rfl
lemma c8acc18 : ecAdd (⟨Bounded.Finite ⟨29143731705339141020573143536865033240207337756459069554333709854927801226474, secpP⟩, Bounded.Finite ⟨111697187642339357432029595148178850493560050683050466215971168162100425174313, secpP⟩, ⟨secpA, secpP⟩, ⟨secpB, secpP⟩⟩ : EcPoint) (⟨Bounded.Finite ⟨74193831669845249654938577341216601539929459848933807922451592200153851425745, secpP⟩, Bounded.Finite ⟨29361396017150706741613988342393505196301946421006103373231627829781191611577, secpP⟩, ⟨secpA, secpP⟩, ⟨secpB, secpP⟩⟩ : EcPoint) = some (⟨Bounded.Finite ⟨90849555490501463584933875627311483322534276480368275854037302915980746150944, secpP⟩, Bounded.Finite ⟨29046469570949835964838041207714827657784607995221101405901654271395799837763, secpP⟩, ⟨secpA, secpP⟩, ⟨secpB, secpP⟩⟩ : EcPoint) := by rfl
lemma c8dbl18 : ecAdd (⟨Bounded.Finite ⟨74193831669845249654938577341216601539929459848933807922451592200153851425745, secpP⟩, Bounded.Finite ⟨29361396017150706741613988342393505196301946421006103373231627829781191611577, secpP⟩, ⟨secpA, secpP⟩, ⟨secpB, secpP⟩⟩ : EcPoint) (⟨Bounded.Finite ⟨74193831669845249654938577341216601539929459848933807922451592200153851425745, secpP⟩, Bounded.Finite ⟨29361396017150706741613988342393505196301946421006103373231627829781191611577, secpP⟩, ⟨secpA, secpP⟩, ⟨secpB, secpP⟩⟩ : EcPoint) = some (⟨Bounded.Finite ⟨75996994270594548260051104099040009002173474732108538694613575188101535421242, secpP⟩, Bounded.Finite ⟨67731220512052072417843278921450425890601471538300788051881284779249943090810, secpP⟩, ⟨secpA, secpP⟩, ⟨secpB, secpP⟩⟩ : EcPoint) := by rfl
lemma c8dbl19 : ecAdd (⟨Bounded.Finite ⟨75996994270594548260051104099040009002173474732108538694613575188101535421242, secpP⟩, Bounded.Finite ⟨67731220512052072417843278921450425890601471538300788051881284779249943090810, secpP⟩, ⟨secpA, secpP⟩, ⟨secpB, secpP⟩⟩ : EcPoint) (⟨Bounded.Finite ⟨75996994270594548260051104099040009002173474732108538694613575188101535421242, secpP⟩, Bounded.Finite ⟨67731220512052072417843278921450425890601471538300788051881284779249943090810, secpP⟩, ⟨secpA, secpP⟩, ⟨secpB, secpP⟩⟩ : EcPoint) = some (⟨Bounded.Finite ⟨63004655751848499058589887215149057167805706207141784701705408548476267919372, secpP⟩, Bounded.Finite ⟨33776887358425213876727286236887696644549240079971817446727643228044518554934, secpP⟩, ⟨secpA, secpP⟩, ⟨secpB, secpP⟩⟩ : EcPoint) := by rfl
lemma c8acc20 : ecAdd (⟨Bounded.Finite ⟨90849555490501463584933875627311483322534276480368275854037302915980746150944, secpP⟩, Bounded.Finite ⟨29046469570949835964838041207714827657784607995221101405901654271395799837763, secpP⟩, ⟨secpA, secpP⟩, ⟨secpB, secpP⟩⟩ : EcPoint) (⟨Bounded.Finite ⟨63004655751848499058589887215149057167805706207141784701705408548476267919372, secpP⟩, Bounded.Finite ⟨33776887358425213876727286236887696644549240079971817446727643228044518554934, secpP⟩, ⟨secpA, secpP⟩, ⟨secpB, secpP⟩⟩ : EcPoint) = some (⟨Bounded.Finite ⟨89477026208564161510117767278811649609638282443724716428920033606201704315067, secpP⟩, Bounded.Finite ⟨88853493507276595671235274390746320249613099765923277334937217813846588180570, secpP⟩, ⟨secpA, secpP⟩, ⟨secpB, secpP⟩⟩ : EcPoint) := by rfl
lemma c8dbl20 : ecAdd (⟨Bounded.Finite ⟨63004655751848499058589887215149057167805706207141784701705408548476267919372, secpP⟩, Bounded.Finite ⟨33776887358425213876727286236887696644549240079971817446727643228044518554934, secpP⟩, ⟨secpA, secpP⟩, ⟨secpB, secpP⟩⟩ : EcPoint) (⟨Bounded.Finite ⟨63004655751848499058589887215149057167805706207141784701705408548476267919372, secpP⟩, Bounded.Finite ⟨33776887358425213876727286236887696644549240079971817446727643228044518554934, secpP⟩, ⟨secpA, secpP⟩, ⟨secpB, secpP⟩⟩ : EcPoint) = some (⟨Bounded.Finite ⟨107219988410259287649822325760828753777881271537028923079899200557009639695550, secpP⟩, Bounded.Finite ⟨15425677638027042728233515882140468124385010133809940201784713737762399581231, secpP⟩, ⟨secpA, secpP⟩, ⟨secpB, secpP⟩⟩ : EcPoint) := by rfl
lemma c8acc21 : ecAdd (⟨Bounded.Finite ⟨89477026208564161510117767278811649609638282443724716428920033606201704315067, secpP⟩, Bounded.Finite ⟨88853493507276595671235274390746320249613099765923277334937217813846588180570, secpP⟩, ⟨secpA, secpP⟩, ⟨secpB, secpP⟩⟩ : EcPoint) (⟨Bounded.Finite ⟨107219988410259287649822325760828753777881271537028923079899200557009639695550, secpP⟩, Bounded.Finite ⟨15425677638027042728233515882140468124385010133809940201784713737762399581231, secpP⟩, ⟨secpA, secpP⟩, ⟨secpB, secpP⟩⟩ : EcPoint) = some (⟨Bounded.Finite ⟨105117500916977773616594155617683380201243349076787575587894204199931887461275, secpP⟩, Bounded.Finite ⟨104345613394280605290885993209698592187710647825197983914950071252490822507998, secpP⟩, ⟨secpA, secpP⟩, ⟨secpB, secpP⟩⟩ : EcPoint) := by rfl
lemma c8dbl21 : ecAdd (⟨Bounded.Finite ⟨107219988410259287649822325760828753777881271537028923079899200557009639695550, secpP⟩, Bounded.Finite ⟨15425677638027042728233515882140468124385010133809940201784713737762399581231, secpP⟩, ⟨secpA, secpP⟩, ⟨secpB, secpP⟩⟩ : EcPoint) (⟨Bounded.Finite ⟨107219988410259287649822325760828753777881271537028923079899200557009639695550, secpP⟩, Bounded.Finite ⟨15425677638027042728233515882140468124385010133809940201784713737762399581231, secpP⟩, ⟨secpA, secpP⟩, ⟨secpB, secpP⟩⟩ : EcPoint) = some (⟨Bounded.Finite ⟨113496403293373161892995045761087341014991661230000874253822611507549586770091, secpP⟩, Bounded.Finite ⟨92288978233865387499357228995099386605786555025834285738713074898639193985136, secpP⟩, ⟨secpA, secpP⟩, ⟨secpB, secpP⟩⟩ : EcPoint) := by rfl
lemma c8dbl22 : ecAdd (⟨Bounded.Finite ⟨113496403293373161892995045761087341014991661230000874253822611507549586770091, secpP⟩, Bounded.Finite ⟨92288978233865387499357228995099386605786555025834285738713074898639193985136, secpP⟩, ⟨secpA, secpP⟩, ⟨secpB, secpP⟩⟩ : EcPoint) (⟨Bounded.Finite ⟨113496403293373161892995045761087341014991661230000874253822611507549586770091, secpP⟩, Bounded.Finite ⟨92288978233865387499357228995099386605786555025834285738713074898639193985136, secpP⟩, ⟨secpA, secpP⟩, ⟨secpB, secpP⟩⟩ : EcPoint) = some (⟨Bounded.Finite ⟨4402168996420289224849535114023409990325018394340995944430318114273800335863, secpP⟩, Bounded.Finite ⟨67104318001466418430256649108646734852945972191921730406768272163045294283904, secpP⟩, ⟨secpA, secpP⟩, ⟨secpB, secpP⟩⟩ : EcPoint) := by rfl
lemma c8dbl23 : ecAdd (⟨Bounded.Finite ⟨4402168996420289224849535114023409990325018394340995944430318114273800335863, secpP⟩, Bounded.Finite ⟨67104318001466418430256649108646734852945972191921730406768272163045294283904, secpP⟩, ⟨secpA, secpP⟩, ⟨secpB, secpP⟩⟩ : EcPoint) (⟨Bounded.Finite ⟨4402168996420289224849535114023409990325018394340995944430318114273800335863, secpP⟩, Bounded.Finite ⟨67104318001466418430256649108646734852945972191921730406768272163045294283904, secpP⟩, ⟨secpA, secpP⟩, ⟨secpB, secpP⟩⟩ : EcPoint) = some (⟨Bounded.Finite ⟨51670963786757573841189746283202124387362261809800652891978209018731111316698, secpP⟩, Bounded.Finite ⟨68257551575553566084241009552849606333781498777275567535225153774080710909791, secpP⟩, ⟨secpA, secpP⟩, ⟨secpB, secpP⟩⟩ : EcPoint) := by rfl
lemma c8dbl24 : ecAdd (⟨Bounded.Finite ⟨51670963786757573841189746283202124387362261809800652891978209018731111316698, secpP⟩, Bounded.Finite ⟨68257551575553566084241009552849606333781498777275567535225153774080710909791, secpP⟩, ⟨secpA, secpP⟩, ⟨secpB, secpP⟩⟩ : EcPoint) (⟨Bounded.Finite ⟨51670963786757573841189746283202124387362261809800652891978209018731111316698, secpP⟩, Bounded.Finite ⟨68257551575553566084241009552849606333781498777275567535225153774080710909791, secpP⟩, ⟨secpA, secpP⟩, ⟨secpB, secpP⟩⟩ : EcPoint) = some (⟨Bounded.Finite ⟨39774650486605686761949696375291962760476627649023643684500799050103063064789, secpP⟩, Bounded.Finite ⟨97280577493662175430906331419179376788053309764979933526226118285088405860254, secpP⟩, ⟨secpA, secpP⟩, ⟨secpB, secpP⟩⟩ : EcPoint) := by rfl
lemma c8dbl25 : ecAdd (⟨Bounded.Finite ⟨39774650486605686761949696375291962760476627649023643684500799050103063064789, secpP⟩, Bounded.Finite ⟨97280577493662175430906331419179376788053309764979933526226118285088405860254, secpP⟩, ⟨secpA, secpP⟩, ⟨secpB, secpP⟩⟩ : EcPoint) (⟨Bounded.Finite ⟨39774650486605686761949696375291962760476627649023643684500799050103063064789, secpP⟩, Bounded.Finite ⟨97280577493662175430906331419179376788053309764979933526226118285088405860254, secpP⟩, ⟨secpA, secpP⟩, ⟨secpB, secpP⟩⟩ : EcPoint) = some (⟨Bounded.Finite ⟨17321708023578332183628700857357458473789564616208564602894355867116410260949, secpP⟩, Bounded.Finite ⟨97919434988400284406895062116320315016365801759636091852848099981382771845905, secpP⟩, ⟨secpA, secpP⟩, ⟨secpB, secpP⟩⟩ : EcPoint) := by rfl
lemma c8dbl26 : ecAdd (⟨Bounded.Finite ⟨17321708023578332183628700857357458473789564616208564602894355867116410260949, secpP⟩, Bounded.Finite ⟨97919434988400284406895062116320315016365801759636091852848099981382771845905, secpP⟩, ⟨secpA, secpP⟩, ⟨secpB, secpP⟩⟩ : EcPoint) (⟨Bounded.Finite ⟨17321708023578332183628700857357458473789564616208564602894355867116410260949, secpP⟩, Bounded.Finite ⟨97919434988400284406895062116320315016365801759636091852848099981382771845905, secpP⟩, ⟨secpA, secpP⟩, ⟨secpB, secpP⟩⟩ : EcPoint) = some (⟨Bounded.Finite ⟨76575849854364972542951978758356689466650880857178783481542510110017069529320, secpP⟩, Bounded.Finite ⟨81925384519567487405199682290695043524776979911807891169446287270330277192180, secpP⟩, ⟨secpA, secpP⟩, ⟨secpB, secpP⟩⟩ : EcPoint) := by rfl
lemma c8dbl27 : ecAdd (⟨Bounded.Finite ⟨76575849854364972542951978758356689466650880857178783481542510110017069529320, secpP⟩, Bounded.Finite ⟨81925384519567487405199682290695043524776979911807891169446287270330277192180, secpP⟩, ⟨secpA, secpP⟩, ⟨secpB, secpP⟩⟩ : EcPoint) (⟨Bounded.Finite ⟨76575849854364972542951978758356689466650880857178783481542510110017069529320, secpP⟩, Bounded.Finite ⟨81925384519567487405199682290695043524776979911807891169446287270330277192180, secpP⟩, ⟨secpA, secpP⟩, ⟨secpB, secpP⟩⟩ : EcPoint) = some (⟨Bounded.Finite ⟨107989063369659015153804811955459434214410196483964476598208978660096898619386, secpP⟩, Bounded.Finite ⟨42338160021087805224648939485129818613830046750563614152037885753448952924569, secpP⟩, ⟨secpA, secpP⟩, ⟨secpB, secpP⟩⟩ : EcPoint) := by rfl
lemma c8acc28 : ecAdd (⟨Bounded.Finite ⟨105117500916977773616594155617683380201243349076787575587894204199931887461275, secpP⟩, Bounded.Finite ⟨104345613394280605290885993209698592187710647825197983914950071252490822507998, secpP⟩, ⟨secpA, secpP⟩, ⟨secpB, secpP⟩⟩ : EcPoint) (⟨Bounded.Finite ⟨107989063369659015153804811955459434214410196483964476598208978660096898619386, secpP⟩, Bounded.Finite ⟨42338160021087805224648939485129818613830046750563614152037885753448952924569, secpP⟩, ⟨secpA, secpP⟩, ⟨secpB, secpP⟩⟩ : EcPoint) = some (⟨Bounded.Finite ⟨33783762117358464705901306764751882743375394820654715821356128391667619714744, secpP⟩, Bounded.Finite ⟨32404131728136409619522464330118803716746429756002833513611357845302147708073, secpP⟩, ⟨secpA, secpP⟩, ⟨secpB, secpP⟩⟩ : EcPoint) := by rfl
lemma c8dbl28 : ecAdd (⟨Bounded.Finite ⟨107989063369659015153804811955459434214410196483964476598208978660096898619386, secpP⟩, Bounded.Finite ⟨42338160021087805224648939485129818613830046750563614152037885753448952924569, secpP⟩, ⟨secpA, secpP⟩, ⟨secpB, secpP⟩⟩ : EcPoint) (⟨Bounded.Finite ⟨107989063369659015153804811955459434214410196483964476598208978660096898619386, secpP⟩, Bounded.Finite ⟨42338160021087805224648939485129818613830046750563614152037885753448952924569, secpP⟩, ⟨secpA, secpP⟩, ⟨secpB, secpP⟩⟩ : EcPoint) = some (⟨Bounded.Finite ⟨25379507781751782970997391382797328968603613636745039424586338729874508912637, secpP⟩, Bounded.Finite ⟨66678967052843214385960608145916057604491714224625771583834324020892145369029, secpP⟩, ⟨secpA, secpP⟩, ⟨secpB, secpP⟩⟩ : EcPoint) := by rfl
lemma c8dbl29 : ecAdd (⟨Bounded.Finite ⟨25379507781751782970997391382797328968603613636745039424586338729874508912637, secpP⟩, Bounded.Finite ⟨66678967052843214385960608145916057604491714224625771583834324020892145369029, secpP⟩, ⟨secpA, secpP⟩, ⟨secpB, secpP⟩⟩ : EcPoint) (⟨Bounded.Finite ⟨25379507781751782970997391382797328968603613636745039424586338729874508912637, secpP⟩, Bounded.Finite ⟨66678967052843214385960608145916057604491714224625771583834324020892145369029, secpP⟩, ⟨secpA, secpP⟩, ⟨secpB, secpP⟩⟩ : EcPoint) = some (⟨Bounded.Finite ⟨102193949730178242338502490474683128513913323030888946433219655522103301391692, secpP⟩, Bounded.Finite ⟨6691527371710806382780054211605006078697403702312160758173793149761505802135, secpP⟩, ⟨secpA, secpP⟩, ⟨secpB, secpP⟩⟩ : EcPoint) := by rfl
lemma c8acc30 : ecAdd (⟨Bounded.Finite ⟨33783762117358464705901306764751882743375394820654715821356128391667619714744, secpP⟩, Bounded.Finite ⟨32404131728136409619522464330118803716746429756002833513611357845302147708073, secpP⟩, ⟨secpA, secpP⟩, ⟨secpB, secpP⟩⟩ : EcPoint) (⟨Bounded.Finite ⟨102193949730178242338502490474683128513913323030888946433219655522103301391692, secpP⟩, Bounded.Finite ⟨6691527371710806382780054211605006078697403702312160758173793149761505802135, secpP⟩, ⟨secpA, secpP⟩, ⟨secpB, secpP⟩⟩ : EcPoint) = some (⟨Bounded.Finite ⟨65690204794470308527683968204692797115282228827141914913431062282090561707752, secpP⟩, Bounded.Finite ⟨75448620086351013552061125930670315246457098204871965775672739415283009585325, secpP⟩, ⟨secpA, secpP⟩, ⟨secpB, secpP⟩⟩ : EcPoint) := by rfl
lemma c8dbl30 : ecAdd (⟨Bounded.Finite ⟨102193949730178242338502490474683128513913323030888946433219655522103301391692, secpP⟩, Bounded.Finite ⟨6691527371710806382780054211605006078697403702312160758173793149761505802135, secpP⟩, ⟨secpA, secpP⟩, ⟨secpB, secpP⟩⟩ : EcPoint) (⟨Bounded.Finite ⟨102193949730178242338502490474683128513913323030888946433219655522103301391692, secpP⟩, Bounded.Finite ⟨6691527371710806382780054211605006078697403702312160758173793149761505802135, secpP⟩, ⟨secpA, secpP⟩, ⟨secpB, secpP⟩⟩ : EcPoint) = some (⟨Bounded.Finite ⟨37586094085820668222219663528035831988292035114036566702275484810122124564900, secpP⟩, Bounded.Finite ⟨110500050436317590116317882856153568952218728972968181243435825114259637008685, secpP⟩, ⟨secpA, secpP⟩, ⟨secpB, secpP⟩⟩ : EcPoint) := by rfl
lemma c8acc31 : ecAdd (⟨Bounded.Finite ⟨65690204794470308527683968204692797115282228827141914913431062282090561707752, secpP⟩, Bounded.Finite ⟨75448620086351013552061125930670315246457098204871965775672739415283009585325, secpP⟩, ⟨secpA, secpP⟩, ⟨secpB, secpP⟩⟩ : EcPoint) (⟨Bounded.Finite ⟨37586094085820668222219663528035831988292035114036566702275484810122124564900, secpP⟩, Bounded.Finite ⟨110500050436317590116317882856153568952218728972968181243435825114259637008685, secpP⟩, ⟨secpA, secpP⟩, ⟨secpB, secpP⟩⟩ : EcPoint) = some (⟨Bounded.Finite ⟨41618715794919262343288247885775468705279947972537888270396336879835196892309, secpP⟩, Bounded.Finite ⟨94880314162588594310192561282903645520579166239361797117295241397497651873235, secpP⟩, ⟨secpA, secpP⟩, ⟨secpB, secpP⟩⟩ : EcPoint) := by rfl
lemma c8dbl31 : ecAdd (⟨Bounded.Finite ⟨37586094085820668222219663528035831988292035114036566702275484810122124564900, secpP⟩, Bounded.Finite ⟨110500050436317590116317882856153568952218728972968181243435825114259637008685, secpP⟩, ⟨secpA, secpP⟩, ⟨secpB, secpP⟩⟩ : EcPoint) (⟨Bounded.Finite ⟨37586094085820668222219663528035831988292035114036566702275484810122124564900, secpP⟩, Bounded.Finite ⟨110500050436317590116317882856153568952218728972968181243435825114259637008685, secpP⟩, ⟨secpA, secpP⟩, ⟨secpB, secpP⟩⟩ : EcPoint) = some (⟨Bounded.Finite ⟨7263983490427117408129518121638485560698559702481803384958991237905117384112, secpP⟩, Bounded.Finite ⟨93109094002033366773627505914545361927166820241279828474630961892312310241801, secpP⟩, ⟨secpA, secpP⟩, ⟨secpB, secpP⟩⟩ : EcPoint) := by rfl
lemma c8dbl32 : ecAdd (⟨Bounded.Finite ⟨7263983490427117408129518121638485560698559702481803384958991237905117384112, secpP⟩, Bounded.Finite ⟨93109094002033366773627505914545361927166820241279828474630961892312310241801, secpP⟩, ⟨secpA, secpP⟩, ⟨secpB, secpP⟩⟩ : EcPoint) (⟨Bounded.Finite ⟨7263983490427117408129518121638485560698559702481803384958991237905117384112, secpP⟩, Bounded.Finite ⟨93109094002033366773627505914545361927166820241279828474630961892312310241801, secpP⟩, ⟨secpA, secpP⟩, ⟨secpB, secpP⟩⟩ : EcPoint) = some (⟨Bounded.Finite ⟨63340652510566015247975818591385417300086272434074184937732392505693958960902, secpP⟩, Bounded.Finite ⟨113667876764634414158091221422353531108236715357465572941896170017035409095320, secpP⟩, ⟨secpA, secpP⟩, ⟨secpB, secpP⟩⟩ : EcPoint) := by rfl
lemma c8dbl33 : ecAdd (⟨Bounded.Finite ⟨63340652510566015247975818591385417300086272434074184937732392505693958960902, secpP⟩, Bounded.Finite ⟨113667876764634414158091221422353531108236715357465572941896170017035409095320, secpP⟩, ⟨secpA, secpP⟩, ⟨secpB, secpP⟩⟩ : EcPoint) (⟨Bounded.Finite ⟨63340652510566015247975818591385417300086272434074184937732392505693958960902, secpP⟩, Bounded.Finite ⟨113667876764634414158091221422353531108236715357465572941896170017035409095320, secpP⟩, ⟨secpA, secpP⟩, ⟨secpB, secpP⟩⟩ : EcPoint) = some (⟨Bounded.Finite ⟨113783330688848408326400254714688308943084902760190583586245237148771972268029, secpP⟩, Bounded.Finite ⟨49136863138091630742201940998618633678196612987804544425991276550671171170453, secpP⟩, ⟨secpA, secpP⟩, ⟨secpB, secpP⟩⟩ : EcPoint) := by rfl
lemma c8acc34 : ecAdd (⟨Bounded.Finite ⟨41618715794919262343288247885775468705279947972537888270396336879835196892309, secpP⟩, Bounded.Finite ⟨94880314162588594310192561282903645520579166239361797117295241397497651873235, secpP⟩, ⟨secpA, secpP⟩, ⟨secpB, secpP⟩⟩ : EcPoint) (⟨Bounded.Finite ⟨113783330688848408326400254714688308943084902760190583586245237148771972268029, secpP⟩, Bounded.Finite ⟨49136863138091630742201940998618633678196612987804544425991276550671171170453, secpP⟩, ⟨secpA, secpP⟩, ⟨secpB, secpP⟩⟩ : EcPoint) = some (⟨Bounded.Finite ⟨26987509267674617032564560708794887116074759337281694404645619351738152609835, secpP⟩, Bounded.Finite ⟨75919703103009890628426411441223875383582131523107608400144934424085198612963, secpP⟩, ⟨secpA, secpP⟩, ⟨secpB, secpP⟩⟩ : EcPoint) := by rfl
lemma c8dbl34 : ecAdd (⟨Bounded.Finite ⟨113783330688848408326400254714688308943084902760190583586245237148771972268029, secpP⟩, Bounded.Finite ⟨49136863138091630742201940998618633678196612987804544425991276550671171170453, secpP⟩, ⟨secpA, secpP⟩, ⟨secpB, secpP⟩⟩ : EcPoint) (⟨Bounded.Finite ⟨113783330688848408326400254714688308943084902760190583586245237148771972268029, secpP⟩, Bounded.Finite ⟨49136863138091630742201940998618633678196612987804544425991276550671171170453, secpP⟩, ⟨secpA, secpP⟩, ⟨secpB, secpP⟩⟩ : EcPoint) = some (⟨Bounded.Finite ⟨104610067874554658939189781067288826551534040873032177114963645859116975547034, secpP⟩, Bounded.Finite ⟨109770660671288161864329498510482442986586271328087679077837897757717839673046, secpP⟩, ⟨secpA, secpP⟩, ⟨secpB, secpP⟩⟩ : EcPoint) := by rfl
lemma c8acc35 : ecAdd (⟨Bounded.Finite ⟨26987509267674617032564560708794887116074759337281694404645619351738152609835, secpP⟩, Bounded.Finite ⟨75919703103009890628426411441223875383582131523107608400144934424085198612963, secpP⟩, ⟨secpA, secpP⟩, ⟨secpB, secpP⟩⟩ : EcPoint) (⟨Bounded.Finite ⟨104610067874554658939189781067288826551534040873032177114963645859116975547034, secpP⟩, Bounded.Finite ⟨109770660671288161864329498510482442986586271328087679077837897757717839673046, secpP⟩, ⟨secpA, secpP⟩, ⟨secpB, secpP⟩⟩ : EcPoint) = some (⟨Bounded.Finite ⟨90670167833274761944578800724498188827088614564367350696785506786556880665943, secpP⟩, Bounded.Finite ⟨92990610626764881785930818553425290442648685967372451588092631477369184864589, secpP⟩, ⟨secpA, secpP⟩, ⟨secpB, secpP⟩⟩ : EcPoint) := by rfl
lemma c8dbl35 : ecAdd (⟨Bounded.Finite ⟨104610067874554658939189781067288826551534040873032177114963645859116975547034, secpP⟩, Bounded.Finite ⟨109770660671288161864329498510482442986586271328087679077837897757717839673046, secpP⟩, ⟨secpA, secpP⟩, ⟨secpB, secpP⟩⟩ : EcPoint) (⟨Bounded.Finite ⟨104610067874554658939189781067288826551534040873032177114963645859116975547034, secpP⟩, Bounded.Finite ⟨109770660671288161864329498510482442986586271328087679077837897757717839673046, secpP⟩, ⟨secpA, secpP⟩, ⟨secpB, secpP⟩⟩ : EcPoint) = some (⟨Bounded.Finite ⟨101775883922931432108027453607406809406988783938200607927691949357708936019245, secpP⟩, Bounded.Finite ⟨71211677518830069576439009135279320536125727843027256193157225588947573710861, secpP⟩, ⟨secpA, secpP⟩, ⟨secpB, secpP⟩⟩ : EcPoint) := by rfl
lemma c8dbl36 : ecAdd (⟨Bounded.Finite ⟨101775883922931432108027453607406809406988783938200607927691949357708936019245, secpP⟩, Bounded.Finite ⟨71211677518830069576439009135279320536125727843027256193157225588947573710861, secpP⟩, ⟨secpA, secpP⟩, ⟨secpB, secpP⟩⟩ : EcPoint) (⟨Bounded.Finite ⟨101775883922931432108027453607406809406988783938200607927691949357708936019245, secpP⟩, Bounded.Finite ⟨71211677518830069576439009135279320536125727843027256193157225588947573710861, secpP⟩, ⟨secpA, secpP⟩, ⟨secpB, secpP⟩⟩ : EcPoint) = some (⟨Bounded.Finite ⟨110691637496015646289262932234825854023102359733628734435283445248364686115670, secpP⟩, Bounded.Finite ⟨75300502224888127283828373326871043861231715295745491495384349459792808386515, secpP⟩, ⟨secpA, secpP⟩, ⟨secpB, secpP⟩⟩ : EcPoint) := by rfl
lemma c8dbl37 : ecAdd (⟨Bounded.Finite ⟨110691637496015646289262932234825854023102359733628734435283445248364686115670, secpP⟩, Bounded.Finite ⟨75300502224888127283828373326871043861231715295745491495384349459792808386515, secpP⟩, ⟨secpA, secpP⟩, ⟨secpB, secpP⟩⟩ : EcPoint) (⟨Bounded.Finite ⟨110691637496015646289262932234825854023102359733628734435283445248364686115670, secpP⟩, Bounded.Finite ⟨75300502224888127283828373326871043861231715295745491495384349459792808386515, secpP⟩, ⟨secpA, secpP⟩, ⟨secpB, secpP⟩⟩ : EcPoint) = some (⟨Bounded.Finite ⟨4441278141344175957087852960979663063777598386288590018731867755649013517962, secpP⟩, Bounded.Finite ⟨7836136238007924788592053766414363238944904687598451784829364216715569810500, secpP⟩, ⟨secpA, secpP⟩, ⟨secpB, secpP⟩⟩ : EcPoint) := by rfl
lemma c8dbl38 : ecAdd (⟨Bounded.Finite ⟨4441278141344175957087852960979663063777598386288590018731867755649013517962, secpP⟩, Bounded.Finite ⟨7836136238007924788592053766414363238944904687598451784829364216715569810500, secpP⟩, ⟨secpA, secpP⟩, ⟨secpB, secpP⟩⟩ : EcPoint) (⟨Bounded.Finite ⟨4441278141344175957087852960979663063777598386288590018731867755649013517962, secpP⟩, Bounded.Finite ⟨7836136238007924788592053766414363238944904687598451784829364216715569810500, secpP⟩, ⟨secpA, secpP⟩, ⟨secpB, secpP⟩⟩ : EcPoint) = some (⟨Bounded.Finite ⟨89749383265034677666862365486905244671167444330802547291623325584186528137154, secpP⟩, Bounded.Finite ⟨98309468026548637860626714749357698670012533693024507288465476348752328350038, secpP⟩, ⟨secpA, secpP⟩, ⟨secpB, secpP⟩⟩ : EcPoint) := by rfl
lemma c8acc39 : ecAdd (⟨Bounded.Finite ⟨90670167833274761944578800724498188827088614564367350696785506786556880665943, secpP⟩, Bounded.Finite ⟨92990610626764881785930818553425290442648685967372451588092631477369184864589, secpP⟩, ⟨secpA, secpP⟩, ⟨secpB, secpP⟩⟩ : EcPoint) (⟨Bounded.Finite ⟨89749383265034677666862365486905244671167444330802547291623325584186528137154, secpP⟩, Bounded.Finite ⟨98309468026548637860626714749357698670012533693024507288465476348752328350038, secpP⟩, ⟨secpA, secpP⟩, ⟨secpB, secpP⟩⟩ : EcPoint) = some (⟨Bounded.Finite ⟨81516270644508254972885744636153652471500891511912876378582865082758736795477, secpP⟩, Bounded.Finite ⟨51497795809475827504543371761538304658868233203581897281135587160038189000212, secpP⟩, ⟨secpA, secpP⟩, ⟨secpB, secpP⟩⟩ : EcPoint) := by rfl
lemma c8dbl39 : ecAdd (⟨Bounded.Finite ⟨89749383265034677666862365486905244671167444330802547291623325584186528137154, secpP⟩, Bounded.Finite ⟨98309468026548637860626714749357698670012533693024507288465476348752328350038, secpP⟩, ⟨secpA, secpP⟩, ⟨secpB, secpP⟩⟩ : EcPoint) (⟨Bounded.Finite ⟨89749383265034677666862365486905244671167444330802547291623325584186528137154, secpP⟩, Bounded.Finite ⟨98309468026548637860626714749357698670012533693024507288465476348752328350038, secpP⟩, ⟨secpA, secpP⟩, ⟨secpB, secpP⟩⟩ : EcPoint) = some (⟨Bounded.Finite ⟨115301655840403608332148854465368444683257224081574702572138639602380667382125, secpP⟩, Bounded.Finite ⟨103799472776126890762485670055583971987299536955028941653349419016168013365384, secpP⟩, ⟨secpA, secpP⟩, ⟨secpB, secpP⟩⟩ : EcPoint) := by rfl
lemma c8dbl40 : ecAdd (⟨Bounded.Finite ⟨115301655840403608332148854465368444683257224081574702572138639602380667382125, secpP⟩, Bounded.Finite ⟨103799472776126890762485670055583971987299536955028941653349419016168013365384, secpP⟩, ⟨secpA, secpP⟩, ⟨secpB, secpP⟩⟩ : EcPoint) (⟨Bounded.Finite ⟨115301655840403608332148854465368444683257224081574702572138639602380667382125, secpP⟩, Bounded.Finite ⟨103799472776126890762485670055583971987299536955028941653349419016168013365384, secpP⟩, ⟨secpA, secpP⟩, ⟨secpB, secpP⟩⟩ : EcPoint) = some (⟨Bounded.Finite ⟨34828167905024529293425261847016829712897759939934247610415071312015953046280, secpP⟩, Bounded.Finite ⟨47968762878478268758489427369126262603811724231741657789486393243885145959658, secpP⟩, ⟨secpA, secpP⟩, ⟨secpB, secpP⟩⟩ : EcPoint) := by rfl
lemma c8acc41 : ecAdd (⟨Bounded.Finite ⟨81516270644508254972885744636153652471500891511912876378582865082758736795477, secpP⟩, Bounded.Finite ⟨51497795809475827504543371761538304658868233203581897281135587160038189000212, secpP⟩, ⟨secpA, secpP⟩, ⟨secpB, secpP⟩⟩ : EcPoint) (⟨Bounded.Finite ⟨34828167905024529293425261847016829712897759939934247610415071312015953046280, secpP⟩, Bounded.Finite ⟨47968762878478268758489427369126262603811724231741657789486393243885145959658, secpP⟩, ⟨secpA, secpP⟩, ⟨secpB, secpP⟩⟩ : EcPoint) = some (⟨Bounded.Finite ⟨60071965084468911187377148037867676523542376580279561249395160962599431041583, secpP⟩, Bounded.Finite ⟨15021233916647288615784431109881913332014746487622185207833962415666153199931, secpP⟩, ⟨secpA, secpP⟩, ⟨secpB, secpP⟩⟩ : EcPoint) := by rfl
lemma c8dbl41 : ecAdd (⟨Bounded.Finite ⟨34828167905024529293425261847016829712897759939934247610415071312015953046280, secpP⟩, Bounded.Finite ⟨47968762878478268758489427369126262603811724231741657789486393243885145959658, secpP⟩, ⟨secpA, secpP⟩, ⟨secpB, secpP⟩⟩ : EcPoint) (⟨Bounded.Finite ⟨34828167905024529293425261847016829712897759939934247610415071312015953046280, secpP⟩, Bounded.Finite ⟨47968762878478268758489427369126262603811724231741657789486393243885145959658, secpP⟩, ⟨secpA, secpP⟩, ⟨secpB, secpP⟩⟩ : EcPoint) = some (⟨Bounded.Finite ⟨51545007865675218331521052163329117547916750428334376359731030798802230204655, secpP⟩, Bounded.Finite ⟨106410582405992915570439467813541861485454771813746638713688333696184247730702, secpP⟩, ⟨secpA, secpP⟩, ⟨secpB, secpP⟩⟩ : EcPoint) := by rfl
lemma c8acc42 : ecAdd (⟨Bounded.Finite ⟨60071965084468911187377148037867676523542376580279561249395160962599431041583, secpP⟩, Bounded.Finite ⟨15021233916647288615784431109881913332014746487622185207833962415666153199931, secpP⟩, ⟨secpA, secpP⟩, ⟨secpB, secpP⟩⟩ : EcPoint) (⟨Bounded.Finite ⟨51545007865675218331521052163329117547916750428334376359731030798802230204655, secpP⟩, Bounded.Finite ⟨106410582405992915570439467813541861485454771813746638713688333696184247730702, secpP⟩, ⟨secpA, secpP⟩, ⟨secpB, secpP⟩⟩ : EcPoint) = some (⟨Bounded.Finite ⟨70461669509128515110401879623799383994591745881104094861864290047217329804875, secpP⟩, Bounded.Finite ⟨99332552862914231749676062877933518980284997959302517586808703067604814057410, secpP⟩, ⟨secpA, secpP⟩, ⟨secpB, secpP⟩⟩ : EcPoint) := by rfl
lemma c8dbl42 : ecAdd (⟨Bounded.Finite ⟨51545007865675218331521052163329117547916750428334376359731030798802230204655, secpP⟩, Bounded.Finite ⟨106410582405992915570439467813541861485454771813746638713688333696184247730702, secpP⟩, ⟨secpA, secpP⟩, ⟨secpB, secpP⟩⟩ : EcPoint) (⟨Bounded.Finite ⟨51545007865675218331521052163329117547916750428334376359731030798802230204655, secpP⟩, Bounded.Finite ⟨106410582405992915570439467813541861485454771813746638713688333696184247730702, secpP⟩, ⟨secpA, secpP⟩, ⟨secpB, secpP⟩⟩ : EcPoint) = some (⟨Bounded.Finite ⟨73599252554810039763407176139974374780648488828183406696254895715553023853401, secpP⟩, Bounded.Finite ⟨47578048250598054907858110438316220654276129654309504967125355240893257809602, secpP⟩, ⟨secpA, secpP⟩, ⟨secpB, secpP⟩⟩ : EcPoint) := by rfl
lemma c8acc43 : ecAdd (⟨Bounded.Finite ⟨70461669509128515110401879623799383994591745881104094861864290047217329804875, secpP⟩, Bounded.Finite ⟨99332552862914231749676062877933518980284997959302517586808703067604814057410, secpP⟩, ⟨secpA, secpP⟩, ⟨secpB, secpP⟩⟩ : EcPoint) (⟨Bounded.Finite ⟨73599252554810039763407176139974374780648488828183406696254895715553023853401, secpP⟩, Bounded.Finite ⟨47578048250598054907858110438316220654276129654309504967125355240893257809602, secpP⟩, ⟨secpA, secpP⟩, ⟨secpB, secpP⟩⟩ : EcPoint) = some (⟨Bounded.Finite ⟨81655338892537041067055604246338288373085611726097761412397446724784214369483, secpP⟩, Bounded.Finite ⟨93266534087033745023988495465402405148099926109400993024740279485995506407024, secpP⟩, ⟨secpA, secpP⟩, ⟨secpB, secpP⟩⟩ : EcPoint) := by rfl
lemma c8dbl43 : ecAdd (⟨Bounded.Finite ⟨73599252554810039763407176139974374780648488828183406696254895715553023853401, secpP⟩, Bounded.Finite ⟨47578048250598054907858110438316220654276129654309504967125355240893257809602, secpP⟩, ⟨secpA, secpP⟩, ⟨secpB, secpP⟩⟩ : EcPoint) (⟨Bounded.Finite ⟨73599252554810039763407176139974374780648488828183406696254895715553023853401, secpP⟩, Bounded.Finite ⟨47578048250598054907858110438316220654276129654309504967125355240893257809602, secpP⟩, ⟨secpA, secpP⟩, ⟨secpB, secpP⟩⟩ : EcPoint) = some (⟨Bounded.Finite ⟨98787353431067487068174780415369765662128367506208336868623541747762523303089, secpP⟩, Bounded.Finite ⟨70413563958895942572205979769129125709431089683617469237670049369710274330141, secpP⟩, ⟨secpA, secpP⟩, ⟨secpB, secpP⟩⟩ : EcPoint) := by rfl
lemma c8acc44 : ecAdd (⟨Bounded.Finite ⟨81655338892537041067055604246338288373085611726097761412397446724784214369483, secpP⟩, Bounded.Finite ⟨93266534087033745023988495465402405148099926109400993024740279485995506407024, secpP⟩, ⟨secpA, secpP⟩, ⟨secpB, secpP⟩⟩ : EcPoint) (⟨Bounded.Finite ⟨98787353431067487068174780415369765662128367506208336868623541747762523303089, secpP⟩, Bounded.Finite ⟨70413563958895942572205979769129125709431089683617469237670049369710274330141, secpP⟩, ⟨secpA, secpP⟩, ⟨secpB, secpP⟩⟩ : EcPoint) = some (⟨Bounded.Finite ⟨68259249210418618144302303847781214325835610307148491130815063758657141614627, secpP⟩, Bounded.Finite ⟨102041891974531286183934237528263240247246056290551400958728294224355785772557, secpP⟩, ⟨secpA, secpP⟩, ⟨secpB, secpP⟩⟩ : EcPoint) := by rfl
lemma c8dbl44 : ecAdd (⟨Bounded.Finite ⟨98787353431067487068174780415369765662128367506208336868623541747762523303089, secpP⟩, Bounded.Finite ⟨70413563958895942572205979769129125709431089683617469237670049369710274330141, secpP⟩, ⟨secpA, secpP⟩, ⟨secpB, secpP⟩⟩ : EcPoint) (⟨Bounded.Finite ⟨98787353431067487068174780415369765662128367506208336868623541747762523303089, secpP⟩, Bounded.Finite ⟨70413563958895942572205979769129125709431089683617469237670049369710274330141, secpP⟩, ⟨secpA, secpP⟩, ⟨secpB, secpP⟩⟩ : EcPoint) = some (⟨Bounded.Finite ⟨35158139218869787362323693979796990367921058080517113277431623829383205568969, secpP⟩, Bounded.Finite ⟨10295997985162667395889563220444841839650277790026794883844526680522437342755, secpP⟩, ⟨secpA, secpP⟩, ⟨secpB, secpP⟩⟩ : EcPoint) := by rfl
lemma c8dbl45 : ecAdd (⟨Bounded.Finite ⟨35158139218869787362323693979796990367921058080517113277431623829383205568969, secpP⟩, Bounded.Finite ⟨10295997985162667395889563220444841839650277790026794883844526680522437342755, secpP⟩, ⟨secpA, secpP⟩, ⟨secpB, secpP⟩⟩ : EcPoint) (⟨Bounded.Finite ⟨35158139218869787362323693979796990367921058080517113277431623829383205568969, secpP⟩, Bounded.Finite ⟨10295997985162667395889563220444841839650277790026794883844526680522437342755, secpP⟩, ⟨secpA, secpP⟩, ⟨secpB, secpP⟩⟩ : EcPoint) = some (⟨Bounded.Finite ⟨8964980402707168350657927400892132353366269496956872817449479166659938883802, secpP⟩, Bounded.Finite ⟨43436562493669582162283754540252355903120339577829436566794554777028968127513, secpP⟩, ⟨secpA, secpP⟩, ⟨secpB, secpP⟩⟩ : EcPoint) := by rfl
lemma c8acc46 : ecAdd (⟨Bounded.Finite ⟨68259249210418618144302303847781214325835610307148491130815063758657141614627, secpP⟩, Bounded.Finite ⟨102041891974531286183934237528263240247246056290551400958728294224355785772557, secpP⟩, ⟨secpA, secpP⟩, ⟨secpB, secpP⟩⟩ : EcPoint) (⟨Bounded.Finite ⟨8964980402707168350657927400892132353366269496956872817449479166659938883802, secpP⟩, Bounded.Finite ⟨43436562493669582162283754540252355903120339577829436566794554777028968127513, secpP⟩, ⟨secpA, secpP⟩, ⟨secpB, secpP⟩⟩ : EcPoint) = some (⟨Bounded.Finite ⟨27762703325796909550034319905135946240294058406315182939056603236183625351842, secpP⟩, Bounded.Finite ⟨113667738956118784507605894520552320882824051857489728508054634122524566371753, secpP⟩, ⟨secpA, secpP⟩, ⟨secpB, secpP⟩⟩ : EcPoint) := by rfl
lemma c8dbl46 : ecAdd (⟨Bounded.Finite ⟨8964980402707168350657927400892132353366269496956872817449479166659938883802, secpP⟩, Bounded.Finite ⟨43436562493669582162283754540252355903120339577829436566794554777028968127513, secpP⟩, ⟨secpA, secpP⟩, ⟨secpB, secpP⟩⟩ : EcPoint) (⟨Bounded.Finite ⟨8964980402707168350657927400892132353366269496956872817449479166659938883802, secpP⟩, Bounded.Finite ⟨43436562493669582162283754540252355903120339577829436566794554777028968127513, secpP⟩, ⟨secpA, secpP⟩, ⟨secpB, secpP⟩⟩ : EcPoint) = some (⟨Bounded.Finite ⟨15200734767215737518231163530398231089737396965964050975192487891396519882168, secpP⟩, Bounded.Finite ⟨16668035065520662549877161813594040899471944430197287458384095143621564263367, secpP⟩, ⟨secpA, secpP⟩, ⟨secpB, secpP⟩⟩ : EcPoint) := by rfl
lemma c8dbl47 : ecAdd (⟨Bounded.Finite ⟨15200734767215737518231163530398231089737396965964050975192487891396519882168, secpP⟩, Bounded.Finite ⟨16668035065520662549877161813594040899471944430197287458384095143621564263367, secpP⟩, ⟨secpA, secpP⟩, ⟨secpB, secpP⟩⟩ : EcPoint) (⟨Bounded.Finite ⟨15200734767215737518231163530398231089737396965964050975192487891396519882168, secpP⟩, Bounded.Finite ⟨16668035065520662549877161813594040899471944430197287458384095143621564263367, secpP⟩, ⟨secpA, secpP⟩, ⟨secpB, secpP⟩⟩ : EcPoint) = some (⟨Bounded.Finite ⟨37796942232071066358676457518924870482193007026528914004372298991835746383808, secpP⟩, Bounded.Finite ⟨41500641220791808004786750540350768710904110215016898096683828744807363604936, secpP⟩, ⟨secpA, secpP⟩, ⟨secpB, secpP⟩⟩ : EcPoint) := by rfl
lemma c8dbl48 : ecAdd (⟨Bounded.Finite ⟨37796942232071066358676457518924870482193007026528914004372298991835746383808, secpP⟩, Bounded.Finite ⟨41500641220791808004786750540350768710904110215016898096683828744807363604936, secpP⟩, ⟨secpA, secpP⟩, ⟨secpB, secpP⟩⟩ : EcPoint) (⟨Bounded.Finite ⟨37796942232071066358676457518924870482193007026528914004372298991835746383808, secpP⟩, Bounded.Finite ⟨41500641220791808004786750540350768710904110215016898096683828744807363604936, secpP⟩, ⟨secpA, secpP⟩, ⟨secpB, secpP⟩⟩ : EcPoint) = some (⟨Bounded.Finite ⟨744654853145823512678710729425372655622767097643314990136170544084291976361, secpP⟩, Bounded.Finite ⟨21811628975969469444130274876674950438343669908561616590110157209566897229239, secpP⟩, ⟨secpA, secpP⟩, ⟨secpB, secpP⟩⟩ : EcPoint) := by rfl
lemma c8acc49 : ecAdd (⟨Bounded.Finite ⟨27762703325796909550034319905135946240294058406315182939056603236183625351842, secpP⟩, Bounded.Finite ⟨113667738956118784507605894520552320882824051857489728508054634122524566371753, secpP⟩, ⟨secpA, secpP⟩, ⟨secpB, secpP⟩⟩ : EcPoint) (⟨Bounded.Finite ⟨744654853145823512678710729425372655622767097643314990136170544084291976361, secpP⟩, Bounded.Finite ⟨21811628975969469444130274876674950438343669908561616590110157209566897229239, secpP⟩, ⟨secpA, secpP⟩, ⟨secpB, secpP⟩⟩ : EcPoint) = some (⟨Bounded.Finite ⟨99194189383376580806912732530734056588783061829478900752337249255154902255827, secpP⟩, Bounded.Finite ⟨64410542444570483028642601756679525395304606757644810636651682692111442763257, secpP⟩, ⟨secpA, secpP⟩, ⟨secpB, secpP⟩⟩ : EcPoint) := by rfl
lemma c8dbl49 : ecAdd (⟨Bounded.Finite ⟨744654853145823512678710729425372655622767097643314990136170544084291976361, secpP⟩, Bounded.Finite ⟨21811628975969469444130274876674950438343669908561616590110157209566897229239, secpP⟩, ⟨secpA, secpP⟩, ⟨secpB, secpP⟩⟩ : EcPoint) (⟨Bounded.Finite ⟨744654853145823512678710729425372655622767097643314990136170544084291976361, secpP⟩, Bounded.Finite ⟨21811628975969469444130274876674950438343669908561616590110157209566897229239, secpP⟩, ⟨secpA, secpP⟩, ⟨secpB, secpP⟩⟩ : EcPoint) = some (⟨Bounded.Finite ⟨111242239008385952039057432864293978327910479690302189733526349492851051943515, secpP⟩, Bounded.Finite ⟨48678944480045457289293852267343808286651244662567230126433152661761421134978, secpP⟩, ⟨secpA, secpP⟩, ⟨secpB, secpP⟩⟩ : EcPoint) := by rfl
lemma c8dbl50 : ecAdd (⟨Bounded.Finite ⟨111242239008385952039057432864293978327910479690302189733526349492851051943515, secpP⟩, Bounded.Finite ⟨48678944480045457289293852267343808286651244662567230126433152661761421134978, secpP⟩, ⟨secpA, secpP⟩, ⟨secpB, secpP⟩⟩ : EcPoint) (⟨Bounded.Finite ⟨111242239008385952039057432864293978327910479690302189733526349492851051943515, secpP⟩, Bounded.Finite ⟨48678944480045457289293852267343808286651244662567230126433152661761421134978, secpP⟩, ⟨secpA, secpP⟩, ⟨secpB, secpP⟩⟩ : EcPoint) = some (⟨Bounded.Finite ⟨64822851514371701744734127217317271752112350344524279674961846392399328587059, secpP⟩, Bounded.Finite ⟨31943858956135239004423171297694200648464614566963609709790210548050786133055, secpP⟩, ⟨secpA, secpP⟩, ⟨secpB, secpP⟩⟩ : EcPoint) := by rfl
lemma c8dbl51 : ecAdd (⟨Bounded.Finite ⟨64822851514371701744734127217317271752112350344524279674961846392399328587059, secpP⟩, Bounded.Finite ⟨31943858956135239004423171297694200648464614566963609709790210548050786133055, secpP⟩, ⟨secpA, secpP⟩, ⟨secpB, secpP⟩⟩ : EcPoint) (⟨Bounded.Finite ⟨64822851514371701744734127217317271752112350344524279674961846392399328587059, secpP⟩, Bounded.Finite ⟨31943858956135239004423171297694200648464614566963609709790210548050786133055, secpP⟩, ⟨secpA, secpP⟩, ⟨secpB, secpP⟩⟩ : EcPoint) = some (⟨Bounded.Finite ⟨64447161864609791404195758691963071452721019060247337925015807247342017994823, secpP⟩, Bounded.Finite ⟨7561160199009862821682934691566626840504770282093073394715850644522417534762, secpP⟩, ⟨secpA, secpP⟩, ⟨secpB, secpP⟩⟩ : EcPoint) := by rfl
lemma c8acc52 : ecAdd (⟨Bounded.Finite ⟨99194189383376580806912732530734056588783061829478900752337249255154902255827, secpP⟩, Bounded.Finite ⟨64410542444570483028642601756679525395304606757644810636651682692111442763257, secpP⟩, ⟨secpA, secpP⟩, ⟨secpB, secpP⟩⟩ : EcPoint) (⟨Bounded.Finite ⟨64447161864609791404195758691963071452721019060247337925015807247342017994823, secpP⟩, Bounded.Finite ⟨7561160199009862821682934691566626840504770282093073394715850644522417534762, secpP⟩, ⟨secpA, secpP⟩, ⟨secpB, secpP⟩⟩ : EcPoint) = some (⟨Bounded.Finite ⟨69187203649075496263558380068530805903295971191518681710653387161368690281111, secpP⟩, Bounded.Finite ⟨48135635028035215701050676285431063073492846547677592419510785277659689312666, secpP⟩, ⟨secpA, secpP⟩, ⟨secpB, secpP⟩⟩ : EcPoint) := by rfl
lemma c8dbl52 : ecAdd (⟨Bounded.Finite ⟨64447161864609791404195758691963071452721019060247337925015807247342017994823, secpP⟩, Bounded.Finite ⟨7561160199009862821682934691566626840504770282093073394715850644522417534762, secpP⟩, ⟨secpA, secpP⟩, ⟨secpB, secpP⟩⟩ : EcPoint) (⟨Bounded.Finite ⟨64447161864609791404195758691963071452721019060247337925015807247342017994823, secpP⟩, Bounded.Finite ⟨7561160199009862821682934691566626840504770282093073394715850644522417534762, secpP⟩, ⟨secpA, secpP⟩, ⟨secpB, secpP⟩⟩ : EcPoint) = some (⟨Bounded.Finite ⟨23384853547122068788990499588260565640987768803883409730753963558864234152785, secpP⟩, Bounded.Finite ⟨74875455409133275347616261968367570739354909860053424157743477951969742386200, secpP⟩, ⟨secpA, secpP⟩, ⟨secpB, secpP⟩⟩ : EcPoint) := by rfl
lemma c8dbl53 : ecAdd (⟨Bounded.Finite ⟨23384853547122068788990499588260565640987768803883409730753963558864234152785, secpP⟩, Bounded.Finite ⟨74875455409133275347616261968367570739354909860053424157743477951969742386200, secpP⟩, ⟨secpA, secpP⟩, ⟨secpB, secpP⟩⟩ : EcPoint) (⟨Bounded.Finite ⟨23384853547122068788990499588260565640987768803883409730753963558864234152785, secpP⟩, Bounded.Finite ⟨74875455409133275347616261968367570739354909860053424157743477951969742386200, secpP⟩, ⟨secpA, secpP⟩, ⟨secpB, secpP⟩⟩ : EcPoint) = some (⟨Bounded.Finite ⟨25014901206392249887698237444530503896296748023707107244397125743674754644790, secpP⟩, Bounded.Finite ⟨10433933909011809793968879060653803690577200525567091682194830769813011264330, secpP⟩, ⟨secpA, secpP⟩, ⟨secpB, secpP⟩⟩ : EcPoint) := by rfl
lemma c8acc54 : ecAdd (⟨Bounded.Finite ⟨69187203649075496263558380068530805903295971191518681710653387161368690281111, secpP⟩, Bounded.Finite ⟨48135635028035215701050676285431063073492846547677592419510785277659689312666, secpP⟩, ⟨secpA, secpP⟩, ⟨secpB, secpP⟩⟩ : EcPoint) (⟨Bounded.Finite ⟨25014901206392249887698237444530503896296748023707107244397125743674754644790, secpP⟩, Bounded.Finite ⟨10433933909011809793968879060653803690577200525567091682194830769813011264330, secpP⟩, ⟨secpA, secpP⟩, ⟨secpB, secpP⟩⟩ : EcPoint) = some (⟨Bounded.Finite ⟨15223848390017212906680881981813393413677039340503028595624541674101902531963, secpP⟩, Bounded.Finite ⟨44570955422994050652917840013847722326766360134107318890754453693128309568571, secpP⟩, ⟨secpA, secpP⟩, ⟨secpB, secpP⟩⟩ : EcPoint) := by rfl
lemma c8dbl54 : ecAdd (⟨Bounded.Finite ⟨25014901206392249887698237444530503896296748023707107244397125743674754644790, secpP⟩, Bounded.Finite ⟨10433933909011809793968879060653803690577200525567091682194830769813011264330, secpP⟩, ⟨secpA, secpP⟩, ⟨secpB, secpP⟩⟩ : EcPoint) (⟨Bounded.Finite ⟨25014901206392249887698237444530503896296748023707107244397125743674754644790, secpP⟩, Bounded.Finite ⟨10433933909011809793968879060653803690577200525567091682194830769813011264330, secpP⟩, ⟨secpA, secpP⟩, ⟨secpB, secpP⟩⟩ : EcPoint) = some (⟨Bounded.Finite ⟨16058435479155118972993837131799089058715967396125428615558605751627320645142, secpP⟩, Bounded.Finite ⟨50458543989467853184310582844531917678045791765530172581605874408799080266778, secpP⟩, ⟨secpA, secpP⟩, ⟨secpB, secpP⟩⟩ : EcPoint) := by rfl
lemma c8acc55 : ecAdd (⟨Bounded.Finite ⟨15223848390017212906680881981813393413677039340503028595624541674101902531963, secpP⟩, Bounded.Finite ⟨44570955422994050652917840013847722326766360134107318890754453693128309568571, secpP⟩, ⟨secpA, secpP⟩, ⟨secpB, secpP⟩⟩ : EcPoint) (⟨Bounded.Finite ⟨16058435479155118972993837131799089058715967396125428615558605751627320645142, secpP⟩, Bounded.Finite ⟨50458543989467853184310582844531917678045791765530172581605874408799080266778, secpP⟩, ⟨secpA, secpP⟩, ⟨secpB, secpP⟩⟩ : EcPoint) = some (⟨Bounded.Finite ⟨57185860723879935035866354173246676411942596839444195638204647215815346768112, secpP⟩, Bounded.Finite ⟨60630120880092665311664887862527641786255659590941702157532952227297429492176, secpP⟩, ⟨secpA, secpP⟩, ⟨secpB, secpP⟩⟩ : EcPoint) := by rfl
lemma c8dbl55 : ecAdd (⟨Bounded.Finite ⟨16058435479155118972993837131799089058715967396125428615558605751627320645142, secpP⟩, Bounded.Finite ⟨50458543989467853184310582844531917678045791765530172581605874408799080266778, secpP⟩, ⟨secpA, secpP⟩, ⟨secpB, secpP⟩⟩ : EcPoint) (⟨Bounded.Finite ⟨16058435479155118972993837131799089058715967396125428615558605751627320645142, secpP⟩, Bounded.Finite ⟨50458543989467853184310582844531917678045791765530172581605874408799080266778, secpP⟩, ⟨secpA, secpP⟩, ⟨secpB, secpP⟩⟩ : EcPoint) = some (⟨Bounded.Finite ⟨25497240280963516313937320941859063956353887664759333529694971679324342859874, secpP⟩, Bounded.Finite ⟨18198385112262447554198951719878713582193194360950043848907411919888800699475, secpP⟩, ⟨secpA, secpP⟩, ⟨secpB, secpP⟩⟩ : EcPoint) := by rfl
lemma c8acc56 : ecAdd (⟨Bounded.Finite ⟨57185860723879935035866354173246676411942596839444195638204647215815346768112, secpP⟩, Bounded.Finite ⟨60630120880092665311664887862527641786255659590941702157532952227297429492176, secpP⟩, ⟨secpA, secpP⟩, ⟨secpB, secpP⟩⟩ : EcPoint) (⟨Bounded.Finite ⟨25497240280963516313937320941859063956353887664759333529694971679324342859874, secpP⟩, Bounded.Finite ⟨18198385112262447554198951719878713582193194360950043848907411919888800699475, secpP⟩, ⟨secpA, secpP⟩, ⟨secpB, secpP⟩⟩ : EcPoint) = some (⟨Bounded.Finite ⟨23118118866888655613556245973026645805119182871186618924392625013176520610465, secpP⟩, Bounded.Finite ⟨112895022531704548229105724991974270871908201019764926972499615184558433677379, secpP⟩, ⟨secpA, secpP⟩, ⟨secpB, secpP⟩⟩ : EcPoint) := by rfl
lemma c8dbl56 : ecAdd (⟨Bounded.Finite ⟨25497240280963516313937320941859063956353887664759333529694971679324342859874, secpP⟩, Bounded.Finite ⟨18198385112262447554198951719878713582193194360950043848907411919888800699475, secpP⟩, ⟨secpA, secpP⟩, ⟨secpB, secpP⟩⟩ : EcPoint) (⟨Bounded.Finite ⟨25497240280963516313937320941859063956353887664759333529694971679324342859874, secpP⟩, Bounded.Finite ⟨18198385112262447554198951719878713582193194360950043848907411919888800699475, secpP⟩, ⟨secpA, secpP⟩, ⟨secpB, secpP⟩⟩ : EcPoint) = some (⟨Bounded.Finite ⟨111703840010970554703825044762397257236786082270905035457492386104226958443132, secpP⟩, Bounded.Finite ⟨12575192387335088647665557233642046097109374697403005848728748607053249552642, secpP⟩, ⟨secpA, secpP⟩, ⟨secpB, secpP⟩⟩ : EcPoint) := by rfl
lemma c8acc57 : ecAdd (⟨Bounded.Finite ⟨23118118866888655613556245973026645805119182871186618924392625013176520610465, secpP⟩, Bounded.Finite ⟨112895022531704548229105724991974270871908201019764926972499615184558433677379, secpP⟩, ⟨secpA, secpP⟩, ⟨secpB, secpP⟩⟩ : EcPoint) (⟨Bounded.Finite ⟨111703840010970554703825044762397257236786082270905035457492386104226958443132, secpP⟩, Bounded.Finite ⟨12575192387335088647665557233642046097109374697403005848728748607053249552642, secpP⟩, ⟨secpA, secpP⟩, ⟨secpB, secpP⟩⟩ : EcPoint) = some (⟨Bounded.Finite ⟨109268062965302509751249725782841497693627030916462198496686435014212514468944, secpP⟩, Bounded.Finite ⟨40453008757637546467101231051844287890930702141121285841762042464934598901656, secpP⟩, ⟨secpA, secpP⟩, ⟨secpB, secpP⟩⟩ : EcPoint) := by rfl
lemma c8dbl57 : ecAdd (⟨Bounded.Finite ⟨111703840010970554703825044762397257236786082270905035457492386104226958443132, secpP⟩, Bounded.Finite ⟨12575192387335088647665557233642046097109374697403005848728748607053249552642, secpP⟩, ⟨secpA, secpP⟩, ⟨secpB, secpP⟩⟩ : EcPoint) (⟨Bounded.Finite ⟨111703840010970554703825044762397257236786082270905035457492386104226958443132, secpP⟩, Bounded.Finite ⟨12575192387335088647665557233642046097109374697403005848728748607053249552642, secpP⟩, ⟨secpA, secpP⟩, ⟨secpB, secpP⟩⟩ : EcPoint) = some (⟨Bounded.Finite ⟨113599246344934629336805861786255890702306480065011524716308738005517377133750, secpP⟩, Bounded.Finite ⟨110309842344688524387480953361916993633315112298643725699639662741987291457779, secpP⟩, ⟨secpA, secpP⟩, ⟨secpB, secpP⟩⟩ : EcPoint) := by rfl
lemma c8acc58 : ecAdd (⟨Bounded.Finite ⟨109268062965302509751249725782841497693627030916462198496686435014212514468944, secpP⟩, Bounded.Finite ⟨40453008757637546467101231051844287890930702141121285841762042464934598901656, secpP⟩, ⟨secpA, secpP⟩, ⟨secpB, secpP⟩⟩ : EcPoint) (⟨Bounded.Finite ⟨113599246344934629336805861786255890702306480065011524716308738005517377133750, secpP⟩, Bounded.Finite ⟨110309842344688524387480953361916993633315112298643725699639662741987291457779, secpP⟩, ⟨secpA, secpP⟩, ⟨secpB, secpP⟩⟩ : EcPoint) = some (⟨Bounded.Finite ⟨8009867505253292627563618294460798837052598759293890721633944836155070435023, secpP⟩, Bounded.Finite ⟨8372182007924405609622237583407674428319300964422536250658257680576144314550, secpP⟩, ⟨secpA, secpP⟩, ⟨secpB, secpP⟩⟩ : EcPoint) := by rfl
lemma c8dbl58 : ecAdd (⟨Bounded.Finite ⟨113599246344934629336805861786255890702306480065011524716308738005517377133750, secpP⟩, Bounded.Finite ⟨110309842344688524387480953361916993633315112298643725699639662741987291457779, secpP⟩, ⟨secpA, secpP⟩, ⟨secpB, secpP⟩⟩ : EcPoint) (⟨Bounded.Finite ⟨113599246344934629336805861786255890702306480065011524716308738005517377133750, secpP⟩, Bounded.Finite ⟨110309842344688524387480953361916993633315112298643725699639662741987291457779, secpP⟩, ⟨secpA, secpP⟩, ⟨secpB, secpP⟩⟩ : EcPoint) = some (⟨Bounded.Finite ⟨62223290140977849549949037397413163042719030609658769845468333603013413866526, secpP⟩, Bounded.Finite ⟨98850328278678552505680434968308156848819817765906617232115049710824480247537, secpP⟩, ⟨secpA, secpP⟩, ⟨secpB, secpP⟩⟩ : EcPoint) := by rfl
lemma c8acc59 : ecAdd (⟨Bounded.Finite ⟨8009867505253292627563618294460798837052598759293890721633944836155070435023, secpP⟩, Bounded.Finite ⟨8372182007924405609622237583407674428319300964422536250658257680576144314550, secpP⟩, ⟨secpA, secpP⟩, ⟨secpB, secpP⟩⟩ : EcPoint) (⟨Bounded.Finite ⟨62223290140977849549949037397413163042719030609658769845468333603013413866526, secpP⟩, Bounded.Finite ⟨98850328278678552505680434968308156848819817765906617232115049710824480247537, secpP⟩, ⟨secpA, secpP⟩, ⟨secpB, secpP⟩⟩ : EcPoint) = some (⟨Bounded.Finite ⟨37038459036163776514058476381271657069201060930499270675974535267129853015692, secpP⟩, Bounded.Finite ⟨21077090730298895164245456409466535377554118971536318822444928562424897505234, secpP⟩, ⟨secpA, secpP⟩, ⟨secpB, secpP⟩⟩ : EcPoint) := by rfl
lemma c8dbl59 : ecAdd (⟨Bounded.Finite ⟨62223290140977849549949037397413163042719030609658769845468333603013413866526, secpP⟩, Bounded.Finite ⟨98850328278678552505680434968308156848819817765906617232115049710824480247537, secpP⟩, ⟨secpA, secpP⟩, ⟨secpB, secpP⟩⟩ : EcPoint) (⟨Bounded.Finite ⟨62223290140977849549949037397413163042719030609658769845468333603013413866526, secpP⟩, Bounded.Finite ⟨98850328278678552505680434968308156848819817765906617232115049710824480247537, secpP⟩, ⟨secpA, secpP⟩, ⟨secpB, secpP⟩⟩ : EcPoint) = some (⟨Bounded.Finite ⟨3155324650630266164941215407725229976924800176927891490779584824139541300135, secpP⟩, Bounded.Finite ⟨56314320032835626861988128097937936814282839310958875562434488369232472187232, secpP⟩, ⟨secpA, secpP⟩, ⟨secpB, secpP⟩⟩ : EcPoint) := by rfl
lemma c8acc60 : ecAdd (⟨Bounded.Finite ⟨37038459036163776514058476381271657069201060930499270675974535267129853015692, secpP⟩, Bounded.Finite ⟨21077090730298895164245456409466535377554118971536318822444928562424897505234, secpP⟩, ⟨secpA, secpP⟩, ⟨secpB, secpP⟩⟩ : EcPoint) (⟨Bounded.Finite ⟨3155324650630266164941215407725229976924800176927891490779584824139541300135, secpP⟩, Bounded.Finite ⟨56314320032835626861988128097937936814282839310958875562434488369232472187232, secpP⟩, ⟨secpA, secpP⟩, ⟨secpB, secpP⟩⟩ : EcPoint) = some (⟨Bounded.Finite ⟨75749617177574834102149252734770805170663915898998128466674389318315036187752, secpP⟩, Bounded.Finite ⟨65260251076370058199083669522406252185050335530299045257879839385447656973127, secpP⟩, ⟨secpA, secpP⟩, ⟨secpB, secpP⟩⟩ : EcPoint) := by rfl
lemma c8dbl60 : ecAdd (⟨Bounded.Finite ⟨3155324650630266164941215407725229976924800176927891490779584824139541300135, secpP⟩, Bounded.Finite ⟨56314320032835626861988128097937936814282839310958875562434488369232472187232, secpP⟩, ⟨secpA, secpP⟩, ⟨secpB, secpP⟩⟩ : EcPoint) (⟨Bounded.Finite ⟨3155324650630266164941215407725229976924800176927891490779584824139541300135, secpP⟩, Bounded.Finite ⟨56314320032835626861988128097937936814282839310958875562434488369232472187232, secpP⟩, ⟨secpA, secpP⟩, ⟨secpB, secpP⟩⟩ : EcPoint) = some (⟨Bounded.Finite ⟨78940842088341059937720881764219942614374815880107123037550313585999765034797, secpP⟩, Bounded.Finite ⟨11720516568179571270476509769942606239875063370184749544905787775519145474236, secpP⟩, ⟨secpA, secpP⟩, ⟨secpB, secpP⟩⟩ : EcPoint) := by rfl
lemma c8acc61 : ecAdd (⟨Bounded.Finite ⟨75749617177574834102149252734770805170663915898998128466674389318315036187752, secpP⟩, Bounded.Finite ⟨65260251076370058199083669522406252185050335530299045257879839385447656973127, secpP⟩, ⟨secpA, secpP⟩, ⟨secpB, secpP⟩⟩ : EcPoint) (⟨Bounded.Finite ⟨78940842088341059937720881764219942614374815880107123037550313585999765034797, secpP⟩, Bounded.Finite ⟨11720516568179571270476509769942606239875063370184749544905787775519145474236, secpP⟩, ⟨secpA, secpP⟩, ⟨secpB, secpP⟩⟩ : EcPoint) = some (⟨Bounded.Finite ⟨26961910731381032139552785280349446080688665026897053639184453099671199281653, secpP⟩, Bounded.Finite ⟨19225901277119210270526234788013057702748968868411355964598338166574146506549, secpP⟩, ⟨secpA, secpP⟩, ⟨secpB, secpP⟩⟩ : EcPoint) := by rfl
lemma c8dbl61 : ecAdd (⟨Bounded.Finite ⟨78940842088341059937720881764219942614374815880107123037550313585999765034797, secpP⟩, Bounded.Finite ⟨11720516568179571270476509769942606239875063370184749544905787775519145474236, secpP⟩, ⟨secpA, secpP⟩, ⟨secpB, secpP⟩⟩ : EcPoint) (⟨Bounded.Finite ⟨78940842088341059937720881764219942614374815880107123037550313585999765034797, secpP⟩, Bounded.Finite ⟨11720516568179571270476509769942606239875063370184749544905787775519145474236, secpP⟩, ⟨secpA, secpP⟩, ⟨secpB, secpP⟩⟩ : EcPoint) = some (⟨Bounded.Finite ⟨15507243805774944259617131345561156696188939847401319273193860618228585632400, secpP⟩, Bounded.Finite ⟨113088070675147226411797488422007342957654795984396137910695709288095002042967, secpP⟩, ⟨secpA, secpP⟩, ⟨secpB, secpP⟩⟩ : EcPoint) := by rfl
lemma c8dbl62 : ecAdd (⟨Bounded.Finite ⟨15507243805774944259617131345561156696188939847401319273193860618228585632400, secpP⟩, Bounded.Finite ⟨113088070675147226411797488422007342957654795984396137910695709288095002042967, secpP⟩, ⟨secpA, secpP⟩, ⟨secpB, secpP⟩⟩ : EcPoint) (⟨Bounded.Finite ⟨15507243805774944259617131345561156696188939847401319273193860618228585632400, secpP⟩, Bounded.Finite ⟨113088070675147226411797488422007342957654795984396137910695709288095002042967, secpP⟩, ⟨secpA, secpP⟩, ⟨secpB, secpP⟩⟩ : EcPoint) = some (⟨Bounded.Finite ⟨101817088763764058272032685058193941686495949380163784665542336507398664578275, secpP⟩, Bounded.Finite ⟨61440383708720907418547117747158586276459762378915736297042955400063318409160, secpP⟩, ⟨secpA, secpP⟩, ⟨secpB, secpP⟩⟩ : EcPoint) := by rfl
lemma c8acc63 : ecAdd (⟨Bounded.Finite ⟨26961910731381032139552785280349446080688665026897053639184453099671199281653, secpP⟩, Bounded.Finite ⟨19225901277119210270526234788013057702748968868411355964598338166574146506549, secpP⟩, ⟨secpA, secpP⟩, ⟨secpB, secpP⟩⟩ : EcPoint) (⟨Bounded.Finite ⟨101817088763764058272032685058193941686495949380163784665542336507398664578275, secpP⟩, Bounded.Finite ⟨61440383708720907418547117747158586276459762378915736297042955400063318409160, secpP⟩, ⟨secpA, secpP⟩, ⟨secpB, secpP⟩⟩ : EcPoint) = some (⟨Bounded.Finite ⟨60136517557012337886219143441347989931997721743090658581626858228326433472322, secpP⟩, Bounded.Finite ⟨36561241511934786181747000543741354953016942877030566678373432424712287474694, secpP⟩, ⟨secpA, secpP⟩, ⟨secpB, secpP⟩⟩ : EcPoint) := by rfl
lemma c8dbl63 : ecAdd (⟨Bounded.Finite ⟨101817088763764058272032685058193941686495949380163784665542336507398664578275, secpP⟩, Bounded.Finite ⟨61440383708720907418547117747158586276459762378915736297042955400063318409160, secpP⟩, ⟨secpA, secpP⟩, ⟨secpB, secpP⟩⟩ : EcPoint) (⟨Bounded.Finite ⟨101817088763764058272032685058193941686495949380163784665542336507398664578275, secpP⟩, Bounded.Finite ⟨61440383708720907418547117747158586276459762378915736297042955400063318409160, secpP⟩, ⟨secpA, secpP⟩, ⟨secpB, secpP⟩⟩ : EcPoint) = some (⟨Bounded.Finite ⟨23129491278950567785970148376500648032717531886785241126168611397589814798013, secpP⟩, Bounded.Finite ⟨39307099057880941662675806615359097347682728603444928455093651353540932186784, secpP⟩, ⟨secpA, secpP⟩, ⟨secpB, secpP⟩⟩ : EcPoint) := by rfl
lemma c8acc64 : ecAdd (⟨Bounded.Finite ⟨60136517557012337886219143441347989931997721743090658581626858228326433472322, secpP⟩, Bounded.Finite ⟨36561241511934786181747000543741354953016942877030566678373432424712287474694, secpP⟩, ⟨secpA, secpP⟩, ⟨secpB, secpP⟩⟩ : EcPoint) (⟨Bounded.Finite ⟨23129491278950567785970148376500648032717531886785241126168611397589814798013, secpP⟩, Bounded.Finite ⟨39307099057880941662675806615359097347682728603444928455093651353540932186784, secpP⟩, ⟨secpA, secpP⟩, ⟨secpB, secpP⟩⟩ : EcPoint) = some (⟨Bounded.Finite ⟨86189600100549013261218396657850864219874730265296776543117159178463788186174, secpP⟩, Bounded.Finite ⟨90959855302219868837933088822377621275611973567245607971627311097343894919839, secpP⟩, ⟨secpA, secpP⟩, ⟨secpB, secpP⟩⟩ : EcPoint) := by rfl
lemma c8dbl64 : ecAdd (⟨Bounded.Finite ⟨23129491278950567785970148376500648032717531886785241126168611397589814798013, secpP⟩, Bounded.Finite ⟨39307099057880941662675806615359097347682728603444928455093651353540932186784, secpP⟩, ⟨secpA, secpP⟩, ⟨secpB, secpP⟩⟩ : EcPoint) (⟨Bounded.Finite ⟨23129491278950567785970148376500648032717531886785241126168611397589814798013, secpP⟩, Bounded.Finite ⟨39307099057880941662675806615359097347682728603444928455093651353540932186784, secpP⟩, ⟨secpA, secpP⟩, ⟨secpB, secpP⟩⟩ : EcPoint) = some (⟨Bounded.Finite ⟨63843472757015161619640823952764524318291830965488059905636263767209969312866, secpP⟩, Bounded.Finite ⟨106712674239183055714747170770237410600716249238757184591428740534726428083980, secpP⟩, ⟨secpA, secpP⟩, ⟨secpB, secpP⟩⟩ : EcPoint) := by rfl
lemma c8acc65 : ecAdd (⟨Bounded.Finite ⟨86189600100549013261218396657850864219874730265296776543117159178463788186174, secpP⟩, Bounded.Finite ⟨90959855302219868837933088822377621275611973567245607971627311097343894919839, secpP⟩, ⟨secpA, secpP⟩, ⟨secpB, secpP⟩⟩ : EcPoint) (⟨Bounded.Finite ⟨63843472757015161619640823952764524318291830965488059905636263767209969312866, secpP⟩, Bounded.Finite ⟨106712674239183055714747170770237410600716249238757184591428740534726428083980, secpP⟩, ⟨secpA, secpP⟩, ⟨secpB, secpP⟩⟩ : EcPoint) = some (⟨Bounded.Finite ⟨49985759286094074597680466732886939186456207479529083039553970260762539159489, secpP⟩, Bounded.Finite ⟨110838148757080555347711120133988103797443398676724707733367451071894438037253, secpP⟩, ⟨secpA, secpP⟩, ⟨secpB, secpP⟩⟩ : EcPoint) := by rfl
lemma c8dbl65 : ecAdd (⟨Bounded.Finite ⟨63843472757015161619640823952764524318291830965488059905636263767209969312866, secpP⟩, Bounded.Finite ⟨106712674239183055714747170770237410600716249238757184591428740534726428083980, secpP⟩, ⟨secpA, secpP⟩, ⟨secpB, secpP⟩⟩ : EcPoint) (⟨Bounded.Finite ⟨63843472757015161619640823952764524318291830965488059905636263767209969312866, secpP⟩, Bounded.Finite ⟨106712674239183055714747170770237410600716249238757184591428740534726428083980, secpP⟩, ⟨secpA, secpP⟩, ⟨secpB, secpP⟩⟩ : EcPoint) = some (⟨Bounded.Finite ⟨8241903038354912941099822707985246210294044712473769251710198461880050574899, secpP⟩, Bounded.Finite ⟨62697784033925076403474224442689974679135179320309080987220280194454804723717, secpP⟩, ⟨secpA, secpP⟩, ⟨secpB, secpP⟩⟩ : EcPoint) := by rfl
lemma c8dbl66 : ecAdd (⟨Bounded.Finite ⟨8241903038354912941099822707985246210294044712473769251710198461880050574899, secpP⟩, Bounded.Finite ⟨62697784033925076403474224442689974679135179320309080987220280194454804723717, secpP⟩, ⟨secpA, secpP⟩, ⟨secpB, secpP⟩⟩ : EcPoint) (⟨Bounded.Finite ⟨8241903038354912941099822707985246210294044712473769251710198461880050574899, secpP⟩, Bounded.Finite ⟨62697784033925076403474224442689974679135179320309080987220280194454804723717, secpP⟩, ⟨secpA, secpP⟩, ⟨secpB, secpP⟩⟩ : EcPoint) = some (⟨Bounded.Finite ⟨17692067919141883746474430216313318912323253047795385992074267436472656099942, secpP⟩, Bounded.Finite ⟨42168706312448760835164198288963124085049274787903511949048046806853155067687, secpP⟩, ⟨secpA, secpP⟩, ⟨secpB, secpP⟩⟩ : EcPoint) := by rfl
lemma c8acc67 : ecAdd (⟨Bounded.Finite ⟨49985759286094074597680466732886939186456207479529083039553970260762539159489, secpP⟩, Bounded.Finite ⟨110838148757080555347711120133988103797443398676724707733367451071894438037253, secpP⟩, ⟨secpA, secpP⟩, ⟨secpB, secpP⟩⟩ : EcPoint) (⟨Bounded.Finite ⟨17692067919141883746474430216313318912323253047795385992074267436472656099942, secpP⟩, Bounded.Finite ⟨42168706312448760835164198288963124085049274787903511949048046806853155067687, secpP⟩, ⟨secpA, secpP⟩, ⟨secpB, secpP⟩⟩ : EcPoint) = some (⟨Bounded.Finite ⟨6695453148659735962002278213602542997318133052565924704593474838173153106710, secpP⟩, Bounded.Finite ⟨46485298069974473504580690177384313698277301393718293347306004902936287833429, secpP⟩, ⟨secpA, secpP⟩, ⟨secpB, secpP⟩⟩ : EcPoint) := by rfl
lemma c8dbl67 : ecAdd (⟨Bounded.Finite ⟨17692067919141883746474430216313318912323253047795385992074267436472656099942, secpP⟩, Bounded.Finite ⟨42168706312448760835164198288963124085049274787903511949048046806853155067687, secpP⟩, ⟨secpA, secpP⟩, ⟨secpB, secpP⟩⟩ : EcPoint) (⟨Bounded.Finite ⟨17692067919141883746474430216313318912323253047795385992074267436472656099942, secpP⟩, Bounded.Finite ⟨42168706312448760835164198288963124085049274787903511949048046806853155067687, secpP⟩, ⟨secpA, secpP⟩, ⟨secpB, secpP⟩⟩ : EcPoint) = some (⟨Bounded.Finite ⟨60339901160910692237675572757878163770580581369373573584664013679285413129091, secpP⟩, Bounded.Finite ⟨56214196748543440839296827556230703893730514912272645534922309181995758064550, secpP⟩, ⟨secpA, secpP⟩, ⟨secpB, secpP⟩⟩ : EcPoint) := by rfl
lemma c8acc68 : ecAdd (⟨Bounded.Finite ⟨6695453148659735962002278213602542997318133052565924704593474838173153106710, secpP⟩, Bounded.Finite ⟨46485298069974473504580690177384313698277301393718293347306004902936287833429, secpP⟩, ⟨secpA, secpP⟩, ⟨secpB, secpP⟩⟩ : EcPoint) (⟨Bounded.Finite ⟨60339901160910692237675572757878163770580581369373573584664013679285413129091, secpP⟩, Bounded.Finite ⟨56214196748543440839296827556230703893730514912272645534922309181995758064550, secpP⟩, ⟨secpA, secpP⟩, ⟨secpB, secpP⟩⟩ : EcPoint) = some (⟨Bounded.Finite ⟨104426448526774961863592430878135482344898700069802556168947359175483153349152, secpP⟩, Bounded.Finite ⟨70451996996368836093976516871864366361017094170088744097262044823768267276698, secpP⟩, ⟨secpA, secpP⟩, ⟨secpB, secpP⟩⟩ : EcPoint) := by rfl
lemma c8dbl68 : ecAdd (⟨Bounded.Finite ⟨60339901160910692237675572757878163770580581369373573584664013679285413129091, secpP⟩, Bounded.Finite ⟨56214196748543440839296827556230703893730514912272645534922309181995758064550, secpP⟩, ⟨secpA, secpP⟩, ⟨secpB, secpP⟩⟩ : EcPoint) (⟨Bounded.Finite ⟨60339901160910692237675572757878163770580581369373573584664013679285413129091, secpP⟩, Bounded.Finite ⟨56214196748543440839296827556230703893730514912272645534922309181995758064550, secpP⟩, ⟨secpA, secpP⟩, ⟨secpB, secpP⟩⟩ : EcPoint) = some (⟨Bounded.Finite ⟨37677678367764998054256419260552297374816808777506812193658101085944629689381, secpP⟩, Bounded.Finite ⟨96542930188656188775421614396743163957109245800132742492178822512944546868854, secpP⟩, ⟨secpA, secpP⟩, ⟨secpB, secpP⟩⟩ : EcPoint) := by rfl
lemma c8acc69 : ecAdd (⟨Bounded.Finite ⟨104426448526774961863592430878135482344898700069802556168947359175483153349152, secpP⟩, Bounded.Finite ⟨70451996996368836093976516871864366361017094170088744097262044823768267276698, secpP⟩, ⟨secpA, secpP⟩, ⟨secpB, secpP⟩⟩ : EcPoint) (⟨Bounded.Finite ⟨37677678367764998054256419260552297374816808777506812193658101085944629689381, secpP⟩, Bounded.Finite ⟨96542930188656188775421614396743163957109245800132742492178822512944546868854, secpP⟩, ⟨secpA, secpP⟩, ⟨secpB, secpP⟩⟩ : EcPoint) = some (⟨Bounded.Finite ⟨25706115431223231104349502338425676760948233609524549927682567987735767988359, secpP⟩, Bounded.Finite ⟨86030344383075434546407535965820914874011898795760114264794801526033406629855, secpP⟩, ⟨secpA, secpP⟩, ⟨secpB, secpP⟩⟩ : EcPoint) := by rfl
lemma c8dbl69 : ecAdd (⟨Bounded.Finite ⟨37677678367764998054256419260552297374816808777506812193658101085944629689381, secpP⟩, Bounded.Finite ⟨96542930188656188775421614396743163957109245800132742492178822512944546868854, secpP⟩, ⟨secpA, secpP⟩, ⟨secpB, secpP⟩⟩ : EcPoint) (⟨Bounded.Finite ⟨37677678367764998054256419260552297374816808777506812193658101085944629689381, secpP⟩, Bounded.Finite ⟨96542930188656188775421614396743163957109245800132742492178822512944546868854, secpP⟩, ⟨secpA, secpP⟩, ⟨secpB, secpP⟩⟩ : EcPoint) = some (⟨Bounded.Finite ⟨76492326435022593457109032906840314586595419299705002191405820035073916725430, secpP⟩, Bounded.Finite ⟨52712462544684042050659798408142998446211290189326915216568750458192003482817, secpP⟩, ⟨secpA, secpP⟩, ⟨secpB, secpP⟩⟩ : EcPoint) := by rfl
lemma c8dbl70 : ecAdd (⟨Bounded.Finite ⟨76492326435022593457109032906840314586595419299705002191405820035073916725430, secpP⟩, Bounded.Finite ⟨52712462544684042050659798408142998446211290189326915216568750458192003482817, secpP⟩, ⟨secpA, secpP⟩, ⟨secpB, secpP⟩⟩ : EcPoint) (⟨Bounded.Finite ⟨76492326435022593457109032906840314586595419299705002191405820035073916725430, secpP⟩, Bounded.Finite ⟨52712462544684042050659798408142998446211290189326915216568750458192003482817, secpP⟩, ⟨secpA, secpP⟩, ⟨secpB, secpP⟩⟩ : EcPoint) = some (⟨Bounded.Finite ⟨87459896917474640671961280404348939194085731117863029170554666522628858367860, secpP⟩, Bounded.Finite ⟨19748635217315891647321224482939896170227416763285583086520508401939213234176, secpP⟩, ⟨secpA, secpP⟩, ⟨secpB, secpP⟩⟩ : EcPoint) := by rfl
lemma c8dbl71 : ecAdd (⟨Bounded.Finite ⟨87459896917474640671961280404348939194085731117863029170554666522628858367860, secpP⟩, Bounded.Finite ⟨19748635217315891647321224482939896170227416763285583086520508401939213234176, secpP⟩, ⟨secpA, secpP⟩, ⟨secpB, secpP⟩⟩ : EcPoint) (⟨Bounded.Finite ⟨87459896917474640671961280404348939194085731117863029170554666522628858367860, secpP⟩, Bounded.Finite ⟨19748635217315891647321224482939896170227416763285583086520508401939213234176, secpP⟩, ⟨secpA, secpP⟩, ⟨secpB, secpP⟩⟩ : EcPoint) = some (⟨Bounded.Finite ⟨4199350326672760747807816527418159685216655440503240677878553304602602121738, secpP⟩, Bounded.Finite ⟨37834176166477149356292507688627259926034564110824553771704962901036071708041, secpP⟩, ⟨secpA, secpP⟩, ⟨secpB, secpP⟩⟩ : EcPoint) := by rfl
lemma c8dbl72 : ecAdd (⟨Bounded.Finite ⟨4199350326672760747807816527418159685216655440503240677878553304602602121738, secpP⟩, Bounded.Finite ⟨37834176166477149356292507688627259926034564110824553771704962901036071708041, secpP⟩, ⟨secpA, secpP⟩, ⟨secpB, secpP⟩⟩ : EcPoint) (⟨Bounded.Finite ⟨4199350326672760747807816527418159685216655440503240677878553304602602121738, secpP⟩, Bounded.Finite ⟨37834176166477149356292507688627259926034564110824553771704962901036071708041, secpP⟩, ⟨secpA, secpP⟩, ⟨secpB, secpP⟩⟩ : EcPoint) = some (⟨Bounded.Finite ⟨17451455565379830237189058882419931909327937825123020642064169531348745912330, secpP⟩, Bounded.Finite ⟨110851835063999899423756612638945142128964968911486626329802042725525613408346, secpP⟩, ⟨secpA, secpP⟩, ⟨secpB, secpP⟩⟩ : EcPoint) := by rfl
lemma c8dbl73 : ecAdd (⟨Bounded.Finite ⟨17451455565379830237189058882419931909327937825123020642064169531348745912330, secpP⟩, Bounded.Finite ⟨110851835063999899423756612638945142128964968911486626329802042725525613408346, secpP⟩, ⟨secpA, secpP⟩, ⟨secpB, secpP⟩⟩ : EcPoint) (⟨Bounded.Finite ⟨17451455565379830237189058882419931909327937825123020642064169531348745912330, secpP⟩, Bounded.Finite ⟨110851835063999899423756612638945142128964968911486626329802042725525613408346, secpP⟩, ⟨secpA, secpP⟩, ⟨secpB, secpP⟩⟩ : EcPoint) = some (⟨Bounded.Finite ⟨89639832565486215014541417774517172777425402823469120565037348938869913112470, secpP⟩, Bounded.Finite ⟨30572655366218421290699322537451162244586583424941183840353131006508265175422, secpP⟩, ⟨secpA, secpP⟩, ⟨secpB, secpP⟩⟩ : EcPoint) := by rfl
lemma c8dbl74 : ecAdd (⟨Bounded.Finite ⟨89639832565486215014541417774517172777425402823469120565037348938869913112470, secpP⟩, Bounded.Finite ⟨30572655366218421290699322537451162244586583424941183840353131006508265175422, secpP⟩, ⟨secpA, secpP⟩, ⟨secpB, secpP⟩⟩ : EcPoint) (⟨Bounded.Finite ⟨89639832565486215014541417774517172777425402823469120565037348938869913112470, secpP⟩, Bounded.Finite ⟨30572655366218421290699322537451162244586583424941183840353131006508265175422, secpP⟩, ⟨secpA, secpP⟩, ⟨secpB, secpP⟩⟩ : EcPoint) = some (⟨Bounded.Finite ⟨7442624616783078815918535545170738536276686106683368472213004009997925387451, secpP⟩, Bounded.Finite ⟨77751573448339894342899057498199969560748665539929390648020324044053699567908, secpP⟩, ⟨secpA, secpP⟩, ⟨secpB, secpP⟩⟩ : EcPoint) := by rfl
lemma c8dbl75 : ecAdd (⟨Bounded.Finite ⟨7442624616783078815918535545170738536276686106683368472213004009997925387451, secpP⟩, Bounded.Finite ⟨77751573448339894342899057498199969560748665539929390648020324044053699567908, secpP⟩, ⟨secpA, secpP⟩, ⟨secpB, secpP⟩⟩ : EcPoint) (⟨Bounded.Finite ⟨7442624616783078815918535545170738536276686106683368472213004009997925387451, secpP⟩, Bounded.Finite ⟨77751573448339894342899057498199969560748665539929390648020324044053699567908, secpP⟩, ⟨secpA, secpP⟩, ⟨secpB, secpP⟩⟩ : EcPoint) = some (⟨Bounded.Finite ⟨44497701670421232817550738477766131574027528256828192704387553796074849163496, secpP⟩, Bounded.Finite ⟨85115484315990908818625714664072075837750502822084508644932753849460649668119, secpP⟩, ⟨secpA, secpP⟩, ⟨secpB, secpP⟩⟩ : EcPoint) := by rfl
lemma c8dbl76 : ecAdd (⟨Bounded.Finite ⟨44497701670421232817550738477766131574027528256828192704387553796074849163496, secpP⟩, Bounded.Finite ⟨85115484315990908818625714664072075837750502822084508644932753849460649668119, secpP⟩, ⟨secpA, secpP⟩, ⟨secpB, secpP⟩⟩ : EcPoint) (⟨Bounded.Finite ⟨44497701670421232817550738477766131574027528256828192704387553796074849163496, secpP⟩, Bounded.Finite ⟨85115484315990908818625714664072075837750502822084508644932753849460649668119, secpP⟩, ⟨secpA, secpP⟩, ⟨secpB, secpP⟩⟩ : EcPoint) = some (⟨Bounded.Finite ⟨60540754330080069959401906198898450479294126639715413570889179042286485863469, secpP⟩, Bounded.Finite ⟨40065985632112285488262829097473122728635230343056068824717075042107181358448, secpP⟩, ⟨secpA, secpP⟩, ⟨secpB, secpP⟩⟩ : EcPoint) := by rfl
lemma c8acc77 : ecAdd (⟨Bounded.Finite ⟨25706115431223231104349502338425676760948233609524549927682567987735767988359, secpP⟩, Bounded.Finite ⟨86030344383075434546407535965820914874011898795760114264794801526033406629855, secpP⟩, ⟨secpA, secpP⟩, ⟨secpB, secpP⟩⟩ : EcPoint) (⟨Bounded.Finite ⟨60540754330080069959401906198898450479294126639715413570889179042286485863469, secpP⟩, Bounded.Finite ⟨40065985632112285488262829097473122728635230343056068824717075042107181358448, secpP⟩, ⟨secpA, secpP⟩, ⟨secpB, secpP⟩⟩ : EcPoint) = some (⟨Bounded.Finite ⟨73125825156308139294675747886866421016441910230119720499669894621285502251079, secpP⟩, Bounded.Finite ⟨19888432106953872326075255198634055088926467183450751775018780927964758097378, secpP⟩, ⟨secpA, secpP⟩, ⟨secpB, secpP⟩⟩ : EcPoint) := by rfl
lemma c8dbl77 : ecAdd (⟨Bounded.Finite ⟨60540754330080069959401906198898450479294126639715413570889179042286485863469, secpP⟩, Bounded.Finite ⟨40065985632112285488262829097473122728635230343056068824717075042107181358448, secpP⟩, ⟨secpA, secpP⟩, ⟨secpB, secpP⟩⟩ : EcPoint) (⟨Bounded.Finite ⟨60540754330080069959401906198898450479294126639715413570889179042286485863469, secpP⟩, Bounded.Finite ⟨40065985632112285488262829097473122728635230343056068824717075042107181358448, secpP⟩, ⟨secpA, secpP⟩, ⟨secpB, secpP⟩⟩ : EcPoint) = some (⟨Bounded.Finite ⟨64303414747220612283598620667555879428236715359485947560901082787102828757209, secpP⟩, Bounded.Finite ⟨106228226569454347670647985876151839080805653229947291906912035484638171537232, secpP⟩, ⟨secpA, secpP⟩, ⟨secpB, secpP⟩⟩ : EcPoint) := by rfl
lemma c8dbl78 : ecAdd (⟨Bounded.Finite ⟨64303414747220612283598620667555879428236715359485947560901082787102828757209, secpP⟩, Bounded.Finite ⟨106228226569454347670647985876151839080805653229947291906912035484638171537232, secpP⟩, ⟨secpA, secpP⟩, ⟨secpB, secpP⟩⟩ : EcPoint) (⟨Bounded.Finite ⟨64303414747220612283598620667555879428236715359485947560901082787102828757209, secpP⟩, Bounded.Finite ⟨106228226569454347670647985876151839080805653229947291906912035484638171537232, secpP⟩, ⟨secpA, secpP⟩, ⟨secpB, secpP⟩⟩ : EcPoint) = some (⟨Bounded.Finite ⟨53648153254893980119900785370237364158138815147385101116545069153555170288062, secpP⟩, Bounded.Finite ⟨34361801916858031928794980991103430340262038618413794433537084872221158631519, secpP⟩, ⟨secpA, secpP⟩, ⟨secpB, secpP⟩⟩ : EcPoint) := by rfl
lemma c8acc79 : ecAdd (⟨Bounded.Finite ⟨73125825156308139294675747886866421016441910230119720499669894621285502251079, secpP⟩, Bounded.Finite ⟨19888432106953872326075255198634055088926467183450751775018780927964758097378, secpP⟩, ⟨secpA, secpP⟩, ⟨secpB, secpP⟩⟩ : EcPoint) (⟨Bounded.Finite ⟨53648153254893980119900785370237364158138815147385101116545069153555170288062, secpP⟩, Bounded.Finite ⟨34361801916858031928794980991103430340262038618413794433537084872221158631519, secpP⟩, ⟨secpA, secpP⟩, ⟨secpB, secpP⟩⟩ : EcPoint) = some (⟨Bounded.Finite ⟨3799410324969024133081081695082414846245373966520493209198350038600691536914, secpP⟩, Bounded.Finite ⟨64590755570687246173876293161993570922670019950127150336867014279037138113218, secpP⟩, ⟨secpA, secpP⟩, ⟨secpB, secpP⟩⟩ : EcPoint) := by rfl
lemma c8dbl79 : ecAdd (⟨Bounded.Finite ⟨53648153254893980119900785370237364158138815147385101116545069153555170288062, secpP⟩, Bounded.Finite ⟨34361801916858031928794980991103430340262038618413794433537084872221158631519, secpP⟩, ⟨secpA, secpP⟩, ⟨secpB, secpP⟩⟩ : EcPoint) (⟨Bounded.Finite ⟨53648153254893980119900785370237364158138815147385101116545069153555170288062, secpP⟩, Bounded.Finite ⟨34361801916858031928794980991103430340262038618413794433537084872221158631519, secpP⟩, ⟨secpA, secpP⟩, ⟨secpB, secpP⟩⟩ : EcPoint) = some (⟨Bounded.Finite ⟨103585811642593135420456399622448891166663363501464111582343873522977792850477, secpP⟩, Bounded.Finite ⟨31409815155472435338582344935230131320197144774427706287861757740924066421722, secpP⟩, ⟨secpA, secpP⟩, ⟨secpB, secpP⟩⟩ : EcPoint) := by rfl
lemma c8dbl80 : ecAdd (⟨Bounded.Finite ⟨103585811642593135420456399622448891166663363501464111582343873522977792850477, secpP⟩, Bounded.Finite ⟨31409815155472435338582344935230131320197144774427706287861757740924066421722, secpP⟩, ⟨secpA, secpP⟩, ⟨secpB, secpP⟩⟩ : EcPoint) (⟨Bounded.Finite ⟨103585811642593135420456399622448891166663363501464111582343873522977792850477, secpP⟩, Bounded.Finite ⟨31409815155472435338582344935230131320197144774427706287861757740924066421722, secpP⟩, ⟨secpA, secpP⟩, ⟨secpB, secpP⟩⟩ : EcPoint) = some (⟨Bounded.Finite ⟨75027487913834453984361996105244344495268805009066851630705393620238615786735, secpP⟩, Bounded.Finite ⟨4325061896769276104913772732319997098916385262805927028161444887858874342220, secpP⟩, ⟨secpA, secpP⟩, ⟨secpB, secpP⟩⟩ : EcPoint) := by rfl
lemma c8dbl81 : ecAdd (⟨Bounded.Finite ⟨75027487913834453984361996105244344495268805009066851630705393620238615786735, secpP⟩, Bounded.Finite ⟨4325061896769276104913772732319997098916385262805927028161444887858874342220, secpP⟩, ⟨secpA, secpP⟩, ⟨secpB, secpP⟩⟩ : EcPoint) (⟨Bounded.Finite ⟨75027487913834453984361996105244344495268805009066851630705393620238615786735, secpP⟩, Bounded.Finite ⟨4325061896769276104913772732319997098916385262805927028161444887858874342220, secpP⟩, ⟨secpA, secpP⟩, ⟨secpB, secpP⟩⟩ : EcPoint) = some (⟨Bounded.Finite ⟨76702516343213003595855178542925743016592575440900459987979293581918663676498, secpP⟩, Bounded.Finite ⟨59169763974292048230483290348723286025776147993831754859145423822145515799140, secpP⟩, ⟨secpA, secpP⟩, ⟨secpB, secpP⟩⟩ : EcPoint) := by rfl
lemma c8dbl82 : ecAdd (⟨Bounded.Finite ⟨76702516343213003595855178542925743016592575440900459987979293581918663676498, secpP⟩, Bounded.Finite ⟨59169763974292048230483290348723286025776147993831754859145423822145515799140, secpP⟩, ⟨secpA, secpP⟩, ⟨secpB, secpP⟩⟩ : EcPoint) (⟨Bounded.Finite ⟨76702516343213003595855178542925743016592575440900459987979293581918663676498, secpP⟩, Bounded.Finite ⟨59169763974292048230483290348723286025776147993831754859145423822145515799140, secpP⟩, ⟨secpA, secpP⟩, ⟨secpB, secpP⟩⟩ : EcPoint) = some (⟨Bounded.Finite ⟨82065288257280364930681258037857029580600229348145328350024440340670179446551, secpP⟩, Bounded.Finite ⟨23027132854424541515521319202161519225460618376982276335759008484746030223405, secpP⟩, ⟨secpA, secpP⟩, ⟨secpB, secpP⟩⟩ : EcPoint) := by rfl
lemma c8acc83 : ecAdd (⟨Bounded.Finite ⟨3799410324969024133081081695082414846245373966520493209198350038600691536914, secpP⟩, Bounded.Finite ⟨64590755570687246173876293161993570922670019950127150336867014279037138113218, secpP⟩, ⟨secpA, secpP⟩, ⟨secpB, secpP⟩⟩ : EcPoint) (⟨Bounded.Finite ⟨82065288257280364930681258037857029580600229348145328350024440340670179446551, secpP⟩, Bounded.Finite ⟨23027132854424541515521319202161519225460618376982276335759008484746030223405, secpP⟩, ⟨secpA, secpP⟩, ⟨secpB, secpP⟩⟩ : EcPoint) = some (⟨Bounded.Finite ⟨36481107058847661184720422216126033568491719697437610972538970425171464994134, secpP⟩, Bounded.Finite ⟨59375892896459583478283107209861739188594974709872699287649203685554258936156, secpP⟩, ⟨secpA, secpP⟩, ⟨secpB, secpP⟩⟩ : EcPoint) := by rfl
lemma c8dbl83 : ecAdd (⟨Bounded.Finite ⟨82065288257280364930681258037857029580600229348145328350024440340670179446551, secpP⟩, Bounded.Finite ⟨23027132854424541515521319202161519225460618376982276335759008484746030223405, secpP⟩, ⟨secpA, secpP⟩, ⟨secpB, secpP⟩⟩ : EcPoint) (⟨Bounded.Finite ⟨82065288257280364930681258037857029580600229348145328350024440340670179446551, secpP⟩, Bounded.Finite ⟨23027132854424541515521319202161519225460618376982276335759008484746030223405, secpP⟩, ⟨secpA, secpP⟩, ⟨secpB, secpP⟩⟩ : EcPoint) = some (⟨Bounded.Finite ⟨101493787511861733029271951475039268072513144731938223971108244357658061891365, secpP⟩, Bounded.Finite ⟨55437542190981407452923664626193149136100172061209688271244666364673120940509, secpP⟩, ⟨secpA, secpP⟩, ⟨secpB, secpP⟩⟩ : EcPoint) := by rfl
lemma c8dbl84 : ecAdd (⟨Bounded.Finite ⟨101493787511861733029271951475039268072513144731938223971108244357658061891365, secpP⟩, Bounded.Finite ⟨55437542190981407452923664626193149136100172061209688271244666364673120940509, secpP⟩, ⟨secpA, secpP⟩, ⟨secpB, secpP⟩⟩ : EcPoint) (⟨Bounded.Finite ⟨101493787511861733029271951475039268072513144731938223971108244357658061891365, secpP⟩, Bounded.Finite ⟨55437542190981407452923664626193149136100172061209688271244666364673120940509, secpP⟩, ⟨secpA, secpP⟩, ⟨secpB, secpP⟩⟩ : EcPoint) = some (⟨Bounded.Finite ⟨6636410774506556864774005162061951749450537962799954397758090215581031792446, secpP⟩, Bounded.Finite ⟨33193850663848721154507883351096416412681014543344176760472364118972599175560, secpP⟩, ⟨secpA, secpP⟩, ⟨secpB, secpP⟩⟩ : EcPoint) := by rfl
lemma c8dbl85 : ecAdd (⟨Bounded.Finite ⟨6636410774506556864774005162061951749450537962799954397758090215581031792446, secpP⟩, Bounded.Finite ⟨33193850663848721154507883351096416412681014543344176760472364118972599175560, secpP⟩, ⟨secpA, secpP⟩, ⟨secpB, secpP⟩⟩ : EcPoint) (⟨Bounded.Finite ⟨6636410774506556864774005162061951749450537962799954397758090215581031792446, secpP⟩, Bounded.Finite ⟨33193850663848721154507883351096416412681014543344176760472364118972599175560, secpP⟩, ⟨secpA, secpP⟩, ⟨secpB, secpP⟩⟩ : EcPoint) = some (⟨Bounded.Finite ⟨97007893071212898831976542306925407114333944783774668033349973529691460445404, secpP⟩, Bounded.Finite ⟨18507121058431491916818312533740360825972223949528183085794866203720624591878, secpP⟩, ⟨secpA, secpP⟩, ⟨secpB, secpP⟩⟩ : EcPoint) := by rfl
lemma c8acc86 : ecAdd (⟨Bounded.Finite ⟨36481107058847661184720422216126033568491719697437610972538970425171464994134, secpP⟩, Bounded.Finite ⟨59375892896459583478283107209861739188594974709872699287649203685554258936156, secpP⟩, ⟨secpA, secpP⟩, ⟨secpB, secpP⟩⟩ : EcPoint) (⟨Bounded.Finite ⟨97007893071212898831976542306925407114333944783774668033349973529691460445404, secpP⟩, Bounded.Finite ⟨18507121058431491916818312533740360825972223949528183085794866203720624591878, secpP⟩, ⟨secpA, secpP⟩, ⟨secpB, secpP⟩⟩ : EcPoint) = some (⟨Bounded.Finite ⟨39167433951545998662469544307046456080123148394186949127521342155774454045112, secpP⟩, Bounded.Finite ⟨30298408788746136852882903631010855906662855042173128674647864287464037353913, secpP⟩, ⟨secpA, secpP⟩, ⟨secpB, secpP⟩⟩ : EcPoint) := by rfl
lemma c8dbl86 : ecAdd (⟨Bounded.Finite ⟨97007893071212898831976542306925407114333944783774668033349973529691460445404, secpP⟩, Bounded.Finite ⟨18507121058431491916818312533740360825972223949528183085794866203720624591878, secpP⟩, ⟨secpA, secpP⟩, ⟨secpB, secpP⟩⟩ : EcPoint) (⟨Bounded.Finite ⟨97007893071212898831976542306925407114333944783774668033349973529691460445404, secpP⟩, Bounded.Finite ⟨18507121058431491916818312533740360825972223949528183085794866203720624591878, secpP⟩, ⟨secpA, secpP⟩, ⟨secpB, secpP⟩⟩ : EcPoint) = some (⟨Bounded.Finite ⟨47579402496219589148753080604487008179301822313334601064657607711684826233267, secpP⟩, Bounded.Finite ⟨57448470377652821134170456021628327741101079070106580787911301709526093883982, secpP⟩, ⟨secpA, secpP⟩, ⟨secpB, secpP⟩⟩ : EcPoint) := by rfl
lemma c8dbl87 : ecAdd (⟨Bounded.Finite ⟨47579402496219589148753080604487008179301822313334601064657607711684826233267, secpP⟩, Bounded.Finite ⟨57448470377652821134170456021628327741101079070106580787911301709526093883982, secpP⟩, ⟨secpA, secpP⟩, ⟨secpB, secpP⟩⟩ : EcPoint) (⟨Bounded.Finite ⟨47579402496219589148753080604487008179301822313334601064657607711684826233267, secpP⟩, Bounded.Finite ⟨57448470377652821134170456021628327741101079070106580787911301709526093883982, secpP⟩, ⟨secpA, secpP⟩, ⟨secpB, secpP⟩⟩ : EcPoint) = some (⟨Bounded.Finite ⟨15033179896439470858126247808641765484544705738074160218957951164394937620308, secpP⟩, Bounded.Finite ⟨34117244282055289120898203738790815580918088000686828227920818069382230202610, secpP⟩, ⟨secpA, secpP⟩, ⟨secpB, secpP⟩⟩ : EcPoint) := by rfl
lemma c8acc88 : ecAdd (⟨Bounded.Finite ⟨39167433951545998662469544307046456080123148394186949127521342155774454045112, secpP⟩, Bounded.Finite ⟨30298408788746136852882903631010855906662855042173128674647864287464037353913, secpP⟩, ⟨secpA, secpP⟩, ⟨secpB, secpP⟩⟩ : EcPoint) (⟨Bounded.Finite ⟨15033179896439470858126247808641765484544705738074160218957951164394937620308, secpP⟩, Bounded.Finite ⟨34117244282055289120898203738790815580918088000686828227920818069382230202610, secpP⟩, ⟨secpA, secpP⟩, ⟨secpB, secpP⟩⟩ : EcPoint) = some (⟨Bounded.Finite ⟨47721097417240342851575869518307123551954077459667301577181113199159910028448, secpP⟩, Bounded.Finite ⟨52658075691142254803030327010985865064719216595411720435801443495674009399093, secpP⟩, ⟨secpA, secpP⟩, ⟨secpB, secpP⟩⟩ : EcPoint) := by rfl
lemma c8dbl88 : ecAdd (⟨Bounded.Finite ⟨15033179896439470858126247808641765484544705738074160218957951164394937620308, secpP⟩, Bounded.Finite ⟨34117244282055289120898203738790815580918088000686828227920818069382230202610, secpP⟩, ⟨secpA, secpP⟩, ⟨secpB, secpP⟩⟩ : EcPoint) (⟨Bounded.Finite ⟨15033179896439470858126247808641765484544705738074160218957951164394937620308, secpP⟩, Bounded.Finite ⟨34117244282055289120898203738790815580918088000686828227920818069382230202610, secpP⟩, ⟨secpA, secpP⟩, ⟨secpB, secpP⟩⟩ : EcPoint) = some (⟨Bounded.Finite ⟨12831426614286788027900392815123462940913304574075286993885122038414101217196, secpP⟩, Bounded.Finite ⟨36179658746250976381135601610242632021826214896264269021914509495791394149615, secpP⟩, ⟨secpA, secpP⟩, ⟨secpB, secpP⟩⟩ : EcPoint) := by rfl
lemma c8acc89 : ecAdd (⟨Bounded.Finite ⟨47721097417240342851575869518307123551954077459667301577181113199159910028448, secpP⟩, Bounded.Finite ⟨52658075691142254803030327010985865064719216595411720435801443495674009399093, secpP⟩, ⟨secpA, secpP⟩, ⟨secpB, secpP⟩⟩ : EcPoint) (⟨Bounded.Finite ⟨12831426614286788027900392815123462940913304574075286993885122038414101217196, secpP⟩, Bounded.Finite ⟨36179658746250976381135601610242632021826214896264269021914509495791394149615, secpP⟩, ⟨secpA, secpP⟩, ⟨secpB, secpP⟩⟩ : EcPoint) = some (⟨Bounded.Finite ⟨5974904400430543259455560848409761135828404883755769475812545840798994420626, secpP⟩, Bounded.Finite ⟨102402017295650327470724168950542695526850430255659426106274860509810802780367, secpP⟩, ⟨secpA, secpP⟩, ⟨secpB, secpP⟩⟩ : EcPoint) := by rfl
lemma c8dbl89 : ecAdd (⟨Bounded.Finite ⟨12831426614286788027900392815123462940913304574075286993885122038414101217196, secpP⟩, Bounded.Finite ⟨36179658746250976381135601610242632021826214896264269021914509495791394149615, secpP⟩, ⟨secpA, secpP⟩, ⟨secpB, secpP⟩⟩ : EcPoint) (⟨Bounded.Finite ⟨12831426614286788027900392815123462940913304574075286993885122038414101217196, secpP⟩, Bounded.Finite ⟨36179658746250976381135601610242632021826214896264269021914509495791394149615, secpP⟩, ⟨secpA, secpP⟩, ⟨secpB, secpP⟩⟩ : EcPoint) = some (⟨Bounded.Finite ⟨31731558888758314830347225402035966953019197198882726537928061332981883805116, secpP⟩, Bounded.Finite ⟨6359760100839187210073863293870527713027761135409961108195017073136576674018, secpP⟩, ⟨secpA, secpP⟩, ⟨secpB, secpP⟩⟩ : EcPoint) := by rfl
lemma c8acc90 : ecAdd (⟨Bounded.Finite ⟨5974904400430543259455560848409761135828404883755769475812545840798994420626, secpP⟩, Bounded.Finite ⟨102402017295650327470724168950542695526850430255659426106274860509810802780367, secpP⟩, ⟨secpA, secpP⟩, ⟨secpB, secpP⟩⟩ : EcPoint) (⟨Bounded.Finite ⟨31731558888758314830347225402035966953019197198882726537928061332981883805116, secpP⟩, Bounded.Finite ⟨6359760100839187210073863293870527713027761135409961108195017073136576674018, secpP⟩, ⟨secpA, secpP⟩, ⟨secpB, secpP⟩⟩ : EcPoint) = some (⟨Bounded.Finite ⟨5509577011086727080997845992373093152769990707708497256037145900212757718763, secpP⟩, Bounded.Finite ⟨33437607306713300453742465290808031932224959267266785803236743457017283421378, secpP⟩, ⟨secpA, secpP⟩, ⟨secpB, secpP⟩⟩ : EcPoint) := by rfl
lemma c8dbl90 : ecAdd (⟨Bounded.Finite ⟨31731558888758314830347225402035966953019197198882726537928061332981883805116, secpP⟩, Bounded.Finite ⟨6359760100839187210073863293870527713027761135409961108195017073136576674018, secpP⟩, ⟨secpA, secpP⟩, ⟨secpB, secpP⟩⟩ : EcPoint) (⟨Bounded.Finite ⟨31731558888758314830347225402035966953019197198882726537928061332981883805116, secpP⟩, Bounded.Finite ⟨6359760100839187210073863293870527713027761135409961108195017073136576674018, secpP⟩, ⟨secpA, secpP⟩, ⟨secpB, secpP⟩⟩ : EcPoint) = some (⟨Bounded.Finite ⟨108516937186382041812103670511048142301189499913949040064226297021918453104669, secpP⟩, Bounded.Finite ⟨77218777772268311707719666397699916259759523817816920080352731398095643624469, secpP⟩, ⟨secpA, secpP⟩, ⟨secpB, secpP⟩⟩ : EcPoint) := by rfl
lemma c8acc91 : ecAdd (⟨Bounded.Finite ⟨5509577011086727080997845992373093152769990707708497256037145900212757718763, secpP⟩, Bounded.Finite ⟨33437607306713300453742465290808031932224959267266785803236743457017283421378, secpP⟩, ⟨secpA, secpP⟩, ⟨secpB, secpP⟩⟩ : EcPoint) (⟨Bounded.Finite ⟨108516937186382041812103670511048142301189499913949040064226297021918453104669, secpP⟩, Bounded.Finite ⟨77218777772268311707719666397699916259759523817816920080352731398095643624469, secpP⟩, ⟨secpA, secpP⟩, ⟨secpB, secpP⟩⟩ : EcPoint) = some (⟨Bounded.Finite ⟨81498813144553065193277101791088765223666465594788231317695429763494990800161, secpP⟩, Bounded.Finite ⟨102578830382552685677753812882205076681221589676210636107665700206153835720334, secpP⟩, ⟨secpA, secpP⟩, ⟨secpB, secpP⟩⟩ : EcPoint) := by rfl
lemma c8dbl91 : ecAdd (⟨Bounded.Finite ⟨108516937186382041812103670511048142301189499913949040064226297021918453104669, secpP⟩, Bounded.Finite ⟨77218777772268311707719666397699916259759523817816920080352731398095643624469, secpP⟩, ⟨secpA, secpP⟩, ⟨secpB, secpP⟩⟩ : EcPoint) (⟨Bounded.Finite ⟨108516937186382041812103670511048142301189499913949040064226297021918453104669, secpP⟩, Bounded.Finite ⟨77218777772268311707719666397699916259759523817816920080352731398095643624469, secpP⟩, ⟨secpA, secpP⟩, ⟨secpB, secpP⟩⟩ : EcPoint) = some (⟨Bounded.Finite ⟨35499761538901346298861898883401367492089066355756477731651612619020269507900, secpP⟩, Bounded.Finite ⟨10609229642071556953120109475763397943884016840919846757331088165175050414822, secpP⟩, ⟨secpA, secpP⟩, ⟨secpB, secpP⟩⟩ : EcPoint) := by rfl
lemma c8dbl92 : ecAdd (⟨Bounded.Finite ⟨35499761538901346298861898883401367492089066355756477731651612619020269507900, secpP⟩, Bounded.Finite ⟨10609229642071556953120109475763397943884016840919846757331088165175050414822, secpP⟩, ⟨secpA, secpP⟩, ⟨secpB, secpP⟩⟩ : EcPoint) (⟨Bounded.Finite ⟨35499761538901346298861898883401367492089066355756477731651612619020269507900, secpP⟩, Bounded.Finite ⟨10609229642071556953120109475763397943884016840919846757331088165175050414822, secpP⟩, ⟨secpA, secpP⟩, ⟨secpB, secpP⟩⟩ : EcPoint) = some (⟨Bounded.Finite ⟨62221449722415965098534394864216300756619410467360193813993841802984909839181, secpP⟩, Bounded.Finite ⟨30612701817593165310829908596077980446317954217062442246601062375597549071147, secpP⟩, ⟨secpA, secpP⟩, ⟨secpB, secpP⟩⟩ : EcPoint) := by rfl
lemma c8acc93 : ecAdd (⟨Bounded.Finite ⟨81498813144553065193277101791088765223666465594788231317695429763494990800161, secpP⟩, Bounded.Finite ⟨102578830382552685677753812882205076681221589676210636107665700206153835720334, secpP⟩, ⟨secpA, secpP⟩, ⟨secpB, secpP⟩⟩ : EcPoint) (⟨Bounded.Finite ⟨62221449722415965098534394864216300756619410467360193813993841802984909839181, secpP⟩, Bounded.Finite ⟨30612701817593165310829908596077980446317954217062442246601062375597549071147, secpP⟩, ⟨secpA, secpP⟩, ⟨secpB, secpP⟩⟩ : EcPoint) = some (⟨Bounded.Finite ⟨82882321221271994761165685376483487612453422273385368815479594044555354887913, secpP⟩, Bounded.Finite ⟨35894132640904045101881577472630543914061150570585350050149732598924420865433, secpP⟩, ⟨secpA, secpP⟩, ⟨secpB, secpP⟩⟩ : EcPoint) := by rfl
lemma c8dbl93 : ecAdd (⟨Bounded.Finite ⟨62221449722415965098534394864216300756619410467360193813993841802984909839181, secpP⟩, Bounded.Finite ⟨30612701817593165310829908596077980446317954217062442246601062375597549071147, secpP⟩, ⟨secpA, secpP⟩, ⟨secpB, secpP⟩⟩ : EcPoint) (⟨Bounded.Finite ⟨62221449722415965098534394864216300756619410467360193813993841802984909839181, secpP⟩, Bounded.Finite ⟨30612701817593165310829908596077980446317954217062442246601062375597549071147, secpP⟩, ⟨secpA, secpP⟩, ⟨secpB, secpP⟩⟩ : EcPoint) = some (⟨Bounded.Finite ⟨47023343771514073333682842422673144869316327792644186859934319437403081634095, secpP⟩, Bounded.Finite ⟨83317154179385276448599698389111199063686628672572418790396772309007183470821, secpP⟩, ⟨secpA, secpP⟩, ⟨secpB, secpP⟩⟩ : EcPoint) := by rfl
lemma c8dbl94 : ecAdd (⟨Bounded.Finite ⟨47023343771514073333682842422673144869316327792644186859934319437403081634095, secpP⟩, Bounded.Finite ⟨83317154179385276448599698389111199063686628672572418790396772309007183470821, secpP⟩, ⟨secpA, secpP⟩, ⟨secpB, secpP⟩⟩ : EcPoint) (⟨Bounded.Finite ⟨47023343771514073333682842422673144869316327792644186859934319437403081634095, secpP⟩, Bounded.Finite ⟨83317154179385276448599698389111199063686628672572418790396772309007183470821, secpP⟩, ⟨secpA, secpP⟩, ⟨secpB, secpP⟩⟩ : EcPoint) = some (⟨Bounded.Finite ⟨22840966669343746868657542410372307235035375411707745900291535045354561578850, secpP⟩, Bounded.Finite ⟨80886292560052078022819942209443457651640717456431378184925170018374473757441, secpP⟩, ⟨secpA, secpP⟩, ⟨secpB, secpP⟩⟩ : EcPoint) := by rfl
lemma c8acc95 : ecAdd (⟨Bounded.Finite ⟨82882321221271994761165685376483487612453422273385368815479594044555354887913, secpP⟩, Bounded.Finite ⟨35894132640904045101881577472630543914061150570585350050149732598924420865433, secpP⟩, ⟨secpA, secpP⟩, ⟨secpB, secpP⟩⟩ : EcPoint) (⟨Bounded.Finite ⟨22840966669343746868657542410372307235035375411707745900291535045354561578850, secpP⟩, Bounded.Finite ⟨80886292560052078022819942209443457651640717456431378184925170018374473757441, secpP⟩, ⟨secpA, secpP⟩, ⟨secpB, secpP⟩⟩ : EcPoint) = some (⟨Bounded.Finite ⟨85822199919418065873158677931932224637840315064394798344509210798366262760486, secpP⟩, Bounded.Finite ⟨47043993167359473997990137877132683987732339713702799210771155580442464319499, secpP⟩, ⟨secpA, secpP⟩, ⟨secpB, secpP⟩⟩ : EcPoint) := by rfl
lemma c8dbl95 : ecAdd (⟨Bounded.Finite ⟨22840966669343746868657542410372307235035375411707745900291535045354561578850, secpP⟩, Bounded.Finite ⟨80886292560052078022819942209443457651640717456431378184925170018374473757441, secpP⟩, ⟨secpA, secpP⟩, ⟨secpB, secpP⟩⟩ : EcPoint) (⟨Bounded.Finite ⟨22840966669343746868657542410372307235035375411707745900291535045354561578850, secpP⟩, Bounded.Finite ⟨80886292560052078022819942209443457651640717456431378184925170018374473757441, secpP⟩, ⟨secpA, secpP⟩, ⟨secpB, secpP⟩⟩ : EcPoint) = some (⟨Bounded.Finite ⟨115183067000797961901920784023024616254245272923307973061240480176353201301430, secpP⟩, Bounded.Finite ⟨49763971281659542105744668679966078286699279184665337082856648066049033156975, secpP⟩, ⟨secpA, secpP⟩, ⟨secpB, secpP⟩⟩ : EcPoint) := by rfl
lemma c8dbl96 : ecAdd (⟨Bounded.Finite ⟨115183067000797961901920784023024616254245272923307973061240480176353201301430, secpP⟩, Bounded.Finite ⟨49763971281659542105744668679966078286699279184665337082856648066049033156975, secpP⟩, ⟨secpA, secpP⟩, ⟨secpB, secpP⟩⟩ : EcPoint) (⟨Bounded.Finite ⟨115183067000797961901920784023024616254245272923307973061240480176353201301430, secpP⟩, Bounded.Finite ⟨49763971281659542105744668679966078286699279184665337082856648066049033156975, secpP⟩, ⟨secpA, secpP⟩, ⟨secpB, secpP⟩⟩ : EcPoint) = some (⟨Bounded.Finite ⟨107460092490405557856637269383143137018363307684850226624646466770567328913124, secpP⟩, Bounded.Finite ⟨27927879468288414295198600435976090224174968562527111521940172877594627850158, secpP⟩, ⟨secpA, secpP⟩, ⟨secpB, secpP⟩⟩ : EcPoint) := by rfl
lemma c8acc97 : ecAdd (⟨Bounded.Finite ⟨85822199919418065873158677931932224637840315064394798344509210798366262760486, secpP⟩, Bounded.Finite ⟨47043993167359473997990137877132683987732339713702799210771155580442464319499, secpP⟩, ⟨secpA, secpP⟩, ⟨secpB, secpP⟩⟩ : EcPoint) (⟨Bounded.Finite ⟨107460092490405557856637269383143137018363307684850226624646466770567328913124, secpP⟩, Bounded.Finite ⟨27927879468288414295198600435976090224174968562527111521940172877594627850158, secpP⟩, ⟨secpA, secpP⟩, ⟨secpB, secpP⟩⟩ : EcPoint) = some (⟨Bounded.Finite ⟨36018791698582241120782688987973347775778125434698149796719209811558341468509, secpP⟩, Bounded.Finite ⟨96602876010518921436011014945987442948354913803632054205250383396029141753974, secpP⟩, ⟨secpA, secpP⟩, ⟨secpB, secpP⟩⟩ : EcPoint) := by rfl
lemma c8dbl97 : ecAdd (⟨Bounded.Finite ⟨107460092490405557856637269383143137018363307684850226624646466770567328913124, secpP⟩, Bounded.Finite ⟨27927879468288414295198600435976090224174968562527111521940172877594627850158, secpP⟩, ⟨secpA, secpP⟩, ⟨secpB, secpP⟩⟩ : EcPoint) (⟨Bounded.Finite ⟨107460092490405557856637269383143137018363307684850226624646466770567328913124, secpP⟩, Bounded.Finite ⟨27927879468288414295198600435976090224174968562527111521940172877594627850158, secpP⟩, ⟨secpA, secpP⟩, ⟨secpB, secpP⟩⟩ : EcPoint) = some (⟨Bounded.Finite ⟨18928961140921885700908658116849834750075223885003133432284077605308119970073, secpP⟩, Bounded.Finite ⟨57811541833390055306833565592598106401230808311112346834369084436570498753337, secpP⟩, ⟨secpA, secpP⟩, ⟨secpB, secpP⟩⟩ : EcPoint) := by rfl
lemma c8acc98 : ecAdd (⟨Bounded.Finite ⟨36018791698582241120782688987973347775778125434698149796719209811558341468509, secpP⟩, Bounded.Finite ⟨96602876010518921436011014945987442948354913803632054205250383396029141753974, secpP⟩, ⟨secpA, secpP⟩, ⟨secpB, secpP⟩⟩ : EcPoint) (⟨Bounded.Finite ⟨18928961140921885700908658116849834750075223885003133432284077605308119970073, secpP⟩, Bounded.Finite ⟨57811541833390055306833565592598106401230808311112346834369084436570498753337, secpP⟩, ⟨secpA, secpP⟩, ⟨secpB, secpP⟩⟩ : EcPoint) = some (⟨Bounded.Finite ⟨41111154781556033377440121874077527421315943697062380855736502909096841867206, secpP⟩, Bounded.Finite ⟨19896192142047753665974087407183447002805652795370305833366361894451278502736, secpP⟩, ⟨secpA, secpP⟩, ⟨secpB, secpP⟩⟩ : EcPoint) := by rfl
lemma c8dbl98 : ecAdd (⟨Bounded.Finite ⟨18928961140921885700908658116849834750075223885003133432284077605308119970073, secpP⟩, Bounded.Finite ⟨57811541833390055306833565592598106401230808311112346834369084436570498753337, secpP⟩, ⟨secpA, secpP⟩, ⟨secpB, secpP⟩⟩ : EcPoint) (⟨Bounded.Finite ⟨18928961140921885700908658116849834750075223885003133432284077605308119970073, secpP⟩, Bounded.Finite ⟨57811541833390055306833565592598106401230808311112346834369084436570498753337, secpP⟩, ⟨secpA, secpP⟩, ⟨secpB, secpP⟩⟩ : EcPoint) = some (⟨Bounded.Finite ⟨8331289978464196047324092750470018314791143098216854808915615772554507199633, secpP⟩, Bounded.Finite ⟨87592962133464766467334907348498449098375430086853996682723463167279731306372, secpP⟩, ⟨secpA, secpP⟩, ⟨secpB, secpP⟩⟩ : EcPoint) := by rfl
lemma c8dbl99 : ecAdd (⟨Bounded.Finite ⟨8331289978464196047324092750470018314791143098216854808915615772554507199633, secpP⟩, Bounded.Finite ⟨87592962133464766467334907348498449098375430086853996682723463167279731306372, secpP⟩, ⟨secpA, secpP⟩, ⟨secpB, secpP⟩⟩ : EcPoint) (⟨Bounded.Finite ⟨8331289978464196047324092750470018314791143098216854808915615772554507199633, secpP⟩, Bounded.Finite ⟨87592962133464766467334907348498449098375430086853996682723463167279731306372, secpP⟩, ⟨secpA, secpP⟩, ⟨secpB, secpP⟩⟩ : EcPoint) = some (⟨Bounded.Finite ⟨53779740109432100521872576345148245383728952983207835874526110853417815367225, secpP⟩, Bounded.Finite ⟨90939394492963130914544575569526310734855569061258844327812366475243930364929, secpP⟩, ⟨secpA, secpP⟩, ⟨secpB, secpP⟩⟩ : EcPoint) := by rfl
lemma c8dbl100 : ecAdd (⟨Bounded.Finite ⟨53779740109432100521872576345148245383728952983207835874526110853417815367225, secpP⟩, Bounded.Finite ⟨90939394492963130914544575569526310734855569061258844327812366475243930364929, secpP⟩, ⟨secpA, secpP⟩, ⟨secpB, secpP⟩⟩ : EcPoint) (⟨Bounded.Finite ⟨53779740109432100521872576345148245383728952983207835874526110853417815367225, secpP⟩, Bounded.Finite ⟨90939394492963130914544575569526310734855569061258844327812366475243930364929, secpP⟩, ⟨secpA, secpP⟩, ⟨secpB, secpP⟩⟩ : EcPoint) = some (⟨Bounded.Finite ⟨50903437175324684576123794325687091093316794895342376267022156508043454547877, secpP⟩, Bounded.Finite ⟨70349280139070181932538936546431771279420426752065163651109781251026950404544, secpP⟩, ⟨secpA, secpP⟩, ⟨secpB, secpP⟩⟩ : EcPoint) := by rfl
lemma c8acc101 : ecAdd (⟨Bounded.Finite ⟨41111154781556033377440121874077527421315943697062380855736502909096841867206, secpP⟩, Bounded.Finite ⟨19896192142047753665974087407183447002805652795370305833366361894451278502736, secpP⟩, ⟨secpA, secpP⟩, ⟨secpB, secpP⟩⟩ : EcPoint) (⟨Bounded.Finite ⟨50903437175324684576123794325687091093316794895342376267022156508043454547877, secpP⟩, Bounded.Finite ⟨70349280139070181932538936546431771279420426752065163651109781251026950404544, secpP⟩, ⟨secpA, secpP⟩, ⟨secpB, secpP⟩⟩ : EcPoint) = some (⟨Bounded.Finite ⟨70107473280607648069001123872136195111137548018812398968844687706317006207302, secpP⟩, Bounded.Finite ⟨61064251065141043117034600730541076400344949438238427304395638523020478236934, secpP⟩, ⟨secpA, secpP⟩, ⟨secpB, secpP⟩⟩ : EcPoint) := by rfl
lemma c8dbl101 : ecAdd (⟨Bounded.Finite ⟨50903437175324684576123794325687091093316794895342376267022156508043454547877, secpP⟩, Bounded.Finite ⟨70349280139070181932538936546431771279420426752065163651109781251026950404544, secpP⟩, ⟨secpA, secpP⟩, ⟨secpB, secpP⟩⟩ : EcPoint) (⟨Bounded.Finite ⟨50903437175324684576123794325687091093316794895342376267022156508043454547877, secpP⟩, Bounded.Finite ⟨70349280139070181932538936546431771279420426752065163651109781251026950404544, secpP⟩, ⟨secpA, secpP⟩, ⟨secpB, secpP⟩⟩ : EcPoint) = some (⟨Bounded.Finite ⟨11673581412764099021153615077620366366802304893369795243117390666352665359806, secpP⟩, Bounded.Finite ⟨18493885180880533479983549127533520654731835271435443031664047750964210440946, secpP⟩, ⟨secpA, secpP⟩, ⟨secpB, secpP⟩⟩ : EcPoint) := by rfl
lemma c8acc102 : ecAdd (⟨Bounded.Finite ⟨70107473280607648069001123872136195111137548018812398968844687706317006207302, secpP⟩, Bounded.Finite ⟨61064251065141043117034600730541076400344949438238427304395638523020478236934, secpP⟩, ⟨secpA, secpP⟩, ⟨secpB, secpP⟩⟩ : EcPoint) (⟨Bounded.Finite ⟨11673581412764099021153615077620366366802304893369795243117390666352665359806, secpP⟩, Bounded.Finite ⟨18493885180880533479983549127533520654731835271435443031664047750964210440946, secpP⟩, ⟨secpA, secpP⟩, ⟨secpB, secpP⟩⟩ : EcPoint) = some (⟨Bounded.Finite ⟨102080125537512830561429134257341642762801162083249309315826629272439682303930, secpP⟩, Bounded.Finite ⟨107247405574961466334473303157787794781972237839054603619594180612693970753467, secpP⟩, ⟨secpA, secpP⟩, ⟨secpB, secpP⟩⟩ : EcPoint) := by rfl
lemma c8dbl102 : ecAdd (⟨Bounded.Finite ⟨11673581412764099021153615077620366366802304893369795243117390666352665359806, secpP⟩, Bounded.Finite ⟨18493885180880533479983549127533520654731835271435443031664047750964210440946, secpP⟩, ⟨secpA, secpP⟩, ⟨secpB, secpP⟩⟩ : EcPoint) (⟨Bounded.Finite ⟨11673581412764099021153615077620366366802304893369795243117390666352665359806, secpP⟩, Bounded.Finite ⟨18493885180880533479983549127533520654731835271435443031664047750964210440946, secpP⟩, ⟨secpA, secpP⟩, ⟨secpB, secpP⟩⟩ : EcPoint) = some (⟨Bounded.Finite ⟨79346041630131869075645430486783108716991485536433518103538843150249487037416, secpP⟩, Bounded.Finite ⟨3399478885375643092936720555036030158803236931787480448997057703838011734762, secpP⟩, ⟨secpA, secpP⟩, ⟨secpB, secpP⟩⟩ : EcPoint) := by rfl
lemma c8acc103 : ecAdd (⟨Bounded.Finite ⟨102080125537512830561429134257341642762801162083249309315826629272439682303930, secpP⟩, Bounded.Finite ⟨107247405574961466334473303157787794781972237839054603619594180612693970753467, secpP⟩, ⟨secpA, secpP⟩, ⟨secpB, secpP⟩⟩ : EcPoint) (⟨Bounded.Finite ⟨79346041630131869075645430486783108716991485536433518103538843150249487037416, secpP⟩, Bounded.Finite ⟨3399478885375643092936720555036030158803236931787480448997057703838011734762, secpP⟩, ⟨secpA, secpP⟩, ⟨secpB, secpP⟩⟩ : EcPoint) = some (⟨Bounded.Finite ⟨94368376047009421717855463218318015560972492266809599892431797191812862745821, secpP⟩, Bounded.Finite ⟨67580342042135832441154392154495076586749938607000332644247005057394429881399, secpP⟩, ⟨secpA, secpP⟩, ⟨secpB, secpP⟩⟩ : EcPoint) := by rfl
lemma c8dbl103 : ecAdd (⟨Bounded.Finite ⟨79346041630131869075645430486783108716991485536433518103538843150249487037416, secpP⟩, Bounded.Finite ⟨3399478885375643092936720555036030158803236931787480448997057703838011734762, secpP⟩, ⟨secpA, secpP⟩, ⟨secpB, secpP⟩⟩ : EcPoint) (⟨Bounded.Finite ⟨79346041630131869075645430486783108716991485536433518103538843150249487037416, secpP⟩, Bounded.Finite ⟨3399478885375643092936720555036030158803236931787480448997057703838011734762, secpP⟩, ⟨secpA, secpP⟩, ⟨secpB, secpP⟩⟩ : EcPoint) = some (⟨Bounded.Finite ⟨90110562832831649967185144230038867070402237425213645393423897349775852026001, secpP⟩, Bounded.Finite ⟨62079424087973467789382713581435573708404480254567931314506333392316481045699, secpP⟩, ⟨secpA, secpP⟩, ⟨secpB, secpP⟩⟩ : EcPoint) := by rfl
lemma c8dbl104 : ecAdd (⟨Bounded.Finite ⟨90110562832831649967185144230038867070402237425213645393423897349775852026001, secpP⟩, Bounded.Finite ⟨62079424087973467789382713581435573708404480254567931314506333392316481045699, secpP⟩, ⟨secpA, secpP⟩, ⟨secpB, secpP⟩⟩ : EcPoint) (⟨Bounded.Finite ⟨90110562832831649967185144230038867070402237425213645393423897349775852026001, secpP⟩, Bounded.Finite ⟨62079424087973467789382713581435573708404480254567931314506333392316481045699, secpP⟩, ⟨secpA, secpP⟩, ⟨secpB, secpP⟩⟩ : EcPoint) = some (⟨Bounded.Finite ⟨38659527363743848181468463025813757193528718820669569569114028561419930348315, secpP⟩, Bounded.Finite ⟨104083246136889829683331969264423162114671872108616362771383171554424986219793, secpP⟩, ⟨secpA, secpP⟩, ⟨secpB, secpP⟩⟩ : EcPoint) := by rfl
lemma c8dbl105 : ecAdd (⟨Bounded.Finite ⟨38659527363743848181468463025813757193528718820669569569114028561419930348315, secpP⟩, Bounded.Finite ⟨104083246136889829683331969264423162114671872108616362771383171554424986219793, secpP⟩, ⟨secpA, secpP⟩, ⟨secpB, secpP⟩⟩ : EcPoint) (⟨Bounded.Finite ⟨38659527363743848181468463025813757193528718820669569569114028561419930348315, secpP⟩, Bounded.Finite ⟨104083246136889829683331969264423162114671872108616362771383171554424986219793, secpP⟩, ⟨secpA, secpP⟩, ⟨secpB, secpP⟩⟩ : EcPoint) = some (⟨Bounded.Finite ⟨32543944108095182552403308115282823595699487874750970784134326899018753076265, secpP⟩, Bounded.Finite ⟨32924494876951284146279766638563025708747643322813908934636585593423158017785, secpP⟩, ⟨secpA, secpP⟩, ⟨secpB, secpP⟩⟩ : EcPoint) := by rfl
lemma c8acc106 : ecAdd (⟨Bounded.Finite ⟨94368376047009421717855463218318015560972492266809599892431797191812862745821, secpP⟩, Bounded.Finite ⟨67580342042135832441154392154495076586749938607000332644247005057394429881399, secpP⟩, ⟨secpA, secpP⟩, ⟨secpB, secpP⟩⟩ : EcPoint) (⟨Bounded.Finite ⟨32543944108095182552403308115282823595699487874750970784134326899018753076265, secpP⟩, Bounded.Finite ⟨32924494876951284146279766638563025708747643322813908934636585593423158017785, secpP⟩, ⟨secpA, secpP⟩, ⟨secpB, secpP⟩⟩ : EcPoint) = some (⟨Bounded.Finite ⟨10321650696684694424956901291088654816318080924060828571726835953248311385544, secpP⟩, Bounded.Finite ⟨72708667601984235170927616181641316600362066063903614191606698601692852015347, secpP⟩, ⟨secpA, secpP⟩, ⟨secpB, secpP⟩⟩ : EcPoint) := by rfl
lemma c8dbl106 : ecAdd (⟨Bounded.Finite ⟨32543944108095182552403308115282823595699487874750970784134326899018753076265, secpP⟩, Bounded.Finite ⟨32924494876951284146279766638563025708747643322813908934636585593423158017785, secpP⟩, ⟨secpA, secpP⟩, ⟨secpB, secpP⟩⟩ : EcPoint) (⟨Bounded.Finite ⟨32543944108095182552403308115282823595699487874750970784134326899018753076265, secpP⟩, Bounded.Finite ⟨32924494876951284146279766638563025708747643322813908934636585593423158017785, secpP⟩, ⟨secpA, secpP⟩, ⟨secpB, secpP⟩⟩ : EcPoint) = some (⟨Bounded.Finite ⟨87183516938829948739214915672694597601526144237528747913079459935123543116507, secpP⟩, Bounded.Finite ⟨5210361221244717547856165246556020619071402127820810229408988718584663707749, secpP⟩, ⟨secpA, secpP⟩, ⟨secpB, secpP⟩⟩ : EcPoint) := by rfl
lemma c8acc107 : ecAdd (⟨Bounded.Finite ⟨10321650696684694424956901291088654816318080924060828571726835953248311385544, secpP⟩, Bounded.Finite ⟨72708667601984235170927616181641316600362066063903614191606698601692852015347, secpP⟩, ⟨secpA, secpP⟩, ⟨secpB, secpP⟩⟩ : EcPoint) (⟨Bounded.Finite ⟨87183516938829948739214915672694597601526144237528747913079459935123543116507, secpP⟩, Bounded.Finite ⟨5210361221244717547856165246556020619071402127820810229408988718584663707749, secpP⟩, ⟨secpA, secpP⟩, ⟨secpB, secpP⟩⟩ : EcPoint) = some (⟨Bounded.Finite ⟨110885102143344023004297714671567539084344995277262228798154482989829145471921, secpP⟩, Bounded.Finite ⟨48792966665433983021832836713700470855228821505406247609557161866405336250215, secpP⟩, ⟨secpA, secpP⟩, ⟨secpB, secpP⟩⟩ : EcPoint) := by rfl
lemma c8dbl107 : ecAdd (⟨Bounded.Finite ⟨87183516938829948739214915672694597601526144237528747913079459935123543116507, secpP⟩, Bounded.Finite ⟨5210361221244717547856165246556020619071402127820810229408988718584663707749, secpP⟩, ⟨secpA, secpP⟩, ⟨secpB, secpP⟩⟩ : EcPoint) (⟨Bounded.Finite ⟨87183516938829948739214915672694597601526144237528747913079459935123543116507, secpP⟩, Bounded.Finite ⟨5210361221244717547856165246556020619071402127820810229408988718584663707749, secpP⟩, ⟨secpA, secpP⟩, ⟨secpB, secpP⟩⟩ : EcPoint) = some (⟨Bounded.Finite ⟨97963514608391620515365258119340011983767027607182736209046173629563994030411, secpP⟩, Bounded.Finite ⟨115226106161721418677257600232626422670483402750299325766423254986581008554271, secpP⟩, ⟨secpA, secpP⟩, ⟨secpB, secpP⟩⟩ : EcPoint) := by rfl
lemma c8acc108 : ecAdd (⟨Bounded.Finite ⟨110885102143344023004297714671567539084344995277262228798154482989829145471921, secpP⟩, Bounded.Finite ⟨48792966665433983021832836713700470855228821505406247609557161866405336250215, secpP⟩, ⟨secpA, secpP⟩, ⟨secpB, secpP⟩⟩ : EcPoint) (⟨Bounded.Finite ⟨97963514608391620515365258119340011983767027607182736209046173629563994030411, secpP⟩, Bounded.Finite ⟨115226106161721418677257600232626422670483402750299325766423254986581008554271, secpP⟩, ⟨secpA, secpP⟩, ⟨secpB, secpP⟩⟩ : EcPoint) = some (⟨Bounded.Finite ⟨688280669162989546390772776013627019489387407390641084214463900619024372191, secpP⟩, Bounded.Finite ⟨31019324467414918607770553953778668153444018624350943437811339340649051573402, secpP⟩, ⟨secpA, secpP⟩, ⟨secpB, secpP⟩⟩ : EcPoint) := by rfl
lemma c8dbl108 : ecAdd (⟨Bounded.Finite ⟨97963514608391620515365258119340011983767027607182736209046173629563994030411, secpP⟩, Bounded.Finite ⟨115226106161721418677257600232626422670483402750299325766423254986581008554271, secpP⟩, ⟨secpA, secpP⟩, ⟨secpB, secpP⟩⟩ : EcPoint) (⟨Bounded.Finite ⟨97963514608391620515365258119340011983767027607182736209046173629563994030411, secpP⟩, Bounded.Finite ⟨115226106161721418677257600232626422670483402750299325766423254986581008554271, secpP⟩, ⟨secpA, secpP⟩, ⟨secpB, secpP⟩⟩ : EcPoint) = some (⟨Bounded.Finite ⟨114469486435796862354824725635274301733105436679732187907727741160909533840420, secpP⟩, Bounded.Finite ⟨15176610360357502916376731715182826626094867832295623397483794147117662068209, secpP⟩, ⟨secpA, secpP⟩, ⟨secpB, secpP⟩⟩ : EcPoint) := by rfl
lemma c8dbl109 : ecAdd (⟨Bounded.Finite ⟨114469486435796862354824725635274301733105436679732187907727741160909533840420, secpP⟩, Bounded.Finite ⟨15176610360357502916376731715182826626094867832295623397483794147117662068209, secpP⟩, ⟨secpA, secpP⟩, ⟨secpB, secpP⟩⟩ : EcPoint) (⟨Bounded.Finite ⟨114469486435796862354824725635274301733105436679732187907727741160909533840420, secpP⟩, Bounded.Finite ⟨15176610360357502916376731715182826626094867832295623397483794147117662068209, secpP⟩, ⟨secpA, secpP⟩, ⟨secpB, secpP⟩⟩ : EcPoint) = some (⟨Bounded.Finite ⟨98432034282390382237828948384540370085442598032656811937139102930236777548604, secpP⟩, Bounded.Finite ⟨24813777388505064074621970457041023547619648696034102349374362496379715467175, secpP⟩, ⟨secpA, secpP⟩, ⟨secpB, secpP⟩⟩ : EcPoint) := by rfl
lemma c8acc110 : ecAdd (⟨Bounded.Finite ⟨688280669162989546390772776013627019489387407390641084214463900619024372191, secpP⟩, Bounded.Finite ⟨31019324467414918607770553953778668153444018624350943437811339340649051573402, secpP⟩, ⟨secpA, secpP⟩, ⟨secpB, secpP⟩⟩ : EcPoint) (⟨Bounded.Finite ⟨98432034282390382237828948384540370085442598032656811937139102930236777548604, secpP⟩, Bounded.Finite ⟨24813777388505064074621970457041023547619648696034102349374362496379715467175, secpP⟩, ⟨secpA, secpP⟩, ⟨secpB, secpP⟩⟩ : EcPoint) = some (⟨Bounded.Finite ⟨55569353933861153981007938645731919034676101358716740918948668607947783287783, secpP⟩, Bounded.Finite ⟨102772542859727198188668425842571602963864943512156450408760577499799524206224, secpP⟩, ⟨secpA, secpP⟩, ⟨secpB, secpP⟩⟩ : EcPoint) := by rfl
lemma c8dbl110 : ecAdd (⟨Bounded.Finite ⟨98432034282390382237828948384540370085442598032656811937139102930236777548604, secpP⟩, Bounded.Finite ⟨24813777388505064074621970457041023547619648696034102349374362496379715467175, secpP⟩, ⟨secpA, secpP⟩, ⟨secpB, secpP⟩⟩ : EcPoint) (⟨Bounded.Finite ⟨98432034282390382237828948384540370085442598032656811937139102930236777548604, secpP⟩, Bounded.Finite ⟨24813777388505064074621970457041023547619648696034102349374362496379715467175, secpP⟩, ⟨secpA, secpP⟩, ⟨secpB, secpP⟩⟩ : EcPoint) = some (⟨Bounded.Finite ⟨1805616805351721617653443610838676066411318390548678811172302707980664066418, secpP⟩, Bounded.Finite ⟨29197166736887483563928586983131420527850770453920557715930559189098823391124, secpP⟩, ⟨secpA, secpP⟩, ⟨secpB, secpP⟩⟩ : EcPoint) := by rfl
lemma c8acc111 : ecAdd (⟨Bounded.Finite ⟨55569353933861153981007938645731919034676101358716740918948668607947783287783, secpP⟩, Bounded.Finite ⟨102772542859727198188668425842571602963864943512156450408760577499799524206224, secpP⟩, ⟨secpA, secpP⟩, ⟨secpB, secpP⟩⟩ : EcPoint) (⟨Bounded.Finite ⟨1805616805351721617653443610838676066411318390548678811172302707980664066418, secpP⟩, Bounded.Finite ⟨29197166736887483563928586983131420527850770453920557715930559189098823391124, secpP⟩, ⟨secpA, secpP⟩, ⟨secpB, secpP⟩⟩ : EcPoint) = some (⟨Bounded.Finite ⟨69583153015791561848491236522420332279446720326520150735477129200128611100578, secpP⟩, Bounded.Finite ⟨54442876088266950041552228116867279466264916861574397804557819670187343850859, secpP⟩, ⟨secpA, secpP⟩, ⟨secpB, secpP⟩⟩ : EcPoint) := by rfl
lemma c8dbl111 : ecAdd (⟨Bounded.Finite ⟨1805616805351721617653443610838676066411318390548678811172302707980664066418, secpP⟩, Bounded.Finite ⟨29197166736887483563928586983131420527850770453920557715930559189098823391124, secpP⟩, ⟨secpA, secpP⟩, ⟨secpB, secpP⟩⟩ : EcPoint) (⟨Bounded.Finite ⟨1805616805351721617653443610838676066411318390548678811172302707980664066418, secpP⟩, Bounded.Finite ⟨29197166736887483563928586983131420527850770453920557715930559189098823391124, secpP⟩, ⟨secpA, secpP⟩, ⟨secpB, secpP⟩⟩ : EcPoint) = some (⟨Bounded.Finite ⟨83611758343266467712438158213251624839283837284463888705796077990149381123587, secpP⟩, Bounded.Finite ⟨18101124850041158815009009485735144088925930424123803647507665853537289369319, secpP⟩, ⟨secpA, secpP⟩, ⟨secpB, secpP⟩⟩ : EcPoint) := by rfl
lemma c8dbl112 : ecAdd (⟨Bounded.Finite ⟨83611758343266467712438158213251624839283837284463888705796077990149381123587, secpP⟩, Bounded.Finite ⟨18101124850041158815009009485735144088925930424123803647507665853537289369319, secpP⟩, ⟨secpA, secpP⟩, ⟨secpB, secpP⟩⟩ : EcPoint) (⟨Bounded.Finite ⟨83611758343266467712438158213251624839283837284463888705796077990149381123587, secpP⟩, Bounded.Finite ⟨18101124850041158815009009485735144088925930424123803647507665853537289369319, secpP⟩, ⟨secpA, secpP⟩, ⟨secpB, secpP⟩⟩ : EcPoint) = some (⟨Bounded.Finite ⟨49398952861877205296964985511595482837454065472867773380651392793273881817706, secpP⟩, Bounded.Finite ⟨103456599417569656329743525842643406894367321159609200220648758243892831845501, secpP⟩, ⟨secpA, secpP⟩, ⟨secpB, secpP⟩⟩ : EcPoint) := by rfl
lemma c8acc113 : ecAdd (⟨Bounded.Finite ⟨69583153015791561848491236522420332279446720326520150735477129200128611100578, secpP⟩, Bounded.Finite ⟨54442876088266950041552228116867279466264916861574397804557819670187343850859, secpP⟩, ⟨secpA, secpP⟩, ⟨secpB, secpP⟩⟩ : EcPoint) (⟨Bounded.Finite ⟨49398952861877205296964985511595482837454065472867773380651392793273881817706, secpP⟩, Bounded.Finite ⟨103456599417569656329743525842643406894367321159609200220648758243892831845501, secpP⟩, ⟨secpA, secpP⟩, ⟨secpB, secpP⟩⟩ : EcPoint) = some (⟨Bounded.Finite ⟨19633159299856099907314563658736240791444294953890097332202432654822417141512, secpP⟩, Bounded.Finite ⟨67740373626039556911284018287362258285447810095435817077894444978733560769037, secpP⟩, ⟨secpA, secpP⟩, ⟨secpB, secpP⟩⟩ : EcPoint) := by rfl
lemma c8dbl113 : ecAdd (⟨Bounded.Finite ⟨49398952861877205296964985511595482837454065472867773380651392793273881817706, secpP⟩, Bounded.Finite ⟨103456599417569656329743525842643406894367321159609200220648758243892831845501, secpP⟩, ⟨secpA, secpP⟩, ⟨secpB, secpP⟩⟩ : EcPoint) (⟨Bounded.Finite ⟨49398952861877205296964985511595482837454065472867773380651392793273881817706, secpP⟩, Bounded.Finite ⟨103456599417569656329743525842643406894367321159609200220648758243892831845501, secpP⟩, ⟨secpA, secpP⟩, ⟨secpB, secpP⟩⟩ : EcPoint) = some (⟨Bounded.Finite ⟨26557021881017484338287109395067993477080269267457693436680348679906749635481, secpP⟩, Bounded.Finite ⟨84487769519853421430030359463214449378435630494204186353059369760950916380835, secpP⟩, ⟨secpA, secpP⟩, ⟨secpB, secpP⟩⟩ : EcPoint) := by rfl
lemma c8acc114 : ecAdd (⟨Bounded.Finite ⟨19633159299856099907314563658736240791444294953890097332202432654822417141512, secpP⟩, Bounded.Finite ⟨67740373626039556911284018287362258285447810095435817077894444978733560769037, secpP⟩, ⟨secpA, secpP⟩, ⟨secpB, secpP⟩⟩ : EcPoint) (⟨Bounded.Finite ⟨26557021881017484338287109395067993477080269267457693436680348679906749635481, secpP⟩, Bounded.Finite ⟨84487769519853421430030359463214449378435630494204186353059369760950916380835, secpP⟩, ⟨secpA, secpP⟩, ⟨secpB, secpP⟩⟩ : EcPoint) = some (⟨Bounded.Finite ⟨16646694601055444161462789274198939361644158325658382956372688880992905138311, secpP⟩, Bounded.Finite ⟨43713514400941308126797661227140820790297978254636241027532509696601361643237, secpP⟩, ⟨secpA, secpP⟩, ⟨secpB, secpP⟩⟩ : EcPoint) := by rfl
lemma c8dbl114 : ecAdd (⟨Bounded.Finite ⟨26557021881017484338287109395067993477080269267457693436680348679906749635481, secpP⟩, Bounded.Finite ⟨84487769519853421430030359463214449378435630494204186353059369760950916380835, secpP⟩, ⟨secpA, secpP⟩, ⟨secpB, secpP⟩⟩ : EcPoint) (⟨Bounded.Finite ⟨26557021881017484338287109395067993477080269267457693436680348679906749635481, secpP⟩, Bounded.Finite ⟨84487769519853421430030359463214449378435630494204186353059369760950916380835, secpP⟩, ⟨secpA, secpP⟩, ⟨secpB, secpP⟩⟩ : EcPoint) = some (⟨Bounded.Finite ⟨54910438115352124820925906331600651980234249876402837107104827961903280048346, secpP⟩, Bounded.Finite ⟨35080546347367598434982768185387546912732524650521251475529423425038042189569, secpP⟩, ⟨secpA, secpP⟩, ⟨secpB, secpP⟩⟩ : EcPoint) := by rfl
lemma c8acc115 : ecAdd (⟨Bounded.Finite ⟨16646694601055444161462789274198939361644158325658382956372688880992905138311, secpP⟩, Bounded.Finite ⟨43713514400941308126797661227140820790297978254636241027532509696601361643237, secpP⟩, ⟨secpA, secpP⟩, ⟨secpB, secpP⟩⟩ : EcPoint) (⟨Bounded.Finite ⟨54910438115352124820925906331600651980234249876402837107104827961903280048346, secpP⟩, Bounded.Finite ⟨35080546347367598434982768185387546912732524650521251475529423425038042189569, secpP⟩, ⟨secpA, secpP⟩, ⟨secpB, secpP⟩⟩ : EcPoint) = some (⟨Bounded.Finite ⟨57101222887932246968439371290112973346171902219944257147746332672280620593970, secpP⟩, Bounded.Finite ⟨22011996830761967843679676119411463408358998855302182680085434858533095036583, secpP⟩, ⟨secpA, secpP⟩, ⟨secpB, secpP⟩⟩ : EcPoint) := by rfl
lemma c8dbl115 : ecAdd (⟨Bounded.Finite ⟨54910438115352124820925906331600651980234249876402837107104827961903280048346, secpP⟩, Bounded.Finite ⟨35080546347367598434982768185387546912732524650521251475529423425038042189569, secpP⟩, ⟨secpA, secpP⟩, ⟨secpB, secpP⟩⟩ : EcPoint) (⟨Bounded.Finite ⟨54910438115352124820925906331600651980234249876402837107104827961903280048346, secpP⟩, Bounded.Finite ⟨35080546347367598434982768185387546912732524650521251475529423425038042189569, secpP⟩, ⟨secpA, secpP⟩, ⟨secpB, secpP⟩⟩ : EcPoint) = some (⟨Bounded.Finite ⟨104964699132307836705335251996858916554346905150414321329455806487577227222877, secpP⟩, Bounded.Finite ⟨108021264621442630025722058757308611603027665565497116827018930375054827580536, secpP⟩, ⟨secpA, secpP⟩, ⟨secpB, secpP⟩⟩ : EcPoint) := by rfl
lemma c8dbl116 : ecAdd (⟨Bounded.Finite ⟨104964699132307836705335251996858916554346905150414321329455806487577227222877, secpP⟩, Bounded.Finite ⟨108021264621442630025722058757308611603027665565497116827018930375054827580536, secpP⟩, ⟨secpA, secpP⟩, ⟨secpB, secpP⟩⟩ : EcPoint) (⟨Bounded.Finite ⟨104964699132307836705335251996858916554346905150414321329455806487577227222877, secpP⟩, Bounded.Finite ⟨108021264621442630025722058757308611603027665565497116827018930375054827580536, secpP⟩, ⟨secpA, secpP⟩, ⟨secpB, secpP⟩⟩ : EcPoint) = some (⟨Bounded.Finite ⟨30779593535010329084651325212930254896397289835007988481712809855381584203096, secpP⟩, Bounded.Finite ⟨75438522668351783504686245637900335802808862903871170538716693983846568968011, secpP⟩, ⟨secpA, secpP⟩, ⟨secpB, secpP⟩⟩ : EcPoint) := by rfl
lemma c8acc117 : ecAdd (⟨Bounded.Finite ⟨57101222887932246968439371290112973346171902219944257147746332672280620593970, secpP⟩, Bounded.Finite ⟨22011996830761967843679676119411463408358998855302182680085434858533095036583, secpP⟩, ⟨secpA, secpP⟩, ⟨secpB, secpP⟩⟩ : EcPoint) (⟨Bounded.Finite ⟨30779593535010329084651325212930254896397289835007988481712809855381584203096, secpP⟩, Bounded.Finite ⟨75438522668351783504686245637900335802808862903871170538716693983846568968011, secpP⟩, ⟨secpA, secpP⟩, ⟨secpB, secpP⟩⟩ : EcPoint) = some (⟨Bounded.Finite ⟨95944886742557707932362876789624879591893495467445214359084245806917774340757, secpP⟩, Bounded.Finite ⟨110751044278523775594571320869660721200928379381841027764964231195772728276770, secpP⟩, ⟨secpA, secpP⟩, ⟨secpB, secpP⟩⟩ : EcPoint) := by rfl
lemma c8dbl117 : ecAdd (⟨Bounded.Finite ⟨30779593535010329084651325212930254896397289835007988481712809855381584203096, secpP⟩, Bounded.Finite ⟨75438522668351783504686245637900335802808862903871170538716693983846568968011, secpP⟩, ⟨secpA, secpP⟩, ⟨secpB, secpP⟩⟩ : EcPoint) (⟨Bounded.Finite ⟨30779593535010329084651325212930254896397289835007988481712809855381584203096, secpP⟩, Bounded.Finite ⟨75438522668351783504686245637900335802808862903871170538716693983846568968011, secpP⟩, ⟨secpA, secpP⟩, ⟨secpB, secpP⟩⟩ : EcPoint) = some (⟨Bounded.Finite ⟨111531859894160106348996194269099060679947894846103401064923066647433585462032, secpP⟩, Bounded.Finite ⟨29241751855199681568367284518448893439960716762286924487213503019678103002705, secpP⟩, ⟨secpA, secpP⟩, ⟨secpB, secpP⟩⟩ : EcPoint) := by rfl
lemma c8dbl118 : ecAdd (⟨Bounded.Finite ⟨111531859894160106348996194269099060679947894846103401064923066647433585462032, secpP⟩, Bounded.Finite ⟨29241751855199681568367284518448893439960716762286924487213503019678103002705, secpP⟩, ⟨secpA, secpP⟩, ⟨secpB, secpP⟩⟩ : EcPoint) (⟨Bounded.Finite ⟨111531859894160106348996194269099060679947894846103401064923066647433585462032, secpP⟩, Bounded.Finite ⟨29241751855199681568367284518448893439960716762286924487213503019678103002705, secpP⟩, ⟨secpA, secpP⟩, ⟨secpB, secpP⟩⟩ : EcPoint) = some (⟨Bounded.Finite ⟨63066765102144977597923579437181551876011710207298597143023780209765509321725, secpP⟩, Bounded.Finite ⟨106007349317296939888635500379499007381281650903559653902304432927687101375981, secpP⟩, ⟨secpA, secpP⟩, ⟨secpB, secpP⟩⟩ : EcPoint) := by rfl
lemma c8acc119 : ecAdd (⟨Bounded.Finite ⟨95944886742557707932362876789624879591893495467445214359084245806917774340757, secpP⟩, Bounded.Finite ⟨110751044278523775594571320869660721200928379381841027764964231195772728276770, secpP⟩, ⟨secpA, secpP⟩, ⟨secpB, secpP⟩⟩ : EcPoint) (⟨Bounded.Finite ⟨63066765102144977597923579437181551876011710207298597143023780209765509321725, secpP⟩, Bounded.Finite ⟨106007349317296939888635500379499007381281650903559653902304432927687101375981, secpP⟩, ⟨secpA, secpP⟩, ⟨secpB, secpP⟩⟩ : EcPoint) = some (⟨Bounded.Finite ⟨54167007267059197045221945990254946807947280925068536125576886778329475540076, secpP⟩, Bounded.Finite ⟨72055959636406295061054909626683074948993352707213006551507980813796168229048, secpP⟩, ⟨secpA, secpP⟩, ⟨secpB, secpP⟩⟩ : EcPoint) := by rfl
lemma c8dbl119 : ecAdd (⟨Bounded.Finite ⟨63066765102144977597923579437181551876011710207298597143023780209765509321725, secpP⟩, Bounded.Finite ⟨106007349317296939888635500379499007381281650903559653902304432927687101375981, secpP⟩, ⟨secpA, secpP⟩, ⟨secpB, secpP⟩⟩ : EcPoint) (⟨Bounded.Finite ⟨63066765102144977597923579437181551876011710207298597143023780209765509321725, secpP⟩, Bounded.Finite ⟨106007349317296939888635500379499007381281650903559653902304432927687101375981, secpP⟩, ⟨secpA, secpP⟩, ⟨secpB, secpP⟩⟩ : EcPoint) = some (⟨Bounded.Finite ⟨73729489189146206306669255701359614973467519172738994441001234600131693731952, secpP⟩, Bounded.Finite ⟨52215583774525796109567946288556659634043653399932078971590626905269875474081, secpP⟩, ⟨secpA, secpP⟩, ⟨secpB, secpP⟩⟩ : EcPoint) := by rfl
lemma c8dbl120 : ecAdd (⟨Bounded.Finite ⟨73729489189146206306669255701359614973467519172738994441001234600131693731952, secpP⟩, Bounded.Finite ⟨52215583774525796109567946288556659634043653399932078971590626905269875474081, secpP⟩, ⟨secpA, secpP⟩, ⟨secpB, secpP⟩⟩ : EcPoint) (⟨Bounded.Finite ⟨73729489189146206306669255701359614973467519172738994441001234600131693731952, secpP⟩, Bounded.Finite ⟨52215583774525796109567946288556659634043653399932078971590626905269875474081, secpP⟩, ⟨secpA, secpP⟩, ⟨secpB, secpP⟩⟩ : EcPoint) = some (⟨Bounded.Finite ⟨18039326416892417753003755158326429558922487640705110383763721719977461130670, secpP⟩, Bounded.Finite ⟨22183031661069407114947469617732171225545226302519288081136966780058091537843, secpP⟩, ⟨secpA, secpP⟩, ⟨secpB, secpP⟩⟩ : EcPoint) := by rfl
lemma c8acc121 : ecAdd (⟨Bounded.Finite ⟨54167007267059197045221945990254946807947280925068536125576886778329475540076, secpP⟩, Bounded.Finite ⟨72055959636406295061054909626683074948993352707213006551507980813796168229048, secpP⟩, ⟨secpA, secpP⟩, ⟨secpB, secpP⟩⟩ : EcPoint) (⟨Bounded.Finite ⟨18039326416892417753003755158326429558922487640705110383763721719977461130670, secpP⟩, Bounded.Finite ⟨22183031661069407114947469617732171225545226302519288081136966780058091537843, secpP⟩, ⟨secpA, secpP⟩, ⟨secpB, secpP⟩⟩ : EcPoint) = some (⟨Bounded.Finite ⟨98860079765909358796142953988580893109144029840399878081833223424758478366643, secpP⟩, Bounded.Finite ⟨42863448657478433777088560299070653878760991519406980060740899145649261852062, secpP⟩, ⟨secpA, secpP⟩, ⟨secpB, secpP⟩⟩ : EcPoint) := by rfl
lemma c8dbl121 : ecAdd (⟨Bounded.Finite ⟨18039326416892417753003755158326429558922487640705110383763721719977461130670, secpP⟩, Bounded.Finite ⟨22183031661069407114947469617732171225545226302519288081136966780058091537843, secpP⟩, ⟨secpA, secpP⟩, ⟨secpB, secpP⟩⟩ : EcPoint) (⟨Bounded.Finite ⟨18039326416892417753003755158326429558922487640705110383763721719977461130670, secpP⟩, Bounded.Finite ⟨22183031661069407114947469617732171225545226302519288081136966780058091537843, secpP⟩, ⟨secpA, secpP⟩, ⟨secpB, secpP⟩⟩ : EcPoint) = some (⟨Bounded.Finite ⟨90043658892995399465363207869075768002289250211409595011736991935239142954926, secpP⟩, Bounded.Finite ⟨33195971463859634916825320647431346032578912048614106257629795755556424999572, secpP⟩, ⟨secpA, secpP⟩, ⟨secpB, secpP⟩⟩ : EcPoint) := by rfl
lemma c8dbl122 : ecAdd (⟨Bounded.Finite ⟨90043658892995399465363207869075768002289250211409595011736991935239142954926, secpP⟩, Bounded.Finite ⟨33195971463859634916825320647431346032578912048614106257629795755556424999572, secpP⟩, ⟨secpA, secpP⟩, ⟨secpB, secpP⟩⟩ : EcPoint) (⟨Bounded.Finite ⟨90043658892995399465363207869075768002289250211409595011736991935239142954926, secpP⟩, Bounded.Finite ⟨33195971463859634916825320647431346032578912048614106257629795755556424999572, secpP⟩, ⟨secpA, secpP⟩, ⟨secpB, secpP⟩⟩ : EcPoint) = some (⟨Bounded.Finite ⟨5420721428656512733924502511426114039091019723753927823327107920655123143427, secpP⟩, Bounded.Finite ⟨11458489637841101089267453881300170307046154505862838558859267626137645974850, secpP⟩, ⟨secpA, secpP⟩, ⟨secpB, secpP⟩⟩ : EcPoint) := by rfl
lemma c8acc123 : ecAdd (⟨Bounded.Finite ⟨98860079765909358796142953988580893109144029840399878081833223424758478366643, secpP⟩, Bounded.Finite ⟨42863448657478433777088560299070653878760991519406980060740899145649261852062, secpP⟩, ⟨secpA, secpP⟩, ⟨secpB, secpP⟩⟩ : EcPoint) (⟨Bounded.Finite ⟨5420721428656512733924502511426114039091019723753927823327107920655123143427, secpP⟩, Bounded.Finite ⟨11458489637841101089267453881300170307046154505862838558859267626137645974850, secpP⟩, ⟨secpA, secpP⟩, ⟨secpB, secpP⟩⟩ : EcPoint) = some (⟨Bounded.Finite ⟨42048476443960000607055303567932611428047936177544484184308593834997252715145, secpP⟩, Bounded.Finite ⟨73466656252853239349742406038788760723553339994741973797631739173712191992133, secpP⟩, ⟨secpA, secpP⟩, ⟨secpB, secpP⟩⟩ : EcPoint) := by rfl
lemma c8dbl123 : ecAdd (⟨Bounded.Finite ⟨5420721428656512733924502511426114039091019723753927823327107920655123143427, secpP⟩, Bounded.Finite ⟨11458489637841101089267453881300170307046154505862838558859267626137645974850, secpP⟩, ⟨secpA, secpP⟩, ⟨secpB, secpP⟩⟩ : EcPoint) (⟨Bounded.Finite ⟨5420721428656512733924502511426114039091019723753927823327107920655123143427, secpP⟩, Bounded.Finite ⟨11458489637841101089267453881300170307046154505862838558859267626137645974850, secpP⟩, ⟨secpA, secpP⟩, ⟨secpB, secpP⟩⟩ : EcPoint) = some (⟨Bounded.Finite ⟨65439637510807713056358030282940995565074807966223863057633547322884310978260, secpP⟩, Bounded.Finite ⟨6474571117676685817754405485757825849845707811112126411536249919905291235664, secpP⟩, ⟨secpA, secpP⟩, ⟨secpB, secpP⟩⟩ : EcPoint) := by rfl
lemma c8acc124 : ecAdd (⟨Bounded.Finite ⟨42048476443960000607055303567932611428047936177544484184308593834997252715145, secpP⟩, Bounded.Finite ⟨73466656252853239349742406038788760723553339994741973797631739173712191992133, secpP⟩, ⟨secpA, secpP⟩, ⟨secpB, secpP⟩⟩ : EcPoint) (⟨Bounded.Finite ⟨65439637510807713056358030282940995565074807966223863057633547322884310978260, secpP⟩, Bounded.Finite ⟨6474571117676685817754405485757825849845707811112126411536249919905291235664, secpP⟩, ⟨secpA, secpP⟩, ⟨secpB, secpP⟩⟩ : EcPoint) = some (⟨Bounded.Finite ⟨40808566356087706713890706648386103099378437079371712127830451490467855389508, secpP⟩, Bounded.Finite ⟨105414085726370355741499668926251975606631447663687793963451501913713607085511, secpP⟩, ⟨secpA, secpP⟩, ⟨secpB, secpP⟩⟩ : EcPoint) := by rfl
lemma c8dbl124 : ecAdd (⟨Bounded.Finite ⟨65439637510807713056358030282940995565074807966223863057633547322884310978260, secpP⟩, Bounded.Finite ⟨6474571117676685817754405485757825849845707811112126411536249919905291235664, secpP⟩, ⟨secpA, secpP⟩, ⟨secpB, secpP⟩⟩ : EcPoint) (⟨Bounded.Finite ⟨65439637510807713056358030282940995565074807966223863057633547322884310978260, secpP⟩, Bounded.Finite ⟨6474571117676685817754405485757825849845707811112126411536249919905291235664, secpP⟩, ⟨secpA, secpP⟩, ⟨secpB, secpP⟩⟩ : EcPoint) = some (⟨Bounded.Finite ⟨57070623766206825319979971604352341937693971268571462200885005684041460744529, secpP⟩, Bounded.Finite ⟨65294641003401362594966851216569681914884202591426370350835007421691752226503, secpP⟩, ⟨secpA, secpP⟩, ⟨secpB, secpP⟩⟩ : EcPoint) := by rfl
lemma c8acc125 : ecAdd (⟨Bounded.Finite ⟨40808566356087706713890706648386103099378437079371712127830451490467855389508, secpP⟩, Bounded.Finite ⟨105414085726370355741499668926251975606631447663687793963451501913713607085511, secpP⟩, ⟨secpA, secpP⟩, ⟨secpB, secpP⟩⟩ : EcPoint) (⟨Bounded.Finite ⟨57070623766206825319979971604352341937693971268571462200885005684041460744529, secpP⟩, Bounded.Finite ⟨65294641003401362594966851216569681914884202591426370350835007421691752226503, secpP⟩, ⟨secpA, secpP⟩, ⟨secpB, secpP⟩⟩ : EcPoint) = some (⟨Bounded.Finite ⟨56288351935501938235309378627037995070659666184532694594320684497895417783803, secpP⟩, Bounded.Finite ⟨87057618380663887317286822613056874715224314213166279024992080230242765618114, secpP⟩, ⟨secpA, secpP⟩, ⟨secpB, secpP⟩⟩ : EcPoint) := by rfl
lemma c8dbl125 : ecAdd (⟨Bounded.Finite ⟨57070623766206825319979971604352341937693971268571462200885005684041460744529, secpP⟩, Bounded.Finite ⟨65294641003401362594966851216569681914884202591426370350835007421691752226503, secpP⟩, ⟨secpA, secpP⟩, ⟨secpB, secpP⟩⟩ : EcPoint) (⟨Bounded.Finite ⟨57070623766206825319979971604352341937693971268571462200885005684041460744529, secpP⟩, Bounded.Finite ⟨65294641003401362594966851216569681914884202591426370350835007421691752226503, secpP⟩, ⟨secpA, secpP⟩, ⟨secpB, secpP⟩⟩ : EcPoint) = some (⟨Bounded.Finite ⟨72947739749743623666767893079604022957810777496958067665094811548956867552663, secpP⟩, Bounded.Finite ⟨74931287229039237066253562221237323976647082407514979153759017931296701314826, secpP⟩, ⟨secpA, secpP⟩, ⟨secpB, secpP⟩⟩ : EcPoint) := by rfl
lemma c8dbl126 : ecAdd (⟨Bounded.Finite ⟨72947739749743623666767893079604022957810777496958067665094811548956867552663, secpP⟩, Bounded.Finite ⟨74931287229039237066253562221237323976647082407514979153759017931296701314826, secpP⟩, ⟨secpA, secpP⟩, ⟨secpB, secpP⟩⟩ : EcPoint) (⟨Bounded.Finite ⟨72947739749743623666767893079604022957810777496958067665094811548956867552663, secpP⟩, Bounded.Finite ⟨74931287229039237066253562221237323976647082407514979153759017931296701314826, secpP⟩, ⟨secpA, secpP⟩, ⟨secpB, secpP⟩⟩ : EcPoint) = some (⟨Bounded.Finite ⟨95120790446093252839327344452467895851663435942220974758177611352160193500228, secpP⟩, Bounded.Finite ⟨40252511218087247830580930812776238463499994792031801540758272438053921180247, secpP⟩, ⟨secpA, secpP⟩, ⟨secpB, secpP⟩⟩ : EcPoint) := by rfl
lemma c8acc127 : ecAdd (⟨Bounded.Finite ⟨56288351935501938235309378627037995070659666184532694594320684497895417783803, secpP⟩, Bounded.Finite ⟨87057618380663887317286822613056874715224314213166279024992080230242765618114, secpP⟩, ⟨secpA, secpP⟩, ⟨secpB, secpP⟩⟩ : EcPoint) (⟨Bounded.Finite ⟨95120790446093252839327344452467895851663435942220974758177611352160193500228, secpP⟩, Bounded.Finite ⟨40252511218087247830580930812776238463499994792031801540758272438053921180247, secpP⟩, ⟨secpA, secpP⟩, ⟨secpB, secpP⟩⟩ : EcPoint) = some (⟨Bounded.Finite ⟨32256737403791914686372586254330362595305275169830061794707745295581356675058, secpP⟩, Bounded.Finite ⟨81527510300654142997208084696556813307392657339414968740384212117171109925658, secpP⟩, ⟨secpA, secpP⟩, ⟨secpB, secpP⟩⟩ : EcPoint) := by rfl
lemma c8dbl127 : ecAdd (⟨Bounded.Finite ⟨95120790446093252839327344452467895851663435942220974758177611352160193500228, secpP⟩, Bounded.Finite ⟨40252511218087247830580930812776238463499994792031801540758272438053921180247, secpP⟩, ⟨secpA, secpP⟩, ⟨secpB, secpP⟩⟩ : EcPoint) (⟨Bounded.Finite ⟨95120790446093252839327344452467895851663435942220974758177611352160193500228, secpP⟩, Bounded.Finite ⟨40252511218087247830580930812776238463499994792031801540758272438053921180247, secpP⟩, ⟨secpA, secpP⟩, ⟨secpB, secpP⟩⟩ : EcPoint) = some (⟨Bounded.Finite ⟨64865771952738249789114440545196421582918768733599534045195125031385885360346, secpP⟩, Bounded.Finite ⟨46211216742671250426576585530459394900178019437443360579906162037052661563266, secpP⟩, ⟨secpA, secpP⟩, ⟨secpB, secpP⟩⟩ : EcPoint) := by rfl
lemma c8dbl128 : ecAdd (⟨Bounded.Finite ⟨64865771952738249789114440545196421582918768733599534045195125031385885360346, secpP⟩, Bounded.Finite ⟨46211216742671250426576585530459394900178019437443360579906162037052661563266, secpP⟩, ⟨secpA, secpP⟩, ⟨secpB, secpP⟩⟩ : EcPoint) (⟨Bounded.Finite ⟨64865771952738249789114440545196421582918768733599534045195125031385885360346, secpP⟩, Bounded.Finite ⟨46211216742671250426576585530459394900178019437443360579906162037052661563266, secpP⟩, ⟨secpA, secpP⟩, ⟨secpB, secpP⟩⟩ : EcPoint) = some (⟨Bounded.Finite ⟨34958276914040952500699582748843894357474821914666173518868387777824232206454, secpP⟩, Bounded.Finite ⟨92814217969284136468346182500006122495187572087944979217112043851363214063646, secpP⟩, ⟨secpA, secpP⟩, ⟨secpB, secpP⟩⟩ : EcPoint) := by rfl
lemma c8acc129 : ecAdd (⟨Bounded.Finite ⟨32256737403791914686372586254330362595305275169830061794707745295581356675058, secpP⟩, Bounded.Finite ⟨81527510300654142997208084696556813307392657339414968740384212117171109925658, secpP⟩, ⟨secpA, secpP⟩, ⟨secpB, secpP⟩⟩ : EcPoint) (⟨Bounded.Finite ⟨34958276914040952500699582748843894357474821914666173518868387777824232206454, secpP⟩, Bounded.Finite ⟨92814217969284136468346182500006122495187572087944979217112043851363214063646, secpP⟩, ⟨secpA, secpP⟩, ⟨secpB, secpP⟩⟩ : EcPoint) = some (⟨Bounded.Finite ⟨91741821106593624285097037099343471848474224858941232879131869967755051054218, secpP⟩, Bounded.Finite ⟨71021452885563151057532052504329181705099633460022030837729546140481449972497, secpP⟩, ⟨secpA, secpP⟩, ⟨secpB, secpP⟩⟩ : EcPoint) := by rfl
lemma c8dbl129 : ecAdd (⟨Bounded.Finite ⟨34958276914040952500699582748843894357474821914666173518868387777824232206454, secpP⟩, Bounded.Finite ⟨92814217969284136468346182500006122495187572087944979217112043851363214063646, secpP⟩, ⟨secpA, secpP⟩, ⟨secpB, secpP⟩⟩ : EcPoint) (⟨Bounded.Finite ⟨34958276914040952500699582748843894357474821914666173518868387777824232206454, secpP⟩, Bounded.Finite ⟨92814217969284136468346182500006122495187572087944979217112043851363214063646, secpP⟩, ⟨secpA, secpP⟩, ⟨secpB, secpP⟩⟩ : EcPoint) = some (⟨Bounded.Finite ⟨53097865109432700015174734468294135156387483155245154627764610227234210717734, secpP⟩, Bounded.Finite ⟨87675404738916139099090938273911264414778058285600924992648328889621933853939, secpP⟩, ⟨secpA, secpP⟩, ⟨secpB, secpP⟩⟩ : EcPoint) := by rfl
lemma c8acc130 : ecAdd (⟨Bounded.Finite ⟨91741821106593624285097037099343471848474224858941232879131869967755051054218, secpP⟩, Bounded.Finite ⟨71021452885563151057532052504329181705099633460022030837729546140481449972497, secpP⟩, ⟨secpA, secpP⟩, ⟨secpB, secpP⟩⟩ : EcPoint) (⟨Bounded.Finite ⟨53097865109432700015174734468294135156387483155245154627764610227234210717734, secpP⟩, Bounded.Finite ⟨87675404738916139099090938273911264414778058285600924992648328889621933853939, secpP⟩, ⟨secpA, secpP⟩, ⟨secpB, secpP⟩⟩ : EcPoint) = some (⟨Bounded.Finite ⟨876047637419442076877020655258504368469881489828225470144032574576745391356, secpP⟩, Bounded.Finite ⟨54113812953787505085983237446334027288636341582549712045131730722239023266017, secpP⟩, ⟨secpA, secpP⟩, ⟨secpB, secpP⟩⟩ : EcPoint) := by rfl
lemma c8dbl130 : ecAdd (⟨Bounded.Finite ⟨53097865109432700015174734468294135156387483155245154627764610227234210717734, secpP⟩, Bounded.Finite ⟨87675404738916139099090938273911264414778058285600924992648328889621933853939, secpP⟩, ⟨secpA, secpP⟩, ⟨secpB, secpP⟩⟩ : EcPoint) (⟨Bounded.Finite ⟨53097865109432700015174734468294135156387483155245154627764610227234210717734, secpP⟩, Bounded.Finite ⟨87675404738916139099090938273911264414778058285600924992648328889621933853939, secpP⟩, ⟨secpA, secpP⟩, ⟨secpB, secpP⟩⟩ : EcPoint) = some (⟨Bounded.Finite ⟨14944996539173920287535718879437473208319387726469358424706553507748318061176, secpP⟩, Bounded.Finite ⟨46613147883270029947538528514141525607759085017677379708440701301821571539505, secpP⟩, ⟨secpA, secpP⟩, ⟨secpB, secpP⟩⟩ : EcPoint) := by rfl
lemma c8acc131 : ecAdd (⟨Bounded.Finite ⟨876047637419442076877020655258504368469881489828225470144032574576745391356, secpP⟩, Bounded.Finite ⟨54113812953787505085983237446334027288636341582549712045131730722239023266017, secpP⟩, ⟨secpA, secpP⟩, ⟨secpB, secpP⟩⟩ : EcPoint) (⟨Bounded.Finite ⟨14944996539173920287535718879437473208319387726469358424706553507748318061176, secpP⟩, Bounded.Finite ⟨46613147883270029947538528514141525607759085017677379708440701301821571539505, secpP⟩, ⟨secpA, secpP⟩, ⟨secpB, secpP⟩⟩ : EcPoint) = some (⟨Bounded.Finite ⟨41292388911594828841688755398275203008656246181806000113850535655350608353168, secpP⟩, Bounded.Finite ⟨68146070699127177379784201658310604544291547352561072875698030897747232922273, secpP⟩, ⟨secpA, secpP⟩, ⟨secpB, secpP⟩⟩ : EcPoint) := by rfl
lemma c8dbl131 : ecAdd (⟨Bounded.Finite ⟨14944996539173920287535718879437473208319387726469358424706553507748318061176, secpP⟩, Bounded.Finite ⟨46613147883270029947538528514141525607759085017677379708440701301821571539505, secpP⟩, ⟨secpA, secpP⟩, ⟨secpB, secpP⟩⟩ : EcPoint) (⟨Bounded.Finite ⟨14944996539173920287535718879437473208319387726469358424706553507748318061176, secpP⟩, Bounded.Finite ⟨46613147883270029947538528514141525607759085017677379708440701301821571539505, secpP⟩, ⟨secpA, secpP⟩, ⟨secpB, secpP⟩⟩ : EcPoint) = some (⟨Bounded.Finite ⟨103558405691517931349553446884579863115096122592891559643307293876412976668177, secpP⟩, Bounded.Finite ⟨13744988175479693349153508932944119281940564264745175840075269177938566411196, secpP⟩, ⟨secpA, secpP⟩, ⟨secpB, secpP⟩⟩ : EcPoint) := by rfl
lemma c8acc132 : ecAdd (⟨Bounded.Finite ⟨41292388911594828841688755398275203008656246181806000113850535655350608353168, secpP⟩, Bounded.Finite ⟨68146070699127177379784201658310604544291547352561072875698030897747232922273, secpP⟩, ⟨secpA, secpP⟩, ⟨secpB, secpP⟩⟩ : EcPoint) (⟨Bounded.Finite ⟨103558405691517931349553446884579863115096122592891559643307293876412976668177, secpP⟩, Bounded.Finite ⟨13744988175479693349153508932944119281940564264745175840075269177938566411196, secpP⟩, ⟨secpA, secpP⟩, ⟨secpB, secpP⟩⟩ : EcPoint) = some (⟨Bounded.Finite ⟨56815726206465773808453127650822173850241926431943623033908133580612678261480, secpP⟩, Bounded.Finite ⟨86962078245404183196586729986131155699056121032963089479802907931919241014479, secpP⟩, ⟨secpA, secpP⟩, ⟨secpB, secpP⟩⟩ : EcPoint) := by rfl
lemma c8dbl132 : ecAdd (⟨Bounded.Finite ⟨103558405691517931349553446884579863115096122592891559643307293876412976668177, secpP⟩, Bounded.Finite ⟨13744988175479693349153508932944119281940564264745175840075269177938566411196, secpP⟩, ⟨secpA, secpP⟩, ⟨secpB, secpP⟩⟩ : EcPoint) (⟨Bounded.Finite ⟨103558405691517931349553446884579863115096122592891559643307293876412976668177, secpP⟩, Bounded.Finite ⟨13744988175479693349153508932944119281940564264745175840075269177938566411196, secpP⟩, ⟨secpA, secpP⟩, ⟨secpB, secpP⟩⟩ : EcPoint) = some (⟨Bounded.Finite ⟨34009678302028016429416675792156881929217167215919330167617059558107204398895, secpP⟩, Bounded.Finite ⟨52818492011674921634940119787779214367302340414675558363211486292657494734263, secpP⟩, ⟨secpA, secpP⟩, ⟨secpB, secpP⟩⟩ : EcPoint) := by rfl
lemma c8acc133 : ecAdd (⟨Bounded.Finite ⟨56815726206465773808453127650822173850241926431943623033908133580612678261480, secpP⟩, Bounded.Finite ⟨86962078245404183196586729986131155699056121032963089479802907931919241014479, secpP⟩, ⟨secpA, secpP⟩, ⟨secpB, secpP⟩⟩ : EcPoint) (⟨Bounded.Finite ⟨34009678302028016429416675792156881929217167215919330167617059558107204398895, secpP⟩, Bounded.Finite ⟨52818492011674921634940119787779214367302340414675558363211486292657494734263, secpP⟩, ⟨secpA, secpP⟩, ⟨secpB, secpP⟩⟩ : EcPoint) = some (⟨Bounded.Finite ⟨23220893035889910636946805781344549261675078085456573395822142317137928410713, secpP⟩, Bounded.Finite ⟨57621796455599442197045009877404664212419187530914025935630953433489442579002, secpP⟩, ⟨secpA, secpP⟩, ⟨secpB, secpP⟩⟩ : EcPoint) := by rfl
lemma c8dbl133 : ecAdd (⟨Bounded.Finite ⟨34009678302028016429416675792156881929217167215919330167617059558107204398895, secpP⟩, Bounded.Finite ⟨52818492011674921634940119787779214367302340414675558363211486292657494734263, secpP⟩, ⟨secpA, secpP⟩, ⟨secpB, secpP⟩⟩ : EcPoint) (⟨Bounded.Finite ⟨34009678302028016429416675792156881929217167215919330167617059558107204398895, secpP⟩, Bounded.Finite ⟨52818492011674921634940119787779214367302340414675558363211486292657494734263, secpP⟩, ⟨secpA, secpP⟩, ⟨secpB, secpP⟩⟩ : EcPoint) = some (⟨Bounded.Finite ⟨92137904221004991822640747341747548945462418389173665085162488592935043663263, secpP⟩, Bounded.Finite ⟨33517309963374711058233805017888397313880557032455674904311603088567752722188, secpP⟩, ⟨secpA, secpP⟩, ⟨secpB, secpP⟩⟩ : EcPoint) := by rfl
lemma c8acc134 : ecAdd (⟨Bounded.Finite ⟨23220893035889910636946805781344549261675078085456573395822142317137928410713, secpP⟩, Bounded.Finite ⟨57621796455599442197045009877404664212419187530914025935630953433489442579002, secpP⟩, ⟨secpA, secpP⟩, ⟨secpB, secpP⟩⟩ : EcPoint) (⟨Bounded.Finite ⟨92137904221004991822640747341747548945462418389173665085162488592935043663263, secpP⟩, Bounded.Finite ⟨33517309963374711058233805017888397313880557032455674904311603088567752722188, secpP⟩, ⟨secpA, secpP⟩, ⟨secpB, secpP⟩⟩ : EcPoint) = some (⟨Bounded.Finite ⟨14986505511071864390751319822613268135838572187452595128300726684100967021470, secpP⟩, Bounded.Finite ⟨62020730481804803719561524049800312807387460099630443501595035287525063798994, secpP⟩, ⟨secpA, secpP⟩, ⟨secpB, secpP⟩⟩ : EcPoint) := by rfl
lemma c8dbl134 : ecAdd (⟨Bounded.Finite ⟨92137904221004991822640747341747548945462418389173665085162488592935043663263, secpP⟩, Bounded.Finite ⟨33517309963374711058233805017888397313880557032455674904311603088567752722188, secpP⟩, ⟨secpA, secpP⟩, ⟨secpB, secpP⟩⟩ : EcPoint) (⟨Bounded.Finite ⟨92137904221004991822640747341747548945462418389173665085162488592935043663263, secpP⟩, Bounded.Finite ⟨33517309963374711058233805017888397313880557032455674904311603088567752722188, secpP⟩, ⟨secpA, secpP⟩, ⟨secpB, secpP⟩⟩ : EcPoint) = some (⟨Bounded.Finite ⟨110576394165891695959547398864574113324861677782985712232382940604063624860352, secpP⟩, Bounded.Finite ⟨57461221252293229523075183660643751795445411566005575478984600070226388935166, secpP⟩, ⟨secpA, secpP⟩, ⟨secpB, secpP⟩⟩ : EcPoint) := by rfl
lemma c8acc135 : ecAdd (⟨Bounded.Finite ⟨14986505511071864390751319822613268135838572187452595128300726684100967021470, secpP⟩, Bounded.Finite ⟨62020730481804803719561524049800312807387460099630443501595035287525063798994, secpP⟩, ⟨secpA, secpP⟩, ⟨secpB, secpP⟩⟩ : EcPoint) (⟨Bounded.Finite ⟨110576394165891695959547398864574113324861677782985712232382940604063624860352, secpP⟩, Bounded.Finite ⟨57461221252293229523075183660643751795445411566005575478984600070226388935166, secpP⟩, ⟨secpA, secpP⟩, ⟨secpB, secpP⟩⟩ : EcPoint) = some (⟨Bounded.Finite ⟨83640465507401686462263533627622564812678268326224187181898793301565321681751, secpP⟩, Bounded.Finite ⟨109134439146168824131351559614623953197395257566233961730867948095783758407139, secpP⟩, ⟨secpA, secpP⟩, ⟨secpB, secpP⟩⟩ : EcPoint) := by rfl
lemma c8dbl135 : ecAdd (⟨Bounded.Finite ⟨110576394165891695959547398864574113324861677782985712232382940604063624860352, secpP⟩, Bounded.Finite ⟨57461221252293229523075183660643751795445411566005575478984600070226388935166, secpP⟩, ⟨secpA, secpP⟩, ⟨secpB, secpP⟩⟩ : EcPoint) (⟨Bounded.Finite ⟨110576394165891695959547398864574113324861677782985712232382940604063624860352, secpP⟩, Bounded.Finite ⟨57461221252293229523075183660643751795445411566005575478984600070226388935166, secpP⟩, ⟨secpA, secpP⟩, ⟨secpB, secpP⟩⟩ : EcPoint) = some (⟨Bounded.Finite ⟨63325528419660284613648700910995098077763772416467869706013046991065094742686, secpP⟩, Bounded.Finite ⟨108393323332799615882600625899672562866564791265938552990560624893577369108811, secpP⟩, ⟨secpA, secpP⟩, ⟨secpB, secpP⟩⟩ : EcPoint) := by rfl
lemma c8acc136 : ecAdd (⟨Bounded.Finite ⟨83640465507401686462263533627622564812678268326224187181898793301565321681751, secpP⟩, Bounded.Finite ⟨109134439146168824131351559614623953197395257566233961730867948095783758407139, secpP⟩, ⟨secpA, secpP⟩, ⟨secpB, secpP⟩⟩ : EcPoint) (⟨Bounded.Finite ⟨63325528419660284613648700910995098077763772416467869706013046991065094742686, secpP⟩, Bounded.Finite ⟨108393323332799615882600625899672562866564791265938552990560624893577369108811, secpP⟩, ⟨secpA, secpP⟩, ⟨secpB, secpP⟩⟩ : EcPoint) = some (⟨Bounded.Finite ⟨86130755921611212044147249845724329580220518801808515059278645831102457009272, secpP⟩, Bounded.Finite ⟨30084020417228989210253053606261698950888669025890702731303978496996225598027, secpP⟩, ⟨secpA, secpP⟩, ⟨secpB, secpP⟩⟩ : EcPoint) := by rfl
lemma c8dbl136 : ecAdd (⟨Bounded.Finite ⟨63325528419660284613648700910995098077763772416467869706013046991065094742686, secpP⟩, Bounded.Finite ⟨108393323332799615882600625899672562866564791265938552990560624893577369108811, secpP⟩, ⟨secpA, secpP⟩, ⟨secpB, secpP⟩⟩ : EcPoint) (⟨Bounded.Finite ⟨63325528419660284613648700910995098077763772416467869706013046991065094742686, secpP⟩, Bounded.Finite ⟨108393323332799615882600625899672562866564791265938552990560624893577369108811, secpP⟩, ⟨secpA, secpP⟩, ⟨secpB, secpP⟩⟩ : EcPoint) = some (⟨Bounded.Finite ⟨16650325658330045346563110008023955204728736149712219077558782426015089744479, secpP⟩, Bounded.Finite ⟨106745057410625224717707804586771450297805286348157954948730939917388737042539, secpP⟩, ⟨secpA, secpP⟩, ⟨secpB, secpP⟩⟩ : EcPoint) := by rfl
lemma c8acc137 : ecAdd (⟨Bounded.Finite ⟨86130755921611212044147249845724329580220518801808515059278645831102457009272, secpP⟩, Bounded.Finite ⟨30084020417228989210253053606261698950888669025890702731303978496996225598027, secpP⟩, ⟨secpA, secpP⟩, ⟨secpB, secpP⟩⟩ : EcPoint) (⟨Bounded.Finite ⟨16650325658330045346563110008023955204728736149712219077558782426015089744479, secpP⟩, Bounded.Finite ⟨106745057410625224717707804586771450297805286348157954948730939917388737042539, secpP⟩, ⟨secpA, secpP⟩, ⟨secpB, secpP⟩⟩ : EcPoint) = some (⟨Bounded.Finite ⟨75330202358275438652442019080086978139032819196890473859747676497570155441290, secpP⟩, Bounded.Finite ⟨88105028260814169772177227500247055218212880147827308418428527652086205925273, secpP⟩, ⟨secpA, secpP⟩, ⟨secpB, secpP⟩⟩ : EcPoint) := by rfl
lemma c8dbl137 : ecAdd (⟨Bounded.Finite ⟨16650325658330045346563110008023955204728736149712219077558782426015089744479, secpP⟩, Bounded.Finite ⟨106745057410625224717707804586771450297805286348157954948730939917388737042539, secpP⟩, ⟨secpA, secpP⟩, ⟨secpB, secpP⟩⟩ : EcPoint) (⟨Bounded.Finite ⟨16650325658330045346563110008023955204728736149712219077558782426015089744479, secpP⟩, Bounded.Finite ⟨106745057410625224717707804586771450297805286348157954948730939917388737042539, secpP⟩, ⟨secpA, secpP⟩, ⟨secpB, secpP⟩⟩ : EcPoint) = some (⟨Bounded.Finite ⟨131611795964869315746733228552844550837488089277020511476213613441587846562, secpP⟩, Bounded.Finite ⟨83923066471392572458821227876885635434639856986135936389815903323954601786918, secpP⟩, ⟨secpA, secpP⟩, ⟨secpB, secpP⟩⟩ : EcPoint) := by rfl
lemma c8acc138 : ecAdd (⟨Bounded.Finite ⟨75330202358275438652442019080086978139032819196890473859747676497570155441290, secpP⟩, Bounded.Finite ⟨88105028260814169772177227500247055218212880147827308418428527652086205925273, secpP⟩, ⟨secpA, secpP⟩, ⟨secpB, secpP⟩⟩ : EcPoint) (⟨Bounded.Finite ⟨131611795964869315746733228552844550837488089277020511476213613441587846562, secpP⟩, Bounded.Finite ⟨83923066471392572458821227876885635434639856986135936389815903323954601786918, secpP⟩, ⟨secpA, secpP⟩, ⟨secpB, secpP⟩⟩ : EcPoint) = some (⟨Bounded.Finite ⟨71777962321459349406000724597903971388434741523230555797285671830852712859798, secpP⟩, Bounded.Finite ⟨36201072399255268942103655379331395118704297289411113095502336649664884513361, secpP⟩, ⟨secpA, secpP⟩, ⟨secpB, secpP⟩⟩ : EcPoint) := by rfl
lemma c8dbl138 : ecAdd (⟨Bounded.Finite ⟨131611795964869315746733228552844550837488089277020511476213613441587846562, secpP⟩, Bounded.Finite ⟨83923066471392572458821227876885635434639856986135936389815903323954601786918, secpP⟩, ⟨secpA, secpP⟩, ⟨secpB, secpP⟩⟩ : EcPoint) (⟨Bounded.Finite ⟨131611795964869315746733228552844550837488089277020511476213613441587846562, secpP⟩, Bounded.Finite ⟨83923066471392572458821227876885635434639856986135936389815903323954601786918, secpP⟩, ⟨secpA, secpP⟩, ⟨secpB, secpP⟩⟩ : EcPoint) = some (⟨Bounded.Finite ⟨107872043834894622552741642145000578443189656222946491690889504134408605289317, secpP⟩, Bounded.Finite ⟨107099881035735432711210408988501874747725935128038800415340434399284629514586, secpP⟩, ⟨secpA, secpP⟩, ⟨secpB, secpP⟩⟩ : EcPoint) := by rfl
lemma c8acc139 : ecAdd (⟨Bounded.Finite ⟨71777962321459349406000724597903971388434741523230555797285671830852712859798, secpP⟩, Bounded.Finite ⟨36201072399255268942103655379331395118704297289411113095502336649664884513361, secpP⟩, ⟨secpA, secpP⟩, ⟨secpB, secpP⟩⟩ : EcPoint) (⟨Bounded.Finite ⟨107872043834894622552741642145000578443189656222946491690889504134408605289317, secpP⟩, Bounded.Finite ⟨107099881035735432711210408988501874747725935128038800415340434399284629514586, secpP⟩, ⟨secpA, secpP⟩, ⟨secpB, secpP⟩⟩ : EcPoint) = some (⟨Bounded.Finite ⟨41533720893661563846206482311205371897195853024687889444099883272216698110652, secpP⟩, Bounded.Finite ⟨53323290439282793614577378782659314963414058752113829549490197095768979707060, secpP⟩, ⟨secpA, secpP⟩, ⟨secpB, secpP⟩⟩ : EcPoint) := by rfl
lemma c8dbl139 : ecAdd (⟨Bounded.Finite ⟨107872043834894622552741642145000578443189656222946491690889504134408605289317, secpP⟩, Bounded.Finite ⟨107099881035735432711210408988501874747725935128038800415340434399284629514586, secpP⟩, ⟨secpA, secpP⟩, ⟨secpB, secpP⟩⟩ : EcPoint) (⟨Bounded.Finite ⟨107872043834894622552741642145000578443189656222946491690889504134408605289317, secpP⟩, Bounded.Finite ⟨107099881035735432711210408988501874747725935128038800415340434399284629514586, secpP⟩, ⟨secpA, secpP⟩, ⟨secpB, secpP⟩⟩ : EcPoint) = some (⟨Bounded.Finite ⟨104771248853243272236194848180534099944827442851439463989997715693033419914817, secpP⟩, Bounded.Finite ⟨19204842090783572478934763263896016084146536297748178843263225598863834152273, secpP⟩, ⟨secpA, secpP⟩, ⟨secpB, secpP⟩⟩ : EcPoint) := by rfl
lemma c8acc140 : ecAdd (⟨Bounded.Finite ⟨41533720893661563846206482311205371897195853024687889444099883272216698110652, secpP⟩, Bounded.Finite ⟨53323290439282793614577378782659314963414058752113829549490197095768979707060, secpP⟩, ⟨secpA, secpP⟩, ⟨secpB, secpP⟩⟩ : EcPoint) (⟨Bounded.Finite ⟨104771248853243272236194848180534099944827442851439463989997715693033419914817, secpP⟩, Bounded.Finite ⟨19204842090783572478934763263896016084146536297748178843263225598863834152273, secpP⟩, ⟨secpA, secpP⟩, ⟨secpB, secpP⟩⟩ : EcPoint) = some (⟨Bounded.Finite ⟨50473025432973961967967320146606874116870403908968619853667703910850312319789, secpP⟩, Bounded.Finite ⟨105310061754630067182434722915899192641790266983653207826682573597297380908488, secpP⟩, ⟨secpA, secpP⟩, ⟨secpB, secpP⟩⟩ : EcPoint) := by rfl
lemma c8dbl140 : ecAdd (⟨Bounded.Finite ⟨104771248853243272236194848180534099944827442851439463989997715693033419914817, secpP⟩, Bounded.Finite ⟨19204842090783572478934763263896016084146536297748178843263225598863834152273, secpP⟩, ⟨secpA, secpP⟩, ⟨secpB, secpP⟩⟩ : EcPoint) (⟨Bounded.Finite ⟨104771248853243272236194848180534099944827442851439463989997715693033419914817, secpP⟩, Bounded.Finite ⟨19204842090783572478934763263896016084146536297748178843263225598863834152273, secpP⟩, ⟨secpA, secpP⟩, ⟨secpB, secpP⟩⟩ : EcPoint) = some (⟨Bounded.Finite ⟨111175281461482630465516451385666215051004681245013976528598462758289754744929, secpP⟩, Bounded.Finite ⟨11718140657345423934070547093851147149502657148997117054604879635944084480924, secpP⟩, ⟨secpA, secpP⟩, ⟨secpB, secpP⟩⟩ : EcPoint) := by rfl
lemma c8acc141 : ecAdd (⟨Bounded.Finite ⟨50473025432973961967967320146606874116870403908968619853667703910850312319789, secpP⟩, Bounded.Finite ⟨105310061754630067182434722915899192641790266983653207826682573597297380908488, secpP⟩, ⟨secpA, secpP⟩, ⟨secpB, secpP⟩⟩ : EcPoint) (⟨Bounded.Finite ⟨111175281461482630465516451385666215051004681245013976528598462758289754744929, secpP⟩, Bounded.Finite ⟨11718140657345423934070547093851147149502657148997117054604879635944084480924, secpP⟩, ⟨secpA, secpP⟩, ⟨secpB, secpP⟩⟩ : EcPoint) = some (⟨Bounded.Finite ⟨87823185991211788184309284762850137952436592112622220988032007483043824662964, secpP⟩, Bounded.Finite ⟨6688803962140634735988835929090864288812946058955406852694546634055926980527, secpP⟩, ⟨secpA, secpP⟩, ⟨secpB, secpP⟩⟩ : EcPoint) := by rfl
lemma c8dbl141 : ecAdd (⟨Bounded.Finite ⟨111175281461482630465516451385666215051004681245013976528598462758289754744929, secpP⟩, Bounded.Finite ⟨11718140657345423934070547093851147149502657148997117054604879635944084480924, secpP⟩, ⟨secpA, secpP⟩, ⟨secpB, secpP⟩⟩ : EcPoint) (⟨Bounded.Finite ⟨111175281461482630465516451385666215051004681245013976528598462758289754744929, secpP⟩, Bounded.Finite ⟨11718140657345423934070547093851147149502657148997117054604879635944084480924, secpP⟩, ⟨secpA, secpP⟩, ⟨secpB, secpP⟩⟩ : EcPoint) = some (⟨Bounded.Finite ⟨105488831999329979845280202950265439784555002249815723414248217238410787198545, secpP⟩, Bounded.Finite ⟨60737856123767596328148824409984345799986282506783260172759469126809007188004, secpP⟩, ⟨secpA, secpP⟩, ⟨secpB, secpP⟩⟩ : EcPoint) := by rfl
lemma c8acc142 : ecAdd (⟨Bounded.Finite ⟨87823185991211788184309284762850137952436592112622220988032007483043824662964, secpP⟩, Bounded.Finite ⟨6688803962140634735988835929090864288812946058955406852694546634055926980527, secpP⟩, ⟨secpA, secpP⟩, ⟨secpB, secpP⟩⟩ : EcPoint) (⟨Bounded.Finite ⟨105488831999329979845280202950265439784555002249815723414248217238410787198545, secpP⟩, Bounded.Finite ⟨60737856123767596328148824409984345799986282506783260172759469126809007188004, secpP⟩, ⟨secpA, secpP⟩, ⟨secpB, secpP⟩⟩ : EcPoint) = some (⟨Bounded.Finite ⟨90163261311683285674689513851666750706603686918501102041262299506509314620988, secpP⟩, Bounded.Finite ⟨74509803696176320985942317025510241902577779179603758824099703837492750765214, secpP⟩, ⟨secpA, secpP⟩, ⟨secpB, secpP⟩⟩ : EcPoint) := by rfl
lemma c8dbl142 : ecAdd (⟨Bounded.Finite ⟨105488831999329979845280202950265439784555002249815723414248217238410787198545, secpP⟩, Bounded.Finite ⟨60737856123767596328148824409984345799986282506783260172759469126809007188004, secpP⟩, ⟨secpA, secpP⟩, ⟨secpB, secpP⟩⟩ : EcPoint) (⟨Bounded.Finite ⟨105488831999329979845280202950265439784555002249815723414248217238410787198545, secpP⟩, Bounded.Finite ⟨60737856123767596328148824409984345799986282506783260172759469126809007188004, secpP⟩, ⟨secpA, secpP⟩, ⟨secpB, secpP⟩⟩ : EcPoint) = some (⟨Bounded.Finite ⟨17310420785061577297752661644696441307039468088644562990992232456213652941707, secpP⟩, Bounded.Finite ⟨55135767764556490992818664763424664824858578437374820236794056603342661870707, secpP⟩, ⟨secpA, secpP⟩, ⟨secpB, secpP⟩⟩ : EcPoint) := by rfl
lemma c8acc143 : ecAdd (⟨Bounded.Finite ⟨90163261311683285674689513851666750706603686918501102041262299506509314620988, secpP⟩, Bounded.Finite ⟨74509803696176320985942317025510241902577779179603758824099703837492750765214, secpP⟩, ⟨secpA, secpP⟩, ⟨secpB, secpP⟩⟩ : EcPoint) (⟨Bounded.Finite ⟨17310420785061577297752661644696441307039468088644562990992232456213652941707, secpP⟩, Bounded.Finite ⟨55135767764556490992818664763424664824858578437374820236794056603342661870707, secpP⟩, ⟨secpA, secpP⟩, ⟨secpB, secpP⟩⟩ : EcPoint) = some (⟨Bounded.Finite ⟨22551397232250930154134754775306783641591530410463695625277699798220437219399, secpP⟩, Bounded.Finite ⟨22300401800434807498397191466715504535300228199893767604777531771471628865102, secpP⟩, ⟨secpA, secpP⟩, ⟨secpB, secpP⟩⟩ : EcPoint) := by rfl
lemma c8dbl143 : ecAdd (⟨Bounded.Finite ⟨17310420785061577297752661644696441307039468088644562990992232456213652941707, secpP⟩, Bounded.Finite ⟨55135767764556490992818664763424664824858578437374820236794056603342661870707, secpP⟩, ⟨secpA, secpP⟩, ⟨secpB, secpP⟩⟩ : EcPoint) (⟨Bounded.Finite ⟨17310420785061577297752661644696441307039468088644562990992232456213652941707, secpP⟩, Bounded.Finite ⟨55135767764556490992818664763424664824858578437374820236794056603342661870707, secpP⟩, ⟨secpA, secpP⟩, ⟨secpB, secpP⟩⟩ : EcPoint) = some (⟨Bounded.Finite ⟨82443941766934163206572457262087615792206098199618204196957878539943664124143, secpP⟩, Bounded.Finite ⟨2933900802655320228371872386727285565009607891164205160519475145640485435973, secpP⟩, ⟨secpA, secpP⟩, ⟨secpB, secpP⟩⟩ : EcPoint) := by rfl
lemma c8acc144 : ecAdd (⟨Bounded.Finite ⟨22551397232250930154134754775306783641591530410463695625277699798220437219399, secpP⟩, Bounded.Finite ⟨22300401800434807498397191466715504535300228199893767604777531771471628865102, secpP⟩, ⟨secpA, secpP⟩, ⟨secpB, secpP⟩⟩ : EcPoint) (⟨Bounded.Finite ⟨82443941766934163206572457262087615792206098199618204196957878539943664124143, secpP⟩, Bounded.Finite ⟨2933900802655320228371872386727285565009607891164205160519475145640485435973, secpP⟩, ⟨secpA, secpP⟩, ⟨secpB, secpP⟩⟩ : EcPoint) = some (⟨Bounded.Finite ⟨100298860435074318269866579939242844366430460264739520744523048625540766996065, secpP⟩, Bounded.Finite ⟨88513182605632356692522405523131199235045673808811896300895425364158937594489, secpP⟩, ⟨secpA, secpP⟩, ⟨secpB, secpP⟩⟩ : EcPoint) := by rfl
lemma c8dbl144 : ecAdd (⟨Bounded.Finite ⟨82443941766934163206572457262087615792206098199618204196957878539943664124143, secpP⟩, Bounded.Finite ⟨2933900802655320228371872386727285565009607891164205160519475145640485435973, secpP⟩, ⟨secpA, secpP⟩, ⟨secpB, secpP⟩⟩ : EcPoint) (⟨Bounded.Finite ⟨82443941766934163206572457262087615792206098199618204196957878539943664124143, secpP⟩, Bounded.Finite ⟨2933900802655320228371872386727285565009607891164205160519475145640485435973, secpP⟩, ⟨secpA, secpP⟩, ⟨secpB, secpP⟩⟩ : EcPoint) = some (⟨Bounded.Finite ⟨103962888990006132945402596005118657935911401245401713878311715854693536019743, secpP⟩, Bounded.Finite ⟨35170703879107070397528715355676250246151611539838021540277202550315100054233, secpP⟩, ⟨secpA, secpP⟩, ⟨secpB, secpP⟩⟩ : EcPoint) := by rfl
lemma c8acc145 : ecAdd (⟨Bounded.Finite ⟨100298860435074318269866579939242844366430460264739520744523048625540766996065, secpP⟩, Bounded.Finite ⟨88513182605632356692522405523131199235045673808811896300895425364158937594489, secpP⟩, ⟨secpA, secpP⟩, ⟨secpB, secpP⟩⟩ : EcPoint) (⟨Bounded.Finite ⟨103962888990006132945402596005118657935911401245401713878311715854693536019743, secpP⟩, Bounded.Finite ⟨35170703879107070397528715355676250246151611539838021540277202550315100054233, secpP⟩, ⟨secpA, secpP⟩, ⟨secpB, secpP⟩⟩ : EcPoint) = some (⟨Bounded.Finite ⟨17848721041874530924046462006098247088013963003544838587581308688097280151280, secpP⟩, Bounded.Finite ⟨34159256826805232052241494313207328573695354171728960295235024566835808034037, secpP⟩, ⟨secpA, secpP⟩, ⟨secpB, secpP⟩⟩ : EcPoint) := by rfl
lemma c8dbl145 : ecAdd (⟨Bounded.Finite ⟨103962888990006132945402596005118657935911401245401713878311715854693536019743, secpP⟩, Bounded.Finite ⟨35170703879107070397528715355676250246151611539838021540277202550315100054233, secpP⟩, ⟨secpA, secpP⟩, ⟨secpB, secpP⟩⟩ : EcPoint) (⟨Bounded.Finite ⟨103962888990006132945402596005118657935911401245401713878311715854693536019743, secpP⟩, Bounded.Finite ⟨35170703879107070397528715355676250246151611539838021540277202550315100054233, secpP⟩, ⟨secpA, secpP⟩, ⟨secpB, secpP⟩⟩ : EcPoint) = some (⟨Bounded.Finite ⟨76798050358113205419697175833140553167147138571698176181621558826323550756452, secpP⟩, Bounded.Finite ⟨110695089775790420212275781036515251705109498767909652055725128324950720721559, secpP⟩, ⟨secpA, secpP⟩, ⟨secpB, secpP⟩⟩ : EcPoint) := by rfl
lemma c8acc146 : ecAdd (⟨Bounded.Finite ⟨17848721041874530924046462006098247088013963003544838587581308688097280151280, secpP⟩, Bounded.Finite ⟨34159256826805232052241494313207328573695354171728960295235024566835808034037, secpP⟩, ⟨secpA, secpP⟩, ⟨secpB, secpP⟩⟩ : EcPoint) (⟨Bounded.Finite ⟨76798050358113205419697175833140553167147138571698176181621558826323550756452, secpP⟩, Bounded.Finite ⟨110695089775790420212275781036515251705109498767909652055725128324950720721559, secpP⟩, ⟨secpA, secpP⟩, ⟨secpB, secpP⟩⟩ : EcPoint) = some (⟨Bounded.Finite ⟨45623407705562943711880395222077400353581483244328863799912097202000040865402, secpP⟩, Bounded.Finite ⟨107316396356635083049318973698309037298632105785368871779441596235125246650583, secpP⟩, ⟨secpA, secpP⟩, ⟨secpB, secpP⟩⟩ : EcPoint) := by rfl
lemma c8dbl146 : ecAdd (⟨Bounded.Finite ⟨76798050358113205419697175833140553167147138571698176181621558826323550756452, secpP⟩, Bounded.Finite ⟨110695089775790420212275781036515251705109498767909652055725128324950720721559, secpP⟩, ⟨secpA, secpP⟩, ⟨secpB, secpP⟩⟩ : EcPoint) (⟨Bounded.Finite ⟨76798050358113205419697175833140553167147138571698176181621558826323550756452, secpP⟩, Bounded.Finite ⟨110695089775790420212275781036515251705109498767909652055725128324950720721559, secpP⟩, ⟨secpA, secpP⟩, ⟨secpB, secpP⟩⟩ : EcPoint) = some (⟨Bounded.Finite ⟨47484798214816784752283428012568388928491303787309098798019624575261039535228, secpP⟩, Bounded.Finite ⟨92757387985797433337504154397545024770971021650910819219563990946722655340125, secpP⟩, ⟨secpA, secpP⟩, ⟨secpB, secpP⟩⟩ : EcPoint) := by rfl
lemma c8acc147 : ecAdd (⟨Bounded.Finite ⟨45623407705562943711880395222077400353581483244328863799912097202000040865402, secpP⟩, Bounded.Finite ⟨107316396356635083049318973698309037298632105785368871779441596235125246650583, secpP⟩, ⟨secpA, secpP⟩, ⟨secpB, secpP⟩⟩ : EcPoint) (⟨Bounded.Finite ⟨47484798214816784752283428012568388928491303787309098798019624575261039535228, secpP⟩, Bounded.Finite ⟨92757387985797433337504154397545024770971021650910819219563990946722655340125, secpP⟩, ⟨secpA, secpP⟩, ⟨secpB, secpP⟩⟩ : EcPoint) = some (⟨Bounded.Finite ⟨65611104680918539788679488399408385865507511853104175426681765416774357510107, secpP⟩, Bounded.Finite ⟨43876206029510945360886303119405145979281675325303827235302129310450908555943, secpP⟩, ⟨secpA, secpP⟩, ⟨secpB, secpP⟩⟩ : EcPoint) := by rfl
lemma c8dbl147 : ecAdd (⟨Bounded.Finite ⟨47484798214816784752283428012568388928491303787309098798019624575261039535228, secpP⟩, Bounded.Finite ⟨92757387985797433337504154397545024770971021650910819219563990946722655340125, secpP⟩, ⟨secpA, secpP⟩, ⟨secpB, secpP⟩⟩ : EcPoint) (⟨Bounded.Finite ⟨47484798214816784752283428012568388928491303787309098798019624575261039535228, secpP⟩, Bounded.Finite ⟨92757387985797433337504154397545024770971021650910819219563990946722655340125, secpP⟩, ⟨secpA, secpP⟩, ⟨secpB, secpP⟩⟩ : EcPoint) = some (⟨Bounded.Finite ⟨97039663311497459657247911541193759080562874005661443810591707745986428879848, secpP⟩, Bounded.Finite ⟨99303278877429417088246557868681959316984965013771041163804468621043567898912, secpP⟩, ⟨secpA, secpP⟩, ⟨secpB, secpP⟩⟩ : EcPoint) := by rfl
lemma c8acc148 : ecAdd (⟨Bounded.Finite ⟨65611104680918539788679488399408385865507511853104175426681765416774357510107, secpP⟩, Bounded.Finite ⟨43876206029510945360886303119405145979281675325303827235302129310450908555943, secpP⟩, ⟨secpA, secpP⟩, ⟨secpB, secpP⟩⟩ : EcPoint) (⟨Bounded.Finite ⟨97039663311497459657247911541193759080562874005661443810591707745986428879848, secpP⟩, Bounded.Finite ⟨99303278877429417088246557868681959316984965013771041163804468621043567898912, secpP⟩, ⟨secpA, secpP⟩, ⟨secpB, secpP⟩⟩ : EcPoint) = some (⟨Bounded.Finite ⟨9175530125303015082993852518922959453678574958986082937661837288658019653921, secpP⟩, Bounded.Finite ⟨81149895401758819099870646032106501065177933443158078516098528446088178744237, secpP⟩, ⟨secpA, secpP⟩, ⟨secpB, secpP⟩⟩ : EcPoint) := by rfl
lemma c8dbl148 : ecAdd (⟨Bounded.Finite ⟨97039663311497459657247911541193759080562874005661443810591707745986428879848, secpP⟩, Bounded.Finite ⟨99303278877429417088246557868681959316984965013771041163804468621043567898912, secpP⟩, ⟨secpA, secpP⟩, ⟨secpB, secpP⟩⟩ : EcPoint) (⟨Bounded.Finite ⟨97039663311497459657247911541193759080562874005661443810591707745986428879848, secpP⟩, Bounded.Finite ⟨99303278877429417088246557868681959316984965013771041163804468621043567898912, secpP⟩, ⟨secpA, secpP⟩, ⟨secpB, secpP⟩⟩ : EcPoint) = some (⟨Bounded.Finite ⟨109195128225849040977606835881519875573565462568688209681805403608282150647549, secpP⟩, Bounded.Finite ⟨19112323507498003064396425936166321573933767740378942347221947598633080738522, secpP⟩, ⟨secpA, secpP⟩, ⟨secpB, secpP⟩⟩ : EcPoint) := by rfl
lemma c8acc149 : ecAdd (⟨Bounded.Finite ⟨9175530125303015082993852518922959453678574958986082937661837288658019653921, secpP⟩, Bounded.Finite ⟨81149895401758819099870646032106501065177933443158078516098528446088178744237, secpP⟩, ⟨secpA, secpP⟩, ⟨secpB, secpP⟩⟩ : EcPoint) (⟨Bounded.Finite ⟨109195128225849040977606835881519875573565462568688209681805403608282150647549, secpP⟩, Bounded.Finite ⟨19112323507498003064396425936166321573933767740378942347221947598633080738522, secpP⟩, ⟨secpA, secpP⟩, ⟨secpB, secpP⟩⟩ : EcPoint) = some (⟨Bounded.Finite ⟨99405957026185278736888962341521709440058377180351135776332231411165316932338, secpP⟩, Bounded.Finite ⟨41073203091423046432494013929436699193927712795365893183454114478036003095264, secpP⟩, ⟨secpA, secpP⟩, ⟨secpB, secpP⟩⟩ : EcPoint) := by rfl
lemma c8dbl149 : ecAdd (⟨Bounded.Finite ⟨109195128225849040977606835881519875573565462568688209681805403608282150647549, secpP⟩, Bounded.Finite ⟨19112323507498003064396425936166321573933767740378942347221947598633080738522, secpP⟩, ⟨secpA, secpP⟩, ⟨secpB, secpP⟩⟩ : EcPoint) (⟨Bounded.Finite ⟨109195128225849040977606835881519875573565462568688209681805403608282150647549, secpP⟩, Bounded.Finite ⟨19112323507498003064396425936166321573933767740378942347221947598633080738522, secpP⟩, ⟨secpA, secpP⟩, ⟨secpB, secpP⟩⟩ : EcPoint) = some (⟨Bounded.Finite ⟨29549999707259271673252605691545279799740052232833339972136839518663945868516, secpP⟩, Bounded.Finite ⟨16136664718778354741239915467490083114312845627443806165166400322025562172700, secpP⟩, ⟨secpA, secpP⟩, ⟨secpB, secpP⟩⟩ : EcPoint) := by rfl
lemma c8acc150 : ecAdd (⟨Bounded.Finite ⟨99405957026185278736888962341521709440058377180351135776332231411165316932338, secpP⟩, Bounded.Finite ⟨41073203091423046432494013929436699193927712795365893183454114478036003095264, secpP⟩, ⟨secpA, secpP⟩, ⟨secpB, secpP⟩⟩ : EcPoint) (⟨Bounded.Finite ⟨29549999707259271673252605691545279799740052232833339972136839518663945868516, secpP⟩, Bounded.Finite ⟨16136664718778354741239915467490083114312845627443806165166400322025562172700, secpP⟩, ⟨secpA, secpP⟩, ⟨secpB, secpP⟩⟩ : EcPoint) = some (⟨Bounded.Finite ⟨385323763397091340965387960723257533269278287453460106838431826015871103476, secpP⟩, Bounded.Finite ⟨39741205680205240979965348861247182832451598649957587788282291616589443536287, secpP⟩, ⟨secpA, secpP⟩, ⟨secpB, secpP⟩⟩ : EcPoint) := by rfl
lemma c8dbl150 : ecAdd (⟨Bounded.Finite ⟨29549999707259271673252605691545279799740052232833339972136839518663945868516, secpP⟩, Bounded.Finite ⟨16136664718778354741239915467490083114312845627443806165166400322025562172700, secpP⟩, ⟨secpA, secpP⟩, ⟨secpB, secpP⟩⟩ : EcPoint) (⟨Bounded.Finite ⟨29549999707259271673252605691545279799740052232833339972136839518663945868516, secpP⟩, Bounded.Finite ⟨16136664718778354741239915467490083114312845627443806165166400322025562172700, secpP⟩, ⟨secpA, secpP⟩, ⟨secpB, secpP⟩⟩ : EcPoint) = some (⟨Bounded.Finite ⟨82879960253585350000979087803723632982965447634585893737399105385978335789638, secpP⟩, Bounded.Finite ⟨69839675855252625382864852692238872585628385971310815662725729943087609430139, secpP⟩, ⟨secpA, secpP⟩, ⟨secpB, secpP⟩⟩ : EcPoint) := by rfl
lemma c8acc151 : ecAdd (⟨Bounded.Finite ⟨385323763397091340965387960723257533269278287453460106838431826015871103476, secpP⟩, Bounded.Finite ⟨39741205680205240979965348861247182832451598649957587788282291616589443536287, secpP⟩, ⟨secpA, secpP⟩, ⟨secpB, secpP⟩⟩ : EcPoint) (⟨Bounded.Finite ⟨82879960253585350000979087803723632982965447634585893737399105385978335789638, secpP⟩, Bounded.Finite ⟨69839675855252625382864852692238872585628385971310815662725729943087609430139, secpP⟩, ⟨secpA, secpP⟩, ⟨secpB, secpP⟩⟩ : EcPoint) = some (⟨Bounded.Finite ⟨37913721730568578793482317157181727653930256717449208778212425598522088421245, secpP⟩, Bounded.Finite ⟨65825222424684364308079047446795845460767465746268132972648661792861124226520, secpP⟩, ⟨secpA, secpP⟩, ⟨secpB, secpP⟩⟩ : EcPoint) := by rfl
lemma c8dbl151 : ecAdd (⟨Bounded.Finite ⟨82879960253585350000979087803723632982965447634585893737399105385978335789638, secpP⟩, Bounded.Finite ⟨69839675855252625382864852692238872585628385971310815662725729943087609430139, secpP⟩, ⟨secpA, secpP⟩, ⟨secpB, secpP⟩⟩ : EcPoint) (⟨Bounded.Finite ⟨82879960253585350000979087803723632982965447634585893737399105385978335789638, secpP⟩, Bounded.Finite ⟨69839675855252625382864852692238872585628385971310815662725729943087609430139, secpP⟩, ⟨secpA, secpP⟩, ⟨secpB, secpP⟩⟩ : EcPoint) = some (⟨Bounded.Finite ⟨22748028221779319076176510624118970842784515483405130895360428655102883872093, secpP⟩, Bounded.Finite ⟨45475484805375289014292969224159029645777915241785857295305535555664117202052, secpP⟩, ⟨secpA, secpP⟩, ⟨secpB, secpP⟩⟩ : EcPoint) := by rfl
lemma c8acc152 : ecAdd (⟨Bounded.Finite ⟨37913721730568578793482317157181727653930256717449208778212425598522088421245, secpP⟩, Bounded.Finite ⟨65825222424684364308079047446795845460767465746268132972648661792861124226520, secpP⟩, ⟨secpA, secpP⟩, ⟨secpB, secpP⟩⟩ : EcPoint) (⟨Bounded.Finite ⟨22748028221779319076176510624118970842784515483405130895360428655102883872093, secpP⟩, Bounded.Finite ⟨45475484805375289014292969224159029645777915241785857295305535555664117202052, secpP⟩, ⟨secpA, secpP⟩, ⟨secpB, secpP⟩⟩ : EcPoint) = some (⟨Bounded.Finite ⟨101033778425503574014684099111759490344154621228683854436296107272222670739677, secpP⟩, Bounded.Finite ⟨42796250005518910873947435274088804650613359832499456467147440966228327442201, secpP⟩, ⟨secpA, secpP⟩, ⟨secpB, secpP⟩⟩ : EcPoint) := by rfl
lemma c8dbl152 : ecAdd (⟨Bounded.Finite ⟨22748028221779319076176510624118970842784515483405130895360428655102883872093, secpP⟩, Bounded.Finite ⟨45475484805375289014292969224159029645777915241785857295305535555664117202052, secpP⟩, ⟨secpA, secpP⟩, ⟨secpB, secpP⟩⟩ : EcPoint) (⟨Bounded.Finite ⟨22748028221779319076176510624118970842784515483405130895360428655102883872093, secpP⟩, Bounded.Finite ⟨45475484805375289014292969224159029645777915241785857295305535555664117202052, secpP⟩, ⟨secpA, secpP⟩, ⟨secpB, secpP⟩⟩ : EcPoint) = some (⟨Bounded.Finite ⟨22971131504152232323989187247411808869683627396897027961368542431926019004233, secpP⟩, Bounded.Finite ⟨97609736426556728831591583803631233034684715940413408963258107819767740020195, secpP⟩, ⟨secpA, secpP⟩, ⟨secpB, secpP⟩⟩ : EcPoint) := by rfl
lemma c8acc153 : ecAdd (⟨Bounded.Finite ⟨101033778425503574014684099111759490344154621228683854436296107272222670739677, secpP⟩, Bounded.Finite ⟨42796250005518910873947435274088804650613359832499456467147440966228327442201, secpP⟩, ⟨secpA, secpP⟩, ⟨secpB, secpP⟩⟩ : EcPoint) (⟨Bounded.Finite ⟨22971131504152232323989187247411808869683627396897027961368542431926019004233, secpP⟩, Bounded.Finite ⟨97609736426556728831591583803631233034684715940413408963258107819767740020195, secpP⟩, ⟨secpA, secpP⟩, ⟨secpB, secpP⟩⟩ : EcPoint) = some (⟨Bounded.Finite ⟨62694638710103142966512874778432251245752677992976717721765521316164604626861, secpP⟩, Bounded.Finite ⟨24095758639911844996771481976405251778358567578312806925735546674890671086736, secpP⟩, ⟨secpA, secpP⟩, ⟨secpB, secpP⟩⟩ : EcPoint) := by rfl
lemma c8dbl153 : ecAdd (⟨Bounded.Finite ⟨22971131504152232323989187247411808869683627396897027961368542431926019004233, secpP⟩, Bounded.Finite ⟨97609736426556728831591583803631233034684715940413408963258107819767740020195, secpP⟩, ⟨secpA, secpP⟩, ⟨secpB, secpP⟩⟩ : EcPoint) (⟨Bounded.Finite ⟨22971131504152232323989187247411808869683627396897027961368542431926019004233, secpP⟩, Bounded.Finite ⟨97609736426556728831591583803631233034684715940413408963258107819767740020195, secpP⟩, ⟨secpA, secpP⟩, ⟨secpB, secpP⟩⟩ : EcPoint) = some (⟨Bounded.Finite ⟨106366286125714711143514653622793217383752466534676761043495549248010028815844, secpP⟩, Bounded.Finite ⟨63443518936078980928975271049594475518271079655621131486236396265316979810558, secpP⟩, ⟨secpA, secpP⟩, ⟨secpB, secpP⟩⟩ : EcPoint) := by rfl
lemma c8acc154 : ecAdd (⟨Bounded.Finite ⟨62694638710103142966512874778432251245752677992976717721765521316164604626861, secpP⟩, Bounded.Finite ⟨24095758639911844996771481976405251778358567578312806925735546674890671086736, secpP⟩, ⟨secpA, secpP⟩, ⟨secpB, secpP⟩⟩ : EcPoint) (⟨Bounded.Finite ⟨106366286125714711143514653622793217383752466534676761043495549248010028815844, secpP⟩, Bounded.Finite ⟨63443518936078980928975271049594475518271079655621131486236396265316979810558, secpP⟩, ⟨secpA, secpP⟩, ⟨secpB, secpP⟩⟩ : EcPoint) = some (⟨Bounded.Finite ⟨81413426396105580183786943568605611210297419672204161304267129474314778869714, secpP⟩, Bounded.Finite ⟨51643406721498035591926987814921009332997171699847023416613139272914924014822, secpP⟩, ⟨secpA, secpP⟩, ⟨secpB, secpP⟩⟩ : EcPoint) := by rfl
lemma c8dbl154 : ecAdd (⟨Bounded.Finite ⟨106366286125714711143514653622793217383752466534676761043495549248010028815844, secpP⟩, Bounded.Finite ⟨63443518936078980928975271049594475518271079655621131486236396265316979810558, secpP⟩, ⟨secpA, secpP⟩, ⟨secpB, secpP⟩⟩ : EcPoint) (⟨Bounded.Finite ⟨106366286125714711143514653622793217383752466534676761043495549248010028815844, secpP⟩, Bounded.Finite ⟨63443518936078980928975271049594475518271079655621131486236396265316979810558, secpP⟩, ⟨secpA, secpP⟩, ⟨secpB, secpP⟩⟩ : EcPoint) = some (⟨Bounded.Finite ⟨75243349452409400390670867080265400955826636238534964912250945418780832972765, secpP⟩, Bounded.Finite ⟨54981855232630153751619068839379710690392191850677614602646052403990831204099, secpP⟩, ⟨secpA, secpP⟩, ⟨secpB, secpP⟩⟩ : EcPoint) := by rfl
lemma c8acc155 : ecAdd (⟨Bounded.Finite ⟨81413426396105580183786943568605611210297419672204161304267129474314778869714, secpP⟩, Bounded.Finite ⟨51643406721498035591926987814921009332997171699847023416613139272914924014822, secpP⟩, ⟨secpA, secpP⟩, ⟨secpB, secpP⟩⟩ : EcPoint) (⟨Bounded.Finite ⟨75243349452409400390670867080265400955826636238534964912250945418780832972765, secpP⟩, Bounded.Finite ⟨54981855232630153751619068839379710690392191850677614602646052403990831204099, secpP⟩, ⟨secpA, secpP⟩, ⟨secpB, secpP⟩⟩ : EcPoint) = some (⟨Bounded.Finite ⟨21064159776649894241607833220796825188513353040509085695513938191477550484029, secpP⟩, Bounded.Finite ⟨15846066697264671155349699086334552093749382433758902315880203622950896270571, secpP⟩, ⟨secpA, secpP⟩, ⟨secpB, secpP⟩⟩ : EcPoint) := by rfl
lemma c8dbl155 : ecAdd (⟨Bounded.Finite ⟨75243349452409400390670867080265400955826636238534964912250945418780832972765, secpP⟩, Bounded.Finite ⟨54981855232630153751619068839379710690392191850677614602646052403990831204099, secpP⟩, ⟨secpA, secpP⟩, ⟨secpB, secpP⟩⟩ : EcPoint) (⟨Bounded.Finite ⟨75243349452409400390670867080265400955826636238534964912250945418780832972765, secpP⟩, Bounded.Finite ⟨54981855232630153751619068839379710690392191850677614602646052403990831204099, secpP⟩, ⟨secpA, secpP⟩, ⟨secpB, secpP⟩⟩ : EcPoint) = some (⟨Bounded.Finite ⟨35269368267879876076917370410294906058734293247594447113822550857168296692886, secpP⟩, Bounded.Finite ⟨95273891293316720854000721987756315180413338976852308839788251922692115805, secpP⟩, ⟨secpA, secpP⟩, ⟨secpB, secpP⟩⟩ : EcPoint) := by rfl
lemma c8acc156 : ecAdd (⟨Bounded.Finite ⟨21064159776649894241607833220796825188513353040509085695513938191477550484029, secpP⟩, Bounded.Finite ⟨15846066697264671155349699086334552093749382433758902315880203622950896270571, secpP⟩, ⟨secpA, secpP⟩, ⟨secpB, secpP⟩⟩ : EcPoint) (⟨Bounded.Finite ⟨35269368267879876076917370410294906058734293247594447113822550857168296692886, secpP⟩, Bounded.Finite ⟨95273891293316720854000721987756315180413338976852308839788251922692115805, secpP⟩, ⟨secpA, secpP⟩, ⟨secpB, secpP⟩⟩ : EcPoint) = some (⟨Bounded.Finite ⟨8067130280375955498155270582300992518528567789421409511369299258617075631199, secpP⟩, Bounded.Finite ⟨28402050314672328579154242697337517867912453266071606258953688577151710859568, secpP⟩, ⟨secpA, secpP⟩, ⟨secpB, secpP⟩⟩ : EcPoint) := by rfl
lemma c8dbl156 : ecAdd (⟨Bounded.Finite ⟨35269368267879876076917370410294906058734293247594447113822550857168296692886, secpP⟩, Bounded.Finite ⟨95273891293316720854000721987756315180413338976852308839788251922692115805, secpP⟩, ⟨secpA, secpP⟩, ⟨secpB, secpP⟩⟩ : EcPoint) (⟨Bounded.Finite ⟨35269368267879876076917370410294906058734293247594447113822550857168296692886, secpP⟩, Bounded.Finite ⟨95273891293316720854000721987756315180413338976852308839788251922692115805, secpP⟩, ⟨secpA, secpP⟩, ⟨secpB, secpP⟩⟩ : EcPoint) = some (⟨Bounded.Finite ⟨107287887465783333787672797357624470089624197428007725918345876586585458515460, secpP⟩, Bounded.Finite ⟨8424212039425668253022291013437891429871302723219086751247826238756909595104, secpP⟩, ⟨secpA, secpP⟩, ⟨secpB, secpP⟩⟩ : EcPoint) := by rfl
lemma c8acc157 : ecAdd (⟨Bounded.Finite ⟨8067130280375955498155270582300992518528567789421409511369299258617075631199, secpP⟩, Bounded.Finite ⟨28402050314672328579154242697337517867912453266071606258953688577151710859568, secpP⟩, ⟨secpA, secpP⟩, ⟨secpB, secpP⟩⟩ : EcPoint) (⟨Bounded.Finite ⟨107287887465783333787672797357624470089624197428007725918345876586585458515460, secpP⟩, Bounded.Finite ⟨8424212039425668253022291013437891429871302723219086751247826238756909595104, secpP⟩, ⟨secpA, secpP⟩, ⟨secpB, secpP⟩⟩ : EcPoint) = some (⟨Bounded.Finite ⟨45761152285074963888706750847007678101194029126391568292164862834287743236260, secpP⟩, Bounded.Finite ⟨9666512234623561881627866384222152217805821208798249635499112356546692877079, secpP⟩, ⟨secpA, secpP⟩, ⟨secpB, secpP⟩⟩ : EcPoint) := by rfl
lemma c8dbl157 : ecAdd (⟨Bounded.Finite ⟨107287887465783333787672797357624470089624197428007725918345876586585458515460, secpP⟩, Bounded.Finite ⟨8424212039425668253022291013437891429871302723219086751247826238756909595104, secpP⟩, ⟨secpA, secpP⟩, ⟨secpB, secpP⟩⟩ : EcPoint) (⟨Bounded.Finite ⟨107287887465783333787672797357624470089624197428007725918345876586585458515460, secpP⟩, Bounded.Finite ⟨8424212039425668253022291013437891429871302723219086751247826238756909595104, secpP⟩, ⟨secpA, secpP⟩, ⟨secpB, secpP⟩⟩ : EcPoint) = some (⟨Bounded.Finite ⟨104996070104664638505320040442013632557530551413809799698237157067229055154261, secpP⟩, Bounded.Finite ⟨78673807004489092854216395411129353437829079224915559696534676000382399098335, secpP⟩, ⟨secpA, secpP⟩, ⟨secpB, secpP⟩⟩ : EcPoint) := by rfl
lemma c8acc158 : ecAdd (⟨Bounded.Finite ⟨45761152285074963888706750847007678101194029126391568292164862834287743236260, secpP⟩, Bounded.Finite ⟨9666512234623561881627866384222152217805821208798249635499112356546692877079, secpP⟩, ⟨secpA, secpP⟩, ⟨secpB, secpP⟩⟩ : EcPoint) (⟨Bounded.Finite ⟨104996070104664638505320040442013632557530551413809799698237157067229055154261, secpP⟩, Bounded.Finite ⟨78673807004489092854216395411129353437829079224915559696534676000382399098335, secpP⟩, ⟨secpA, secpP⟩, ⟨secpB, secpP⟩⟩ : EcPoint) = some (⟨Bounded.Finite ⟨18560929348648493496902303852929981826943633598245840785444694875193215692174, secpP⟩, Bounded.Finite ⟨112769562991526566581429180106091770796339008911662367862242582485643366576384, secpP⟩, ⟨secpA, secpP⟩, ⟨secpB, secpP⟩⟩ : EcPoint) := by rfl
lemma c8dbl158 : ecAdd (⟨Bounded.Finite ⟨104996070104664638505320040442013632557530551413809799698237157067229055154261, secpP⟩, Bounded.Finite ⟨78673807004489092854216395411129353437829079224915559696534676000382399098335, secpP⟩, ⟨secpA, secpP⟩, ⟨secpB, secpP⟩⟩ : EcPoint) (⟨Bounded.Finite ⟨104996070104664638505320040442013632557530551413809799698237157067229055154261, secpP⟩, Bounded.Finite ⟨78673807004489092854216395411129353437829079224915559696534676000382399098335, secpP⟩, ⟨secpA, secpP⟩, ⟨secpB, secpP⟩⟩ : EcPoint) = some (⟨Bounded.Finite ⟨28519628026037066657027912209611592939997525521524547924497404284374169515054, secpP⟩, Bounded.Finite ⟨113911143471074069342269815156022191118395698271153725836799489558703307009470, secpP⟩, ⟨secpA, secpP⟩, ⟨secpB, secpP⟩⟩ : EcPoint) := by rfl
lemma c8acc159 : ecAdd (⟨Bounded.Finite ⟨18560929348648493496902303852929981826943633598245840785444694875193215692174, secpP⟩, Bounded.Finite ⟨112769562991526566581429180106091770796339008911662367862242582485643366576384, secpP⟩, ⟨secpA, secpP⟩, ⟨secpB, secpP⟩⟩ : EcPoint) (⟨Bounded.Finite ⟨28519628026037066657027912209611592939997525521524547924497404284374169515054, secpP⟩, Bounded.Finite ⟨113911143471074069342269815156022191118395698271153725836799489558703307009470, secpP⟩, ⟨secpA, secpP⟩, ⟨secpB, secpP⟩⟩ : EcPoint) = some (⟨Bounded.Finite ⟨82573376505735398797749460473420703975557479532007200170569724442995876740115, secpP⟩, Bounded.Finite ⟨39299027964379713774792743053537718647474776468391445360563566742887773271967, secpP⟩, ⟨secpA, secpP⟩, ⟨secpB, secpP⟩⟩ : EcPoint) := by rfl
lemma c8dbl159 : ecAdd (⟨Bounded.Finite ⟨28519628026037066657027912209611592939997525521524547924497404284374169515054, secpP⟩, Bounded.Finite ⟨113911143471074069342269815156022191118395698271153725836799489558703307009470, secpP⟩, ⟨secpA, secpP⟩, ⟨secpB, secpP⟩⟩ : EcPoint) (⟨Bounded.Finite ⟨28519628026037066657027912209611592939997525521524547924497404284374169515054, secpP⟩, Bounded.Finite ⟨113911143471074069342269815156022191118395698271153725836799489558703307009470, secpP⟩, ⟨secpA, secpP⟩, ⟨secpB, secpP⟩⟩ : EcPoint) = some (⟨Bounded.Finite ⟨70661691742434068036519986667419907196041281127668848645928138120846244813005, secpP⟩, Bounded.Finite ⟨100286785047006832236729389681182172543048508833941702006321829459516874054045, secpP⟩, ⟨secpA, secpP⟩, ⟨secpB, secpP⟩⟩ : EcPoint) := by rfl
lemma c8acc160 : ecAdd (⟨Bounded.Finite ⟨82573376505735398797749460473420703975557479532007200170569724442995876740115, secpP⟩, Bounded.Finite ⟨39299027964379713774792743053537718647474776468391445360563566742887773271967, secpP⟩, ⟨secpA, secpP⟩, ⟨secpB, secpP⟩⟩ : EcPoint) (⟨Bounded.Finite ⟨70661691742434068036519986667419907196041281127668848645928138120846244813005, secpP⟩, Bounded.Finite ⟨100286785047006832236729389681182172543048508833941702006321829459516874054045, secpP⟩, ⟨secpA, secpP⟩, ⟨secpB, secpP⟩⟩ : EcPoint) = some (⟨Bounded.Finite ⟨50613684197574533383325475395772840295275209808597143405520121315576830549186, secpP⟩, Bounded.Finite ⟨51805907568463563985607985934819899230192571470607329638432349900267088729081, secpP⟩, ⟨secpA, secpP⟩, ⟨secpB, secpP⟩⟩ : EcPoint) := by rfl
lemma c8dbl160 : ecAdd (⟨Bounded.Finite ⟨70661691742434068036519986667419907196041281127668848645928138120846244813005, secpP⟩, Bounded.Finite ⟨100286785047006832236729389681182172543048508833941702006321829459516874054045, secpP⟩, ⟨secpA, secpP⟩, ⟨secpB, secpP⟩⟩ : EcPoint) (⟨Bounded.Finite ⟨70661691742434068036519986667419907196041281127668848645928138120846244813005, secpP⟩, Bounded.Finite ⟨100286785047006832236729389681182172543048508833941702006321829459516874054045, secpP⟩, ⟨secpA, secpP⟩, ⟨secpB, secpP⟩⟩ : EcPoint) = some (⟨Bounded.Finite ⟨20912437725801942983686217293131152237262404596163037810613525995454376577516, secpP⟩, Bounded.Finite ⟨56487811975550303384642959780870327480512649236944577417586609378984145534, secpP⟩, ⟨secpA, secpP⟩, ⟨secpB, secpP⟩⟩ : EcPoint) := by rfl
lemma c8acc161 : ecAdd (⟨Bounded.Finite ⟨50613684197574533383325475395772840295275209808597143405520121315576830549186, secpP⟩, Bounded.Finite ⟨51805907568463563985607985934819899230192571470607329638432349900267088729081, secpP⟩, ⟨secpA, secpP⟩, ⟨secpB, secpP⟩⟩ : EcPoint) (⟨Bounded.Finite ⟨20912437725801942983686217293131152237262404596163037810613525995454376577516, secpP⟩, Bounded.Finite ⟨56487811975550303384642959780870327480512649236944577417586609378984145534, secpP⟩, ⟨secpA, secpP⟩, ⟨secpB, secpP⟩⟩ : EcPoint) = some (⟨Bounded.Finite ⟨62248462504263467714584230639972138759161200691249656819712187384075316604332, secpP⟩, Bounded.Finite ⟨7965997658390101079332281606136996653182077908250494180895408009046119779296, secpP⟩, ⟨secpA, secpP⟩, ⟨secpB, secpP⟩⟩ : EcPoint) := by rfl
lemma c8dbl161 : ecAdd (⟨Bounded.Finite ⟨20912437725801942983686217293131152237262404596163037810613525995454376577516, secpP⟩, Bounded.Finite ⟨56487811975550303384642959780870327480512649236944577417586609378984145534, secpP⟩, ⟨secpA, secpP⟩, ⟨secpB, secpP⟩⟩ : EcPoint) (⟨Bounded.Finite ⟨20912437725801942983686217293131152237262404596163037810613525995454376577516, secpP⟩, Bounded.Finite ⟨56487811975550303384642959780870327480512649236944577417586609378984145534, secpP⟩, ⟨secpA, secpP⟩, ⟨secpB, secpP⟩⟩ : EcPoint) = some (⟨Bounded.Finite ⟨105337008461688988395496963115550441795554320308823072776506794583685171281126, secpP⟩, Bounded.Finite ⟨32017945344679105301355390714034191900569536621409624903946887176817068091004, secpP⟩, ⟨secpA, secpP⟩, ⟨secpB, secpP⟩⟩ : EcPoint) := by rfl
lemma c8acc162 : ecAdd (⟨Bounded.Finite ⟨62248462504263467714584230639972138759161200691249656819712187384075316604332, secpP⟩, Bounded.Finite ⟨7965997658390101079332281606136996653182077908250494180895408009046119779296, secpP⟩, ⟨secpA, secpP⟩, ⟨secpB, secpP⟩⟩ : EcPoint) (⟨Bounded.Finite ⟨105337008461688988395496963115550441795554320308823072776506794583685171281126, secpP⟩, Bounded.Finite ⟨32017945344679105301355390714034191900569536621409624903946887176817068091004, secpP⟩, ⟨secpA, secpP⟩, ⟨secpB, secpP⟩⟩ : EcPoint) = some (⟨Bounded.Finite ⟨94304331522273496808116349343247115097055453840393084609261207752741124358128, secpP⟩, Bounded.Finite ⟨31753488936967043696809363174701549528556726880817095842685633602961996585636, secpP⟩, ⟨secpA, secpP⟩, ⟨secpB, secpP⟩⟩ : EcPoint) := by rfl
lemma c8dbl162 : ecAdd (⟨Bounded.Finite ⟨105337008461688988395496963115550441795554320308823072776506794583685171281126, secpP⟩, Bounded.Finite ⟨32017945344679105301355390714034191900569536621409624903946887176817068091004, secpP⟩, ⟨secpA, secpP⟩, ⟨secpB, secpP⟩⟩ : EcPoint) (⟨Bounded.Finite ⟨105337008461688988395496963115550441795554320308823072776506794583685171281126, secpP⟩, Bounded.Finite ⟨32017945344679105301355390714034191900569536621409624903946887176817068091004, secpP⟩, ⟨secpA, secpP⟩, ⟨secpB, secpP⟩⟩ : EcPoint) = some (⟨Bounded.Finite ⟨75685728382744045810490612211978229115853638039525209649070995925887462388674, secpP⟩, Bounded.Finite ⟨85529213318684499199278987295719119779748279834721244243621489005051282713327, secpP⟩, ⟨secpA, secpP⟩, ⟨secpB, secpP⟩⟩ : EcPoint) := by rfl
lemma c8acc163 : ecAdd (⟨Bounded.Finite ⟨94304331522273496808116349343247115097055453840393084609261207752741124358128, secpP⟩, Bounded.Finite ⟨31753488936967043696809363174701549528556726880817095842685633602961996585636, secpP⟩, ⟨secpA, secpP⟩, ⟨secpB, secpP⟩⟩ : EcPoint) (⟨Bounded.Finite ⟨75685728382744045810490612211978229115853638039525209649070995925887462388674, secpP⟩, Bounded.Finite ⟨85529213318684499199278987295719119779748279834721244243621489005051282713327, secpP⟩, ⟨secpA, secpP⟩, ⟨secpB, secpP⟩⟩ : EcPoint) = some (⟨Bounded.Finite ⟨114749105857829616057603277433445827949030992454201980219292508691539427079064, secpP⟩, Bounded.Finite ⟨4476763698178109215061468145393122881130255579336894294178167191581612073296, secpP⟩, ⟨secpA, secpP⟩, ⟨secpB, secpP⟩⟩ : EcPoint) := by rfl
lemma c8dbl163 : ecAdd (⟨Bounded.Finite ⟨75685728382744045810490612211978229115853638039525209649070995925887462388674, secpP⟩, Bounded.Finite ⟨85529213318684499199278987295719119779748279834721244243621489005051282713327, secpP⟩, ⟨secpA, secpP⟩, ⟨secpB, secpP⟩⟩ : EcPoint) (⟨Bounded.Finite ⟨75685728382744045810490612211978229115853638039525209649070995925887462388674, secpP⟩, Bounded.Finite ⟨85529213318684499199278987295719119779748279834721244243621489005051282713327, secpP⟩, ⟨secpA, secpP⟩, ⟨secpB, secpP⟩⟩ : EcPoint) = some (⟨Bounded.Finite ⟨43575908198494793243005774075373759548810068549539444933972772880645886663141, secpP⟩, Bounded.Finite ⟨69703777934707822825561719800850612270463729018593401066444767531444843422376, secpP⟩, ⟨secpA, secpP⟩, ⟨secpB, secpP⟩⟩ : EcPoint) := by rfl
lemma c8acc164 : ecAdd (⟨Bounded.Finite ⟨114749105857829616057603277433445827949030992454201980219292508691539427079064, secpP⟩, Bounded.Finite ⟨4476763698178109215061468145393122881130255579336894294178167191581612073296, secpP⟩, ⟨secpA, secpP⟩, ⟨secpB, secpP⟩⟩ : EcPoint) (⟨Bounded.Finite ⟨43575908198494793243005774075373759548810068549539444933972772880645886663141, secpP⟩, Bounded.Finite ⟨69703777934707822825561719800850612270463729018593401066444767531444843422376, secpP⟩, ⟨secpA, secpP⟩, ⟨secpB, secpP⟩⟩ : EcPoint) = some (⟨Bounded.Finite ⟨73156421406644187235081997026000499221545159563463308076613754647691436301708, secpP⟩, Bounded.Finite ⟨72731185322230603800534659625273863081746753514036875805286803777153280448494, secpP⟩, ⟨secpA, secpP⟩, ⟨secpB, secpP⟩⟩ : EcPoint) := by rfl
lemma c8dbl164 : ecAdd (⟨Bounded.Finite ⟨43575908198494793243005774075373759548810068549539444933972772880645886663141, secpP⟩, Bounded.Finite ⟨69703777934707822825561719800850612270463729018593401066444767531444843422376, secpP⟩, ⟨secpA, secpP⟩, ⟨secpB, secpP⟩⟩ : EcPoint) (⟨Bounded.Finite ⟨43575908198494793243005774075373759548810068549539444933972772880645886663141, secpP⟩, Bounded.Finite ⟨69703777934707822825561719800850612270463729018593401066444767531444843422376, secpP⟩, ⟨secpA, secpP⟩, ⟨secpB, secpP⟩⟩ : EcPoint) = some (⟨Bounded.Finite ⟨46793159748319014521754592728195492543648682627431155803053172123841138087004, secpP⟩, Bounded.Finite ⟨30896349737549724559469649176734599846674275470447944521491009517811476115886, secpP⟩, ⟨secpA, secpP⟩, ⟨secpB, secpP⟩⟩ : EcPoint) := by rfl
lemma c8acc165 : ecAdd (⟨Bounded.Finite ⟨73156421406644187235081997026000499221545159563463308076613754647691436301708, secpP⟩, Bounded.Finite ⟨72731185322230603800534659625273863081746753514036875805286803777153280448494, secpP⟩, ⟨secpA, secpP⟩, ⟨secpB, secpP⟩⟩ : EcPoint) (⟨Bounded.Finite ⟨46793159748319014521754592728195492543648682627431155803053172123841138087004, secpP⟩, Bounded.Finite ⟨30896349737549724559469649176734599846674275470447944521491009517811476115886, secpP⟩, ⟨secpA, secpP⟩, ⟨secpB, secpP⟩⟩ : EcPoint) = some (⟨Bounded.Finite ⟨62734468877395534755757165923205128268653264925969806142579124920023589270036, secpP⟩, Bounded.Finite ⟨59407832839423674474108084154443451585523788883120070401167552875467080655349, secpP⟩, ⟨secpA, secpP⟩, ⟨secpB, secpP⟩⟩ : EcPoint) := by rfl
lemma c8dbl165 : ecAdd (⟨Bounded.Finite ⟨46793159748319014521754592728195492543648682627431155803053172123841138087004, secpP⟩, Bounded.Finite ⟨30896349737549724559469649176734599846674275470447944521491009517811476115886, secpP⟩, ⟨secpA, secpP⟩, ⟨secpB, secpP⟩⟩ : EcPoint) (⟨Bounded.Finite ⟨46793159748319014521754592728195492543648682627431155803053172123841138087004, secpP⟩, Bounded.Finite ⟨30896349737549724559469649176734599846674275470447944521491009517811476115886, secpP⟩, ⟨secpA, secpP⟩, ⟨secpB, secpP⟩⟩ : EcPoint) = some (⟨Bounded.Finite ⟨101757012457202265442783729516325848567041695344201435111479322003948473610273, secpP⟩, Bounded.Finite ⟨5581666239041823897511191387175605974957398643319691692931775273945574355546, secpP⟩, ⟨secpA, secpP⟩, ⟨secpB, secpP⟩⟩ : EcPoint) := by rfl
lemma c8acc166 : ecAdd (⟨Bounded.Finite ⟨62734468877395534755757165923205128268653264925969806142579124920023589270036, secpP⟩, Bounded.Finite ⟨59407832839423674474108084154443451585523788883120070401167552875467080655349, secpP⟩, ⟨secpA, secpP⟩, ⟨secpB, secpP⟩⟩ : EcPoint) (⟨Bounded.Finite ⟨101757012457202265442783729516325848567041695344201435111479322003948473610273, secpP⟩, Bounded.Finite ⟨5581666239041823897511191387175605974957398643319691692931775273945574355546, secpP⟩, ⟨secpA, secpP⟩, ⟨secpB, secpP⟩⟩ : EcPoint) = some (⟨Bounded.Finite ⟨112172446824784397943995176919888054471487948449592980499391769875633346581368, secpP⟩, Bounded.Finite ⟨55859448214441627279579698475192060498900609882065822563585336025129430054846, secpP⟩, ⟨secpA, secpP⟩, ⟨secpB, secpP⟩⟩ : EcPoint) := by rfl
lemma c8dbl166 : ecAdd (⟨Bounded.Finite ⟨101757012457202265442783729516325848567041695344201435111479322003948473610273, secpP⟩, Bounded.Finite ⟨5581666239041823897511191387175605974957398643319691692931775273945574355546, secpP⟩, ⟨secpA, secpP⟩, ⟨secpB, secpP⟩⟩ : EcPoint) (⟨Bounded.Finite ⟨101757012457202265442783729516325848567041695344201435111479322003948473610273, secpP⟩, Bounded.Finite ⟨5581666239041823897511191387175605974957398643319691692931775273945574355546, secpP⟩, ⟨secpA, secpP⟩, ⟨secpB, secpP⟩⟩ : EcPoint) = some (⟨Bounded.Finite ⟨30209700677164570836251569796863977697827501003939778269324249569134489792003, secpP⟩, Bounded.Finite ⟨47413224699192139329891654683339940809213741191817662756932842522986369283987, secpP⟩, ⟨secpA, secpP⟩, ⟨secpB, secpP⟩⟩ : EcPoint) := by rfl
lemma c8acc167 : ecAdd (⟨Bounded.Finite ⟨112172446824784397943995176919888054471487948449592980499391769875633346581368, secpP⟩, Bounded.Finite ⟨55859448214441627279579698475192060498900609882065822563585336025129430054846, secpP⟩, ⟨secpA, secpP⟩, ⟨secpB, secpP⟩⟩ : EcPoint) (⟨Bounded.Finite ⟨30209700677164570836251569796863977697827501003939778269324249569134489792003, secpP⟩, Bounded.Finite ⟨47413224699192139329891654683339940809213741191817662756932842522986369283987, secpP⟩, ⟨secpA, secpP⟩, ⟨secpB, secpP⟩⟩ : EcPoint) = some (⟨Bounded.Finite ⟨93912565785139307016161950679622968781046914571229830494986975930576605778711, secpP⟩, Bounded.Finite ⟨29964694777065420508021296115347598096702416321325475110750515324977580655062, secpP⟩, ⟨secpA, secpP⟩, ⟨secpB, secpP⟩⟩ : EcPoint) := by rfl
lemma c8dbl167 : ecAdd (⟨Bounded.Finite ⟨30209700677164570836251569796863977697827501003939778269324249569134489792003, secpP⟩, Bounded.Finite ⟨47413224699192139329891654683339940809213741191817662756932842522986369283987, secpP⟩, ⟨secpA, secpP⟩, ⟨secpB, secpP⟩⟩ : EcPoint) (⟨Bounded.Finite ⟨30209700677164570836251569796863977697827501003939778269324249569134489792003, secpP⟩, Bounded.Finite ⟨47413224699192139329891654683339940809213741191817662756932842522986369283987, secpP⟩, ⟨secpA, secpP⟩, ⟨secpB, secpP⟩⟩ : EcPoint) = some (⟨Bounded.Finite ⟨74841650891382527078449938271109455202772530131693735678356618476847598486118, secpP⟩, Bounded.Finite ⟨29242638042721994709047470454581660554102402946865770918554005639977770323656, secpP⟩, ⟨secpA, secpP⟩, ⟨secpB, secpP⟩⟩ : EcPoint) := by rfl
lemma c8acc168 : ecAdd (⟨Bounded.Finite ⟨93912565785139307016161950679622968781046914571229830494986975930576605778711, secpP⟩, Bounded.Finite ⟨29964694777065420508021296115347598096702416321325475110750515324977580655062, secpP⟩, ⟨secpA, secpP⟩, ⟨secpB, secpP⟩⟩ : EcPoint) (⟨Bounded.Finite ⟨74841650891382527078449938271109455202772530131693735678356618476847598486118, secpP⟩, Bounded.Finite ⟨29242638042721994709047470454581660554102402946865770918554005639977770323656, secpP⟩, ⟨secpA, secpP⟩, ⟨secpB, secpP⟩⟩ : EcPoint) = some (⟨Bounded.Finite ⟨35226059335101933311749405272571863457568325597634905831690332789817180515430, secpP⟩, Bounded.Finite ⟨33384763739153480822164745313988675215284906542338000026214103211366784021762, secpP⟩, ⟨secpA, secpP⟩, ⟨secpB, secpP⟩⟩ : EcPoint) := by rfl
lemma c8dbl168 : ecAdd (⟨Bounded.Finite ⟨74841650891382527078449938271109455202772530131693735678356618476847598486118, secpP⟩, Bounded.Finite ⟨29242638042721994709047470454581660554102402946865770918554005639977770323656, secpP⟩, ⟨secpA, secpP⟩, ⟨secpB, secpP⟩⟩ : EcPoint) (⟨Bounded.Finite ⟨74841650891382527078449938271109455202772530131693735678356618476847598486118, secpP⟩, Bounded.Finite ⟨29242638042721994709047470454581660554102402946865770918554005639977770323656, secpP⟩, ⟨secpA, secpP⟩, ⟨secpB, secpP⟩⟩ : EcPoint) = some (⟨Bounded.Finite ⟨71631157476704051659259801706240663560508572801269375166786124610215506626710, secpP⟩, Bounded.Finite ⟨50626912648402731289281390580926582439784259522574187076012504768241480157237, secpP⟩, ⟨secpA, secpP⟩, ⟨secpB, secpP⟩⟩ : EcPoint) := by rfl
lemma c8acc169 : ecAdd (⟨Bounded.Finite ⟨35226059335101933311749405272571863457568325597634905831690332789817180515430, secpP⟩, Bounded.Finite ⟨33384763739153480822164745313988675215284906542338000026214103211366784021762, secpP⟩, ⟨secpA, secpP⟩, ⟨secpB, secpP⟩⟩ : EcPoint) (⟨Bounded.Finite ⟨71631157476704051659259801706240663560508572801269375166786124610215506626710, secpP⟩, Bounded.Finite ⟨50626912648402731289281390580926582439784259522574187076012504768241480157237, secpP⟩, ⟨secpA, secpP⟩, ⟨secpB, secpP⟩⟩ : EcPoint) = some (⟨Bounded.Finite ⟨113149396721675226183785687199223313575294111180927885353779286447025943321527, secpP⟩, Bounded.Finite ⟨59894430033256809996284190027797713341759201348462922346211113257141828004855, secpP⟩, ⟨secpA, secpP⟩, ⟨secpB, secpP⟩⟩ : EcPoint) := by rfl
lemma c8dbl169 : ecAdd (⟨Bounded.Finite ⟨71631157476704051659259801706240663560508572801269375166786124610215506626710, secpP⟩, Bounded.Finite ⟨50626912648402731289281390580926582439784259522574187076012504768241480157237, secpP⟩, ⟨secpA, secpP⟩, ⟨secpB, secpP⟩⟩ : EcPoint) (⟨Bounded.Finite ⟨71631157476704051659259801706240663560508572801269375166786124610215506626710, secpP⟩, Bounded.Finite ⟨50626912648402731289281390580926582439784259522574187076012504768241480157237, secpP⟩, ⟨secpA, secpP⟩, ⟨secpB, secpP⟩⟩ : EcPoint) = some (⟨Bounded.Finite ⟨75928542468193195488721590741574481272714198891253064800438184108329627778720, secpP⟩, Bounded.Finite ⟨75192750551909937947468929249355987104463312649195251159923289612823008422826, secpP⟩, ⟨secpA, secpP⟩, ⟨secpB, secpP⟩⟩ : EcPoint) := by rfl
lemma c8acc170 : ecAdd (⟨Bounded.Finite ⟨113149396721675226183785687199223313575294111180927885353779286447025943321527, secpP⟩, Bounded.Finite ⟨59894430033256809996284190027797713341759201348462922346211113257141828004855, secpP⟩, ⟨secpA, secpP⟩, ⟨secpB, secpP⟩⟩ : EcPoint) (⟨Bounded.Finite ⟨75928542468193195488721590741574481272714198891253064800438184108329627778720, secpP⟩, Bounded.Finite ⟨75192750551909937947468929249355987104463312649195251159923289612823008422826, secpP⟩, ⟨secpA, secpP⟩, ⟨secpB, secpP⟩⟩ : EcPoint) = some (⟨Bounded.Finite ⟨2070204883874586979755513349640918964830615684643216416182655782655758594541, secpP⟩, Bounded.Finite ⟨85913346119219550608918492453541442982755921573256835284083073987406074747760, secpP⟩, ⟨secpA, secpP⟩, ⟨secpB, secpP⟩⟩ : EcPoint) := by rfl
lemma c8dbl170 : ecAdd (⟨Bounded.Finite ⟨75928542468193195488721590741574481272714198891253064800438184108329627778720, secpP⟩, Bounded.Finite ⟨75192750551909937947468929249355987104463312649195251159923289612823008422826, secpP⟩, ⟨secpA, secpP⟩, ⟨secpB, secpP⟩⟩ : EcPoint) (⟨Bounded.Finite ⟨75928542468193195488721590741574481272714198891253064800438184108329627778720, secpP⟩, Bounded.Finite ⟨75192750551909937947468929249355987104463312649195251159923289612823008422826, secpP⟩, ⟨secpA, secpP⟩, ⟨secpB, secpP⟩⟩ : EcPoint) = some (⟨Bounded.Finite ⟨87929611941466450580474503142124427241088012317746799540322218015595119056635, secpP⟩, Bounded.Finite ⟨104894792315886610373915701617963847607765162153160773537780133243754931320852, secpP⟩, ⟨secpA, secpP⟩, ⟨secpB, secpP⟩⟩ : EcPoint) := by rfl
lemma c8acc171 : ecAdd (⟨Bounded.Finite ⟨2070204883874586979755513349640918964830615684643216416182655782655758594541, secpP⟩, Bounded.Finite ⟨85913346119219550608918492453541442982755921573256835284083073987406074747760, secpP⟩, ⟨secpA, secpP⟩, ⟨secpB, secpP⟩⟩ : EcPoint) (⟨Bounded.Finite ⟨87929611941466450580474503142124427241088012317746799540322218015595119056635, secpP⟩, Bounded.Finite ⟨104894792315886610373915701617963847607765162153160773537780133243754931320852, secpP⟩, ⟨secpA, secpP⟩, ⟨secpB, secpP⟩⟩ : EcPoint) = some (⟨Bounded.Finite ⟨29873748141905807058024221897945895150426782627928752455872311607406879110292, secpP⟩, Bounded.Finite ⟨60314029818254727737267413732752055509495781222255259696456950426078141934717, secpP⟩, ⟨secpA, secpP⟩, ⟨secpB, secpP⟩⟩ : EcPoint) := by rfl
lemma c8dbl171 : ecAdd (⟨Bounded.Finite ⟨87929611941466450580474503142124427241088012317746799540322218015595119056635, secpP⟩, Bounded.Finite ⟨104894792315886610373915701617963847607765162153160773537780133243754931320852, secpP⟩, ⟨secpA, secpP⟩, ⟨secpB, secpP⟩⟩ : EcPoint) (⟨Bounded.Finite ⟨87929611941466450580474503142124427241088012317746799540322218015595119056635, secpP⟩, Bounded.Finite ⟨104894792315886610373915701617963847607765162153160773537780133243754931320852, secpP⟩, ⟨secpA, secpP⟩, ⟨secpB, secpP⟩⟩ : EcPoint) = some (⟨Bounded.Finite ⟨54038406999518685708957755903010924118312453838615747233838912018122735660401, secpP⟩, Bounded.Finite ⟨23694175599991408963414726019522496431384061981312306500396236825552398271404, secpP⟩, ⟨secpA, secpP⟩, ⟨secpB, secpP⟩⟩ : EcPoint) := by rfl
lemma c8acc172 : ecAdd (⟨Bounded.Finite ⟨29873748141905807058024221897945895150426782627928752455872311607406879110292, secpP⟩, Bounded.Finite ⟨60314029818254727737267413732752055509495781222255259696456950426078141934717, secpP⟩, ⟨secpA, secpP⟩, ⟨secpB, secpP⟩⟩ : EcPoint) (⟨Bounded.Finite ⟨54038406999518685708957755903010924118312453838615747233838912018122735660401, secpP⟩, Bounded.Finite ⟨23694175599991408963414726019522496431384061981312306500396236825552398271404, secpP⟩, ⟨secpA, secpP⟩, ⟨secpB, secpP⟩⟩ : EcPoint) = some (⟨Bounded.Finite ⟨52711587612775625797697341722512137836488587027913421465260586332499447009502, secpP⟩, Bounded.Finite ⟨13693183853723932982658988534614564085336030000449643408659872070924800253870, secpP⟩, ⟨secpA, secpP⟩, ⟨secpB, secpP⟩⟩ : EcPoint) := by rfl
lemma c8dbl172 : ecAdd (⟨Bounded.Finite ⟨54038406999518685708957755903010924118312453838615747233838912018122735660401, secpP⟩, Bounded.Finite ⟨23694175599991408963414726019522496431384061981312306500396236825552398271404, secpP⟩, ⟨secpA, secpP⟩, ⟨secpB, secpP⟩⟩ : EcPoint) (⟨Bounded.Finite ⟨54038406999518685708957755903010924118312453838615747233838912018122735660401, secpP⟩, Bounded.Finite ⟨23694175599991408963414726019522496431384061981312306500396236825552398271404, secpP⟩, ⟨secpA, secpP⟩, ⟨secpB, secpP⟩⟩ : EcPoint) = some (⟨Bounded.Finite ⟨104811972735495353830322167991327219943131946744088941348424456729187245615225, secpP⟩, Bounded.Finite ⟨8467783976897375037636665426419232997456360183332998866888776438963891641752, secpP⟩, ⟨secpA, secpP⟩, ⟨secpB, secpP⟩⟩ : EcPoint) := by rfl
lemma c8acc173 : ecAdd (⟨Bounded.Finite ⟨52711587612775625797697341722512137836488587027913421465260586332499447009502, secpP⟩, Bounded.Finite ⟨13693183853723932982658988534614564085336030000449643408659872070924800253870, secpP⟩, ⟨secpA, secpP⟩, ⟨secpB, secpP⟩⟩ : EcPoint) (⟨Bounded.Finite ⟨104811972735495353830322167991327219943131946744088941348424456729187245615225, secpP⟩, Bounded.Finite ⟨8467783976897375037636665426419232997456360183332998866888776438963891641752, secpP⟩, ⟨secpA, secpP⟩, ⟨secpB, secpP⟩⟩ : EcPoint) = some (⟨Bounded.Finite ⟨114929085248450553725830617566960843911747044598908522223285933841276842744276, secpP⟩, Bounded.Finite ⟨87830507935707959954958782318601029278248223436796437882574575498737203188114, secpP⟩, ⟨secpA, secpP⟩, ⟨secpB, secpP⟩⟩ : EcPoint) := by rfl
lemma c8dbl173 : ecAdd (⟨Bounded.Finite ⟨104811972735495353830322167991327219943131946744088941348424456729187245615225, secpP⟩, Bounded.Finite ⟨8467783976897375037636665426419232997456360183332998866888776438963891641752, secpP⟩, ⟨secpA, secpP⟩, ⟨secpB, secpP⟩⟩ : EcPoint) (⟨Bounded.Finite ⟨104811972735495353830322167991327219943131946744088941348424456729187245615225, secpP⟩, Bounded.Finite ⟨8467783976897375037636665426419232997456360183332998866888776438963891641752, secpP⟩, ⟨secpA, secpP⟩, ⟨secpB, secpP⟩⟩ : EcPoint) = some (⟨Bounded.Finite ⟨3215551885474507458266292022538992596230437910109015106438584379300426977039, secpP⟩, Bounded.Finite ⟨37306322622624672463065915763956225690223522454760918147434180740861300687668, secpP⟩, ⟨secpA, secpP⟩, ⟨secpB, secpP⟩⟩ : EcPoint) := by rfl
lemma c8acc174 : ecAdd (⟨Bounded.Finite ⟨114929085248450553725830617566960843911747044598908522223285933841276842744276, secpP⟩, Bounded.Finite ⟨87830507935707959954958782318601029278248223436796437882574575498737203188114, secpP⟩, ⟨secpA, secpP⟩, ⟨secpB, secpP⟩⟩ : EcPoint) (⟨Bounded.Finite ⟨3215551885474507458266292022538992596230437910109015106438584379300426977039, secpP⟩, Bounded.Finite ⟨37306322622624672463065915763956225690223522454760918147434180740861300687668, secpP⟩, ⟨secpA, secpP⟩, ⟨secpB, secpP⟩⟩ : EcPoint) = some (⟨Bounded.Finite ⟨42506850229344260533699254673607416329486700005533824580814509045108411872876, secpP⟩, Bounded.Finite ⟨51402263881715333216875830854680085658510428392897165749394538891132414388550, secpP⟩, ⟨secpA, secpP⟩, ⟨secpB, secpP⟩⟩ : EcPoint) := by rfl
lemma c8dbl174 : ecAdd (⟨Bounded.Finite ⟨3215551885474507458266292022538992596230437910109015106438584379300426977039, secpP⟩, Bounded.Finite ⟨37306322622624672463065915763956225690223522454760918147434180740861300687668, secpP⟩, ⟨secpA, secpP⟩, ⟨secpB, secpP⟩⟩ : EcPoint) (⟨Bounded.Finite ⟨3215551885474507458266292022538992596230437910109015106438584379300426977039, secpP⟩, Bounded.Finite ⟨37306322622624672463065915763956225690223522454760918147434180740861300687668, secpP⟩, ⟨secpA, secpP⟩, ⟨secpB, secpP⟩⟩ : EcPoint) = some (⟨Bounded.Finite ⟨947390502650680957920869582008711724723808429374401610775941200653824958689, secpP⟩, Bounded.Finite ⟨86236473645369998874832829444512637388615157303166534859982939866800801290421, secpP⟩, ⟨secpA, secpP⟩, ⟨secpB, secpP⟩⟩ : EcPoint) := by rfl
lemma c8acc175 : ecAdd (⟨Bounded.Finite ⟨42506850229344260533699254673607416329486700005533824580814509045108411872876, secpP⟩, Bounded.Finite ⟨51402263881715333216875830854680085658510428392897165749394538891132414388550, secpP⟩, ⟨secpA, secpP⟩, ⟨secpB, secpP⟩⟩ : EcPoint) (⟨Bounded.Finite ⟨947390502650680957920869582008711724723808429374401610775941200653824958689, secpP⟩, Bounded.Finite ⟨86236473645369998874832829444512637388615157303166534859982939866800801290421, secpP⟩, ⟨secpA, secpP⟩, ⟨secpB, secpP⟩⟩ : EcPoint) = some (⟨Bounded.Finite ⟨22688283644905229582878684955816599114744435964831567715612498102492263638185, secpP⟩, Bounded.Finite ⟨25432323947914688525796610309512452751151618294517290768406018952511473076002, secpP⟩, ⟨secpA, secpP⟩, ⟨secpB, secpP⟩⟩ : EcPoint) := by rfl
lemma c8dbl175 : ecAdd (⟨Bounded.Finite ⟨947390502650680957920869582008711724723808429374401610775941200653824958689, secpP⟩, Bounded.Finite ⟨86236473645369998874832829444512637388615157303166534859982939866800801290421, secpP⟩, ⟨secpA, secpP⟩, ⟨secpB, secpP⟩⟩ : EcPoint) (⟨Bounded.Finite ⟨947390502650680957920869582008711724723808429374401610775941200653824958689, secpP⟩, Bounded.Finite ⟨86236473645369998874832829444512637388615157303166534859982939866800801290421, secpP⟩, ⟨secpA, secpP⟩, ⟨secpB, secpP⟩⟩ : EcPoint) = some (⟨Bounded.Finite ⟨4142520438525914541011842624208056062406705649998025173845082041682105009068, secpP⟩, Bounded.Finite ⟨87900869236804138087371702825961176259461360124819616238035200569139627100447, secpP⟩, ⟨secpA, secpP⟩, ⟨secpB, secpP⟩⟩ : EcPoint) := by rfl
lemma c8acc176 : ecAdd (⟨Bounded.Finite ⟨22688283644905229582878684955816599114744435964831567715612498102492263638185, secpP⟩, Bounded.Finite ⟨25432323947914688525796610309512452751151618294517290768406018952511473076002, secpP⟩, ⟨secpA, secpP⟩, ⟨secpB, secpP⟩⟩ : EcPoint) (⟨Bounded.Finite ⟨4142520438525914541011842624208056062406705649998025173845082041682105009068, secpP⟩, Bounded.Finite ⟨87900869236804138087371702825961176259461360124819616238035200569139627100447, secpP⟩, ⟨secpA, secpP⟩, ⟨secpB, secpP⟩⟩ : EcPoint) = some (⟨Bounded.Finite ⟨56313531445760181520291524148546735166936497593520315965293404361066917373463, secpP⟩, Bounded.Finite ⟨7023894789066727864946544612688650223068469975986256496831813544917972514157, secpP⟩, ⟨secpA, secpP⟩, ⟨secpB, secpP⟩⟩ : EcPoint) := by rfl
lemma c8dbl176 : ecAdd (⟨Bounded.Finite ⟨4142520438525914541011842624208056062406705649998025173845082041682105009068, secpP⟩, Bounded.Finite ⟨87900869236804138087371702825961176259461360124819616238035200569139627100447, secpP⟩, ⟨secpA, secpP⟩, ⟨secpB, secpP⟩⟩ : EcPoint) (⟨Bounded.Finite ⟨4142520438525914541011842624208056062406705649998025173845082041682105009068, secpP⟩, Bounded.Finite ⟨87900869236804138087371702825961176259461360124819616238035200569139627100447, secpP⟩, ⟨secpA, secpP⟩, ⟨secpB, secpP⟩⟩ : EcPoint) = some (⟨Bounded.Finite ⟨35976083938318534650029463496695503152893117754555618189020557340809841204638, secpP⟩, Bounded.Finite ⟨91581555597957928166775283241751618539413557986610388037330404183144654090313, secpP⟩, ⟨secpA, secpP⟩, ⟨secpB, secpP⟩⟩ : EcPoint) := by rfl
lemma c8acc177 : ecAdd (⟨Bounded.Finite ⟨56313531445760181520291524148546735166936497593520315965293404361066917373463, secpP⟩, Bounded.Finite ⟨7023894789066727864946544612688650223068469975986256496831813544917972514157, secpP⟩, ⟨secpA, secpP⟩, ⟨secpB, secpP⟩⟩ : EcPoint) (⟨Bounded.Finite ⟨35976083938318534650029463496695503152893117754555618189020557340809841204638, secpP⟩, Bounded.Finite ⟨91581555597957928166775283241751618539413557986610388037330404183144654090313, secpP⟩, ⟨secpA, secpP⟩, ⟨secpB, secpP⟩⟩ : EcPoint) = some (⟨Bounded.Finite ⟨61395379527807154589910593530388813956074296196146759454533147536489311870064, secpP⟩, Bounded.Finite ⟨60982411027170441390433730145619550479056017399567039311076256568038987248209, secpP⟩, ⟨secpA, secpP⟩, ⟨secpB, secpP⟩⟩ : EcPoint) := by rfl
lemma c8dbl177 : ecAdd (⟨Bounded.Finite ⟨35976083938318534650029463496695503152893117754555618189020557340809841204638, secpP⟩, Bounded.Finite ⟨91581555597957928166775283241751618539413557986610388037330404183144654090313, secpP⟩, ⟨secpA, secpP⟩, ⟨secpB, secpP⟩⟩ : EcPoint) (⟨Bounded.Finite ⟨35976083938318534650029463496695503152893117754555618189020557340809841204638, secpP⟩, Bounded.Finite ⟨91581555597957928166775283241751618539413557986610388037330404183144654090313, secpP⟩, ⟨secpA, secpP⟩, ⟨secpB, secpP⟩⟩ : EcPoint) = some (⟨Bounded.Finite ⟨92099574356616060718641758322300714450252979003106256663913657963750974558615, secpP⟩, Bounded.Finite ⟨44679714547892089078501304545394627678115758391255360766903436677955303545885, secpP⟩, ⟨secpA, secpP⟩, ⟨secpB, secpP⟩⟩ : EcPoint) := by rfl
lemma c8acc178 : ecAdd (⟨Bounded.Finite ⟨61395379527807154589910593530388813956074296196146759454533147536489311870064, secpP⟩, Bounded.Finite ⟨60982411027170441390433730145619550479056017399567039311076256568038987248209, secpP⟩, ⟨secpA, secpP⟩, ⟨secpB, secpP⟩⟩ : EcPoint) (⟨Bounded.Finite ⟨92099574356616060718641758322300714450252979003106256663913657963750974558615, secpP⟩, Bounded.Finite ⟨44679714547892089078501304545394627678115758391255360766903436677955303545885, secpP⟩, ⟨secpA, secpP⟩, ⟨secpB, secpP⟩⟩ : EcPoint) = some (⟨Bounded.Finite ⟨60602008552774070692677442494729302278814488972178655463377434598891056704362, secpP⟩, Bounded.Finite ⟨69652999832373287830413259163074242998390147242088075325550673119691028760126, secpP⟩, ⟨secpA, secpP⟩, ⟨secpB, secpP⟩⟩ : EcPoint) := by rfl
lemma c8dbl178 : ecAdd (⟨Bounded.Finite ⟨92099574356616060718641758322300714450252979003106256663913657963750974558615, secpP⟩, Bounded.Finite ⟨44679714547892089078501304545394627678115758391255360766903436677955303545885, secpP⟩, ⟨secpA, secpP⟩, ⟨secpB, secpP⟩⟩ : EcPoint) (⟨Bounded.Finite ⟨92099574356616060718641758322300714450252979003106256663913657963750974558615, secpP⟩, Bounded.Finite ⟨44679714547892089078501304545394627678115758391255360766903436677955303545885, secpP⟩, ⟨secpA, secpP⟩, ⟨secpB, secpP⟩⟩ : EcPoint) = some (⟨Bounded.Finite ⟨102652556215175073222018368450968179239643399116479030486157396231787228507330, secpP⟩, Bounded.Finite ⟨14437232828413691012043572600308410207374052858180415647749396463091843383375, secpP⟩, ⟨secpA, secpP⟩, ⟨secpB, secpP⟩⟩ : EcPoint) := by rfl
lemma c8acc179 : ecAdd (⟨Bounded.Finite ⟨60602008552774070692677442494729302278814488972178655463377434598891056704362, secpP⟩, Bounded.Finite ⟨69652999832373287830413259163074242998390147242088075325550673119691028760126, secpP⟩, ⟨secpA, secpP⟩, ⟨secpB, secpP⟩⟩ : EcPoint) (⟨Bounded.Finite ⟨102652556215175073222018368450968179239643399116479030486157396231787228507330, secpP⟩, Bounded.Finite ⟨14437232828413691012043572600308410207374052858180415647749396463091843383375, secpP⟩, ⟨secpA, secpP⟩, ⟨secpB, secpP⟩⟩ : EcPoint) = some (⟨Bounded.Finite ⟨63486259634284010518869700171992398503661545992267646023489026482566456550680, secpP⟩, Bounded.Finite ⟨68068739873562892420495356343759067810318960198244271889240148296759038135300, secpP⟩, ⟨secpA, secpP⟩, ⟨secpB, secpP⟩⟩ : EcPoint) := by rfl
lemma c8dbl179 : ecAdd (⟨Bounded.Finite ⟨102652556215175073222018368450968179239643399116479030486157396231787228507330, secpP⟩, Bounded.Finite ⟨14437232828413691012043572600308410207374052858180415647749396463091843383375, secpP⟩, ⟨secpA, secpP⟩, ⟨secpB, secpP⟩⟩ : EcPoint) (⟨Bounded.Finite ⟨102652556215175073222018368450968179239643399116479030486157396231787228507330, secpP⟩, Bounded.Finite ⟨14437232828413691012043572600308410207374052858180415647749396463091843383375, secpP⟩, ⟨secpA, secpP⟩, ⟨secpB, secpP⟩⟩ : EcPoint) = some (⟨Bounded.Finite ⟨60526872670786283833918632266282189958727983389364017821054603492994282170193, secpP⟩, Bounded.Finite ⟨14027692582691445211169305233477544073839133566657605745596417381878123854178, secpP⟩, ⟨secpA, secpP⟩, ⟨secpB, secpP⟩⟩ : EcPoint) := by rfl
lemma c8acc180 : ecAdd (⟨Bounded.Finite ⟨63486259634284010518869700171992398503661545992267646023489026482566456550680, secpP⟩, Bounded.Finite ⟨68068739873562892420495356343759067810318960198244271889240148296759038135300, secpP⟩, ⟨secpA, secpP⟩, ⟨secpB, secpP⟩⟩ : EcPoint) (⟨Bounded.Finite ⟨60526872670786283833918632266282189958727983389364017821054603492994282170193, secpP⟩, Bounded.Finite ⟨14027692582691445211169305233477544073839133566657605745596417381878123854178, secpP⟩, ⟨secpA, secpP⟩, ⟨secpB, secpP⟩⟩ : EcPoint) = some (⟨Bounded.Finite ⟨54101560700677057488529534741850644660042807169323832715061677300725817542945, secpP⟩, Bounded.Finite ⟨106168333532991453879971453163277109879803401700822822299742876147761440309986, secpP⟩, ⟨secpA, secpP⟩, ⟨secpB, secpP⟩⟩ : EcPoint) := by rfl
lemma c8dbl180 : ecAdd (⟨Bounded.Finite ⟨60526872670786283833918632266282189958727983389364017821054603492994282170193, secpP⟩, Bounded.Finite ⟨14027692582691445211169305233477544073839133566657605745596417381878123854178, secpP⟩, ⟨secpA, secpP⟩, ⟨secpB, secpP⟩⟩ : EcPoint) (⟨Bounded.Finite ⟨60526872670786283833918632266282189958727983389364017821054603492994282170193, secpP⟩, Bounded.Finite ⟨14027692582691445211169305233477544073839133566657605745596417381878123854178, secpP⟩, ⟨secpA, secpP⟩, ⟨secpB, secpP⟩⟩ : EcPoint) = some (⟨Bounded.Finite ⟨48611368844139479430646292898246827799543615133757497943303942111011000011486, secpP⟩, Bounded.Finite ⟨94184599433492315644214590509977869566386224898957355163260253699332858500095, secpP⟩, ⟨secpA, secpP⟩, ⟨secpB, secpP⟩⟩ : EcPoint) := by rfl
lemma c8acc181 : ecAdd (⟨Bounded.Finite ⟨54101560700677057488529534741850644660042807169323832715061677300725817542945, secpP⟩, Bounded.Finite ⟨106168333532991453879971453163277109879803401700822822299742876147761440309986, secpP⟩, ⟨secpA, secpP⟩, ⟨secpB, secpP⟩⟩ : EcPoint) (⟨Bounded.Finite ⟨48611368844139479430646292898246827799543615133757497943303942111011000011486, secpP⟩, Bounded.Finite ⟨94184599433492315644214590509977869566386224898957355163260253699332858500095, secpP⟩, ⟨secpA, secpP⟩, ⟨secpB, secpP⟩⟩ : EcPoint) = some (⟨Bounded.Finite ⟨58803828977889904056958201134416749289453418644284312180892862150470978232871, secpP⟩, Bounded.Finite ⟨68452637737348940430426184124178236692535050505332233028361893573654271099616, secpP⟩, ⟨secpA, secpP⟩, ⟨secpB, secpP⟩⟩ : EcPoint) := by rfl
lemma c8dbl181 : ecAdd (⟨Bounded.Finite ⟨48611368844139479430646292898246827799543615133757497943303942111011000011486, secpP⟩, Bounded.Finite ⟨94184599433492315644214590509977869566386224898957355163260253699332858500095, secpP⟩, ⟨secpA, secpP⟩, ⟨secpB, secpP⟩⟩ : EcPoint) (⟨Bounded.Finite ⟨48611368844139479430646292898246827799543615133757497943303942111011000011486, secpP⟩, Bounded.Finite ⟨94184599433492315644214590509977869566386224898957355163260253699332858500095, secpP⟩, ⟨secpA, secpP⟩, ⟨secpB, secpP⟩⟩ : EcPoint) = some (⟨Bounded.Finite ⟨29436743060920481988952312356424937775284815172144744489261980482023293444299, secpP⟩, Bounded.Finite ⟨90938483595262914582675074472013558936350058640531727255070751800362248713128, secpP⟩, ⟨secpA, secpP⟩, ⟨secpB, secpP⟩⟩ : EcPoint) := by rfl
lemma c8acc182 : ecAdd (⟨Bounded.Finite ⟨58803828977889904056958201134416749289453418644284312180892862150470978232871, secpP⟩, Bounded.Finite ⟨68452637737348940430426184124178236692535050505332233028361893573654271099616, secpP⟩, ⟨secpA, secpP⟩, ⟨secpB, secpP⟩⟩ : EcPoint) (⟨Bounded.Finite ⟨29436743060920481988952312356424937775284815172144744489261980482023293444299, secpP⟩, Bounded.Finite ⟨90938483595262914582675074472013558936350058640531727255070751800362248713128, secpP⟩, ⟨secpA, secpP⟩, ⟨secpB, secpP⟩⟩ : EcPoint) = some (⟨Bounded.Finite ⟨66518931987740708092984178574691790016917337737952891688123449635061325216156, secpP⟩, Bounded.Finite ⟨63754585599876267609156917378169350991360481042700069865689657451230775548364, secpP⟩, ⟨secpA, secpP⟩, ⟨secpB, secpP⟩⟩ : EcPoint) := by rfl
lemma c8dbl182 : ecAdd (⟨Bounded.Finite ⟨29436743060920481988952312356424937775284815172144744489261980482023293444299, secpP⟩, Bounded.Finite ⟨90938483595262914582675074472013558936350058640531727255070751800362248713128, secpP⟩, ⟨secpA, secpP⟩, ⟨secpB, secpP⟩⟩ : EcPoint) (⟨Bounded.Finite ⟨29436743060920481988952312356424937775284815172144744489261980482023293444299, secpP⟩, Bounded.Finite ⟨90938483595262914582675074472013558936350058640531727255070751800362248713128, secpP⟩, ⟨secpA, secpP⟩, ⟨secpB, secpP⟩⟩ : EcPoint) = some (⟨Bounded.Finite ⟨94976567038575040138507300949054306311784168683241399150467020165872178418684, secpP⟩, Bounded.Finite ⟨65079320657075459505472718093134166223214459592164919156492801936293394346061, secpP⟩, ⟨secpA, secpP⟩, ⟨secpB, secpP⟩⟩ : EcPoint) := by rfl
lemma c8acc183 : ecAdd (⟨Bounded.Finite ⟨66518931987740708092984178574691790016917337737952891688123449635061325216156, secpP⟩, Bounded.Finite ⟨63754585599876267609156917378169350991360481042700069865689657451230775548364, secpP⟩, ⟨secpA, secpP⟩, ⟨secpB, secpP⟩⟩ : EcPoint) (⟨Bounded.Finite ⟨94976567038575040138507300949054306311784168683241399150467020165872178418684, secpP⟩, Bounded.Finite ⟨65079320657075459505472718093134166223214459592164919156492801936293394346061, secpP⟩, ⟨secpA, secpP⟩, ⟨secpB, secpP⟩⟩ : EcPoint) = some (⟨Bounded.Finite ⟨114989896324114142582880091593198513170996485363105493920687794509420983332961, secpP⟩, Bounded.Finite ⟨7481367548924958910439849234132001479707060958931045511835875367415060017631, secpP⟩, ⟨secpA, secpP⟩, ⟨secpB, secpP⟩⟩ : EcPoint) := by rfl
lemma c8dbl183 : ecAdd (⟨Bounded.Finite ⟨94976567038575040138507300949054306311784168683241399150467020165872178418684, secpP⟩, Bounded.Finite ⟨65079320657075459505472718093134166223214459592164919156492801936293394346061, secpP⟩, ⟨secpA, secpP⟩, ⟨secpB, secpP⟩⟩ : EcPoint) (⟨Bounded.Finite ⟨94976567038575040138507300949054306311784168683241399150467020165872178418684, secpP⟩, Bounded.Finite ⟨65079320657075459505472718093134166223214459592164919156492801936293394346061, secpP⟩, ⟨secpA, secpP⟩, ⟨secpB, secpP⟩⟩ : EcPoint) = some (⟨Bounded.Finite ⟨115415846104970316816674669646231381722554829723945808246505339409944432478334, secpP⟩, Bounded.Finite ⟨33126753624353590316677983729603901933376151587979623867133648552767197976839, secpP⟩, ⟨secpA, secpP⟩, ⟨secpB, secpP⟩⟩ : EcPoint) := by rfl
lemma c8acc184 : ecAdd (⟨Bounded.Finite ⟨114989896324114142582880091593198513170996485363105493920687794509420983332961, secpP⟩, Bounded.Finite ⟨7481367548924958910439849234132001479707060958931045511835875367415060017631, secpP⟩, ⟨secpA, secpP⟩, ⟨secpB, secpP⟩⟩ : EcPoint) (⟨Bounded.Finite ⟨115415846104970316816674669646231381722554829723945808246505339409944432478334, secpP⟩, Bounded.Finite ⟨33126753624353590316677983729603901933376151587979623867133648552767197976839, secpP⟩, ⟨secpA, secpP⟩, ⟨secpB, secpP⟩⟩ : EcPoint) = some (⟨Bounded.Finite ⟨103027176964090739901348021419433442083819779335333888871571742362270166514167, secpP⟩, Bounded.Finite ⟨54181323159617956693674588492020250288031145001273986907292449155885602796649, secpP⟩, ⟨secpA, secpP⟩, ⟨secpB, secpP⟩⟩ : EcPoint) := by rfl
lemma c8dbl184 : ecAdd (⟨Bounded.Finite ⟨115415846104970316816674669646231381722554829723945808246505339409944432478334, secpP⟩, Bounded.Finite ⟨33126753624353590316677983729603901933376151587979623867133648552767197976839, secpP⟩, ⟨secpA, secpP⟩, ⟨secpB, secpP⟩⟩ : EcPoint) (⟨Bounded.Finite ⟨115415846104970316816674669646231381722554829723945808246505339409944432478334, secpP⟩, Bounded.Finite ⟨33126753624353590316677983729603901933376151587979623867133648552767197976839, secpP⟩, ⟨secpA, secpP⟩, ⟨secpB, secpP⟩⟩ : EcPoint) = some (⟨Bounded.Finite ⟨18776033471282089014310671094577787458033563645391456854929614351132929947887, secpP⟩, Bounded.Finite ⟨75132272094628034345708172112257475055149432967843434987053037295066962960968, secpP⟩, ⟨secpA, secpP⟩, ⟨secpB, secpP⟩⟩ : EcPoint) := by rfl
lemma c8acc185 : ecAdd (⟨Bounded.Finite ⟨103027176964090739901348021419433442083819779335333888871571742362270166514167, secpP⟩, Bounded.Finite ⟨54181323159617956693674588492020250288031145001273986907292449155885602796649, secpP⟩, ⟨secpA, secpP⟩, ⟨secpB, secpP⟩⟩ : EcPoint) (⟨Bounded.Finite ⟨18776033471282089014310671094577787458033563645391456854929614351132929947887, secpP⟩, Bounded.Finite ⟨75132272094628034345708172112257475055149432967843434987053037295066962960968, secpP⟩, ⟨secpA, secpP⟩, ⟨secpB, secpP⟩⟩ : EcPoint) = some (⟨Bounded.Finite ⟨4204695906946780589313791879208530286494667006376374838986876141639449894612, secpP⟩, Bounded.Finite ⟨104209475553988776387256580368715944301255144328160595977204614846757114076509, secpP⟩, ⟨secpA, secpP⟩, ⟨secpB, secpP⟩⟩ : EcPoint) := by rfl
lemma c8dbl185 : ecAdd (⟨Bounded.Finite ⟨18776033471282089014310671094577787458033563645391456854929614351132929947887, secpP⟩, Bounded.Finite ⟨75132272094628034345708172112257475055149432967843434987053037295066962960968, secpP⟩, ⟨secpA, secpP⟩, ⟨secpB, secpP⟩⟩ : EcPoint) (⟨Bounded.Finite ⟨18776033471282089014310671094577787458033563645391456854929614351132929947887, secpP⟩, Bounded.Finite ⟨75132272094628034345708172112257475055149432967843434987053037295066962960968, secpP⟩, ⟨secpA, secpP⟩, ⟨secpB, secpP⟩⟩ : EcPoint) = some (⟨Bounded.Finite ⟨11832388558031419782808688022015883762691763226078981998965787321613871498267, secpP⟩, Bounded.Finite ⟨38657913077255361434444622743436849344919651203626641239625924177481274928933, secpP⟩, ⟨secpA, secpP⟩, ⟨secpB, secpP⟩⟩ : EcPoint) := by rfl
lemma c8acc186 : ecAdd (⟨Bounded.Finite ⟨4204695906946780589313791879208530286494667006376374838986876141639449894612, secpP⟩, Bounded.Finite ⟨104209475553988776387256580368715944301255144328160595977204614846757114076509, secpP⟩, ⟨secpA, secpP⟩, ⟨secpB, secpP⟩⟩ : EcPoint) (⟨Bounded.Finite ⟨11832388558031419782808688022015883762691763226078981998965787321613871498267, secpP⟩, Bounded.Finite ⟨38657913077255361434444622743436849344919651203626641239625924177481274928933, secpP⟩, ⟨secpA, secpP⟩, ⟨secpB, secpP⟩⟩ : EcPoint) = some (⟨Bounded.Finite ⟨54242991660078524246918591746260064059264467522232695105655327418938766831688, secpP⟩, Bounded.Finite ⟨4193113019248963161905915003596032009497563786460297449393726659570364859079, secpP⟩, ⟨secpA, secpP⟩, ⟨secpB, secpP⟩⟩ : EcPoint) := by rfl
lemma c8dbl186 : ecAdd (⟨Bounded.Finite ⟨11832388558031419782808688022015883762691763226078981998965787321613871498267, secpP⟩, Bounded.Finite ⟨38657913077255361434444622743436849344919651203626641239625924177481274928933, secpP⟩, ⟨secpA, secpP⟩, ⟨secpB, secpP⟩⟩ : EcPoint) (⟨Bounded.Finite ⟨11832388558031419782808688022015883762691763226078981998965787321613871498267, secpP⟩, Bounded.Finite ⟨38657913077255361434444622743436849344919651203626641239625924177481274928933, secpP⟩, ⟨secpA, secpP⟩, ⟨secpB, secpP⟩⟩ : EcPoint) = some (⟨Bounded.Finite ⟨5674256344222473770316337151722717121901524681814366176584467328211802271911, secpP⟩, Bounded.Finite ⟨6241280037293053435562565229917129205739093461742926377996529691184676112606, secpP⟩, ⟨secpA, secpP⟩, ⟨secpB, secpP⟩⟩ : EcPoint) := by rfl
lemma c8acc187 : ecAdd (⟨Bounded.Finite ⟨54242991660078524246918591746260064059264467522232695105655327418938766831688, secpP⟩, Bounded.Finite ⟨4193113019248963161905915003596032009497563786460297449393726659570364859079, secpP⟩, ⟨secpA, secpP⟩, ⟨secpB, secpP⟩⟩ : EcPoint) (⟨Bounded.Finite ⟨5674256344222473770316337151722717121901524681814366176584467328211802271911, secpP⟩, Bounded.Finite ⟨6241280037293053435562565229917129205739093461742926377996529691184676112606, secpP⟩, ⟨secpA, secpP⟩, ⟨secpB, secpP⟩⟩ : EcPoint) = some (⟨Bounded.Finite ⟨47641762048130959225463157744936741734004477513581969797239495873127107041545, secpP⟩, Bounded.Finite ⟨76207105472136298014269720338542649558764238652312501597524413778998387938985, secpP⟩, ⟨secpA, secpP⟩, ⟨secpB, secpP⟩⟩ : EcPoint) := by rfl
lemma c8dbl187 : ecAdd (⟨Bounded.Finite ⟨5674256344222473770316337151722717121901524681814366176584467328211802271911, secpP⟩, Bounded.Finite ⟨6241280037293053435562565229917129205739093461742926377996529691184676112606, secpP⟩, ⟨secpA, secpP⟩, ⟨secpB, secpP⟩⟩ : EcPoint) (⟨Bounded.Finite ⟨5674256344222473770316337151722717121901524681814366176584467328211802271911, secpP⟩, Bounded.Finite ⟨6241280037293053435562565229917129205739093461742926377996529691184676112606, secpP⟩, ⟨secpA, secpP⟩, ⟨secpB, secpP⟩⟩ : EcPoint) = some (⟨Bounded.Finite ⟨59026356685222097294628395983368866596266777678130656463811370893799945855553, secpP⟩, Bounded.Finite ⟨89585527340406565500019872698075135548357340032819778309253570440118818477036, secpP⟩, ⟨secpA, secpP⟩, ⟨secpB, secpP⟩⟩ : EcPoint) := by rfl
lemma c8acc188 : ecAdd (⟨Bounded.Finite ⟨47641762048130959225463157744936741734004477513581969797239495873127107041545, secpP⟩, Bounded.Finite ⟨76207105472136298014269720338542649558764238652312501597524413778998387938985, secpP⟩, ⟨secpA, secpP⟩, ⟨secpB, secpP⟩⟩ : EcPoint) (⟨Bounded.Finite ⟨59026356685222097294628395983368866596266777678130656463811370893799945855553, secpP⟩, Bounded.Finite ⟨89585527340406565500019872698075135548357340032819778309253570440118818477036, secpP⟩, ⟨secpA, secpP⟩, ⟨secpB, secpP⟩⟩ : EcPoint) = some (⟨Bounded.Finite ⟨69472768068364136774272514248217981945764793800798781763504648168259253466708, secpP⟩, Bounded.Finite ⟨84066309016639162622272974958451153753611922903235405923145116548454900762224, secpP⟩, ⟨secpA, secpP⟩, ⟨secpB, secpP⟩⟩ : EcPoint) := by rfl
lemma c8dbl188 : ecAdd (⟨Bounded.Finite ⟨59026356685222097294628395983368866596266777678130656463811370893799945855553, secpP⟩, Bounded.Finite ⟨89585527340406565500019872698075135548357340032819778309253570440118818477036, secpP⟩, ⟨secpA, secpP⟩, ⟨secpB, secpP⟩⟩ : EcPoint) (⟨Bounded.Finite ⟨59026356685222097294628395983368866596266777678130656463811370893799945855553, secpP⟩, Bounded.Finite ⟨89585527340406565500019872698075135548357340032819778309253570440118818477036, secpP⟩, ⟨secpA, secpP⟩, ⟨secpB, secpP⟩⟩ : EcPoint) = some (⟨Bounded.Finite ⟨82997769624973021721207329827925752179285999209160244580518381248798973329757, secpP⟩, Bounded.Finite ⟨34120506380485136088917855908736915544289626703143468135554854919091047095237, secpP⟩, ⟨secpA, secpP⟩, ⟨secpB, secpP⟩⟩ : EcPoint) := by rfl
lemma c8acc189 : ecAdd (⟨Bounded.Finite ⟨69472768068364136774272514248217981945764793800798781763504648168259253466708, secpP⟩, Bounded.Finite ⟨84066309016639162622272974958451153753611922903235405923145116548454900762224, secpP⟩, ⟨secpA, secpP⟩, ⟨secpB, secpP⟩⟩ : EcPoint) (⟨Bounded.Finite ⟨82997769624973021721207329827925752179285999209160244580518381248798973329757, secpP⟩, Bounded.Finite ⟨34120506380485136088917855908736915544289626703143468135554854919091047095237, secpP⟩, ⟨secpA, secpP⟩, ⟨secpB, secpP⟩⟩ : EcPoint) = some (⟨Bounded.Finite ⟨7479663366765373719254913328326893330953174271598814660940401003642652305012, secpP⟩, Bounded.Finite ⟨76397558670108916513522558135257170527595729312327759784355169197723725322970, secpP⟩, ⟨secpA, secpP⟩, ⟨secpB, secpP⟩⟩ : EcPoint) := by rfl
lemma c8dbl189 : ecAdd (⟨Bounded.Finite ⟨82997769624973021721207329827925752179285999209160244580518381248798973329757, secpP⟩, Bounded.Finite ⟨34120506380485136088917855908736915544289626703143468135554854919091047095237, secpP⟩, ⟨secpA, secpP⟩, ⟨secpB, secpP⟩⟩ : EcPoint) (⟨Bounded.Finite ⟨82997769624973021721207329827925752179285999209160244580518381248798973329757, secpP⟩, Bounded.Finite ⟨34120506380485136088917855908736915544289626703143468135554854919091047095237, secpP⟩, ⟨secpA, secpP⟩, ⟨secpB, secpP⟩⟩ : EcPoint) = some (⟨Bounded.Finite ⟨32833730202948453445551585602227016221189718115335492475756041315423310145004, secpP⟩, Bounded.Finite ⟨53428498708335298930383652178427276342268514807561120763391253036328211515369, secpP⟩, ⟨secpA, secpP⟩, ⟨secpB, secpP⟩⟩ : EcPoint) := by rfl
lemma c8acc190 : ecAdd (⟨Bounded.Finite ⟨7479663366765373719254913328326893330953174271598814660940401003642652305012, secpP⟩, Bounded.Finite ⟨76397558670108916513522558135257170527595729312327759784355169197723725322970, secpP⟩, ⟨secpA, secpP⟩, ⟨secpB, secpP⟩⟩ : EcPoint) (⟨Bounded.Finite ⟨32833730202948453445551585602227016221189718115335492475756041315423310145004, secpP⟩, Bounded.Finite ⟨53428498708335298930383652178427276342268514807561120763391253036328211515369, secpP⟩, ⟨secpA, secpP⟩, ⟨secpB, secpP⟩⟩ : EcPoint) = some (⟨Bounded.Finite ⟨93214559303503295622146213850162265162499163294906951100460861720335563037717, secpP⟩, Bounded.Finite ⟨103051017875081872528402971112466631275333185906029800312422230478788782875349, secpP⟩, ⟨secpA, secpP⟩, ⟨secpB, secpP⟩⟩ : EcPoint) := by rfl
lemma c8dbl190 : ecAdd (⟨Bounded.Finite ⟨32833730202948453445551585602227016221189718115335492475756041315423310145004, secpP⟩, Bounded.Finite ⟨53428498708335298930383652178427276342268514807561120763391253036328211515369, secpP⟩, ⟨secpA, secpP⟩, ⟨secpB, secpP⟩⟩ : EcPoint) (⟨Bounded.Finite ⟨32833730202948453445551585602227016221189718115335492475756041315423310145004, secpP⟩, Bounded.Finite ⟨53428498708335298930383652178427276342268514807561120763391253036328211515369, secpP⟩, ⟨secpA, secpP⟩, ⟨secpB, secpP⟩⟩ : EcPoint) = some (⟨Bounded.Finite ⟨105475728434031409379183406694662903881450546214247029555786593600199689335290, secpP⟩, Bounded.Finite ⟨113583883859274030372082034862029605514506016193810719839027086029553530647303, secpP⟩, ⟨secpA, secpP⟩, ⟨secpB, secpP⟩⟩ : EcPoint) := by rfl
lemma c8acc191 : ecAdd (⟨Bounded.Finite ⟨93214559303503295622146213850162265162499163294906951100460861720335563037717, secpP⟩, Bounded.Finite ⟨103051017875081872528402971112466631275333185906029800312422230478788782875349, secpP⟩, ⟨secpA, secpP⟩, ⟨secpB, secpP⟩⟩ : EcPoint) (⟨Bounded.Finite ⟨105475728434031409379183406694662903881450546214247029555786593600199689335290, secpP⟩, Bounded.Finite ⟨113583883859274030372082034862029605514506016193810719839027086029553530647303, secpP⟩, ⟨secpA, secpP⟩, ⟨secpB, secpP⟩⟩ : EcPoint) = some (⟨Bounded.Finite ⟨19436059746748227418925458231805909355641770432714992717682190711891460146984, secpP⟩, Bounded.Finite ⟨25123249739837458872363581055900892661847146841399057288865559747995855903950, secpP⟩, ⟨secpA, secpP⟩, ⟨secpB, secpP⟩⟩ : EcPoint) := by rfl
lemma c8dbl191 : ecAdd (⟨Bounded.Finite ⟨105475728434031409379183406694662903881450546214247029555786593600199689335290, secpP⟩, Bounded.Finite ⟨113583883859274030372082034862029605514506016193810719839027086029553530647303, secpP⟩, ⟨secpA, secpP⟩, ⟨secpB, secpP⟩⟩ : EcPoint) (⟨Bounded.Finite ⟨105475728434031409379183406694662903881450546214247029555786593600199689335290, secpP⟩, Bounded.Finite ⟨113583883859274030372082034862029605514506016193810719839027086029553530647303, secpP⟩, ⟨secpA, secpP⟩, ⟨secpB, secpP⟩⟩ : EcPoint) = some (⟨Bounded.Finite ⟨106135013536326263233204638779771538367307463662639765758785315935371743257267, secpP⟩, Bounded.Finite ⟨86028625094535483850261571256264386723357163272666519397289099603747119225149, secpP⟩, ⟨secpA, secpP⟩, ⟨secpB, secpP⟩⟩ : EcPoint) := by rfl
lemma c8acc192 : ecAdd (⟨Bounded.Finite ⟨19436059746748227418925458231805909355641770432714992717682190711891460146984, secpP⟩, Bounded.Finite ⟨25123249739837458872363581055900892661847146841399057288865559747995855903950, secpP⟩, ⟨secpA, secpP⟩, ⟨secpB, secpP⟩⟩ : EcPoint) (⟨Bounded.Finite ⟨106135013536326263233204638779771538367307463662639765758785315935371743257267, secpP⟩, Bounded.Finite ⟨86028625094535483850261571256264386723357163272666519397289099603747119225149, secpP⟩, ⟨secpA, secpP⟩, ⟨secpB, secpP⟩⟩ : EcPoint) = some (⟨Bounded.Finite ⟨113244355352594671284226941655179016027454160970747784394405576931970465735633, secpP⟩, Bounded.Finite ⟨96695630708123308266617042421227815773548125428873656885849064873582072419487, secpP⟩, ⟨secpA, secpP⟩, ⟨secpB, secpP⟩⟩ : EcPoint) := by rfl
lemma c8dbl192 : ecAdd (⟨Bounded.Finite ⟨106135013536326263233204638779771538367307463662639765758785315935371743257267, secpP⟩, Bounded.Finite ⟨86028625094535483850261571256264386723357163272666519397289099603747119225149, secpP⟩, ⟨secpA, secpP⟩, ⟨secpB, secpP⟩⟩ : EcPoint) (⟨Bounded.Finite ⟨106135013536326263233204638779771538367307463662639765758785315935371743257267, secpP⟩, Bounded.Finite ⟨86028625094535483850261571256264386723357163272666519397289099603747119225149, secpP⟩, ⟨secpA, secpP⟩, ⟨secpB, secpP⟩⟩ : EcPoint) = some (⟨Bounded.Finite ⟨26622173145108500381473837459513401868318671376325266944487505521378511663272, secpP⟩, Bounded.Finite ⟨25015334278771650323507319424566501275290669267697587988960111333611631525338, secpP⟩, ⟨secpA, secpP⟩, ⟨secpB, secpP⟩⟩ : EcPoint) := by rfl
lemma c8acc193 : ecAdd (⟨Bounded.Finite ⟨113244355352594671284226941655179016027454160970747784394405576931970465735633, secpP⟩, Bounded.Finite ⟨96695630708123308266617042421227815773548125428873656885849064873582072419487, secpP⟩, ⟨secpA, secpP⟩, ⟨secpB, secpP⟩⟩ : EcPoint) (⟨Bounded.Finite ⟨26622173145108500381473837459513401868318671376325266944487505521378511663272, secpP⟩, Bounded.Finite ⟨25015334278771650323507319424566501275290669267697587988960111333611631525338, secpP⟩, ⟨secpA, secpP⟩, ⟨secpB, secpP⟩⟩ : EcPoint) = some (⟨Bounded.Finite ⟨103323434291070884810043926593444845888906981086108116030348704516931883710008, secpP⟩, Bounded.Finite ⟨60614954341398185246747036263666980376835306511800380097735627237901586744236, secpP⟩, ⟨secpA, secpP⟩, ⟨secpB, secpP⟩⟩ : EcPoint) := by rfl
lemma c8dbl193 : ecAdd (⟨Bounded.Finite ⟨26622173145108500381473837459513401868318671376325266944487505521378511663272, secpP⟩, Bounded.Finite ⟨25015334278771650323507319424566501275290669267697587988960111333611631525338, secpP⟩, ⟨secpA, secpP⟩, ⟨secpB, secpP⟩⟩ : EcPoint) (⟨Bounded.Finite ⟨26622173145108500381473837459513401868318671376325266944487505521378511663272, secpP⟩, Bounded.Finite ⟨25015334278771650323507319424566501275290669267697587988960111333611631525338, secpP⟩, ⟨secpA, secpP⟩, ⟨secpB, secpP⟩⟩ : EcPoint) = some (⟨Bounded.Finite ⟨8421370599800668602652103103676786751239058426611888163586601660098353727225, secpP⟩, Bounded.Finite ⟨29567823868173186762768009528067406508648153893486721194867955006028793890909, secpP⟩, ⟨secpA, secpP⟩, ⟨secpB, secpP⟩⟩ : EcPoint) := by rfl
lemma c8acc194 : ecAdd (⟨Bounded.Finite ⟨103323434291070884810043926593444845888906981086108116030348704516931883710008, secpP⟩, Bounded.Finite ⟨60614954341398185246747036263666980376835306511800380097735627237901586744236, secpP⟩, ⟨secpA, secpP⟩, ⟨secpB, secpP⟩⟩ : EcPoint) (⟨Bounded.Finite ⟨8421370599800668602652103103676786751239058426611888163586601660098353727225, secpP⟩, Bounded.Finite ⟨29567823868173186762768009528067406508648153893486721194867955006028793890909, secpP⟩, ⟨secpA, secpP⟩, ⟨secpB, secpP⟩⟩ : EcPoint) = some (⟨Bounded.Finite ⟨80822841823700864217117565279855889926619437465175519975430218626939254678860, secpP⟩, Bounded.Finite ⟨101545319536084464273213754428643567843044807454585186438203512310492502660561, secpP⟩, ⟨secpA, secpP⟩, ⟨secpB, secpP⟩⟩ : EcPoint) := by rfl
lemma c8dbl194 : ecAdd (⟨Bounded.Finite ⟨8421370599800668602652103103676786751239058426611888163586601660098353727225, secpP⟩, Bounded.Finite ⟨29567823868173186762768009528067406508648153893486721194867955006028793890909, secpP⟩, ⟨secpA, secpP⟩, ⟨secpB, secpP⟩⟩ : EcPoint) (⟨Bounded.Finite ⟨8421370599800668602652103103676786751239058426611888163586601660098353727225, secpP⟩, Bounded.Finite ⟨29567823868173186762768009528067406508648153893486721194867955006028793890909, secpP⟩, ⟨secpA, secpP⟩, ⟨secpB, secpP⟩⟩ : EcPoint) = some (⟨Bounded.Finite ⟨43457843735276724612075728233726406612249501219998543099634755887188281768154, secpP⟩, Bounded.Finite ⟨63192765102271790090487849294643355539231117908172846139915612801187217034173, secpP⟩, ⟨secpA, secpP⟩, ⟨secpB, secpP⟩⟩ : EcPoint) := by rfl
lemma c8acc195 : ecAdd (⟨Bounded.Finite ⟨80822841823700864217117565279855889926619437465175519975430218626939254678860, secpP⟩, Bounded.Finite ⟨101545319536084464273213754428643567843044807454585186438203512310492502660561, secpP⟩, ⟨secpA, secpP⟩, ⟨secpB, secpP⟩⟩ : EcPoint) (⟨Bounded.Finite ⟨43457843735276724612075728233726406612249501219998543099634755887188281768154, secpP⟩, Bounded.Finite ⟨63192765102271790090487849294643355539231117908172846139915612801187217034173, secpP⟩, ⟨secpA, secpP⟩, ⟨secpB, secpP⟩⟩ : EcPoint) = some (⟨Bounded.Finite ⟨51096724926566392371895137521611104302365830865332930293042238411804011589445, secpP⟩, Bounded.Finite ⟨40824548172978966131607959632971172363468140787933718344760888091268432727169, secpP⟩, ⟨secpA, secpP⟩, ⟨secpB, secpP⟩⟩ : EcPoint) := by rfl
lemma c8dbl195 : ecAdd (⟨Bounded.Finite ⟨43457843735276724612075728233726406612249501219998543099634755887188281768154, secpP⟩, Bounded.Finite ⟨63192765102271790090487849294643355539231117908172846139915612801187217034173, secpP⟩, ⟨secpA, secpP⟩, ⟨secpB, secpP⟩⟩ : EcPoint) (⟨Bounded.Finite ⟨43457843735276724612075728233726406612249501219998543099634755887188281768154, secpP⟩, Bounded.Finite ⟨63192765102271790090487849294643355539231117908172846139915612801187217034173, secpP⟩, ⟨secpA, secpP⟩, ⟨secpB, secpP⟩⟩ : EcPoint) = some (⟨Bounded.Finite ⟨103417404801342136514940355813672218236352240817568397971691640510748940358223, secpP⟩, Bounded.Finite ⟨35110031909328754691401904954608234218729030798549406331812068095064570237972, secpP⟩, ⟨secpA, secpP⟩, ⟨secpB, secpP⟩⟩ : EcPoint) := by rfl
lemma c8acc196 : ecAdd (⟨Bounded.Finite ⟨51096724926566392371895137521611104302365830865332930293042238411804011589445, secpP⟩, Bounded.Finite ⟨40824548172978966131607959632971172363468140787933718344760888091268432727169, secpP⟩, ⟨secpA, secpP⟩, ⟨secpB, secpP⟩⟩ : EcPoint) (⟨Bounded.Finite ⟨103417404801342136514940355813672218236352240817568397971691640510748940358223, secpP⟩, Bounded.Finite ⟨35110031909328754691401904954608234218729030798549406331812068095064570237972, secpP⟩, ⟨secpA, secpP⟩, ⟨secpB, secpP⟩⟩ : EcPoint) = some (⟨Bounded.Finite ⟨90681586653169617779724882027536820663872472108929860672486884584989353164892, secpP⟩, Bounded.Finite ⟨36198769797273642795280020762145615993106519554492961120353098076646595428190, secpP⟩, ⟨secpA, secpP⟩, ⟨secpB, secpP⟩⟩ : EcPoint) := by rfl
lemma c8dbl196 : ecAdd (⟨Bounded.Finite ⟨103417404801342136514940355813672218236352240817568397971691640510748940358223, secpP⟩, Bounded.Finite ⟨35110031909328754691401904954608234218729030798549406331812068095064570237972, secpP⟩, ⟨secpA, secpP⟩, ⟨secpB, secpP⟩⟩ : EcPoint) (⟨Bounded.Finite ⟨103417404801342136514940355813672218236352240817568397971691640510748940358223, secpP⟩, Bounded.Finite ⟨35110031909328754691401904954608234218729030798549406331812068095064570237972, secpP⟩, ⟨secpA, secpP⟩, ⟨secpB, secpP⟩⟩ : EcPoint) = some (⟨Bounded.Finite ⟨114612401220431600857626100267884543594407662822495910668441731424729600844475, secpP⟩, Bounded.Finite ⟨104607607047518035749515575138521003921603783202160061984102438399564594284817, secpP⟩, ⟨secpA, secpP⟩, ⟨secpB, secpP⟩⟩ : EcPoint) := by rfl
lemma c8acc197 : ecAdd (⟨Bounded.Finite ⟨90681586653169617779724882027536820663872472108929860672486884584989353164892, secpP⟩, Bounded.Finite ⟨36198769797273642795280020762145615993106519554492961120353098076646595428190, secpP⟩, ⟨secpA, secpP⟩, ⟨secpB, secpP⟩⟩ : EcPoint) (⟨Bounded.Finite ⟨114612401220431600857626100267884543594407662822495910668441731424729600844475, secpP⟩, Bounded.Finite ⟨104607607047518035749515575138521003921603783202160061984102438399564594284817, secpP⟩, ⟨secpA, secpP⟩, ⟨secpB, secpP⟩⟩ : EcPoint) = some (⟨Bounded.Finite ⟨41097730418687468851840028126570808766847487756664368122837651685823309251855, secpP⟩, Bounded.Finite ⟨79366651424484606923205901822845691838604394119985222589765970603926825676036, secpP⟩, ⟨secpA, secpP⟩, ⟨secpB, secpP⟩⟩ : EcPoint) := by rfl
lemma c8dbl197 : ecAdd (⟨Bounded.Finite ⟨114612401220431600857626100267884543594407662822495910668441731424729600844475, secpP⟩, Bounded.Finite ⟨104607607047518035749515575138521003921603783202160061984102438399564594284817, secpP⟩, ⟨secpA, secpP⟩, ⟨secpB, secpP⟩⟩ : EcPoint) (⟨Bounded.Finite ⟨114612401220431600857626100267884543594407662822495910668441731424729600844475, secpP⟩, Bounded.Finite ⟨104607607047518035749515575138521003921603783202160061984102438399564594284817, secpP⟩, ⟨secpA, secpP⟩, ⟨secpB, secpP⟩⟩ : EcPoint) = some (⟨Bounded.Finite ⟨13990119276603863648855793891913240987255865021321113597676024132284912134507, secpP⟩, Bounded.Finite ⟨45762644100243963560173177200312509818364497605040202142354576105708649526139, secpP⟩, ⟨secpA, secpP⟩, ⟨secpB, secpP⟩⟩ : EcPoint) := by rfl
lemma c8acc198 : ecAdd (⟨Bounded.Finite ⟨41097730418687468851840028126570808766847487756664368122837651685823309251855, secpP⟩, Bounded.Finite ⟨79366651424484606923205901822845691838604394119985222589765970603926825676036, secpP⟩, ⟨secpA, secpP⟩, ⟨secpB, secpP⟩⟩ : EcPoint) (⟨Bounded.Finite ⟨13990119276603863648855793891913240987255865021321113597676024132284912134507, secpP⟩, Bounded.Finite ⟨45762644100243963560173177200312509818364497605040202142354576105708649526139, secpP⟩, ⟨secpA, secpP⟩, ⟨secpB, secpP⟩⟩ : EcPoint) = some (⟨Bounded.Finite ⟨100704980427187950776566009868772393822532287775712850841327750834699511142076, secpP⟩, Bounded.Finite ⟨58279719471599953411736560524316424649647803014212054128376061886270798582759, secpP⟩, ⟨secpA, secpP⟩, ⟨secpB, secpP⟩⟩ : EcPoint) := by rfl
lemma c8dbl198 : ecAdd (⟨Bounded.Finite ⟨13990119276603863648855793891913240987255865021321113597676024132284912134507, secpP⟩, Bounded.Finite ⟨45762644100243963560173177200312509818364497605040202142354576105708649526139, secpP⟩, ⟨secpA, secpP⟩, ⟨secpB, secpP⟩⟩ : EcPoint) (⟨Bounded.Finite ⟨13990119276603863648855793891913240987255865021321113597676024132284912134507, secpP⟩, Bounded.Finite ⟨45762644100243963560173177200312509818364497605040202142354576105708649526139, secpP⟩, ⟨secpA, secpP⟩, ⟨secpB, secpP⟩⟩ : EcPoint) = some (⟨Bounded.Finite ⟨92297683643826826163064140665368589970769892635084083631213834209281061470421, secpP⟩, Bounded.Finite ⟨112881168890164609406380094011411584051648553985034449899770310954622772391910, secpP⟩, ⟨secpA, secpP⟩, ⟨secpB, secpP⟩⟩ : EcPoint) := by rfl
lemma c8acc199 : ecAdd (⟨Bounded.Finite ⟨100704980427187950776566009868772393822532287775712850841327750834699511142076, secpP⟩, Bounded.Finite ⟨58279719471599953411736560524316424649647803014212054128376061886270798582759, secpP⟩, ⟨secpA, secpP⟩, ⟨secpB, secpP⟩⟩ : EcPoint) (⟨Bounded.Finite ⟨92297683643826826163064140665368589970769892635084083631213834209281061470421, secpP⟩, Bounded.Finite ⟨112881168890164609406380094011411584051648553985034449899770310954622772391910, secpP⟩, ⟨secpA, secpP⟩, ⟨secpB, secpP⟩⟩ : EcPoint) = some (⟨Bounded.Finite ⟨41963437398022779394570776873507781528187696448205583322868397102405779089972, secpP⟩, Bounded.Finite ⟨57362915043750247267111067825215655467129105761756114712540643209886435294434, secpP⟩, ⟨secpA, secpP⟩, ⟨secpB, secpP⟩⟩ : EcPoint) := by rfl
lemma c8dbl199 : ecAdd (⟨Bounded.Finite ⟨92297683643826826163064140665368589970769892635084083631213834209281061470421, secpP⟩, Bounded.Finite ⟨112881168890164609406380094011411584051648553985034449899770310954622772391910, secpP⟩, ⟨secpA, secpP⟩, ⟨secpB, secpP⟩⟩ : EcPoint) (⟨Bounded.Finite ⟨92297683643826826163064140665368589970769892635084083631213834209281061470421, secpP⟩, Bounded.Finite ⟨112881168890164609406380094011411584051648553985034449899770310954622772391910, secpP⟩, ⟨secpA, secpP⟩, ⟨secpB, secpP⟩⟩ : EcPoint) = some (⟨Bounded.Finite ⟨13922864845768229163833387034770518418928910654248512738626529054912919158553, secpP⟩, Bounded.Finite ⟨79126321700797654134629819022700262425734361986906066326971931873703874776829, secpP⟩, ⟨secpA, secpP⟩, ⟨secpB, secpP⟩⟩ : EcPoint) := by rfl
lemma c8acc200 : ecAdd (⟨Bounded.Finite ⟨41963437398022779394570776873507781528187696448205583322868397102405779089972, secpP⟩, Bounded.Finite ⟨57362915043750247267111067825215655467129105761756114712540643209886435294434, secpP⟩, ⟨secpA, secpP⟩, ⟨secpB, secpP⟩⟩ : EcPoint) (⟨Bounded.Finite ⟨13922864845768229163833387034770518418928910654248512738626529054912919158553, secpP⟩, Bounded.Finite ⟨79126321700797654134629819022700262425734361986906066326971931873703874776829, secpP⟩, ⟨secpA, secpP⟩, ⟨secpB, secpP⟩⟩ : EcPoint) = some (⟨Bounded.Finite ⟨64419789759124835279729547014899220968818131819816898784308065307874796862988, secpP⟩, Bounded.Finite ⟨85510922709722318341833382684795019085551042873821458130390800114407923905170, secpP⟩, ⟨secpA, secpP⟩, ⟨secpB, secpP⟩⟩ : EcPoint) := by rfl
lemma c8dbl200 : ecAdd (⟨Bounded.Finite ⟨13922864845768229163833387034770518418928910654248512738626529054912919158553, secpP⟩, Bounded.Finite ⟨79126321700797654134629819022700262425734361986906066326971931873703874776829, secpP⟩, ⟨secpA, secpP⟩, ⟨secpB, secpP⟩⟩ : EcPoint) (⟨Bounded.Finite ⟨13922864845768229163833387034770518418928910654248512738626529054912919158553, secpP⟩, Bounded.Finite ⟨79126321700797654134629819022700262425734361986906066326971931873703874776829, secpP⟩, ⟨secpA, secpP⟩, ⟨secpB, secpP⟩⟩ : EcPoint) = some (⟨Bounded.Finite ⟨41570227333295029806389479208245314517359112018029925112212608294602008426980, secpP⟩, Bounded.Finite ⟨23045309029356249714220314716068128691355103924384360360907873576255068618171, secpP⟩, ⟨secpA, secpP⟩, ⟨secpB, secpP⟩⟩ : EcPoint) := by rfl
lemma c8acc201 : ecAdd (⟨Bounded.Finite ⟨64419789759124835279729547014899220968818131819816898784308065307874796862988, secpP⟩, Bounded.Finite ⟨85510922709722318341833382684795019085551042873821458130390800114407923905170, secpP⟩, ⟨secpA, secpP⟩, ⟨secpB, secpP⟩⟩ : EcPoint) (⟨Bounded.Finite ⟨41570227333295029806389479208245314517359112018029925112212608294602008426980, secpP⟩, Bounded.Finite ⟨23045309029356249714220314716068128691355103924384360360907873576255068618171, secpP⟩, ⟨secpA, secpP⟩, ⟨secpB, secpP⟩⟩ : EcPoint) = some (⟨Bounded.Finite ⟨62762142072396476060995371274969129115807131197458019781481479852775245520736, secpP⟩, Bounded.Finite ⟨39189045373874238657965130442923520884226579305924330722158128762609599265819, secpP⟩, ⟨secpA, secpP⟩, ⟨secpB, secpP⟩⟩ : EcPoint) := by rfl
lemma c8dbl201 : ecAdd (⟨Bounded.Finite ⟨41570227333295029806389479208245314517359112018029925112212608294602008426980, secpP⟩, Bounded.Finite ⟨23045309029356249714220314716068128691355103924384360360907873576255068618171, secpP⟩, ⟨secpA, secpP⟩, ⟨secpB, secpP⟩⟩ : EcPoint) (⟨Bounded.Finite ⟨41570227333295029806389479208245314517359112018029925112212608294602008426980, secpP⟩, Bounded.Finite ⟨23045309029356249714220314716068128691355103924384360360907873576255068618171, secpP⟩, ⟨secpA, secpP⟩, ⟨secpB, secpP⟩⟩ : EcPoint) = some (⟨Bounded.Finite ⟨40228630408040464220910435747595136926324159053542900046172368281189438159800, secpP⟩, Bounded.Finite ⟨57003788001796941708539841608272678584351968322832676412429854825222401371502, secpP⟩, ⟨secpA, secpP⟩, ⟨secpB, secpP⟩⟩ : EcPoint) := by rfl
lemma c8acc202 : ecAdd (⟨Bounded.Finite ⟨62762142072396476060995371274969129115807131197458019781481479852775245520736, secpP⟩, Bounded.Finite ⟨39189045373874238657965130442923520884226579305924330722158128762609599265819, secpP⟩, ⟨secpA, secpP⟩, ⟨secpB, secpP⟩⟩ : EcPoint) (⟨Bounded.Finite ⟨40228630408040464220910435747595136926324159053542900046172368281189438159800, secpP⟩, Bounded.Finite ⟨57003788001796941708539841608272678584351968322832676412429854825222401371502, secpP⟩, ⟨secpA, secpP⟩, ⟨secpB, secpP⟩⟩ : EcPoint) = some (⟨Bounded.Finite ⟨81615542260013623080339118753093837651874029535279762844239949691510089428628, secpP⟩, Bounded.Finite ⟨15542823241052834997162844864929216308776318395726222376084422754657441440224, secpP⟩, ⟨secpA, secpP⟩, ⟨secpB, secpP⟩⟩ : EcPoint) := by rfl
lemma c8dbl202 : ecAdd (⟨Bounded.Finite ⟨40228630408040464220910435747595136926324159053542900046172368281189438159800, secpP⟩, Bounded.Finite ⟨57003788001796941708539841608272678584351968322832676412429854825222401371502, secpP⟩, ⟨secpA, secpP⟩, ⟨secpB, secpP⟩⟩ : EcPoint) (⟨Bounded.Finite ⟨40228630408040464220910435747595136926324159053542900046172368281189438159800, secpP⟩, Bounded.Finite ⟨57003788001796941708539841608272678584351968322832676412429854825222401371502, secpP⟩, ⟨secpA, secpP⟩, ⟨secpB, secpP⟩⟩ : EcPoint) = some (⟨Bounded.Finite ⟨80048584874349841980004729440562797202284935506199377684670339908062345334316, secpP⟩, Bounded.Finite ⟨33429049751972530035656964727545283238705649483087953982909059058238089924020, secpP⟩, ⟨secpA, secpP⟩, ⟨secpB, secpP⟩⟩ : EcPoint) := by rfl
lemma c8acc203 : ecAdd (⟨Bounded.Finite ⟨81615542260013623080339118753093837651874029535279762844239949691510089428628, secpP⟩, Bounded.Finite ⟨15542823241052834997162844864929216308776318395726222376084422754657441440224, secpP⟩, ⟨secpA, secpP⟩, ⟨secpB, secpP⟩⟩ : EcPoint) (⟨Bounded.Finite ⟨80048584874349841980004729440562797202284935506199377684670339908062345334316, secpP⟩, Bounded.Finite ⟨33429049751972530035656964727545283238705649483087953982909059058238089924020, secpP⟩, ⟨secpA, secpP⟩, ⟨secpB, secpP⟩⟩ : EcPoint) = some (⟨Bounded.Finite ⟨48726931970016250047517938777773102332101668546633360222010741296033996096059, secpP⟩, Bounded.Finite ⟨37151443891203614589508296499676557261245300420893273150963960323855351730398, secpP⟩, ⟨secpA, secpP⟩, ⟨secpB, secpP⟩⟩ : EcPoint) := by rfl
lemma c8dbl203 : ecAdd (⟨Bounded.Finite ⟨80048584874349841980004729440562797202284935506199377684670339908062345334316, secpP⟩, Bounded.Finite ⟨33429049751972530035656964727545283238705649483087953982909059058238089924020, secpP⟩, ⟨secpA, secpP⟩, ⟨secpB, secpP⟩⟩ : EcPoint) (⟨Bounded.Finite ⟨80048584874349841980004729440562797202284935506199377684670339908062345334316, secpP⟩, Bounded.Finite ⟨33429049751972530035656964727545283238705649483087953982909059058238089924020, secpP⟩, ⟨secpA, secpP⟩, ⟨secpB, secpP⟩⟩ : EcPoint) = some (⟨Bounded.Finite ⟨9234367843203278475460402406049705063687486936070061072085337642077459464894, secpP⟩, Bounded.Finite ⟨81007956585093945832919421410562969694439825683280800865606243366544248926160, secpP⟩, ⟨secpA, secpP⟩, ⟨secpB, secpP⟩⟩ : EcPoint) := by rfl
lemma c8acc204 : ecAdd (⟨Bounded.Finite ⟨48726931970016250047517938777773102332101668546633360222010741296033996096059, secpP⟩, Bounded.Finite ⟨37151443891203614589508296499676557261245300420893273150963960323855351730398, secpP⟩, ⟨secpA, secpP⟩, ⟨secpB, secpP⟩⟩ : EcPoint) (⟨Bounded.Finite ⟨9234367843203278475460402406049705063687486936070061072085337642077459464894, secpP⟩, Bounded.Finite ⟨81007956585093945832919421410562969694439825683280800865606243366544248926160, secpP⟩, ⟨secpA, secpP⟩, ⟨secpB, secpP⟩⟩ : EcPoint) = some (⟨Bounded.Finite ⟨54035609470183790619350063949481307628740160218997884888697305595486899105681, secpP⟩, Bounded.Finite ⟨91525222724606641924413740905419896621164065448962045575146661981601529096398, secpP⟩, ⟨secpA, secpP⟩, ⟨secpB, secpP⟩⟩ : EcPoint) := by rfl
lemma c8dbl204 : ecAdd (⟨Bounded.Finite ⟨9234367843203278475460402406049705063687486936070061072085337642077459464894, secpP⟩, Bounded.Finite ⟨81007956585093945832919421410562969694439825683280800865606243366544248926160, secpP⟩, ⟨secpA, secpP⟩, ⟨secpB, secpP⟩⟩ : EcPoint) (⟨Bounded.Finite ⟨9234367843203278475460402406049705063687486936070061072085337642077459464894, secpP⟩, Bounded.Finite ⟨81007956585093945832919421410562969694439825683280800865606243366544248926160, secpP⟩, ⟨secpA, secpP⟩, ⟨secpB, secpP⟩⟩ : EcPoint) = some (⟨Bounded.Finite ⟨39490693885239044366982942241753219569930195973938085206409539076747633253548, secpP⟩, Bounded.Finite ⟨4398739609727183326946131652218256147146051104900180052629746226509188319237, secpP⟩, ⟨secpA, secpP⟩, ⟨secpB, secpP⟩⟩ : EcPoint) := by rfl
lemma c8acc205 : ecAdd (⟨Bounded.Finite ⟨54035609470183790619350063949481307628740160218997884888697305595486899105681, secpP⟩, Bounded.Finite ⟨91525222724606641924413740905419896621164065448962045575146661981601529096398, secpP⟩, ⟨secpA, secpP⟩, ⟨secpB, secpP⟩⟩ : EcPoint) (⟨Bounded.Finite ⟨39490693885239044366982942241753219569930195973938085206409539076747633253548, secpP⟩, Bounded.Finite ⟨4398739609727183326946131652218256147146051104900180052629746226509188319237, secpP⟩, ⟨secpA, secpP⟩, ⟨secpB, secpP⟩⟩ : EcPoint) = some (⟨Bounded.Finite ⟨71920580694916078600878092949303681142291501514878757409581660259274225713408, secpP⟩, Bounded.Finite ⟨85141204748235599617662991498115204753351720057112938184957140690209621477869, secpP⟩, ⟨secpA, secpP⟩, ⟨secpB, secpP⟩⟩ : EcPoint) := by rfl
lemma c8dbl205 : ecAdd (⟨Bounded.Finite ⟨39490693885239044366982942241753219569930195973938085206409539076747633253548, secpP⟩, Bounded.Finite ⟨4398739609727183326946131652218256147146051104900180052629746226509188319237, secpP⟩, ⟨secpA, secpP⟩, ⟨secpB, secpP⟩⟩ : EcPoint) (⟨Bounded.Finite ⟨39490693885239044366982942241753219569930195973938085206409539076747633253548, secpP⟩, Bounded.Finite ⟨4398739609727183326946131652218256147146051104900180052629746226509188319237, secpP⟩, ⟨secpA, secpP⟩, ⟨secpB, secpP⟩⟩ : EcPoint) = some (⟨Bounded.Finite ⟨95822289762910972444474447423403522943496613059597976864337566726465943856851, secpP⟩, Bounded.Finite ⟨64164296153307859244227616480023302862568188165333043899999315127086687727186, secpP⟩, ⟨secpA, secpP⟩, ⟨secpB, secpP⟩⟩ : EcPoint) := by rfl
lemma c8acc206 : ecAdd (⟨Bounded.Finite ⟨71920580694916078600878092949303681142291501514878757409581660259274225713408, secpP⟩, Bounded.Finite ⟨85141204748235599617662991498115204753351720057112938184957140690209621477869, secpP⟩, ⟨secpA, secpP⟩, ⟨secpB, secpP⟩⟩ : EcPoint) (⟨Bounded.Finite ⟨95822289762910972444474447423403522943496613059597976864337566726465943856851, secpP⟩, Bounded.Finite ⟨64164296153307859244227616480023302862568188165333043899999315127086687727186, secpP⟩, ⟨secpA, secpP⟩, ⟨secpB, secpP⟩⟩ : EcPoint) = some (⟨Bounded.Finite ⟨110649361901339181582290433203418318532663230954106722444955944360769864936149, secpP⟩, Bounded.Finite ⟨95492280861049391672980770681885009033963018742644227169516433092767152305541, secpP⟩, ⟨secpA, secpP⟩, ⟨secpB, secpP⟩⟩ : EcPoint) := by rfl
lemma c8dbl206 : ecAdd (⟨Bounded.Finite ⟨95822289762910972444474447423403522943496613059597976864337566726465943856851, secpP⟩, Bounded.Finite ⟨64164296153307859244227616480023302862568188165333043899999315127086687727186, secpP⟩, ⟨secpA, secpP⟩, ⟨secpB, secpP⟩⟩ : EcPoint) (⟨Bounded.Finite ⟨95822289762910972444474447423403522943496613059597976864337566726465943856851, secpP⟩, Bounded.Finite ⟨64164296153307859244227616480023302862568188165333043899999315127086687727186, secpP⟩, ⟨secpA, secpP⟩, ⟨secpB, secpP⟩⟩ : EcPoint) = some (⟨Bounded.Finite ⟨80360436639024982802108928438318908385607328476345612824787216050095821450571, secpP⟩, Bounded.Finite ⟨57369573270620142518340730615920379521637759094789396191309454253793769270353, secpP⟩, ⟨secpA, secpP⟩, ⟨secpB, secpP⟩⟩ : EcPoint) := by rfl
lemma c8acc207 : ecAdd (⟨Bounded.Finite ⟨110649361901339181582290433203418318532663230954106722444955944360769864936149, secpP⟩, Bounded.Finite ⟨95492280861049391672980770681885009033963018742644227169516433092767152305541, secpP⟩, ⟨secpA, secpP⟩, ⟨secpB, secpP⟩⟩ : EcPoint) (⟨Bounded.Finite ⟨80360436639024982802108928438318908385607328476345612824787216050095821450571, secpP⟩, Bounded.Finite ⟨57369573270620142518340730615920379521637759094789396191309454253793769270353, secpP⟩, ⟨secpA, secpP⟩, ⟨secpB, secpP⟩⟩ : EcPoint) = some (⟨Bounded.Finite ⟨109961148091824176007590053632285201349622686517333656494286472429021334697930, secpP⟩, Bounded.Finite ⟨94501178915109615761365616122845036057831010861487347292135005418156124398201, secpP⟩, ⟨secpA, secpP⟩, ⟨secpB, secpP⟩⟩ : EcPoint) := by rfl
lemma c8dbl207 : ecAdd (⟨Bounded.Finite ⟨80360436639024982802108928438318908385607328476345612824787216050095821450571, secpP⟩, Bounded.Finite ⟨57369573270620142518340730615920379521637759094789396191309454253793769270353, secpP⟩, ⟨secpA, secpP⟩, ⟨secpB, secpP⟩⟩ : EcPoint) (⟨Bounded.Finite ⟨80360436639024982802108928438318908385607328476345612824787216050095821450571, secpP⟩, Bounded.Finite ⟨57369573270620142518340730615920379521637759094789396191309454253793769270353, secpP⟩, ⟨secpA, secpP⟩, ⟨secpB, secpP⟩⟩ : EcPoint) = some (⟨Bounded.Finite ⟨113220891681512744492539364929916345410061947313878915456447722256969001660153, secpP⟩, Bounded.Finite ⟨48632069096637554924274413793295750001160491151445521927536133070043743201297, secpP⟩, ⟨secpA, secpP⟩, ⟨secpB, secpP⟩⟩ : EcPoint) := by rfl
lemma c8acc208 : ecAdd (⟨Bounded.Finite ⟨109961148091824176007590053632285201349622686517333656494286472429021334697930, secpP⟩, Bounded.Finite ⟨94501178915109615761365616122845036057831010861487347292135005418156124398201, secpP⟩, ⟨secpA, secpP⟩, ⟨secpB, secpP⟩⟩ : EcPoint) (⟨Bounded.Finite ⟨113220891681512744492539364929916345410061947313878915456447722256969001660153, secpP⟩, Bounded.Finite ⟨48632069096637554924274413793295750001160491151445521927536133070043743201297, secpP⟩, ⟨secpA, secpP⟩, ⟨secpB, secpP⟩⟩ : EcPoint) = some (⟨Bounded.Finite ⟨46951501587352933349155760188503284574509445044054321376621673100514231210604, secpP⟩, Bounded.Finite ⟨73874290702339017551103780401677166407923928000021350360787570683944037349563, secpP⟩, ⟨secpA, secpP⟩, ⟨secpB, secpP⟩⟩ : EcPoint) := by rfl
lemma c8dbl208 : ecAdd (⟨Bounded.Finite ⟨113220891681512744492539364929916345410061947313878915456447722256969001660153, secpP⟩, Bounded.Finite ⟨48632069096637554924274413793295750001160491151445521927536133070043743201297, secpP⟩, ⟨secpA, secpP⟩, ⟨secpB, secpP⟩⟩ : EcPoint) (⟨Bounded.Finite ⟨113220891681512744492539364929916345410061947313878915456447722256969001660153, secpP⟩, Bounded.Finite ⟨48632069096637554924274413793295750001160491151445521927536133070043743201297, secpP⟩, ⟨secpA, secpP⟩, ⟨secpB, secpP⟩⟩ : EcPoint) = some (⟨Bounded.Finite ⟨45044543832417204813964322358265561912289006474729602217500750943638473625672, secpP⟩, Bounded.Finite ⟨26879011462743840335691591457228606967066124790316477921535328699756712074744, secpP⟩, ⟨secpA, secpP⟩, ⟨secpB, secpP⟩⟩ : EcPoint) := by rfl
lemma c8acc209 : ecAdd (⟨Bounded.Finite ⟨46951501587352933349155760188503284574509445044054321376621673100514231210604, secpP⟩, Bounded.Finite ⟨73874290702339017551103780401677166407923928000021350360787570683944037349563, secpP⟩, ⟨secpA, secpP⟩, ⟨secpB, secpP⟩⟩ : EcPoint) (⟨Bounded.Finite ⟨45044543832417204813964322358265561912289006474729602217500750943638473625672, secpP⟩, Bounded.Finite ⟨26879011462743840335691591457228606967066124790316477921535328699756712074744, secpP⟩, ⟨secpA, secpP⟩, ⟨secpB, secpP⟩⟩ : EcPoint) = some (⟨Bounded.Finite ⟨97720067671541014565491635141056425321913971719848552697820062655710295564581, secpP⟩, Bounded.Finite ⟨91583069352580589986532598645254828584747897817455570768471020681515419255875, secpP⟩, ⟨secpA, secpP⟩, ⟨secpB, secpP⟩⟩ : EcPoint) := by rfl
lemma c8dbl209 : ecAdd (⟨Bounded.Finite ⟨45044543832417204813964322358265561912289006474729602217500750943638473625672, secpP⟩, Bounded.Finite ⟨26879011462743840335691591457228606967066124790316477921535328699756712074744, secpP⟩, ⟨secpA, secpP⟩, ⟨secpB, secpP⟩⟩ : EcPoint) (⟨Bounded.Finite ⟨45044543832417204813964322358265561912289006474729602217500750943638473625672, secpP⟩, Bounded.Finite ⟨26879011462743840335691591457228606967066124790316477921535328699756712074744, secpP⟩, ⟨secpA, secpP⟩, ⟨secpB, secpP⟩⟩ : EcPoint) = some (⟨Bounded.Finite ⟨40815729452528180238295637155137130875534812174241845066103240363483841899109, secpP⟩, Bounded.Finite ⟨62963488700699789032569184806979115722324448122457023739501893021766746537757, secpP⟩, ⟨secpA, secpP⟩, ⟨secpB, secpP⟩⟩ : EcPoint) := by rfl
lemma c8acc210 : ecAdd (⟨Bounded.Finite ⟨97720067671541014565491635141056425321913971719848552697820062655710295564581, secpP⟩, Bounded.Finite ⟨91583069352580589986532598645254828584747897817455570768471020681515419255875, secpP⟩, ⟨secpA, secpP⟩, ⟨secpB, secpP⟩⟩ : EcPoint) (⟨Bounded.Finite ⟨40815729452528180238295637155137130875534812174241845066103240363483841899109, secpP⟩, Bounded.Finite ⟨62963488700699789032569184806979115722324448122457023739501893021766746537757, secpP⟩, ⟨secpA, secpP⟩, ⟨secpB, secpP⟩⟩ : EcPoint) = some (⟨Bounded.Finite ⟨58456002847219606930033165567268340163347895955202507410521224552567431240037, secpP⟩, Bounded.Finite ⟨102974837974855080610402408124307772827745839286803963952229890761307565020517, secpP⟩, ⟨secpA, secpP⟩, ⟨secpB, secpP⟩⟩ : EcPoint) := by rfl
lemma c8dbl210 : ecAdd (⟨Bounded.Finite ⟨40815729452528180238295637155137130875534812174241845066103240363483841899109, secpP⟩, Bounded.Finite ⟨62963488700699789032569184806979115722324448122457023739501893021766746537757, secpP⟩, ⟨secpA, secpP⟩, ⟨secpB, secpP⟩⟩ : EcPoint) (⟨Bounded.Finite ⟨40815729452528180238295637155137130875534812174241845066103240363483841899109, secpP⟩, Bounded.Finite ⟨62963488700699789032569184806979115722324448122457023739501893021766746537757, secpP⟩, ⟨secpA, secpP⟩, ⟨secpB, secpP⟩⟩ : EcPoint) = some (⟨Bounded.Finite ⟨42019196137391938823787938398084615301261359872699590349124401997914530858192, secpP⟩, Bounded.Finite ⟨34767682558797648670566810324631233163266973542786319846918260332343694917893, secpP⟩, ⟨secpA, secpP⟩, ⟨secpB, secpP⟩⟩ : EcPoint) := by rfl
lemma c8acc211 : ecAdd (⟨Bounded.Finite ⟨58456002847219606930033165567268340163347895955202507410521224552567431240037, secpP⟩, Bounded.Finite ⟨102974837974855080610402408124307772827745839286803963952229890761307565020517, secpP⟩, ⟨secpA, secpP⟩, ⟨secpB, secpP⟩⟩ : EcPoint) (⟨Bounded.Finite ⟨42019196137391938823787938398084615301261359872699590349124401997914530858192, secpP⟩, Bounded.Finite ⟨34767682558797648670566810324631233163266973542786319846918260332343694917893, secpP⟩, ⟨secpA, secpP⟩, ⟨secpB, secpP⟩⟩ : EcPoint) = some (⟨Bounded.Finite ⟨93710686539520880202642124984978698613172097623838661478597627527919706519903, secpP⟩, Bounded.Finite ⟨66906886892884708749140497590475052727151600251841470407614075014787938567321, secpP⟩, ⟨secpA, secpP⟩, ⟨secpB, secpP⟩⟩ : EcPoint) := by rfl
lemma c8dbl211 : ecAdd (⟨Bounded.Finite ⟨42019196137391938823787938398084615301261359872699590349124401997914530858192, secpP⟩, Bounded.Finite ⟨34767682558797648670566810324631233163266973542786319846918260332343694917893, secpP⟩, ⟨secpA, secpP⟩, ⟨secpB, secpP⟩⟩ : EcPoint) (⟨Bounded.Finite ⟨42019196137391938823787938398084615301261359872699590349124401997914530858192, secpP⟩, Bounded.Finite ⟨34767682558797648670566810324631233163266973542786319846918260332343694917893, secpP⟩, ⟨secpA, secpP⟩, ⟨secpB, secpP⟩⟩ : EcPoint) = some (⟨Bounded.Finite ⟨98656114654415212951351030182220503262040501999861380370740706389056647757506, secpP⟩, Bounded.Finite ⟨58503766529248989798675151322237530184126490579454294759021188248409021626097, secpP⟩, ⟨secpA, secpP⟩, ⟨secpB, secpP⟩⟩ : EcPoint) := by rfl
lemma c8acc212 : ecAdd (⟨Bounded.Finite ⟨93710686539520880202642124984978698613172097623838661478597627527919706519903, secpP⟩, Bounded.Finite ⟨66906886892884708749140497590475052727151600251841470407614075014787938567321, secpP⟩, ⟨secpA, secpP⟩, ⟨secpB, secpP⟩⟩ : EcPoint) (⟨Bounded.Finite ⟨98656114654415212951351030182220503262040501999861380370740706389056647757506, secpP⟩, Bounded.Finite ⟨58503766529248989798675151322237530184126490579454294759021188248409021626097, secpP⟩, ⟨secpA, secpP⟩, ⟨secpB, secpP⟩⟩ : EcPoint) = some (⟨Bounded.Finite ⟨13729583756584371036628625429921855110250353243232558895041351865827625664590, secpP⟩, Bounded.Finite ⟨39869739216990426028486357669345227846369444094542437724806371097677663773169, secpP⟩, ⟨secpA, secpP⟩, ⟨secpB, secpP⟩⟩ : EcPoint) := by rfl
lemma c8dbl212 : ecAdd (⟨Bounded.Finite ⟨98656114654415212951351030182220503262040501999861380370740706389056647757506, secpP⟩, Bounded.Finite ⟨58503766529248989798675151322237530184126490579454294759021188248409021626097, secpP⟩, ⟨secpA, secpP⟩, ⟨secpB, secpP⟩⟩ : EcPoint) (⟨Bounded.Finite ⟨98656114654415212951351030182220503262040501999861380370740706389056647757506, secpP⟩, Bounded.Finite ⟨58503766529248989798675151322237530184126490579454294759021188248409021626097, secpP⟩, ⟨secpA, secpP⟩, ⟨secpB, secpP⟩⟩ : EcPoint) = some (⟨Bounded.Finite ⟨70779672864013442204047147619761736872402708735011963696772144922503503135593, secpP⟩, Bounded.Finite ⟨66095546131926016776182664572158682372222134031052577075352350981138964190485, secpP⟩, ⟨secpA, secpP⟩, ⟨secpB, secpP⟩⟩ : EcPoint) := by rfl
lemma c8acc213 : ecAdd (⟨Bounded.Finite ⟨13729583756584371036628625429921855110250353243232558895041351865827625664590, secpP⟩, Bounded.Finite ⟨39869739216990426028486357669345227846369444094542437724806371097677663773169, secpP⟩, ⟨secpA, secpP⟩, ⟨secpB, secpP⟩⟩ : EcPoint) (⟨Bounded.Finite ⟨70779672864013442204047147619761736872402708735011963696772144922503503135593, secpP⟩, Bounded.Finite ⟨66095546131926016776182664572158682372222134031052577075352350981138964190485, secpP⟩, ⟨secpA, secpP⟩, ⟨secpB, secpP⟩⟩ : EcPoint) = some (⟨Bounded.Finite ⟨10446955228596413538270086605964137190912466144578740813346210569455704801609, secpP⟩, Bounded.Finite ⟨1407403829713203913743195399088790650696456245059557065394226261280222108840, secpP⟩, ⟨secpA, secpP⟩, ⟨secpB, secpP⟩⟩ : EcPoint) := by rfl
lemma c8dbl213 : ecAdd (⟨Bounded.Finite ⟨70779672864013442204047147619761736872402708735011963696772144922503503135593, secpP⟩, Bounded.Finite ⟨66095546131926016776182664572158682372222134031052577075352350981138964190485, secpP⟩, ⟨secpA, secpP⟩, ⟨secpB, secpP⟩⟩ : EcPoint) (⟨Bounded.Finite ⟨70779672864013442204047147619761736872402708735011963696772144922503503135593, secpP⟩, Bounded.Finite ⟨66095546131926016776182664572158682372222134031052577075352350981138964190485, secpP⟩, ⟨secpA, secpP⟩, ⟨secpB, secpP⟩⟩ : EcPoint) = some (⟨Bounded.Finite ⟨7147807088254754984115277020319280513928719273510749291220264632533393132003, secpP⟩, Bounded.Finite ⟨48870560607183744840505722498698757682142671336868405907998491847376392333741, secpP⟩, ⟨secpA, secpP⟩, ⟨secpB, secpP⟩⟩ : EcPoint) := by rfl
lemma c8acc214 : ecAdd (⟨Bounded.Finite ⟨10446955228596413538270086605964137190912466144578740813346210569455704801609, secpP⟩, Bounded.Finite ⟨1407403829713203913743195399088790650696456245059557065394226261280222108840, secpP⟩, ⟨secpA, secpP⟩, ⟨secpB, secpP⟩⟩ : EcPoint) (⟨Bounded.Finite ⟨7147807088254754984115277020319280513928719273510749291220264632533393132003, secpP⟩, Bounded.Finite ⟨48870560607183744840505722498698757682142671336868405907998491847376392333741, secpP⟩, ⟨secpA, secpP⟩, ⟨secpB, secpP⟩⟩ : EcPoint) = some (⟨Bounded.Finite ⟨41708199630613563533857844054749904790579703403714948734142644304174964773257, secpP⟩, Bounded.Finite ⟨50759700133657942080854254763037287091221517622959618665319570203141980890096, secpP⟩, ⟨secpA, secpP⟩, ⟨secpB, secpP⟩⟩ : EcPoint) := by rfl
lemma c8dbl214 : ecAdd (⟨Bounded.Finite ⟨7147807088254754984115277020319280513928719273510749291220264632533393132003, secpP⟩, Bounded.Finite ⟨48870560607183744840505722498698757682142671336868405907998491847376392333741, secpP⟩, ⟨secpA, secpP⟩, ⟨secpB, secpP⟩⟩ : EcPoint) (⟨Bounded.Finite ⟨7147807088254754984115277020319280513928719273510749291220264632533393132003, secpP⟩, Bounded.Finite ⟨48870560607183744840505722498698757682142671336868405907998491847376392333741, secpP⟩, ⟨secpA, secpP⟩, ⟨secpB, secpP⟩⟩ : EcPoint) = some (⟨Bounded.Finite ⟨51318518135047612923054807776796525309348753908885584948123548636564953982193, secpP⟩, Bounded.Finite ⟨30623581788749822100382745859868645699047673268215141926580384967860112471253, secpP⟩, ⟨secpA, secpP⟩, ⟨secpB, secpP⟩⟩ : EcPoint) := by rfl
lemma c8acc215 : ecAdd (⟨Bounded.Finite ⟨41708199630613563533857844054749904790579703403714948734142644304174964773257, secpP⟩, Bounded.Finite ⟨50759700133657942080854254763037287091221517622959618665319570203141980890096, secpP⟩, ⟨secpA, secpP⟩, ⟨secpB, secpP⟩⟩ : EcPoint) (⟨Bounded.Finite ⟨51318518135047612923054807776796525309348753908885584948123548636564953982193, secpP⟩, Bounded.Finite ⟨30623581788749822100382745859868645699047673268215141926580384967860112471253, secpP⟩, ⟨secpA, secpP⟩, ⟨secpB, secpP⟩⟩ : EcPoint) = some (⟨Bounded.Finite ⟨95367128378517088778906915528758206507061675325718874859459424551456925441454, secpP⟩, Bounded.Finite ⟨106003138703447446131835973364374586593091113783845312467465483197305129343889, secpP⟩, ⟨secpA, secpP⟩, ⟨secpB, secpP⟩⟩ : EcPoint) := by rfl
lemma c8dbl215 : ecAdd (⟨Bounded.Finite ⟨51318518135047612923054807776796525309348753908885584948123548636564953982193, secpP⟩, Bounded.Finite ⟨30623581788749822100382745859868645699047673268215141926580384967860112471253, secpP⟩, ⟨secpA, secpP⟩, ⟨secpB, secpP⟩⟩ : EcPoint) (⟨Bounded.Finite ⟨51318518135047612923054807776796525309348753908885584948123548636564953982193, secpP⟩, Bounded.Finite ⟨30623581788749822100382745859868645699047673268215141926580384967860112471253, secpP⟩, ⟨secpA, secpP⟩, ⟨secpB, secpP⟩⟩ : EcPoint) = some (⟨Bounded.Finite ⟨76388770101766026847299654420802367216385774412973782315160485495908694642195, secpP⟩, Bounded.Finite ⟨57710893937692665357647691724236515472507145065106377254221657836468024167436, secpP⟩, ⟨secpA, secpP⟩, ⟨secpB, secpP⟩⟩ : EcPoint) := by rfl
lemma c8acc216 : ecAdd (⟨Bounded.Finite ⟨95367128378517088778906915528758206507061675325718874859459424551456925441454, secpP⟩, Bounded.Finite ⟨106003138703447446131835973364374586593091113783845312467465483197305129343889, secpP⟩, ⟨secpA, secpP⟩, ⟨secpB, secpP⟩⟩ : EcPoint) (⟨Bounded.Finite ⟨76388770101766026847299654420802367216385774412973782315160485495908694642195, secpP⟩, Bounded.Finite ⟨57710893937692665357647691724236515472507145065106377254221657836468024167436, secpP⟩, ⟨secpA, secpP⟩, ⟨secpB, secpP⟩⟩ : EcPoint) = some (⟨Bounded.Finite ⟨104772712857957687009810078163398532492793836342123717975543767946170854974007, secpP⟩, Bounded.Finite ⟨33407490115134982232800441480915789342132192284309993103393807431126433473381, secpP⟩, ⟨secpA, secpP⟩, ⟨secpB, secpP⟩⟩ : EcPoint) := by rfl
lemma c8dbl216 : ecAdd (⟨Bounded.Finite ⟨76388770101766026847299654420802367216385774412973782315160485495908694642195, secpP⟩, Bounded.Finite ⟨57710893937692665357647691724236515472507145065106377254221657836468024167436, secpP⟩, ⟨secpA, secpP⟩, ⟨secpB, secpP⟩⟩ : EcPoint) (⟨Bounded.Finite ⟨76388770101766026847299654420802367216385774412973782315160485495908694642195, secpP⟩, Bounded.Finite ⟨57710893937692665357647691724236515472507145065106377254221657836468024167436, secpP⟩, ⟨secpA, secpP⟩, ⟨secpB, secpP⟩⟩ : EcPoint) = some (⟨Bounded.Finite ⟨91718707606862637550154068541437645781425587687664226689694763206157559813025, secpP⟩, Bounded.Finite ⟨112096003213917921965697623480695740549761355267313232789540725477513634374998, secpP⟩, ⟨secpA, secpP⟩, ⟨secpB, secpP⟩⟩ : EcPoint) := by rfl
lemma c8acc217 : ecAdd (⟨Bounded.Finite ⟨104772712857957687009810078163398532492793836342123717975543767946170854974007, secpP⟩, Bounded.Finite ⟨33407490115134982232800441480915789342132192284309993103393807431126433473381, secpP⟩, ⟨secpA, secpP⟩, ⟨secpB, secpP⟩⟩ : EcPoint) (⟨Bounded.Finite ⟨91718707606862637550154068541437645781425587687664226689694763206157559813025, secpP⟩, Bounded.Finite ⟨112096003213917921965697623480695740549761355267313232789540725477513634374998, secpP⟩, ⟨secpA, secpP⟩, ⟨secpB, secpP⟩⟩ : EcPoint) = some (⟨Bounded.Finite ⟨10161864771496804080798517767423742549677304171259080353233424123274977274833, secpP⟩, Bounded.Finite ⟨44507238317834590896412790561396090023766241139715176814139899683790365433775, secpP⟩, ⟨secpA, secpP⟩, ⟨secpB, secpP⟩⟩ : EcPoint) := by rfl
lemma c8dbl217 : ecAdd (⟨Bounded.Finite ⟨91718707606862637550154068541437645781425587687664226689694763206157559813025, secpP⟩, Bounded.Finite ⟨112096003213917921965697623480695740549761355267313232789540725477513634374998, secpP⟩, ⟨secpA, secpP⟩, ⟨secpB, secpP⟩⟩ : EcPoint) (⟨Bounded.Finite ⟨91718707606862637550154068541437645781425587687664226689694763206157559813025, secpP⟩, Bounded.Finite ⟨112096003213917921965697623480695740549761355267313232789540725477513634374998, secpP⟩, ⟨secpA, secpP⟩, ⟨secpB, secpP⟩⟩ : EcPoint) = some (⟨Bounded.Finite ⟨104427496169569391842377213290478515885839261332812951511591855258537350660157, secpP⟩, Bounded.Finite ⟨61132381960602712033174130914468477784017762207402074270409666098181344508219, secpP⟩, ⟨secpA, secpP⟩, ⟨secpB, secpP⟩⟩ : EcPoint) := by rfl
lemma c8acc218 : ecAdd (⟨Bounded.Finite ⟨10161864771496804080798517767423742549677304171259080353233424123274977274833, secpP⟩, Bounded.Finite ⟨44507238317834590896412790561396090023766241139715176814139899683790365433775, secpP⟩, ⟨secpA, secpP⟩, ⟨secpB, secpP⟩⟩ : EcPoint) (⟨Bounded.Finite ⟨104427496169569391842377213290478515885839261332812951511591855258537350660157, secpP⟩, Bounded.Finite ⟨61132381960602712033174130914468477784017762207402074270409666098181344508219, secpP⟩, ⟨secpA, secpP⟩, ⟨secpB, secpP⟩⟩ : EcPoint) = some (⟨Bounded.Finite ⟨74331454221247671029245522801737699388867226471994116703508684088775243649882, secpP⟩, Bounded.Finite ⟨43723714222616435094057467466094517144641234542831142427410611420480550977314, secpP⟩, ⟨secpA, secpP⟩, ⟨secpB, secpP⟩⟩ : EcPoint) := by rfl
lemma c8dbl218 : ecAdd (⟨Bounded.Finite ⟨104427496169569391842377213290478515885839261332812951511591855258537350660157, secpP⟩, Bounded.Finite ⟨61132381960602712033174130914468477784017762207402074270409666098181344508219, secpP⟩, ⟨secpA, secpP⟩, ⟨secpB, secpP⟩⟩ : EcPoint) (⟨Bounded.Finite ⟨104427496169569391842377213290478515885839261332812951511591855258537350660157, secpP⟩, Bounded.Finite ⟨61132381960602712033174130914468477784017762207402074270409666098181344508219, secpP⟩, ⟨secpA, secpP⟩, ⟨secpB, secpP⟩⟩ : EcPoint) = some (⟨Bounded.Finite ⟨27276644428692416698688499014810854312801165379030850386665499374796427550985, secpP⟩, Bounded.Finite ⟨30749753566896120889917442069556393166141012006459550615871962942905620475626, secpP⟩, ⟨secpA, secpP⟩, ⟨secpB, secpP⟩⟩ : EcPoint) := by rfl
lemma c8acc219 : ecAdd (⟨Bounded.Finite ⟨74331454221247671029245522801737699388867226471994116703508684088775243649882, secpP⟩, Bounded.Finite ⟨43723714222616435094057467466094517144641234542831142427410611420480550977314, secpP⟩, ⟨secpA, secpP⟩, ⟨secpB, secpP⟩⟩ : EcPoint) (⟨Bounded.Finite ⟨27276644428692416698688499014810854312801165379030850386665499374796427550985, secpP⟩, Bounded.Finite ⟨30749753566896120889917442069556393166141012006459550615871962942905620475626, secpP⟩, ⟨secpA, secpP⟩, ⟨secpB, secpP⟩⟩ : EcPoint) = some (⟨Bounded.Finite ⟨100359178303740786438883038125571840410727210042578402665267813525668086889985, secpP⟩, Bounded.Finite ⟨24112768755817544284611785890008363126648003755894211635980155476369465654516, secpP⟩, ⟨secpA, secpP⟩, ⟨secpB, secpP⟩⟩ : EcPoint) := by rfl
lemma c8dbl219 : ecAdd (⟨Bounded.Finite ⟨27276644428692416698688499014810854312801165379030850386665499374796427550985, secpP⟩, Bounded.Finite ⟨30749753566896120889917442069556393166141012006459550615871962942905620475626, secpP⟩, ⟨secpA, secpP⟩, ⟨secpB, secpP⟩⟩ : EcPoint) (⟨Bounded.Finite ⟨27276644428692416698688499014810854312801165379030850386665499374796427550985, secpP⟩, Bounded.Finite ⟨30749753566896120889917442069556393166141012006459550615871962942905620475626, secpP⟩, ⟨secpA, secpP⟩, ⟨secpB, secpP⟩⟩ : EcPoint) = some (⟨Bounded.Finite ⟨10534520053980272543867405036685817400667875723664235737120499452559222196604, secpP⟩, Bounded.Finite ⟨92628477256112478580738935680261058160861780653699013741020467863885755120243, secpP⟩, ⟨secpA, secpP⟩, ⟨secpB, secpP⟩⟩ : EcPoint) := by rfl
lemma c8acc220 : ecAdd (⟨Bounded.Finite ⟨100359178303740786438883038125571840410727210042578402665267813525668086889985, secpP⟩, Bounded.Finite ⟨24112768755817544284611785890008363126648003755894211635980155476369465654516, secpP⟩, ⟨secpA, secpP⟩, ⟨secpB, secpP⟩⟩ : EcPoint) (⟨Bounded.Finite ⟨10534520053980272543867405036685817400667875723664235737120499452559222196604, secpP⟩, Bounded.Finite ⟨92628477256112478580738935680261058160861780653699013741020467863885755120243, secpP⟩, ⟨secpA, secpP⟩, ⟨secpB, secpP⟩⟩ : EcPoint) = some (⟨Bounded.Finite ⟨101715476756552087767187807538033124532838833535719454646948903410609456669352, secpP⟩, Bounded.Finite ⟨97574807453842336263165617038094841567894229721985878685970974675946140750600, secpP⟩, ⟨secpA, secpP⟩, ⟨secpB, secpP⟩⟩ : EcPoint) := by rfl
lemma c8dbl220 : ecAdd (⟨Bounded.Finite ⟨10534520053980272543867405036685817400667875723664235737120499452559222196604, secpP⟩, Bounded.Finite ⟨92628477256112478580738935680261058160861780653699013741020467863885755120243, secpP⟩, ⟨secpA, secpP⟩, ⟨secpB, secpP⟩⟩ : EcPoint) (⟨Bounded.Finite ⟨10534520053980272543867405036685817400667875723664235737120499452559222196604, secpP⟩, Bounded.Finite ⟨92628477256112478580738935680261058160861780653699013741020467863885755120243, secpP⟩, ⟨secpA, secpP⟩, ⟨secpB, secpP⟩⟩ : EcPoint) = some (⟨Bounded.Finite ⟨14881952017843508107868018207655541299293805975448542164953269149202864001651, secpP⟩, Bounded.Finite ⟨95744524462485084732056560754575516048250645981636693364989777482955901810067, secpP⟩, ⟨secpA, secpP⟩, ⟨secpB, secpP⟩⟩ : EcPoint) := by rfl
lemma c8acc221 : ecAdd (⟨Bounded.Finite ⟨101715476756552087767187807538033124532838833535719454646948903410609456669352, secpP⟩, Bounded.Finite ⟨97574807453842336263165617038094841567894229721985878685970974675946140750600, secpP⟩, ⟨secpA, secpP⟩, ⟨secpB, secpP⟩⟩ : EcPoint) (⟨Bounded.Finite ⟨14881952017843508107868018207655541299293805975448542164953269149202864001651, secpP⟩, Bounded.Finite ⟨95744524462485084732056560754575516048250645981636693364989777482955901810067, secpP⟩, ⟨secpA, secpP⟩, ⟨secpB, secpP⟩⟩ : EcPoint) = some (⟨Bounded.Finite ⟨26201990199447264150340244601088843223044207513721979159517717223349558797573, secpP⟩, Bounded.Finite ⟨62929508287993277639004659409221556516575433796605423441812829407015555217178, secpP⟩, ⟨secpA, secpP⟩, ⟨secpB, secpP⟩⟩ : EcPoint) := by rfl
lemma c8dbl221 : ecAdd (⟨Bounded.Finite ⟨14881952017843508107868018207655541299293805975448542164953269149202864001651, secpP⟩, Bounded.Finite ⟨95744524462485084732056560754575516048250645981636693364989777482955901810067, secpP⟩, ⟨secpA, secpP⟩, ⟨secpB, secpP⟩⟩ : EcPoint) (⟨Bounded.Finite ⟨14881952017843508107868018207655541299293805975448542164953269149202864001651, secpP⟩, Bounded.Finite ⟨95744524462485084732056560754575516048250645981636693364989777482955901810067, secpP⟩, ⟨secpA, secpP⟩, ⟨secpB, secpP⟩⟩ : EcPoint) = some (⟨Bounded.Finite ⟨64250787150254837153343438979016395164129717520259441534727718215719657633396, secpP⟩, Bounded.Finite ⟨2226821049909366001426284673098873826917960544595316002560147822639123525016, secpP⟩, ⟨secpA, secpP⟩, ⟨secpB, secpP⟩⟩ : EcPoint) := by rfl
lemma c8acc222 : ecAdd (⟨Bounded.Finite ⟨26201990199447264150340244601088843223044207513721979159517717223349558797573, secpP⟩, Bounded.Finite ⟨62929508287993277639004659409221556516575433796605423441812829407015555217178, secpP⟩, ⟨secpA, secpP⟩, ⟨secpB, secpP⟩⟩ : EcPoint) (⟨Bounded.Finite ⟨64250787150254837153343438979016395164129717520259441534727718215719657633396, secpP⟩, Bounded.Finite ⟨2226821049909366001426284673098873826917960544595316002560147822639123525016, secpP⟩, ⟨secpA, secpP⟩, ⟨secpB, secpP⟩⟩ : EcPoint) = some (⟨Bounded.Finite ⟨14921441360743431835062401086497095963484503041023341661521987401860874976443, secpP⟩, Bounded.Finite ⟨78850265360787620829238252009399605140645486851388334653366951691458547663000, secpP⟩, ⟨secpA, secpP⟩, ⟨secpB, secpP⟩⟩ : EcPoint) := by rfl
lemma c8dbl222 : ecAdd (⟨Bounded.Finite ⟨64250787150254837153343438979016395164129717520259441534727718215719657633396, secpP⟩, Bounded.Finite ⟨2226821049909366001426284673098873826917960544595316002560147822639123525016, secpP⟩, ⟨secpA, secpP⟩, ⟨secpB, secpP⟩⟩ : EcPoint) (⟨Bounded.Finite ⟨64250787150254837153343438979016395164129717520259441534727718215719657633396, secpP⟩, Bounded.Finite ⟨2226821049909366001426284673098873826917960544595316002560147822639123525016, secpP⟩, ⟨secpA, secpP⟩, ⟨secpB, secpP⟩⟩ : EcPoint) = some (⟨Bounded.Finite ⟨112052232026769664929658561660710941635228959956787050473536200851071191032897, secpP⟩, Bounded.Finite ⟨66850838866234897399334488953202946314182773756688684015551691304105443157422, secpP⟩, ⟨secpA, secpP⟩, ⟨secpB, secpP⟩⟩ : EcPoint) := by rfl
lemma c8acc223 : ecAdd (⟨Bounded.Finite ⟨14921441360743431835062401086497095963484503041023341661521987401860874976443, secpP⟩, Bounded.Finite ⟨78850265360787620829238252009399605140645486851388334653366951691458547663000, secpP⟩, ⟨secpA, secpP⟩, ⟨secpB, secpP⟩⟩ : EcPoint) (⟨Bounded.Finite ⟨112052232026769664929658561660710941635228959956787050473536200851071191032897, secpP⟩, Bounded.Finite ⟨66850838866234897399334488953202946314182773756688684015551691304105443157422, secpP⟩, ⟨secpA, secpP⟩, ⟨secpB, secpP⟩⟩ : EcPoint) = some (⟨Bounded.Finite ⟨78286964671916748464002077903524610882307428783999554209283543510913862216099, secpP⟩, Bounded.Finite ⟨69208207262524231989781998869308227471702474397686588373130614081572599272393, secpP⟩, ⟨secpA, secpP⟩, ⟨secpB, secpP⟩⟩ : EcPoint) := by rfl
lemma c8dbl223 : ecAdd (⟨Bounded.Finite ⟨112052232026769664929658561660710941635228959956787050473536200851071191032897, secpP⟩, Bounded.Finite ⟨66850838866234897399334488953202946314182773756688684015551691304105443157422, secpP⟩, ⟨secpA, secpP⟩, ⟨secpB, secpP⟩⟩ : EcPoint) (⟨Bounded.Finite ⟨112052232026769664929658561660710941635228959956787050473536200851071191032897, secpP⟩, Bounded.Finite ⟨66850838866234897399334488953202946314182773756688684015551691304105443157422, secpP⟩, ⟨secpA, secpP⟩, ⟨secpB, secpP⟩⟩ : EcPoint) = some (⟨Bounded.Finite ⟨67655380319953589260148826173219524241109847135242745518793369102772071675834, secpP⟩, Bounded.Finite ⟨21029601506232444319368385136955684033497833311867654114423309422350207087357, secpP⟩, ⟨secpA, secpP⟩, ⟨secpB, secpP⟩⟩ : EcPoint) := by rfl
lemma c8acc224 : ecAdd (⟨Bounded.Finite ⟨78286964671916748464002077903524610882307428783999554209283543510913862216099, secpP⟩, Bounded.Finite ⟨69208207262524231989781998869308227471702474397686588373130614081572599272393, secpP⟩, ⟨secpA, secpP⟩, ⟨secpB, secpP⟩⟩ : EcPoint) (⟨Bounded.Finite ⟨67655380319953589260148826173219524241109847135242745518793369102772071675834, secpP⟩, Bounded.Finite ⟨21029601506232444319368385136955684033497833311867654114423309422350207087357, secpP⟩, ⟨secpA, secpP⟩, ⟨secpB, secpP⟩⟩ : EcPoint) = some (⟨Bounded.Finite ⟨32105100545289841423885087965333143227423632123747622691327036134947413387996, secpP⟩, Bounded.Finite ⟨107176501216347319872941766300897194349458849660572881794244933385499532575842, secpP⟩, ⟨secpA, secpP⟩, ⟨secpB, secpP⟩⟩ : EcPoint) := by rfl
lemma c8dbl224 : ecAdd (⟨Bounded.Finite ⟨67655380319953589260148826173219524241109847135242745518793369102772071675834, secpP⟩, Bounded.Finite ⟨21029601506232444319368385136955684033497833311867654114423309422350207087357, secpP⟩, ⟨secpA, secpP⟩, ⟨secpB, secpP⟩⟩ : EcPoint) (⟨Bounded.Finite ⟨67655380319953589260148826173219524241109847135242745518793369102772071675834, secpP⟩, Bounded.Finite ⟨21029601506232444319368385136955684033497833311867654114423309422350207087357, secpP⟩, ⟨secpA, secpP⟩, ⟨secpB, secpP⟩⟩ : EcPoint) = some (⟨Bounded.Finite ⟨92240156060407253479030676529662381214111644319002643127826873158938047083835, secpP⟩, Bounded.Finite ⟨111327482796856645338109375925255091131664696057056686983936700507225403719493, secpP⟩, ⟨secpA, secpP⟩, ⟨secpB, secpP⟩⟩ : EcPoint) := by rfl
lemma c8acc225 : ecAdd (⟨Bounded.Finite ⟨32105100545289841423885087965333143227423632123747622691327036134947413387996, secpP⟩, Bounded.Finite ⟨107176501216347319872941766300897194349458849660572881794244933385499532575842, secpP⟩, ⟨secpA, secpP⟩, ⟨secpB, secpP⟩⟩ : EcPoint) (⟨Bounded.Finite ⟨92240156060407253479030676529662381214111644319002643127826873158938047083835, secpP⟩, Bounded.Finite ⟨111327482796856645338109375925255091131664696057056686983936700507225403719493, secpP⟩, ⟨secpA, secpP⟩, ⟨secpB, secpP⟩⟩ : EcPoint) = some (⟨Bounded.Finite ⟨53684246945455233892169494117752543755515973407332488164311693838822716083874, secpP⟩, Bounded.Finite ⟨104228328354891129794577475529432762877260837553513567146351935828039658278779, secpP⟩, ⟨secpA, secpP⟩, ⟨secpB, secpP⟩⟩ : EcPoint) := by rfl
lemma c8dbl225 : ecAdd (⟨Bounded.Finite ⟨92240156060407253479030676529662381214111644319002643127826873158938047083835, secpP⟩, Bounded.Finite ⟨111327482796856645338109375925255091131664696057056686983936700507225403719493, secpP⟩, ⟨secpA, secpP⟩, ⟨secpB, secpP⟩⟩ : EcPoint) (⟨Bounded.Finite ⟨92240156060407253479030676529662381214111644319002643127826873158938047083835, secpP⟩, Bounded.Finite ⟨111327482796856645338109375925255091131664696057056686983936700507225403719493, secpP⟩, ⟨secpA, secpP⟩, ⟨secpB, secpP⟩⟩ : EcPoint) = some (⟨Bounded.Finite ⟨78627750631242170634484650157951616270326041285698762428910452596338546905565, secpP⟩, Bounded.Finite ⟨105735616450588913958761248879135978906628726313788624529292917321934778581901, secpP⟩, ⟨secpA, secpP⟩, ⟨secpB, secpP⟩⟩ : EcPoint) := by rfl
lemma c8acc226 : ecAdd (⟨Bounded.Finite ⟨53684246945455233892169494117752543755515973407332488164311693838822716083874, secpP⟩, Bounded.Finite ⟨104228328354891129794577475529432762877260837553513567146351935828039658278779, secpP⟩, ⟨secpA, secpP⟩, ⟨secpB, secpP⟩⟩ : EcPoint) (⟨Bounded.Finite ⟨78627750631242170634484650157951616270326041285698762428910452596338546905565, secpP⟩, Bounded.Finite ⟨105735616450588913958761248879135978906628726313788624529292917321934778581901, secpP⟩, ⟨secpA, secpP⟩, ⟨secpB, secpP⟩⟩ : EcPoint) = some (⟨Bounded.Finite ⟨51408690339641306259502862117523444905541421107318686013500544629508968693518, secpP⟩, Bounded.Finite ⟨38962542652774759152447502158801181378596740070486063181510616016690053121357, secpP⟩, ⟨secpA, secpP⟩, ⟨secpB, secpP⟩⟩ : EcPoint) := by rfl
lemma c8dbl226 : ecAdd (⟨Bounded.Finite ⟨78627750631242170634484650157951616270326041285698762428910452596338546905565, secpP⟩, Bounded.Finite ⟨105735616450588913958761248879135978906628726313788624529292917321934778581901, secpP⟩, ⟨secpA, secpP⟩, ⟨secpB, secpP⟩⟩ : EcPoint) (⟨Bounded.Finite ⟨78627750631242170634484650157951616270326041285698762428910452596338546905565, secpP⟩, Bounded.Finite ⟨105735616450588913958761248879135978906628726313788624529292917321934778581901, secpP⟩, ⟨secpA, secpP⟩, ⟨secpB, secpP⟩⟩ : EcPoint) = some (⟨Bounded.Finite ⟨37970007016072384636196615568949856628931570059897898485017028997234414061945, secpP⟩, Bounded.Finite ⟨85633666146296869475846120618182213756296576205663668204532591586342323566242, secpP⟩, ⟨secpA, secpP⟩, ⟨secpB, secpP⟩⟩ : EcPoint) := by rfl
lemma c8acc227 : ecAdd (⟨Bounded.Finite ⟨51408690339641306259502862117523444905541421107318686013500544629508968693518, secpP⟩, Bounded.Finite ⟨38962542652774759152447502158801181378596740070486063181510616016690053121357, secpP⟩, ⟨secpA, secpP⟩, ⟨secpB, secpP⟩⟩ : EcPoint) (⟨Bounded.Finite ⟨37970007016072384636196615568949856628931570059897898485017028997234414061945, secpP⟩, Bounded.Finite ⟨85633666146296869475846120618182213756296576205663668204532591586342323566242, secpP⟩, ⟨secpA, secpP⟩, ⟨secpB, secpP⟩⟩ : EcPoint) = some (⟨Bounded.Finite ⟨52786968606586592704978338159563606167635515874663699931786977412781890025330, secpP⟩, Bounded.Finite ⟨58697020490641830694991289667448246507708277770194013988374765413618928696102, secpP⟩, ⟨secpA, secpP⟩, ⟨secpB, secpP⟩⟩ : EcPoint) := by rfl
lemma c8dbl227 : ecAdd (⟨Bounded.Finite ⟨37970007016072384636196615568949856628931570059897898485017028997234414061945, secpP⟩, Bounded.Finite ⟨85633666146296869475846120618182213756296576205663668204532591586342323566242, secpP⟩, ⟨secpA, secpP⟩, ⟨secpB, secpP⟩⟩ : EcPoint) (⟨Bounded.Finite ⟨37970007016072384636196615568949856628931570059897898485017028997234414061945, secpP⟩, Bounded.Finite ⟨85633666146296869475846120618182213756296576205663668204532591586342323566242, secpP⟩, ⟨secpA, secpP⟩, ⟨secpB, secpP⟩⟩ : EcPoint) = some (⟨Bounded.Finite ⟨95279397291673716158331856496563878128970306290864555825308960160147858174289, secpP⟩, Bounded.Finite ⟨105017020600749110255205601310325343926653803681868124843703017010103026488325, secpP⟩, ⟨secpA, secpP⟩, ⟨secpB, secpP⟩⟩ : EcPoint) := by rfl
lemma c8acc228 : ecAdd (⟨Bounded.Finite ⟨52786968606586592704978338159563606167635515874663699931786977412781890025330, secpP⟩, Bounded.Finite ⟨58697020490641830694991289667448246507708277770194013988374765413618928696102, secpP⟩, ⟨secpA, secpP⟩, ⟨secpB, secpP⟩⟩ : EcPoint) (⟨Bounded.Finite ⟨95279397291673716158331856496563878128970306290864555825308960160147858174289, secpP⟩, Bounded.Finite ⟨105017020600749110255205601310325343926653803681868124843703017010103026488325, secpP⟩, ⟨secpA, secpP⟩, ⟨secpB, secpP⟩⟩ : EcPoint) = some (⟨Bounded.Finite ⟨86156646838761427890073982424487469968465991327301981509193839358381582224146, secpP⟩, Bounded.Finite ⟨48244124533489911091464029142676735357156585326334056395334755085302048760140, secpP⟩, ⟨secpA, secpP⟩, ⟨secpB, secpP⟩⟩ : EcPoint) := by rfl
lemma c8dbl228 : ecAdd (⟨Bounded.Finite ⟨95279397291673716158331856496563878128970306290864555825308960160147858174289, secpP⟩, Bounded.Finite ⟨105017020600749110255205601310325343926653803681868124843703017010103026488325, secpP⟩, ⟨secpA, secpP⟩, ⟨secpB, secpP⟩⟩ : EcPoint) (⟨Bounded.Finite ⟨95279397291673716158331856496563878128970306290864555825308960160147858174289, secpP⟩, Bounded.Finite ⟨105017020600749110255205601310325343926653803681868124843703017010103026488325, secpP⟩, ⟨secpA, secpP⟩, ⟨secpB, secpP⟩⟩ : EcPoint) = some (⟨Bounded.Finite ⟨84556908620397086490574354609607180077068693777212695160113645418094198446687, secpP⟩, Bounded.Finite ⟨100718452597198377694892433543251040205084258311006913553384445818907946819791, secpP⟩, ⟨secpA, secpP⟩, ⟨secpB, secpP⟩⟩ : EcPoint) := by rfl
lemma c8acc229 : ecAdd (⟨Bounded.Finite ⟨86156646838761427890073982424487469968465991327301981509193839358381582224146, secpP⟩, Bounded.Finite ⟨48244124533489911091464029142676735357156585326334056395334755085302048760140, secpP⟩, ⟨secpA, secpP⟩, ⟨secpB, secpP⟩⟩ : EcPoint) (⟨Bounded.Finite ⟨84556908620397086490574354609607180077068693777212695160113645418094198446687, secpP⟩, Bounded.Finite ⟨100718452597198377694892433543251040205084258311006913553384445818907946819791, secpP⟩, ⟨secpA, secpP⟩, ⟨secpB, secpP⟩⟩ : EcPoint) = some (⟨Bounded.Finite ⟨97860223995786388436718584398015194619729937254824459850925401805715135240037, secpP⟩, Bounded.Finite ⟨9450363544228185891002858073527001779083311253255079730475207282364117871804, secpP⟩, ⟨secpA, secpP⟩, ⟨secpB, secpP⟩⟩ : EcPoint) := by rfl
lemma c8dbl229 : ecAdd (⟨Bounded.Finite ⟨84556908620397086490574354609607180077068693777212695160113645418094198446687, secpP⟩, Bounded.Finite ⟨100718452597198377694892433543251040205084258311006913553384445818907946819791, secpP⟩, ⟨secpA, secpP⟩, ⟨secpB, secpP⟩⟩ : EcPoint) (⟨Bounded.Finite ⟨84556908620397086490574354609607180077068693777212695160113645418094198446687, secpP⟩, Bounded.Finite ⟨100718452597198377694892433543251040205084258311006913553384445818907946819791, secpP⟩, ⟨secpA, secpP⟩, ⟨secpB, secpP⟩⟩ : EcPoint) = some (⟨Bounded.Finite ⟨112030421148703629201942613873270492163488999678896447559274774208446269765955, secpP⟩, Bounded.Finite ⟨35384723941339661147011733585239808738288755024824978650787507425153094271729, secpP⟩, ⟨secpA, secpP⟩, ⟨secpB, secpP⟩⟩ : EcPoint) := by rfl
lemma c8acc230 : ecAdd (⟨Bounded.Finite ⟨97860223995786388436718584398015194619729937254824459850925401805715135240037, secpP⟩, Bounded.Finite ⟨9450363544228185891002858073527001779083311253255079730475207282364117871804, secpP⟩, ⟨secpA, secpP⟩, ⟨secpB, secpP⟩⟩ : EcPoint) (⟨Bounded.Finite ⟨112030421148703629201942613873270492163488999678896447559274774208446269765955, secpP⟩, Bounded.Finite ⟨35384723941339661147011733585239808738288755024824978650787507425153094271729, secpP⟩, ⟨secpA, secpP⟩, ⟨secpB, secpP⟩⟩ : EcPoint) = some (⟨Bounded.Finite ⟨97543033203699496180030109729025514517779016973665982852482659210135496439562, secpP⟩, Bounded.Finite ⟨96485919188640319661734814117407264415512485743206780005275327817967484589025, secpP⟩, ⟨secpA, secpP⟩, ⟨secpB, secpP⟩⟩ : EcPoint) := by rfl
lemma c8dbl230 : ecAdd (⟨Bounded.Finite ⟨112030421148703629201942613873270492163488999678896447559274774208446269765955, secpP⟩, Bounded.Finite ⟨35384723941339661147011733585239808738288755024824978650787507425153094271729, secpP⟩, ⟨secpA, secpP⟩, ⟨secpB, secpP⟩⟩ : EcPoint) (⟨Bounded.Finite ⟨112030421148703629201942613873270492163488999678896447559274774208446269765955, secpP⟩, Bounded.Finite ⟨35384723941339661147011733585239808738288755024824978650787507425153094271729, secpP⟩, ⟨secpA, secpP⟩, ⟨secpB, secpP⟩⟩ : EcPoint) = some (⟨Bounded.Finite ⟨101186060051338727518238790300531351495613041202762303390359395316390096421977, secpP⟩, Bounded.Finite ⟨70018069425595998018260816426652965226827561219175179343976674369210843266462, secpP⟩, ⟨secpA, secpP⟩, ⟨secpB, secpP⟩⟩ : EcPoint) := by rfl
lemma c8acc231 : ecAdd (⟨Bounded.Finite ⟨97543033203699496180030109729025514517779016973665982852482659210135496439562, secpP⟩, Bounded.Finite ⟨96485919188640319661734814117407264415512485743206780005275327817967484589025, secpP⟩, ⟨secpA, secpP⟩, ⟨secpB, secpP⟩⟩ : EcPoint) (⟨Bounded.Finite ⟨101186060051338727518238790300531351495613041202762303390359395316390096421977, secpP⟩, Bounded.Finite ⟨70018069425595998018260816426652965226827561219175179343976674369210843266462, secpP⟩, ⟨secpA, secpP⟩, ⟨secpB, secpP⟩⟩ : EcPoint) = some (⟨Bounded.Finite ⟨102830533340956686198994875465671816784497224723621699776483958495310423492487, secpP⟩, Bounded.Finite ⟨30409364465911376382062081903253235354581412893702179936620223597366139023447, secpP⟩, ⟨secpA, secpP⟩, ⟨secpB, secpP⟩⟩ : EcPoint) := by rfl
lemma c8dbl231 : ecAdd (⟨Bounded.Finite ⟨101186060051338727518238790300531351495613041202762303390359395316390096421977, secpP⟩, Bounded.Finite ⟨70018069425595998018260816426652965226827561219175179343976674369210843266462, secpP⟩, ⟨secpA, secpP⟩, ⟨secpB, secpP⟩⟩ : EcPoint) (⟨Bounded.Finite ⟨101186060051338727518238790300531351495613041202762303390359395316390096421977, secpP⟩, Bounded.Finite ⟨70018069425595998018260816426652965226827561219175179343976674369210843266462, secpP⟩, ⟨secpA, secpP⟩, ⟨secpB, secpP⟩⟩ : EcPoint) = some (⟨Bounded.Finite ⟨45387637969275774150653095889876699672169323470095019346305801601969322188915, secpP⟩, Bounded.Finite ⟨98434237446496148394183890050136756428510322717221929962654009239641273623945, secpP⟩, ⟨secpA, secpP⟩, ⟨secpB, secpP⟩⟩ : EcPoint) := by rfl
lemma c8acc232 : ecAdd (⟨Bounded.Finite ⟨102830533340956686198994875465671816784497224723621699776483958495310423492487, secpP⟩, Bounded.Finite ⟨30409364465911376382062081903253235354581412893702179936620223597366139023447, secpP⟩, ⟨secpA, secpP⟩, ⟨secpB, secpP⟩⟩ : EcPoint) (⟨Bounded.Finite ⟨45387637969275774150653095889876699672169323470095019346305801601969322188915, secpP⟩, Bounded.Finite ⟨98434237446496148394183890050136756428510322717221929962654009239641273623945, secpP⟩, ⟨secpA, secpP⟩, ⟨secpB, secpP⟩⟩ : EcPoint) = some (⟨Bounded.Finite ⟨30296781290666500851168272802295872378717872596910351160793153249076866250067, secpP⟩, Bounded.Finite ⟨55916929317641937071084404866045275140201483451351707426073383549397819490988, secpP⟩, ⟨secpA, secpP⟩, ⟨secpB, secpP⟩⟩ : EcPoint) := by rfl
lemma c8dbl232 : ecAdd (⟨Bounded.Finite ⟨45387637969275774150653095889876699672169323470095019346305801601969322188915, secpP⟩, Bounded.Finite ⟨98434237446496148394183890050136756428510322717221929962654009239641273623945, secpP⟩, ⟨secpA, secpP⟩, ⟨secpB, secpP⟩⟩ : EcPoint) (⟨Bounded.Finite ⟨45387637969275774150653095889876699672169323470095019346305801601969322188915, secpP⟩, Bounded.Finite ⟨98434237446496148394183890050136756428510322717221929962654009239641273623945, secpP⟩, ⟨secpA, secpP⟩, ⟨secpB, secpP⟩⟩ : EcPoint) = some (⟨Bounded.Finite ⟨83407264292599769979907512419974269146592549057292719108468866098684905146381, secpP⟩, Bounded.Finite ⟨11344377696059311412860255181221495902312688613306488893294163454119121825704, secpP⟩, ⟨secpA, secpP⟩, ⟨secpB, secpP⟩⟩ : EcPoint) := by rfl
lemma c8acc233 : ecAdd (⟨Bounded.Finite ⟨30296781290666500851168272802295872378717872596910351160793153249076866250067, secpP⟩, Bounded.Finite ⟨55916929317641937071084404866045275140201483451351707426073383549397819490988, secpP⟩, ⟨secpA, secpP⟩, ⟨secpB, secpP⟩⟩ : EcPoint) (⟨Bounded.Finite ⟨83407264292599769979907512419974269146592549057292719108468866098684905146381, secpP⟩, Bounded.Finite ⟨11344377696059311412860255181221495902312688613306488893294163454119121825704, secpP⟩, ⟨secpA, secpP⟩, ⟨secpB, secpP⟩⟩ : EcPoint) = some (⟨Bounded.Finite ⟨112315026525901017482762550793305442477113960914535610904227469025227247239111, secpP⟩, Bounded.Finite ⟨49871746725307346317681367110993781904741915431745890154213666738710559760208, secpP⟩, ⟨secpA, secpP⟩, ⟨secpB, secpP⟩⟩ : EcPoint) := by rfl
lemma c8dbl233 : ecAdd (⟨Bounded.Finite ⟨83407264292599769979907512419974269146592549057292719108468866098684905146381, secpP⟩, Bounded.Finite ⟨11344377696059311412860255181221495902312688613306488893294163454119121825704, secpP⟩, ⟨secpA, secpP⟩, ⟨secpB, secpP⟩⟩ : EcPoint) (⟨Bounded.Finite ⟨83407264292599769979907512419974269146592549057292719108468866098684905146381, secpP⟩, Bounded.Finite ⟨11344377696059311412860255181221495902312688613306488893294163454119121825704, secpP⟩, ⟨secpA, secpP⟩, ⟨secpB, secpP⟩⟩ : EcPoint) = some (⟨Bounded.Finite ⟨106823080507094536302171587221364767641207071699356594725100487456618775186796, secpP⟩, Bounded.Finite ⟨92690132246900151323277569114758090527006018018792578401159597199495559705760, secpP⟩, ⟨secpA, secpP⟩, ⟨secpB, secpP⟩⟩ : EcPoint) := by rfl
lemma c8acc234 : ecAdd (⟨Bounded.Finite ⟨112315026525901017482762550793305442477113960914535610904227469025227247239111, secpP⟩, Bounded.Finite ⟨49871746725307346317681367110993781904741915431745890154213666738710559760208, secpP⟩, ⟨secpA, secpP⟩, ⟨secpB, secpP⟩⟩ : EcPoint) (⟨Bounded.Finite ⟨106823080507094536302171587221364767641207071699356594725100487456618775186796, secpP⟩, Bounded.Finite ⟨92690132246900151323277569114758090527006018018792578401159597199495559705760, secpP⟩, ⟨secpA, secpP⟩, ⟨secpB, secpP⟩⟩ : EcPoint) = some (⟨Bounded.Finite ⟨46569867216501492463829635190455011087054375636727173037363205698031811292777, secpP⟩, Bounded.Finite ⟨99554292090938309716246192958684556782056231624071931546120340801585990975109, secpP⟩, ⟨secpA, secpP⟩, ⟨secpB, secpP⟩⟩ : EcPoint) := by rfl
lemma c8dbl234 : ecAdd (⟨Bounded.Finite ⟨106823080507094536302171587221364767641207071699356594725100487456618775186796, secpP⟩, Bounded.Finite ⟨92690132246900151323277569114758090527006018018792578401159597199495559705760, secpP⟩, ⟨secpA, secpP⟩, ⟨secpB, secpP⟩⟩ : EcPoint) (⟨Bounded.Finite ⟨106823080507094536302171587221364767641207071699356594725100487456618775186796, secpP⟩, Bounded.Finite ⟨92690132246900151323277569114758090527006018018792578401159597199495559705760, secpP⟩, ⟨secpA, secpP⟩, ⟨secpB, secpP⟩⟩ : EcPoint) = some (⟨Bounded.Finite ⟨51458812640674469987191057145664724195213971571581134911909867396919133773071, secpP⟩, Bounded.Finite ⟨8629245570289361512928824496793066884814249866400051283675066385256088984418, secpP⟩, ⟨secpA, secpP⟩, ⟨secpB, secpP⟩⟩ : EcPoint) := by rfl
lemma c8acc235 : ecAdd (⟨Bounded.Finite ⟨46569867216501492463829635190455011087054375636727173037363205698031811292777, secpP⟩, Bounded.Finite ⟨99554292090938309716246192958684556782056231624071931546120340801585990975109, secpP⟩, ⟨secpA, secpP⟩, ⟨secpB, secpP⟩⟩ : EcPoint) (⟨Bounded.Finite ⟨51458812640674469987191057145664724195213971571581134911909867396919133773071, secpP⟩, Bounded.Finite ⟨8629245570289361512928824496793066884814249866400051283675066385256088984418, secpP⟩, ⟨secpA, secpP⟩, ⟨secpB, secpP⟩⟩ : EcPoint) = some (⟨Bounded.Finite ⟨30460618184285782433506524833173452821317744234050953035479650134294695229687, secpP⟩, Bounded.Finite ⟨1029480740930620994498373859936262084317436194780107773001520906588264935059, secpP⟩, ⟨secpA, secpP⟩, ⟨secpB, secpP⟩⟩ : EcPoint) := by rfl
lemma c8dbl235 : ecAdd (⟨Bounded.Finite ⟨51458812640674469987191057145664724195213971571581134911909867396919133773071, secpP⟩, Bounded.Finite ⟨8629245570289361512928824496793066884814249866400051283675066385256088984418, secpP⟩, ⟨secpA, secpP⟩, ⟨secpB, secpP⟩⟩ : EcPoint) (⟨Bounded.Finite ⟨51458812640674469987191057145664724195213971571581134911909867396919133773071, secpP⟩, Bounded.Finite ⟨8629245570289361512928824496793066884814249866400051283675066385256088984418, secpP⟩, ⟨secpA, secpP⟩, ⟨secpB, secpP⟩⟩ : EcPoint) = some (⟨Bounded.Finite ⟨59934529777540515900169509345926368831906655562972450327405481276732036473944, secpP⟩, Bounded.Finite ⟨25750881830896011524081627616138971820801200943932001974011760182257795007870, secpP⟩, ⟨secpA, secpP⟩, ⟨secpB, secpP⟩⟩ : EcPoint) := by rfl
lemma c8acc236 : ecAdd (⟨Bounded.Finite ⟨30460618184285782433506524833173452821317744234050953035479650134294695229687, secpP⟩, Bounded.Finite ⟨1029480740930620994498373859936262084317436194780107773001520906588264935059, secpP⟩, ⟨secpA, secpP⟩, ⟨secpB, secpP⟩⟩ : EcPoint) (⟨Bounded.Finite ⟨59934529777540515900169509345926368831906655562972450327405481276732036473944, secpP⟩, Bounded.Finite ⟨25750881830896011524081627616138971820801200943932001974011760182257795007870, secpP⟩, ⟨secpA, secpP⟩, ⟨secpB, secpP⟩⟩ : EcPoint) = some (⟨Bounded.Finite ⟨71270092845352995479434385129475437865313439324845947026235006874099517319235, secpP⟩, Bounded.Finite ⟨16501345542646850933158666325129275564880408279633706132371349688183435035119, secpP⟩, ⟨secpA, secpP⟩, ⟨secpB, secpP⟩⟩ : EcPoint) := by rfl
lemma c8dbl236 : ecAdd (⟨Bounded.Finite ⟨59934529777540515900169509345926368831906655562972450327405481276732036473944, secpP⟩, Bounded.Finite ⟨25750881830896011524081627616138971820801200943932001974011760182257795007870, secpP⟩, ⟨secpA, secpP⟩, ⟨secpB, secpP⟩⟩ : EcPoint) (⟨Bounded.Finite ⟨59934529777540515900169509345926368831906655562972450327405481276732036473944, secpP⟩, Bounded.Finite ⟨25750881830896011524081627616138971820801200943932001974011760182257795007870, secpP⟩, ⟨secpA, secpP⟩, ⟨secpB, secpP⟩⟩ : EcPoint) = some (⟨Bounded.Finite ⟨67920502080269633306026372339646975598405744544879176039587252097767227126036, secpP⟩, Bounded.Finite ⟨86511203683128773200503204915391168752553058701578039004115361443541322212241, secpP⟩, ⟨secpA, secpP⟩, ⟨secpB, secpP⟩⟩ : EcPoint) := by rfl
lemma c8acc237 : ecAdd (⟨Bounded.Finite ⟨71270092845352995479434385129475437865313439324845947026235006874099517319235, secpP⟩, Bounded.Finite ⟨16501345542646850933158666325129275564880408279633706132371349688183435035119, secpP⟩, ⟨secpA, secpP⟩, ⟨secpB, secpP⟩⟩ : EcPoint) (⟨Bounded.Finite ⟨67920502080269633306026372339646975598405744544879176039587252097767227126036, secpP⟩, Bounded.Finite ⟨86511203683128773200503204915391168752553058701578039004115361443541322212241, secpP⟩, ⟨secpA, secpP⟩, ⟨secpB, secpP⟩⟩ : EcPoint) = some (⟨Bounded.Finite ⟨16618556853955496303621456858521371789817942603952389038933742455201500272862, secpP⟩, Bounded.Finite ⟨105623413539446534475123892922000765066384377862553587703656459409095412557051, secpP⟩, ⟨secpA, secpP⟩, ⟨secpB, secpP⟩⟩ : EcPoint) := by rfl
lemma c8dbl237 : ecAdd (⟨Bounded.Finite ⟨67920502080269633306026372339646975598405744544879176039587252097767227126036, secpP⟩, Bounded.Finite ⟨86511203683128773200503204915391168752553058701578039004115361443541322212241, secpP⟩, ⟨secpA, secpP⟩, ⟨secpB, secpP⟩⟩ : EcPoint) (⟨Bounded.Finite ⟨67920502080269633306026372339646975598405744544879176039587252097767227126036, secpP⟩, Bounded.Finite ⟨86511203683128773200503204915391168752553058701578039004115361443541322212241, secpP⟩, ⟨secpA, secpP⟩, ⟨secpB, secpP⟩⟩ : EcPoint) = some (⟨Bounded.Finite ⟨82877690455795689589323624744144337630277711329294127826630078132465967983811, secpP⟩, Bounded.Finite ⟨39922059842557940073913288636103872861952687103330770522978967679436902620067, secpP⟩, ⟨secpA, secpP⟩, ⟨secpB, secpP⟩⟩ : EcPoint) := by rfl
lemma c8acc238 : ecAdd (⟨Bounded.Finite ⟨16618556853955496303621456858521371789817942603952389038933742455201500272862, secpP⟩, Bounded.Finite ⟨105623413539446534475123892922000765066384377862553587703656459409095412557051, secpP⟩, ⟨secpA, secpP⟩, ⟨secpB, secpP⟩⟩ : EcPoint) (⟨Bounded.Finite ⟨82877690455795689589323624744144337630277711329294127826630078132465967983811, secpP⟩, Bounded.Finite ⟨39922059842557940073913288636103872861952687103330770522978967679436902620067, secpP⟩, ⟨secpA, secpP⟩, ⟨secpB, secpP⟩⟩ : EcPoint) = some (⟨Bounded.Finite ⟨74742492579009244357905242041687175457775327266132249497268901437517232845332, secpP⟩, Bounded.Finite ⟨114699055254734085331164357669320705839111992500985393140160222788774166861494, secpP⟩, ⟨secpA, secpP⟩, ⟨secpB, secpP⟩⟩ : EcPoint) := by rfl
lemma c8dbl238 : ecAdd (⟨Bounded.Finite ⟨82877690455795689589323624744144337630277711329294127826630078132465967983811, secpP⟩, Bounded.Finite ⟨39922059842557940073913288636103872861952687103330770522978967679436902620067, secpP⟩, ⟨secpA, secpP⟩, ⟨secpB, secpP⟩⟩ : EcPoint) (⟨Bounded.Finite ⟨82877690455795689589323624744144337630277711329294127826630078132465967983811, secpP⟩, Bounded.Finite ⟨39922059842557940073913288636103872861952687103330770522978967679436902620067, secpP⟩, ⟨secpA, secpP⟩, ⟨secpB, secpP⟩⟩ : EcPoint) = some (⟨Bounded.Finite ⟨107647080929067738343525460704633213843414790178366076706967300283813568943072, secpP⟩, Bounded.Finite ⟨107835997232065897977399831129863752621211712639335526979670771458251622188461, secpP⟩, ⟨secpA, secpP⟩, ⟨secpB, secpP⟩⟩ : EcPoint) := by rfl
lemma c8acc239 : ecAdd (⟨Bounded.Finite ⟨74742492579009244357905242041687175457775327266132249497268901437517232845332, secpP⟩, Bounded.Finite ⟨114699055254734085331164357669320705839111992500985393140160222788774166861494, secpP⟩, ⟨secpA, secpP⟩, ⟨secpB, secpP⟩⟩ : EcPoint) (⟨Bounded.Finite ⟨107647080929067738343525460704633213843414790178366076706967300283813568943072, secpP⟩, Bounded.Finite ⟨107835997232065897977399831129863752621211712639335526979670771458251622188461, secpP⟩, ⟨secpA, secpP⟩, ⟨secpB, secpP⟩⟩ : EcPoint) = some (⟨Bounded.Finite ⟨1081612414056764282020452592787223287568754890085769046997177576205063339491, secpP⟩, Bounded.Finite ⟨44747613108632260717822144637987652971391392858915576291280779809256471377238, secpP⟩, ⟨secpA, secpP⟩, ⟨secpB, secpP⟩⟩ : EcPoint) := by rfl
lemma c8dbl239 : ecAdd (⟨Bounded.Finite ⟨107647080929067738343525460704633213843414790178366076706967300283813568943072, secpP⟩, Bounded.Finite ⟨107835997232065897977399831129863752621211712639335526979670771458251622188461, secpP⟩, ⟨secpA, secpP⟩, ⟨secpB, secpP⟩⟩ : EcPoint) (⟨Bounded.Finite ⟨107647080929067738343525460704633213843414790178366076706967300283813568943072, secpP⟩, Bounded.Finite ⟨107835997232065897977399831129863752621211712639335526979670771458251622188461, secpP⟩, ⟨secpA, secpP⟩, ⟨secpB, secpP⟩⟩ : EcPoint) = some (⟨Bounded.Finite ⟨8718136510001795340016406650816398436241492966773881626425334457414292825707, secpP⟩, Bounded.Finite ⟨47828698862917730813607230394980222348159325738755616817276492989172802309159, secpP⟩, ⟨secpA, secpP⟩, ⟨secpB, secpP⟩⟩ : EcPoint) := by rfl
lemma c8acc240 : ecAdd (⟨Bounded.Finite ⟨1081612414056764282020452592787223287568754890085769046997177576205063339491, secpP⟩, Bounded.Finite ⟨44747613108632260717822144637987652971391392858915576291280779809256471377238, secpP⟩, ⟨secpA, secpP⟩, ⟨secpB, secpP⟩⟩ : EcPoint) (⟨Bounded.Finite ⟨8718136510001795340016406650816398436241492966773881626425334457414292825707, secpP⟩, Bounded.Finite ⟨47828698862917730813607230394980222348159325738755616817276492989172802309159, secpP⟩, ⟨secpA, secpP⟩, ⟨secpB, secpP⟩⟩ : EcPoint) = some (⟨Bounded.Finite ⟨49811277349567224411985508482634174791584736505241552453091834927605838997743, secpP⟩, Bounded.Finite ⟨88053982202123090461505576929120316231093483547555797784533027534394422022869, secpP⟩, ⟨secpA, secpP⟩, ⟨secpB, secpP⟩⟩ : EcPoint) := by rfl
lemma c8dbl240 : ecAdd (⟨Bounded.Finite ⟨8718136510001795340016406650816398436241492966773881626425334457414292825707, secpP⟩, Bounded.Finite ⟨47828698862917730813607230394980222348159325738755616817276492989172802309159, secpP⟩, ⟨secpA, secpP⟩, ⟨secpB, secpP⟩⟩ : EcPoint) (⟨Bounded.Finite ⟨8718136510001795340016406650816398436241492966773881626425334457414292825707, secpP⟩, Bounded.Finite ⟨47828698862917730813607230394980222348159325738755616817276492989172802309159, secpP⟩, ⟨secpA, secpP⟩, ⟨secpB, secpP⟩⟩ : EcPoint) = some (⟨Bounded.Finite ⟨106401248484515799960476859862399114279959120497224302323517862298350223656110, secpP⟩, Bounded.Finite ⟨90554055872943285359562789441845937705225388396376669909302342738611517756544, secpP⟩, ⟨secpA, secpP⟩, ⟨secpB, secpP⟩⟩ : EcPoint) := by rfl
lemma c8acc241 : ecAdd (⟨Bounded.Finite ⟨49811277349567224411985508482634174791584736505241552453091834927605838997743, secpP⟩, Bounded.Finite ⟨88053982202123090461505576929120316231093483547555797784533027534394422022869, secpP⟩, ⟨secpA, secpP⟩, ⟨secpB, secpP⟩⟩ : EcPoint) (⟨Bounded.Finite ⟨106401248484515799960476859862399114279959120497224302323517862298350223656110, secpP⟩, Bounded.Finite ⟨90554055872943285359562789441845937705225388396376669909302342738611517756544, secpP⟩, ⟨secpA, secpP⟩, ⟨secpB, secpP⟩⟩ : EcPoint) = some (⟨Bounded.Finite ⟨77706397775829796206513053180104330003887931466756047681323827121198156235594, secpP⟩, Bounded.Finite ⟨60088041830652310201575685525116711717955821314283880815939940330960602595366, secpP⟩, ⟨secpA, secpP⟩, ⟨secpB, secpP⟩⟩ : EcPoint) := by rfl
lemma c8dbl241 : ecAdd (⟨Bounded.Finite ⟨106401248484515799960476859862399114279959120497224302323517862298350223656110, secpP⟩, Bounded.Finite ⟨90554055872943285359562789441845937705225388396376669909302342738611517756544, secpP⟩, ⟨secpA, secpP⟩, ⟨secpB, secpP⟩⟩ : EcPoint) (⟨Bounded.Finite ⟨106401248484515799960476859862399114279959120497224302323517862298350223656110, secpP⟩, Bounded.Finite ⟨90554055872943285359562789441845937705225388396376669909302342738611517756544, secpP⟩, ⟨secpA, secpP⟩, ⟨secpB, secpP⟩⟩ : EcPoint) = some (⟨Bounded.Finite ⟨85914087585702408016005337307470673574025858586827994345031653897824524412368, secpP⟩, Bounded.Finite ⟨29212277550782883303312106838911213847133545583225907622635973696278860332923, secpP⟩, ⟨secpA, secpP⟩, ⟨secpB, secpP⟩⟩ : EcPoint) := by rfl
lemma c8acc242 : ecAdd (⟨Bounded.Finite ⟨77706397775829796206513053180104330003887931466756047681323827121198156235594, secpP⟩, Bounded.Finite ⟨60088041830652310201575685525116711717955821314283880815939940330960602595366, secpP⟩, ⟨secpA, secpP⟩, ⟨secpB, secpP⟩⟩ : EcPoint) (⟨Bounded.Finite ⟨85914087585702408016005337307470673574025858586827994345031653897824524412368, secpP⟩, Bounded.Finite ⟨29212277550782883303312106838911213847133545583225907622635973696278860332923, secpP⟩, ⟨secpA, secpP⟩, ⟨secpB, secpP⟩⟩ : EcPoint) = some (⟨Bounded.Finite ⟨23785567577982762677578830488290362080656906729902214709880944246705510538322, secpP⟩, Bounded.Finite ⟨29195547448378149604690967779902473397916800306677216156987726536034103090328, secpP⟩, ⟨secpA, secpP⟩, ⟨secpB, secpP⟩⟩ : EcPoint) := by rfl
lemma c8dbl242 : ecAdd (⟨Bounded.Finite ⟨85914087585702408016005337307470673574025858586827994345031653897824524412368, secpP⟩, Bounded.Finite ⟨29212277550782883303312106838911213847133545583225907622635973696278860332923, secpP⟩, ⟨secpA, secpP⟩, ⟨secpB, secpP⟩⟩ : EcPoint) (⟨Bounded.Finite ⟨85914087585702408016005337307470673574025858586827994345031653897824524412368, secpP⟩, Bounded.Finite ⟨29212277550782883303312106838911213847133545583225907622635973696278860332923, secpP⟩, ⟨secpA, secpP⟩, ⟨secpB, secpP⟩⟩ : EcPoint) = some (⟨Bounded.Finite ⟨47276261486337148374827016504378500997420604221918318826137905934201132672881, secpP⟩, Bounded.Finite ⟨54113652565211585717578927649047183887090734340027236246806164434159486622390, secpP⟩, ⟨secpA, secpP⟩, ⟨secpB, secpP⟩⟩ : EcPoint) := by rfl
lemma c8acc243 : ecAdd (⟨Bounded.Finite ⟨23785567577982762677578830488290362080656906729902214709880944246705510538322, secpP⟩, Bounded.Finite ⟨29195547448378149604690967779902473397916800306677216156987726536034103090328, secpP⟩, ⟨secpA, secpP⟩, ⟨secpB, secpP⟩⟩ : EcPoint) (⟨Bounded.Finite ⟨47276261486337148374827016504378500997420604221918318826137905934201132672881, secpP⟩, Bounded.Finite ⟨54113652565211585717578927649047183887090734340027236246806164434159486622390, secpP⟩, ⟨secpA, secpP⟩, ⟨secpB, secpP⟩⟩ : EcPoint) = some (⟨Bounded.Finite ⟨14090046075950136180562018246382077790895898809530716464155275291397585164913, secpP⟩, Bounded.Finite ⟨87833992341023535479845708371432066550999723108376977466264044242266341733141, secpP⟩, ⟨secpA, secpP⟩, ⟨secpB, secpP⟩⟩ : EcPoint) := by rfl
lemma c8dbl243 : ecAdd (⟨Bounded.Finite ⟨47276261486337148374827016504378500997420604221918318826137905934201132672881, secpP⟩, Bounded.Finite ⟨54113652565211585717578927649047183887090734340027236246806164434159486622390, secpP⟩, ⟨secpA, secpP⟩, ⟨secpB, secpP⟩⟩ : EcPoint) (⟨Bounded.Finite ⟨47276261486337148374827016504378500997420604221918318826137905934201132672881, secpP⟩, Bounded.Finite ⟨54113652565211585717578927649047183887090734340027236246806164434159486622390, secpP⟩, ⟨secpA, secpP⟩, ⟨secpB, secpP⟩⟩ : EcPoint) = some (⟨Bounded.Finite ⟨85166652415091435001797631336388904339331836647982294920464378555175360787302, secpP⟩, Bounded.Finite ⟨5983439944161437184729068253379966091033304045142912300433002697874386924481, secpP⟩, ⟨secpA, secpP⟩, ⟨secpB, secpP⟩⟩ : EcPoint) := by rfl
lemma c8acc244 : ecAdd (⟨Bounded.Finite ⟨14090046075950136180562018246382077790895898809530716464155275291397585164913, secpP⟩, Bounded.Finite ⟨87833992341023535479845708371432066550999723108376977466264044242266341733141, secpP⟩, ⟨secpA, secpP⟩, ⟨secpB, secpP⟩⟩ : EcPoint) (⟨Bounded.Finite ⟨85166652415091435001797631336388904339331836647982294920464378555175360787302, secpP⟩, Bounded.Finite ⟨5983439944161437184729068253379966091033304045142912300433002697874386924481, secpP⟩, ⟨secpA, secpP⟩, ⟨secpB, secpP⟩⟩ : EcPoint) = some (⟨Bounded.Finite ⟨37828421047972008774017066608768410609187446689017066363359154428044810742785, secpP⟩, Bounded.Finite ⟨113226292101255053265912448708291971531186503653436133578142918006414973486957, secpP⟩, ⟨secpA, secpP⟩, ⟨secpB, secpP⟩⟩ : EcPoint) := by rfl
lemma c8dbl244 : ecAdd (⟨Bounded.Finite ⟨85166652415091435001797631336388904339331836647982294920464378555175360787302, secpP⟩, Bounded.Finite ⟨5983439944161437184729068253379966091033304045142912300433002697874386924481, secpP⟩, ⟨secpA, secpP⟩, ⟨secpB, secpP⟩⟩ : EcPoint) (⟨Bounded.Finite ⟨85166652415091435001797631336388904339331836647982294920464378555175360787302, secpP⟩, Bounded.Finite ⟨5983439944161437184729068253379966091033304045142912300433002697874386924481, secpP⟩, ⟨secpA, secpP⟩, ⟨secpB, secpP⟩⟩ : EcPoint) = some (⟨Bounded.Finite ⟨98723003287129746819861849635856388307092482938644489660108201582085516618521, secpP⟩, Bounded.Finite ⟨103397407405374187698982141346926700394890519747915912573020442958629189307492, secpP⟩, ⟨secpA, secpP⟩, ⟨secpB, secpP⟩⟩ : EcPoint) := by rfl
lemma c8acc245 : ecAdd (⟨Bounded.Finite ⟨37828421047972008774017066608768410609187446689017066363359154428044810742785, secpP⟩, Bounded.Finite ⟨113226292101255053265912448708291971531186503653436133578142918006414973486957, secpP⟩, ⟨secpA, secpP⟩, ⟨secpB, secpP⟩⟩ : EcPoint) (⟨Bounded.Finite ⟨98723003287129746819861849635856388307092482938644489660108201582085516618521, secpP⟩, Bounded.Finite ⟨103397407405374187698982141346926700394890519747915912573020442958629189307492, secpP⟩, ⟨secpA, secpP⟩, ⟨secpB, secpP⟩⟩ : EcPoint) = some (⟨Bounded.Finite ⟨20842789763102640913372864025301593491814512580224379177912388102803212159731, secpP⟩, Bounded.Finite ⟨107410244362911412413053286079934390031031550454718341727117045597825912151135, secpP⟩, ⟨secpA, secpP⟩, ⟨secpB, secpP⟩⟩ : EcPoint) := by rfl
lemma c8dbl245 : ecAdd (⟨Bounded.Finite ⟨98723003287129746819861849635856388307092482938644489660108201582085516618521, secpP⟩, Bounded.Finite ⟨103397407405374187698982141346926700394890519747915912573020442958629189307492, secpP⟩, ⟨secpA, secpP⟩, ⟨secpB, secpP⟩⟩ : EcPoint) (⟨Bounded.Finite ⟨98723003287129746819861849635856388307092482938644489660108201582085516618521, secpP⟩, Bounded.Finite ⟨103397407405374187698982141346926700394890519747915912573020442958629189307492, secpP⟩, ⟨secpA, secpP⟩, ⟨secpB, secpP⟩⟩ : EcPoint) = some (⟨Bounded.Finite ⟨1410924839106319455438998906475131322254088508411264224845861103682022500650, secpP⟩, Bounded.Finite ⟨78473624517617731927860216277549078632861074607574001991821266037345967105658, secpP⟩, ⟨secpA, secpP⟩, ⟨secpB, secpP⟩⟩ : EcPoint) := by rfl
lemma c8acc246 : ecAdd (⟨Bounded.Finite ⟨20842789763102640913372864025301593491814512580224379177912388102803212159731, secpP⟩, Bounded.Finite ⟨107410244362911412413053286079934390031031550454718341727117045597825912151135, secpP⟩, ⟨secpA, secpP⟩, ⟨secpB, secpP⟩⟩ : EcPoint) (⟨Bounded.Finite ⟨1410924839106319455438998906475131322254088508411264224845861103682022500650, secpP⟩, Bounded.Finite ⟨78473624517617731927860216277549078632861074607574001991821266037345967105658, secpP⟩, ⟨secpA, secpP⟩, ⟨secpB, secpP⟩⟩ : EcPoint) = some (⟨Bounded.Finite ⟨110539463342885515017316615115704012034156315028293057517191961487462828970401, secpP⟩, Bounded.Finite ⟨115445443873164393444233708083243158013211351768761441982691257404063982064328, secpP⟩, ⟨secpA, secpP⟩, ⟨secpB, secpP⟩⟩ : EcPoint) := by rfl
lemma c8dbl246 : ecAdd (⟨Bounded.Finite ⟨1410924839106319455438998906475131322254088508411264224845861103682022500650, secpP⟩, Bounded.Finite ⟨78473624517617731927860216277549078632861074607574001991821266037345967105658, secpP⟩, ⟨secpA, secpP⟩, ⟨secpB, secpP⟩⟩ : EcPoint) (⟨Bounded.Finite ⟨1410924839106319455438998906475131322254088508411264224845861103682022500650, secpP⟩, Bounded.Finite ⟨78473624517617731927860216277549078632861074607574001991821266037345967105658, secpP⟩, ⟨secpA, secpP⟩, ⟨secpB, secpP⟩⟩ : EcPoint) = some (⟨Bounded.Finite ⟨76680320804797823168246424599385182501909051371397652720933062691171176057014, secpP⟩, Bounded.Finite ⟨94762424439059506170177300542547484894285259654945103834474381188217886845725, secpP⟩, ⟨secpA, secpP⟩, ⟨secpB, secpP⟩⟩ : EcPoint) := by rfl
lemma c8acc247 : ecAdd (⟨Bounded.Finite ⟨110539463342885515017316615115704012034156315028293057517191961487462828970401, secpP⟩, Bounded.Finite ⟨115445443873164393444233708083243158013211351768761441982691257404063982064328, secpP⟩, ⟨secpA, secpP⟩, ⟨secpB, secpP⟩⟩ : EcPoint) (⟨Bounded.Finite ⟨76680320804797823168246424599385182501909051371397652720933062691171176057014, secpP⟩, Bounded.Finite ⟨94762424439059506170177300542547484894285259654945103834474381188217886845725, secpP⟩, ⟨secpA, secpP⟩, ⟨secpB, secpP⟩⟩ : EcPoint) = some (⟨Bounded.Finite ⟨60514053294911466398737601314427703479018544726564927088684814673373104577301, secpP⟩, Bounded.Finite ⟨22551341913608398905414162624851807282361939577344960293160427740218883912555, secpP⟩, ⟨secpA, secpP⟩, ⟨secpB, secpP⟩⟩ : EcPoint) := by rfl
lemma c8dbl247 : ecAdd (⟨Bounded.Finite ⟨76680320804797823168246424599385182501909051371397652720933062691171176057014, secpP⟩, Bounded.Finite ⟨94762424439059506170177300542547484894285259654945103834474381188217886845725, secpP⟩, ⟨secpA, secpP⟩, ⟨secpB, secpP⟩⟩ : EcPoint) (⟨Bounded.Finite ⟨76680320804797823168246424599385182501909051371397652720933062691171176057014, secpP⟩, Bounded.Finite ⟨94762424439059506170177300542547484894285259654945103834474381188217886845725, secpP⟩, ⟨secpA, secpP⟩, ⟨secpB, secpP⟩⟩ : EcPoint) = some (⟨Bounded.Finite ⟨63395642421589016740518975608504846303065672135176650115036476193363423546538, secpP⟩, Bounded.Finite ⟨29236048674093813394523910922582374630829081423043497254162533033164154049666, secpP⟩, ⟨secpA, secpP⟩, ⟨secpB, secpP⟩⟩ : EcPoint) := by rfl
lemma c8acc248 : ecAdd (⟨Bounded.Finite ⟨60514053294911466398737601314427703479018544726564927088684814673373104577301, secpP⟩, Bounded.Finite ⟨22551341913608398905414162624851807282361939577344960293160427740218883912555, secpP⟩, ⟨secpA, secpP⟩, ⟨secpB, secpP⟩⟩ : EcPoint) (⟨Bounded.Finite ⟨63395642421589016740518975608504846303065672135176650115036476193363423546538, secpP⟩, Bounded.Finite ⟨29236048674093813394523910922582374630829081423043497254162533033164154049666, secpP⟩, ⟨secpA, secpP⟩, ⟨secpB, secpP⟩⟩ : EcPoint) = some (⟨Bounded.Finite ⟨32052271579092252526176234927591189443293762247044804283344858953002472806271, secpP⟩, Bounded.Finite ⟨98302918787849364714396393177487078334103885001289606499004072092703617200351, secpP⟩, ⟨secpA, secpP⟩, ⟨secpB, secpP⟩⟩ : EcPoint) := by rfl
lemma c8dbl248 : ecAdd (⟨Bounded.Finite ⟨63395642421589016740518975608504846303065672135176650115036476193363423546538, secpP⟩, Bounded.Finite ⟨29236048674093813394523910922582374630829081423043497254162533033164154049666, secpP⟩, ⟨secpA, secpP⟩, ⟨secpB, secpP⟩⟩ : EcPoint) (⟨Bounded.Finite ⟨63395642421589016740518975608504846303065672135176650115036476193363423546538, secpP⟩, Bounded.Finite ⟨29236048674093813394523910922582374630829081423043497254162533033164154049666, secpP⟩, ⟨secpA, secpP⟩, ⟨secpB, secpP⟩⟩ : EcPoint) = some (⟨Bounded.Finite ⟨77392770812506936202877798844009338869624245327085260572871517211271361583330, secpP⟩, Bounded.Finite ⟨9026183085953335931861042123363330152002153911485343327487109499224702177627, secpP⟩, ⟨secpA, secpP⟩, ⟨secpB, secpP⟩⟩ : EcPoint) := by rfl
lemma c8acc249 : ecAdd (⟨Bounded.Finite ⟨32052271579092252526176234927591189443293762247044804283344858953002472806271, secpP⟩, Bounded.Finite ⟨98302918787849364714396393177487078334103885001289606499004072092703617200351, secpP⟩, ⟨secpA, secpP⟩, ⟨secpB, secpP⟩⟩ : EcPoint) (⟨Bounded.Finite ⟨77392770812506936202877798844009338869624245327085260572871517211271361583330, secpP⟩, Bounded.Finite ⟨9026183085953335931861042123363330152002153911485343327487109499224702177627, secpP⟩, ⟨secpA, secpP⟩, ⟨secpB, secpP⟩⟩ : EcPoint) = some (⟨Bounded.Finite ⟨103456305090242564895712946172826220978932802667151275263999199465000893101440, secpP⟩, Bounded.Finite ⟨48463618096607934694683864929401532211182636135002885938396848762261901925143, secpP⟩, ⟨secpA, secpP⟩, ⟨secpB, secpP⟩⟩ : EcPoint) := by rfl
lemma c8dbl249 : ecAdd (⟨Bounded.Finite ⟨77392770812506936202877798844009338869624245327085260572871517211271361583330, secpP⟩, Bounded.Finite ⟨9026183085953335931861042123363330152002153911485343327487109499224702177627, secpP⟩, ⟨secpA, secpP⟩, ⟨secpB, secpP⟩⟩ : EcPoint) (⟨Bounded.Finite ⟨77392770812506936202877798844009338869624245327085260572871517211271361583330, secpP⟩, Bounded.Finite ⟨9026183085953335931861042123363330152002153911485343327487109499224702177627, secpP⟩, ⟨secpA, secpP⟩, ⟨secpB, secpP⟩⟩ : EcPoint) = some (⟨Bounded.Finite ⟨16914017336104237881775315886787930831164045006039241266138286261112962921466, secpP⟩, Bounded.Finite ⟨62804288124927804794141542013461961167839995408257184926209413592463329006125, secpP⟩, ⟨secpA, secpP⟩, ⟨secpB, secpP⟩⟩ : EcPoint) := by rfl
lemma c8acc250 : ecAdd (⟨Bounded.Finite ⟨103456305090242564895712946172826220978932802667151275263999199465000893101440, secpP⟩, Bounded.Finite ⟨48463618096607934694683864929401532211182636135002885938396848762261901925143, secpP⟩, ⟨secpA, secpP⟩, ⟨secpB, secpP⟩⟩ : EcPoint) (⟨Bounded.Finite ⟨16914017336104237881775315886787930831164045006039241266138286261112962921466, secpP⟩, Bounded.Finite ⟨62804288124927804794141542013461961167839995408257184926209413592463329006125, secpP⟩, ⟨secpA, secpP⟩, ⟨secpB, secpP⟩⟩ : EcPoint) = some (⟨Bounded.Finite ⟨46530563348586613959865991838199016313984999584228385081042307393336696728902, secpP⟩, Bounded.Finite ⟨91874707878155191194124261263280250469425140692523701542530477097747056195324, secpP⟩, ⟨secpA, secpP⟩, ⟨secpB, secpP⟩⟩ : EcPoint) := by rfl
lemma c8dbl250 : ecAdd (⟨Bounded.Finite ⟨16914017336104237881775315886787930831164045006039241266138286261112962921466, secpP⟩, Bounded.Finite ⟨62804288124927804794141542013461961167839995408257184926209413592463329006125, secpP⟩, ⟨secpA, secpP⟩, ⟨secpB, secpP⟩⟩ : EcPoint) (⟨Bounded.Finite ⟨16914017336104237881775315886787930831164045006039241266138286261112962921466, secpP⟩, Bounded.Finite ⟨62804288124927804794141542013461961167839995408257184926209413592463329006125, secpP⟩, ⟨secpA, secpP⟩, ⟨secpB, secpP⟩⟩ : EcPoint) = some (⟨Bounded.Finite ⟨115448225011842706572960659933294318341945799523635471708109888288281266225256, secpP⟩, Bounded.Finite ⟨8682685012247630765815268889801361118442695513083738308010936359908165836919, secpP⟩, ⟨secpA, secpP⟩, ⟨secpB, secpP⟩⟩ : EcPoint) := by rfl
lemma c8acc251 : ecAdd (⟨Bounded.Finite ⟨46530563348586613959865991838199016313984999584228385081042307393336696728902, secpP⟩, Bounded.Finite ⟨91874707878155191194124261263280250469425140692523701542530477097747056195324, secpP⟩, ⟨secpA, secpP⟩, ⟨secpB, secpP⟩⟩ : EcPoint) (⟨Bounded.Finite ⟨115448225011842706572960659933294318341945799523635471708109888288281266225256, secpP⟩, Bounded.Finite ⟨8682685012247630765815268889801361118442695513083738308010936359908165836919, secpP⟩, ⟨secpA, secpP⟩, ⟨secpB, secpP⟩⟩ : EcPoint) = some (⟨Bounded.Finite ⟨27037594016997265388276663112501048648670817957697121730841628104825126763212, secpP⟩, Bounded.Finite ⟨51478215930460196269611559500912157526194914189145635983032375182192219324041, secpP⟩, ⟨secpA, secpP⟩, ⟨secpB, secpP⟩⟩ : EcPoint) := by rfl
lemma c8dbl251 : ecAdd (⟨Bounded.Finite ⟨115448225011842706572960659933294318341945799523635471708109888288281266225256, secpP⟩, Bounded.Finite ⟨8682685012247630765815268889801361118442695513083738308010936359908165836919, secpP⟩, ⟨secpA, secpP⟩, ⟨secpB, secpP⟩⟩ : EcPoint) (⟨Bounded.Finite ⟨115448225011842706572960659933294318341945799523635471708109888288281266225256, secpP⟩, Bounded.Finite ⟨8682685012247630765815268889801361118442695513083738308010936359908165836919, secpP⟩, ⟨secpA, secpP⟩, ⟨secpB, secpP⟩⟩ : EcPoint) = some (⟨Bounded.Finite ⟨4032983015753143990395647783770666587927265353624430905763286836981504199392, secpP⟩, Bounded.Finite ⟨44353125519324157186344456159742269880631179110473143840214086765587351124293, secpP⟩, ⟨secpA, secpP⟩, ⟨secpB, secpP⟩⟩ : EcPoint) := by rfl
lemma c8acc252 : ecAdd (⟨Bounded.Finite ⟨27037594016997265388276663112501048648670817957697121730841628104825126763212, secpP⟩, Bounded.Finite ⟨51478215930460196269611559500912157526194914189145635983032375182192219324041, secpP⟩, ⟨secpA, secpP⟩, ⟨secpB, secpP⟩⟩ : EcPoint) (⟨Bounded.Finite ⟨4032983015753143990395647783770666587927265353624430905763286836981504199392, secpP⟩, Bounded.Finite ⟨44353125519324157186344456159742269880631179110473143840214086765587351124293, secpP⟩, ⟨secpA, secpP⟩, ⟨secpB, secpP⟩⟩ : EcPoint) = some (⟨Bounded.Finite ⟨77692363628108059885443663784710924525445718788147207068968950173471674635534, secpP⟩, Bounded.Finite ⟨37020575757196479510264675333438911221659819676852640814616424037620478864221, secpP⟩, ⟨secpA, secpP⟩, ⟨secpB, secpP⟩⟩ : EcPoint) := by rfl
lemma c8dbl252 : ecAdd (⟨Bounded.Finite ⟨4032983015753143990395647783770666587927265353624430905763286836981504199392, secpP⟩, Bounded.Finite ⟨44353125519324157186344456159742269880631179110473143840214086765587351124293, secpP⟩, ⟨secpA, secpP⟩, ⟨secpB, secpP⟩⟩ : EcPoint) (⟨Bounded.Finite ⟨4032983015753143990395647783770666587927265353624430905763286836981504199392, secpP⟩, Bounded.Finite ⟨44353125519324157186344456159742269880631179110473143840214086765587351124293, secpP⟩, ⟨secpA, secpP⟩, ⟨secpB, secpP⟩⟩ : EcPoint) = some (⟨Bounded.Finite ⟨87917229428110789366561422587307072970088695150214603900351294636804298290738, secpP⟩, Bounded.Finite ⟨37579621872809717799779570009674914438024800886176540314162770583770981830863, secpP⟩, ⟨secpA, secpP⟩, ⟨secpB, secpP⟩⟩ : EcPoint) := by rfl
lemma c8acc253 : ecAdd (⟨Bounded.Finite ⟨77692363628108059885443663784710924525445718788147207068968950173471674635534, secpP⟩, Bounded.Finite ⟨37020575757196479510264675333438911221659819676852640814616424037620478864221, secpP⟩, ⟨secpA, secpP⟩, ⟨secpB, secpP⟩⟩ : EcPoint) (⟨Bounded.Finite ⟨87917229428110789366561422587307072970088695150214603900351294636804298290738, secpP⟩, Bounded.Finite ⟨37579621872809717799779570009674914438024800886176540314162770583770981830863, secpP⟩, ⟨secpA, secpP⟩, ⟨secpB, secpP⟩⟩ : EcPoint) = some (⟨Bounded.Finite ⟨51523398464344358728983437505968609663784806853362284802296319167775841330559, secpP⟩, Bounded.Finite ⟨61130711260811300073628625088702243303261080157180463958970891742667571336877, secpP⟩, ⟨secpA, secpP⟩, ⟨secpB, secpP⟩⟩ : EcPoint) := by rfl
lemma c8dbl253 : ecAdd (⟨Bounded.Finite ⟨87917229428110789366561422587307072970088695150214603900351294636804298290738, secpP⟩, Bounded.Finite ⟨37579621872809717799779570009674914438024800886176540314162770583770981830863, secpP⟩, ⟨secpA, secpP⟩, ⟨secpB, secpP⟩⟩ : EcPoint) (⟨Bounded.Finite ⟨87917229428110789366561422587307072970088695150214603900351294636804298290738, secpP⟩, Bounded.Finite ⟨37579621872809717799779570009674914438024800886176540314162770583770981830863, secpP⟩, ⟨secpA, secpP⟩, ⟨secpB, secpP⟩⟩ : EcPoint) = some (⟨Bounded.Finite ⟨19277281477197177963613685635111727513957886411799201238917757645493897712993, secpP⟩, Bounded.Finite ⟨847959926674921704613916930352312808004252888284294958523157455244708242291, secpP⟩, ⟨secpA, secpP⟩, ⟨secpB, secpP⟩⟩ : EcPoint) := by rfl
lemma c8acc254 : ecAdd (⟨Bounded.Finite ⟨51523398464344358728983437505968609663784806853362284802296319167775841330559, secpP⟩, Bounded.Finite ⟨61130711260811300073628625088702243303261080157180463958970891742667571336877, secpP⟩, ⟨secpA, secpP⟩, ⟨secpB, secpP⟩⟩ : EcPoint) (⟨Bounded.Finite ⟨19277281477197177963613685635111727513957886411799201238917757645493897712993, secpP⟩, Bounded.Finite ⟨847959926674921704613916930352312808004252888284294958523157455244708242291, secpP⟩, ⟨secpA, secpP⟩, ⟨secpB, secpP⟩⟩ : EcPoint) = some (⟨Bounded.Finite ⟨80609861913912564376813326121470687649554127203741395941834419933864230904708, secpP⟩, Bounded.Finite ⟨1619472104238675877071743257676031256406508288955395786894319864683352716321, secpP⟩, ⟨secpA, secpP⟩, ⟨secpB, secpP⟩⟩ : EcPoint) := by rfl
lemma c8dbl254 : ecAdd (⟨Bounded.Finite ⟨19277281477197177963613685635111727513957886411799201238917757645493897712993, secpP⟩, Bounded.Finite ⟨847959926674921704613916930352312808004252888284294958523157455244708242291, secpP⟩, ⟨secpA, secpP⟩, ⟨secpB, secpP⟩⟩ : EcPoint) (⟨Bounded.Finite ⟨19277281477197177963613685635111727513957886411799201238917757645493897712993, secpP⟩, Bounded.Finite ⟨847959926674921704613916930352312808004252888284294958523157455244708242291, secpP⟩, ⟨secpA, secpP⟩, ⟨secpB, secpP⟩⟩ : EcPoint) = some (⟨Bounded.Finite ⟨80609861913912564376813326121470687649554127203741395941834419933864230904708, secpP⟩, Bounded.Finite ⟨114172617133077519546499241751011876596863476376685168252563264143225481955342, secpP⟩, ⟨secpA, secpP⟩, ⟨secpB, secpP⟩⟩ : EcPoint) := by rfl
lemma c8acc255 : ecAdd (⟨Bounded.Finite ⟨80609861913912564376813326121470687649554127203741395941834419933864230904708, secpP⟩, Bounded.Finite ⟨1619472104238675877071743257676031256406508288955395786894319864683352716321, secpP⟩, ⟨secpA, secpP⟩, ⟨secpB, secpP⟩⟩ : EcPoint) (⟨Bounded.Finite ⟨80609861913912564376813326121470687649554127203741395941834419933864230904708, secpP⟩, Bounded.Finite ⟨114172617133077519546499241751011876596863476376685168252563264143225481955342, secpP⟩, ⟨secpA, secpP⟩, ⟨secpB, secpP⟩⟩ : EcPoint) = some (infPoint ⟨secpA, secpP⟩ ⟨secpB, secpP⟩) := by rfl
lemma c8dbl255 : ecAdd (⟨Bounded.Finite ⟨80609861913912564376813326121470687649554127203741395941834419933864230904708, secpP⟩, Bounded.Finite ⟨114172617133077519546499241751011876596863476376685168252563264143225481955342, secpP⟩, ⟨secpA, secpP⟩, ⟨secpB, secpP⟩⟩ : EcPoint) (⟨Bounded.Finite ⟨80609861913912564376813326121470687649554127203741395941834419933864230904708, secpP⟩, Bounded.Finite ⟨114172617133077519546499241751011876596863476376685168252563264143225481955342, secpP⟩, ⟨secpA, secpP⟩, ⟨secpB, secpP⟩⟩ : EcPoint) = some (⟨Bounded.Finite ⟨100056811408208733275829432225571761443897154861420255832015183193056831248263, secpP⟩, Bounded.Finite ⟨55225563209553524050574769423916742683973132338171759239001668957831436739955, secpP⟩, ⟨secpA, secpP⟩, ⟨secpB, secpP⟩⟩ : EcPoint) := by rfl

set_option maxHeartbeats 2000000 in
/-- Claim C8: with the secp256k1 domain constants, the generator factory
succeeds — the generator coordinates pass the validating constructor —
and scalar-multiplying the generator by the subgroup order yields the
point at infinity. -/
theorem c8_secp256k1_domain :
    getGenerator = some secpG ∧
    ecMulInt secpG (secpN : Int) = some (infPoint ⟨secpA, secpP⟩ ⟨secpB, secpP⟩) := by
  refine ⟨by rfl, ?_⟩
  rw [ecMulInt_eq]
  show ecMulAux 115792089237316195423570985008687907852837564279074904382605163141518161494338 (infPoint ⟨secpA, secpP⟩ ⟨secpB, secpP⟩) (⟨Bounded.Finite ⟨55066263022277343669578718895168534326250603453777594175500187360389116729240, secpP⟩, Bounded.Finite ⟨32670510020758816978083085130507043184471273380659243275938904335757337482424, secpP⟩, ⟨secpA, secpP⟩, ⟨secpB, secpP⟩⟩ : EcPoint)
      (115792089237316195423570985008687907852837564279074904382605163141518161494337 : Int) = some (infPoint ⟨secpA, secpP⟩ ⟨secpB, secpP⟩)
  rw [ecMulAux_step_odd 115792089237316195423570985008687907852837564279074904382605163141518161494338 115792089237316195423570985008687907852837564279074904382605163141518161494337 115792089237316195423570985008687907852837564279074904382605163141518161494337 57896044618658097711785492504343953926418782139537452191302581570759080747168 (by decide) (by decide) (by decide) (by decide) c8acc0 c8dbl0]
  rw [ecMulAux_step_even 115792089237316195423570985008687907852837564279074904382605163141518161494337 115792089237316195423570985008687907852837564279074904382605163141518161494336 57896044618658097711785492504343953926418782139537452191302581570759080747168 28948022309329048855892746252171976963209391069768726095651290785379540373584 (by decide) (by decide) (by decide) (by decide) c8dbl1]
  rw [ecMulAux_step_even 115792089237316195423570985008687907852837564279074904382605163141518161494336 115792089237316195423570985008687907852837564279074904382605163141518161494335 28948022309329048855892746252171976963209391069768726095651290785379540373584 14474011154664524427946373126085988481604695534884363047825645392689770186792 (by decide) (by decide) (by decide) (by decide) c8dbl2]
  rw [ecMulAux_step_even 115792089237316195423570985008687907852837564279074904382605163141518161494335 115792089237316195423570985008687907852837564279074904382605163141518161494334 14474011154664524427946373126085988481604695534884363047825645392689770186792 7237005577332262213973186563042994240802347767442181523912822696344885093396 (by decide) (by decide) (by decide) (by decide) c8dbl3]
  rw [ecMulAux_step_even 115792089237316195423570985008687907852837564279074904382605163141518161494334 115792089237316195423570985008687907852837564279074904382605163141518161494333 7237005577332262213973186563042994240802347767442181523912822696344885093396 3618502788666131106986593281521497120401173883721090761956411348172442546698 (by decide) (by decide) (by decide) (by decide) c8dbl4]
  rw [ecMulAux_step_even 115792089237316195423570985008687907852837564279074904382605163141518161494333 115792089237316195423570985008687907852837564279074904382605163141518161494332 3618502788666131106986593281521497120401173883721090761956411348172442546698 1809251394333065553493296640760748560200586941860545380978205674086221273349 (by decide) (by decide) (by decide) (by decide) c8dbl5]
  rw [ecMulAux_step_odd 115792089237316195423570985008687907852837564279074904382605163141518161494332 115792089237316195423570985008687907852837564279074904382605163141518161494331 1809251394333065553493296640760748560200586941860545380978205674086221273349 904625697166532776746648320380374280100293470930272690489102837043110636674 (by decide) (by decide) (by decide) (by decide) c8acc6 c8dbl6]
  rw [ecMulAux_step_even 115792089237316195423570985008687907852837564279074904382605163141518161494331 115792089237316195423570985008687907852837564279074904382605163141518161494330 904625697166532776746648320380374280100293470930272690489102837043110636674 452312848583266388373324160190187140050146735465136345244551418521555318337 (by decide) (by decide) (by decide) (by decide) c8dbl7]
  rw [ecMulAux_step_odd 115792089237316195423570985008687907852837564279074904382605163141518161494330 115792089237316195423570985008687907852837564279074904382605163141518161494329 452312848583266388373324160190187140050146735465136345244551418521555318337 226156424291633194186662080095093570025073367732568172622275709260777659168 (by decide) (by decide) (by decide) (by decide) c8acc8 c8dbl8]
  rw [ecMulAux_step_even 115792089237316195423570985008687907852837564279074904382605163141518161494329 115792089237316195423570985008687907852837564279074904382605163141518161494328 226156424291633194186662080095093570025073367732568172622275709260777659168 113078212145816597093331040047546785012536683866284086311137854630388829584 (by decide) (by decide) (by decide) (by decide) c8dbl9]
  rw [ecMulAux_step_even 115792089237316195423570985008687907852837564279074904382605163141518161494328 115792089237316195423570985008687907852837564279074904382605163141518161494327 113078212145816597093331040047546785012536683866284086311137854630388829584 56539106072908298546665520023773392506268341933142043155568927315194414792 (by decide) (by decide) (by decide) (by decide) c8dbl10]
  rw [ecMulAux_step_even 115792089237316195423570985008687907852837564279074904382605163141518161494327 115792089237316195423570985008687907852837564279074904382605163141518161494326 56539106072908298546665520023773392506268341933142043155568927315194414792 28269553036454149273332760011886696253134170966571021577784463657597207396 (by decide) (by decide) (by decide) (by decide) c8dbl11]
  rw [ecMulAux_step_even 115792089237316195423570985008687907852837564279074904382605163141518161494326 115792089237316195423570985008687907852837564279074904382605163141518161494325 28269553036454149273332760011886696253134170966571021577784463657597207396 14134776518227074636666380005943348126567085483285510788892231828798603698 (by decide) (by decide) (by decide) (by decide) c8dbl12]
  rw [ecMulAux_step_even 115792089237316195423570985008687907852837564279074904382605163141518161494325 115792089237316195423570985008687907852837564279074904382605163141518161494324 14134776518227074636666380005943348126567085483285510788892231828798603698 7067388259113537318333190002971674063283542741642755394446115914399301849 (by decide) (by decide) (by decide) (by decide) c8dbl13]
  rw [ecMulAux_step_odd 115792089237316195423570985008687907852837564279074904382605163141518161494324 115792089237316195423570985008687907852837564279074904382605163141518161494323 7067388259113537318333190002971674063283542741642755394446115914399301849 3533694129556768659166595001485837031641771370821377697223057957199650924 (by decide) (by decide) (by decide) (by decide) c8acc14 c8dbl14]
  rw [ecMulAux_step_even 115792089237316195423570985008687907852837564279074904382605163141518161494323 115792089237316195423570985008687907852837564279074904382605163141518161494322 3533694129556768659166595001485837031641771370821377697223057957199650924 1766847064778384329583297500742918515820885685410688848611528978599825462 (by decide) (by decide) (by decide) (by decide) c8dbl15]
  rw [ecMulAux_step_even 115792089237316195423570985008687907852837564279074904382605163141518161494322 115792089237316195423570985008687907852837564279074904382605163141518161494321 1766847064778384329583297500742918515820885685410688848611528978599825462 883423532389192164791648750371459257910442842705344424305764489299912731 (by decide) (by decide) (by decide) (by decide) c8dbl16]
  rw [ecMulAux_step_odd 115792089237316195423570985008687907852837564279074904382605163141518161494321 115792089237316195423570985008687907852837564279074904382605163141518161494320 883423532389192164791648750371459257910442842705344424305764489299912731 441711766194596082395824375185729628955221421352672212152882244649956365 (by decide) (by decide) (by decide) (by decide) c8acc17 c8dbl17]
  rw [ecMulAux_step_odd 115792089237316195423570985008687907852837564279074904382605163141518161494320 115792089237316195423570985008687907852837564279074904382605163141518161494319 441711766194596082395824375185729628955221421352672212152882244649956365 220855883097298041197912187592864814477610710676336106076441122324978182 (by decide) (by decide) (by decide) (by decide) c8acc18 c8dbl18]
  rw [ecMulAux_step_even 115792089237316195423570985008687907852837564279074904382605163141518161494319 115792089237316195423570985008687907852837564279074904382605163141518161494318 220855883097298041197912187592864814477610710676336106076441122324978182 110427941548649020598956093796432407238805355338168053038220561162489091 (by decide) (by decide) (by decide) (by decide) c8dbl19]
  rw [ecMulAux_step_odd 115792089237316195423570985008687907852837564279074904382605163141518161494318 115792089237316195423570985008687907852837564279074904382605163141518161494317 110427941548649020598956093796432407238805355338168053038220561162489091 55213970774324510299478046898216203619402677669084026519110280581244545 (by decide) (by decide) (by decide) (by decide) c8acc20 c8dbl20]
  rw [ecMulAux_step_odd 115792089237316195423570985008687907852837564279074904382605163141518161494317 115792089237316195423570985008687907852837564279074904382605163141518161494316 55213970774324510299478046898216203619402677669084026519110280581244545 27606985387162255149739023449108101809701338834542013259555140290622272 (by decide) (by decide) (by decide) (by decide) c8acc21 c8dbl21]
  rw [ecMulAux_step_even 115792089237316195423570985008687907852837564279074904382605163141518161494316 115792089237316195423570985008687907852837564279074904382605163141518161494315 27606985387162255149739023449108101809701338834542013259555140290622272 13803492693581127574869511724554050904850669417271006629777570145311136 (by decide) (by decide) (by decide) (by decide) c8dbl22]
  rw [ecMulAux_step_even 115792089237316195423570985008687907852837564279074904382605163141518161494315 115792089237316195423570985008687907852837564279074904382605163141518161494314 13803492693581127574869511724554050904850669417271006629777570145311136 6901746346790563787434755862277025452425334708635503314888785072655568 (by decide) (by decide) (by decide) (by decide) c8dbl23]
  rw [ecMulAux_step_even 115792089237316195423570985008687907852837564279074904382605163141518161494314 115792089237316195423570985008687907852837564279074904382605163141518161494313 6901746346790563787434755862277025452425334708635503314888785072655568 3450873173395281893717377931138512726212667354317751657444392536327784 (by decide) (by decide) (by decide) (by decide) c8dbl24]
  rw [ecMulAux_step_even 115792089237316195423570985008687907852837564279074904382605163141518161494313 115792089237316195423570985008687907852837564279074904382605163141518161494312 3450873173395281893717377931138512726212667354317751657444392536327784 1725436586697640946858688965569256363106333677158875828722196268163892 (by decide) (by decide) (by decide) (by decide) c8dbl25]
  rw [ecMulAux_step_even 115792089237316195423570985008687907852837564279074904382605163141518161494312 115792089237316195423570985008687907852837564279074904382605163141518161494311 1725436586697640946858688965569256363106333677158875828722196268163892 862718293348820473429344482784628181553166838579437914361098134081946 (by decide) (by decide) (by decide) (by decide) c8dbl26]
  rw [ecMulAux_step_even 115792089237316195423570985008687907852837564279074904382605163141518161494311 115792089237316195423570985008687907852837564279074904382605163141518161494310 862718293348820473429344482784628181553166838579437914361098134081946 431359146674410236714672241392314090776583419289718957180549067040973 (by decide) (by decide) (by decide) (by decide) c8dbl27]
  rw [ecMulAux_step_odd 115792089237316195423570985008687907852837564279074904382605163141518161494310 115792089237316195423570985008687907852837564279074904382605163141518161494309 431359146674410236714672241392314090776583419289718957180549067040973 215679573337205118357336120696157045388291709644859478590274533520486 (by decide) (by decide) (by decide) (by decide) c8acc28 c8dbl28]
  rw [ecMulAux_step_even 115792089237316195423570985008687907852837564279074904382605163141518161494309 115792089237316195423570985008687907852837564279074904382605163141518161494308 215679573337205118357336120696157045388291709644859478590274533520486 107839786668602559178668060348078522694145854822429739295137266760243 (by decide) (by decide) (by decide) (by decide) c8dbl29]
  rw [ecMulAux_step_odd 115792089237316195423570985008687907852837564279074904382605163141518161494308 115792089237316195423570985008687907852837564279074904382605163141518161494307 107839786668602559178668060348078522694145854822429739295137266760243 53919893334301279589334030174039261347072927411214869647568633380121 (by decide) (by decide) (by decide) (by decide) c8acc30 c8dbl30]
  rw [ecMulAux_step_odd 115792089237316195423570985008687907852837564279074904382605163141518161494307 115792089237316195423570985008687907852837564279074904382605163141518161494306 53919893334301279589334030174039261347072927411214869647568633380121 26959946667150639794667015087019630673536463705607434823784316690060 (by decide) (by decide) (by decide) (by decide) c8acc31 c8dbl31]
  rw [ecMulAux_step_even 115792089237316195423570985008687907852837564279074904382605163141518161494306 115792089237316195423570985008687907852837564279074904382605163141518161494305 26959946667150639794667015087019630673536463705607434823784316690060 13479973333575319897333507543509815336768231852803717411892158345030 (by decide) (by decide) (by decide) (by decide) c8dbl32]
  rw [ecMulAux_step_even 115792089237316195423570985008687907852837564279074904382605163141518161494305 115792089237316195423570985008687907852837564279074904382605163141518161494304 13479973333575319897333507543509815336768231852803717411892158345030 6739986666787659948666753771754907668384115926401858705946079172515 (by decide) (by decide) (by decide) (by decide) c8dbl33]
  rw [ecMulAux_step_odd 115792089237316195423570985008687907852837564279074904382605163141518161494304 115792089237316195423570985008687907852837564279074904382605163141518161494303 6739986666787659948666753771754907668384115926401858705946079172515 3369993333393829974333376885877453834192057963200929352973039586257 (by decide) (by decide) (by decide) (by decide) c8acc34 c8dbl34]
  rw [ecMulAux_step_odd 115792089237316195423570985008687907852837564279074904382605163141518161494303 115792089237316195423570985008687907852837564279074904382605163141518161494302 3369993333393829974333376885877453834192057963200929352973039586257 1684996666696914987166688442938726917096028981600464676486519793128 (by decide) (by decide) (by decide) (by decide) c8acc35 c8dbl35]
  rw [ecMulAux_step_even 115792089237316195423570985008687907852837564279074904382605163141518161494302 115792089237316195423570985008687907852837564279074904382605163141518161494301 1684996666696914987166688442938726917096028981600464676486519793128 842498333348457493583344221469363458548014490800232338243259896564 (by decide) (by decide) (by decide) (by decide) c8dbl36]
  rw [ecMulAux_step_even 115792089237316195423570985008687907852837564279074904382605163141518161494301 115792089237316195423570985008687907852837564279074904382605163141518161494300 842498333348457493583344221469363458548014490800232338243259896564 421249166674228746791672110734681729274007245400116169121629948282 (by decide) (by decide) (by decide) (by decide) c8dbl37]
  rw [ecMulAux_step_even 115792089237316195423570985008687907852837564279074904382605163141518161494300 115792089237316195423570985008687907852837564279074904382605163141518161494299 421249166674228746791672110734681729274007245400116169121629948282 210624583337114373395836055367340864637003622700058084560814974141 (by decide) (by decide) (by decide) (by decide) c8dbl38]
  rw [ecMulAux_step_odd 115792089237316195423570985008687907852837564279074904382605163141518161494299 115792089237316195423570985008687907852837564279074904382605163141518161494298 210624583337114373395836055367340864637003622700058084560814974141 105312291668557186697918027683670432318501811350029042280407487070 (by decide) (by decide) (by decide) (by decide) c8acc39 c8dbl39]
  rw [ecMulAux_step_even 115792089237316195423570985008687907852837564279074904382605163141518161494298 115792089237316195423570985008687907852837564279074904382605163141518161494297 105312291668557186697918027683670432318501811350029042280407487070 52656145834278593348959013841835216159250905675014521140203743535 (by decide) (by decide) (by decide) (by decide) c8dbl40]
  rw [ecMulAux_step_odd 115792089237316195423570985008687907852837564279074904382605163141518161494297 115792089237316195423570985008687907852837564279074904382605163141518161494296 52656145834278593348959013841835216159250905675014521140203743535 26328072917139296674479506920917608079625452837507260570101871767 (by decide) (by decide) (by decide) (by decide) c8acc41 c8dbl41]
  rw [ecMulAux_step_odd 115792089237316195423570985008687907852837564279074904382605163141518161494296 115792089237316195423570985008687907852837564279074904382605163141518161494295 26328072917139296674479506920917608079625452837507260570101871767 13164036458569648337239753460458804039812726418753630285050935883 (by decide) (by decide) (by decide) (by decide) c8acc42 c8dbl42]
  rw [ecMulAux_step_odd 115792089237316195423570985008687907852837564279074904382605163141518161494295 115792089237316195423570985008687907852837564279074904382605163141518161494294 13164036458569648337239753460458804039812726418753630285050935883 6582018229284824168619876730229402019906363209376815142525467941 (by decide) (by decide) (by decide) (by decide) c8acc43 c8dbl43]
  rw [ecMulAux_step_odd 115792089237316195423570985008687907852837564279074904382605163141518161494294 115792089237316195423570985008687907852837564279074904382605163141518161494293 6582018229284824168619876730229402019906363209376815142525467941 3291009114642412084309938365114701009953181604688407571262733970 (by decide) (by decide) (by decide) (by decide) c8acc44 c8dbl44]
  rw [ecMulAux_step_even 115792089237316195423570985008687907852837564279074904382605163141518161494293 115792089237316195423570985008687907852837564279074904382605163141518161494292 3291009114642412084309938365114701009953181604688407571262733970 1645504557321206042154969182557350504976590802344203785631366985 (by decide) (by decide) (by decide) (by decide) c8dbl45]
  rw [ecMulAux_step_odd 115792089237316195423570985008687907852837564279074904382605163141518161494292 115792089237316195423570985008687907852837564279074904382605163141518161494291 1645504557321206042154969182557350504976590802344203785631366985 822752278660603021077484591278675252488295401172101892815683492 (by decide) (by decide) (by decide) (by decide) c8acc46 c8dbl46]
  rw [ecMulAux_step_even 115792089237316195423570985008687907852837564279074904382605163141518161494291 115792089237316195423570985008687907852837564279074904382605163141518161494290 822752278660603021077484591278675252488295401172101892815683492 411376139330301510538742295639337626244147700586050946407841746 (by decide) (by decide) (by decide) (by decide) c8dbl47]
  rw [ecMulAux_step_even 115792089237316195423570985008687907852837564279074904382605163141518161494290 115792089237316195423570985008687907852837564279074904382605163141518161494289 411376139330301510538742295639337626244147700586050946407841746 205688069665150755269371147819668813122073850293025473203920873 (by decide) (by decide) (by decide) (by decide) c8dbl48]
  rw [ecMulAux_step_odd 115792089237316195423570985008687907852837564279074904382605163141518161494289 115792089237316195423570985008687907852837564279074904382605163141518161494288 205688069665150755269371147819668813122073850293025473203920873 102844034832575377634685573909834406561036925146512736601960436 (by decide) (by decide) (by decide) (by decide) c8acc49 c8dbl49]
  rw [ecMulAux_step_even 115792089237316195423570985008687907852837564279074904382605163141518161494288 115792089237316195423570985008687907852837564279074904382605163141518161494287 102844034832575377634685573909834406561036925146512736601960436 51422017416287688817342786954917203280518462573256368300980218 (by decide) (by decide) (by decide) (by decide) c8dbl50]
  rw [ecMulAux_step_even 115792089237316195423570985008687907852837564279074904382605163141518161494287 115792089237316195423570985008687907852837564279074904382605163141518161494286 51422017416287688817342786954917203280518462573256368300980218 25711008708143844408671393477458601640259231286628184150490109 (by decide) (by decide) (by decide) (by decide) c8dbl51]
  rw [ecMulAux_step_odd 115792089237316195423570985008687907852837564279074904382605163141518161494286 115792089237316195423570985008687907852837564279074904382605163141518161494285 25711008708143844408671393477458601640259231286628184150490109 12855504354071922204335696738729300820129615643314092075245054 (by decide) (by decide) (by decide) (by decide) c8acc52 c8dbl52]
  rw [ecMulAux_step_even 115792089237316195423570985008687907852837564279074904382605163141518161494285 115792089237316195423570985008687907852837564279074904382605163141518161494284 12855504354071922204335696738729300820129615643314092075245054 6427752177035961102167848369364650410064807821657046037622527 (by decide) (by decide) (by decide) (by decide) c8dbl53]
  rw [ecMulAux_step_odd 115792089237316195423570985008687907852837564279074904382605163141518161494284 115792089237316195423570985008687907852837564279074904382605163141518161494283 6427752177035961102167848369364650410064807821657046037622527 3213876088517980551083924184682325205032403910828523018811263 (by decide) (by decide) (by decide) (by decide) c8acc54 c8dbl54]
  rw [ecMulAux_step_odd 115792089237316195423570985008687907852837564279074904382605163141518161494283 115792089237316195423570985008687907852837564279074904382605163141518161494282 3213876088517980551083924184682325205032403910828523018811263 1606938044258990275541962092341162602516201955414261509405631 (by decide) (by decide) (by decide) (by decide) c8acc55 c8dbl55]
  rw [ecMulAux_step_odd 115792089237316195423570985008687907852837564279074904382605163141518161494282 115792089237316195423570985008687907852837564279074904382605163141518161494281 1606938044258990275541962092341162602516201955414261509405631 803469022129495137770981046170581301258100977707130754702815 (by decide) (by decide) (by decide) (by decide) c8acc56 c8dbl56]
  rw [ecMulAux_step_odd 115792089237316195423570985008687907852837564279074904382605163141518161494281 115792089237316195423570985008687907852837564279074904382605163141518161494280 803469022129495137770981046170581301258100977707130754702815 401734511064747568885490523085290650629050488853565377351407 (by decide) (by decide) (by decide) (by decide) c8acc57 c8dbl57]
  rw [ecMulAux_step_odd 115792089237316195423570985008687907852837564279074904382605163141518161494280 115792089237316195423570985008687907852837564279074904382605163141518161494279 401734511064747568885490523085290650629050488853565377351407 200867255532373784442745261542645325314525244426782688675703 (by decide) (by decide) (by decide) (by decide) c8acc58 c8dbl58]
  rw [ecMulAux_step_odd 115792089237316195423570985008687907852837564279074904382605163141518161494279 115792089237316195423570985008687907852837564279074904382605163141518161494278 200867255532373784442745261542645325314525244426782688675703 100433627766186892221372630771322662657262622213391344337851 (by decide) (by decide) (by decide) (by decide) c8acc59 c8dbl59]
  rw [ecMulAux_step_odd 115792089237316195423570985008687907852837564279074904382605163141518161494278 115792089237316195423570985008687907852837564279074904382605163141518161494277 100433627766186892221372630771322662657262622213391344337851 50216813883093446110686315385661331328631311106695672168925 (by decide) (by decide) (by decide) (by decide) c8acc60 c8dbl60]
  rw [ecMulAux_step_odd 115792089237316195423570985008687907852837564279074904382605163141518161494277 115792089237316195423570985008687907852837564279074904382605163141518161494276 50216813883093446110686315385661331328631311106695672168925 25108406941546723055343157692830665664315655553347836084462 (by decide) (by decide) (by decide) (by decide) c8acc61 c8dbl61]
  rw [ecMulAux_step_even 115792089237316195423570985008687907852837564279074904382605163141518161494276 115792089237316195423570985008687907852837564279074904382605163141518161494275 25108406941546723055343157692830665664315655553347836084462 12554203470773361527671578846415332832157827776673918042231 (by decide) (by decide) (by decide) (by decide) c8dbl62]
  rw [ecMulAux_step_odd 115792089237316195423570985008687907852837564279074904382605163141518161494275 115792089237316195423570985008687907852837564279074904382605163141518161494274 12554203470773361527671578846415332832157827776673918042231 6277101735386680763835789423207666416078913888336959021115 (by decide) (by decide) (by decide) (by decide) c8acc63 c8dbl63]
  rw [ecMulAux_step_odd 115792089237316195423570985008687907852837564279074904382605163141518161494274 115792089237316195423570985008687907852837564279074904382605163141518161494273 6277101735386680763835789423207666416078913888336959021115 3138550867693340381917894711603833208039456944168479510557 (by decide) (by decide) (by decide) (by decide) c8acc64 c8dbl64]
  rw [ecMulAux_step_odd 115792089237316195423570985008687907852837564279074904382605163141518161494273 115792089237316195423570985008687907852837564279074904382605163141518161494272 3138550867693340381917894711603833208039456944168479510557 1569275433846670190958947355801916604019728472084239755278 (by decide) (by decide) (by decide) (by decide) c8acc65 c8dbl65]
  rw [ecMulAux_step_even 115792089237316195423570985008687907852837564279074904382605163141518161494272 115792089237316195423570985008687907852837564279074904382605163141518161494271 1569275433846670190958947355801916604019728472084239755278 784637716923335095479473677900958302009864236042119877639 (by decide) (by decide) (by decide) (by decide) c8dbl66]
  rw [ecMulAux_step_odd 115792089237316195423570985008687907852837564279074904382605163141518161494271 115792089237316195423570985008687907852837564279074904382605163141518161494270 784637716923335095479473677900958302009864236042119877639 392318858461667547739736838950479151004932118021059938819 (by decide) (by decide) (by decide) (by decide) c8acc67 c8dbl67]
  rw [ecMulAux_step_odd 115792089237316195423570985008687907852837564279074904382605163141518161494270 115792089237316195423570985008687907852837564279074904382605163141518161494269 392318858461667547739736838950479151004932118021059938819 196159429230833773869868419475239575502466059010529969409 (by decide) (by decide) (by decide) (by decide) c8acc68 c8dbl68]
  rw [ecMulAux_step_odd 115792089237316195423570985008687907852837564279074904382605163141518161494269 115792089237316195423570985008687907852837564279074904382605163141518161494268 196159429230833773869868419475239575502466059010529969409 98079714615416886934934209737619787751233029505264984704 (by decide) (by decide) (by decide) (by decide) c8acc69 c8dbl69]
  rw [ecMulAux_step_even 115792089237316195423570985008687907852837564279074904382605163141518161494268 115792089237316195423570985008687907852837564279074904382605163141518161494267 98079714615416886934934209737619787751233029505264984704 49039857307708443467467104868809893875616514752632492352 (by decide) (by decide) (by decide) (by decide) c8dbl70]
  rw [ecMulAux_step_even 115792089237316195423570985008687907852837564279074904382605163141518161494267 115792089237316195423570985008687907852837564279074904382605163141518161494266 49039857307708443467467104868809893875616514752632492352 24519928653854221733733552434404946937808257376316246176 (by decide) (by decide) (by decide) (by decide) c8dbl71]
  rw [ecMulAux_step_even 115792089237316195423570985008687907852837564279074904382605163141518161494266 115792089237316195423570985008687907852837564279074904382605163141518161494265 24519928653854221733733552434404946937808257376316246176 12259964326927110866866776217202473468904128688158123088 (by decide) (by decide) (by decide) (by decide) c8dbl72]
  rw [ecMulAux_step_even 115792089237316195423570985008687907852837564279074904382605163141518161494265 115792089237316195423570985008687907852837564279074904382605163141518161494264 12259964326927110866866776217202473468904128688158123088 6129982163463555433433388108601236734452064344079061544 (by decide) (by decide) (by decide) (by decide) c8dbl73]
  rw [ecMulAux_step_even 115792089237316195423570985008687907852837564279074904382605163141518161494264 115792089237316195423570985008687907852837564279074904382605163141518161494263 6129982163463555433433388108601236734452064344079061544 3064991081731777716716694054300618367226032172039530772 (by decide) (by decide) (by decide) (by decide) c8dbl74]
  rw [ecMulAux_step_even 115792089237316195423570985008687907852837564279074904382605163141518161494263 115792089237316195423570985008687907852837564279074904382605163141518161494262 3064991081731777716716694054300618367226032172039530772 1532495540865888858358347027150309183613016086019765386 (by decide) (by decide) (by decide) (by decide) c8dbl75]
  rw [ecMulAux_step_even 115792089237316195423570985008687907852837564279074904382605163141518161494262 115792089237316195423570985008687907852837564279074904382605163141518161494261 1532495540865888858358347027150309183613016086019765386 766247770432944429179173513575154591806508043009882693 (by decide) (by decide) (by decide) (by decide) c8dbl76]
  rw [ecMulAux_step_odd 115792089237316195423570985008687907852837564279074904382605163141518161494261 115792089237316195423570985008687907852837564279074904382605163141518161494260 766247770432944429179173513575154591806508043009882693 383123885216472214589586756787577295903254021504941346 (by decide) (by decide) (by decide) (by decide) c8acc77 c8dbl77]
  rw [ecMulAux_step_even 115792089237316195423570985008687907852837564279074904382605163141518161494260 115792089237316195423570985008687907852837564279074904382605163141518161494259 383123885216472214589586756787577295903254021504941346 191561942608236107294793378393788647951627010752470673 (by decide) (by decide) (by decide) (by decide) c8dbl78]
  rw [ecMulAux_step_odd 115792089237316195423570985008687907852837564279074904382605163141518161494259 115792089237316195423570985008687907852837564279074904382605163141518161494258 191561942608236107294793378393788647951627010752470673 95780971304118053647396689196894323975813505376235336 (by decide) (by decide) (by decide) (by decide) c8acc79 c8dbl79]
  rw [ecMulAux_step_even 115792089237316195423570985008687907852837564279074904382605163141518161494258 115792089237316195423570985008687907852837564279074904382605163141518161494257 95780971304118053647396689196894323975813505376235336 47890485652059026823698344598447161987906752688117668 (by decide) (by decide) (by decide) (by decide) c8dbl80]
  rw [ecMulAux_step_even 115792089237316195423570985008687907852837564279074904382605163141518161494257 115792089237316195423570985008687907852837564279074904382605163141518161494256 47890485652059026823698344598447161987906752688117668 23945242826029513411849172299223580993953376344058834 (by decide) (by decide) (by decide) (by decide) c8dbl81]
  rw [ecMulAux_step_even 115792089237316195423570985008687907852837564279074904382605163141518161494256 115792089237316195423570985008687907852837564279074904382605163141518161494255 23945242826029513411849172299223580993953376344058834 11972621413014756705924586149611790496976688172029417 (by decide) (by decide) (by decide) (by decide) c8dbl82]
  rw [ecMulAux_step_odd 115792089237316195423570985008687907852837564279074904382605163141518161494255 115792089237316195423570985008687907852837564279074904382605163141518161494254 11972621413014756705924586149611790496976688172029417 5986310706507378352962293074805895248488344086014708 (by decide) (by decide) (by decide) (by decide) c8acc83 c8dbl83]
  rw [ecMulAux_step_even 115792089237316195423570985008687907852837564279074904382605163141518161494254 115792089237316195423570985008687907852837564279074904382605163141518161494253 5986310706507378352962293074805895248488344086014708 2993155353253689176481146537402947624244172043007354 (by decide) (by decide) (by decide) (by decide) c8dbl84]
  rw [ecMulAux_step_even 115792089237316195423570985008687907852837564279074904382605163141518161494253 115792089237316195423570985008687907852837564279074904382605163141518161494252 2993155353253689176481146537402947624244172043007354 1496577676626844588240573268701473812122086021503677 (by decide) (by decide) (by decide) (by decide) c8dbl85]
  rw [ecMulAux_step_odd 115792089237316195423570985008687907852837564279074904382605163141518161494252 115792089237316195423570985008687907852837564279074904382605163141518161494251 1496577676626844588240573268701473812122086021503677 748288838313422294120286634350736906061043010751838 (by decide) (by decide) (by decide) (by decide) c8acc86 c8dbl86]
  rw [ecMulAux_step_even 115792089237316195423570985008687907852837564279074904382605163141518161494251 115792089237316195423570985008687907852837564279074904382605163141518161494250 748288838313422294120286634350736906061043010751838 374144419156711147060143317175368453030521505375919 (by decide) (by decide) (by decide) (by decide) c8dbl87]
  rw [ecMulAux_step_odd 115792089237316195423570985008687907852837564279074904382605163141518161494250 115792089237316195423570985008687907852837564279074904382605163141518161494249 374144419156711147060143317175368453030521505375919 187072209578355573530071658587684226515260752687959 (by decide) (by decide) (by decide) (by decide) c8acc88 c8dbl88]
  rw [ecMulAux_step_odd 115792089237316195423570985008687907852837564279074904382605163141518161494249 115792089237316195423570985008687907852837564279074904382605163141518161494248 187072209578355573530071658587684226515260752687959 93536104789177786765035829293842113257630376343979 (by decide) (by decide) (by decide) (by decide) c8acc89 c8dbl89]
  rw [ecMulAux_step_odd 115792089237316195423570985008687907852837564279074904382605163141518161494248 115792089237316195423570985008687907852837564279074904382605163141518161494247 93536104789177786765035829293842113257630376343979 46768052394588893382517914646921056628815188171989 (by decide) (by decide) (by decide) (by decide) c8acc90 c8dbl90]
  rw [ecMulAux_step_odd 115792089237316195423570985008687907852837564279074904382605163141518161494247 115792089237316195423570985008687907852837564279074904382605163141518161494246 46768052394588893382517914646921056628815188171989 23384026197294446691258957323460528314407594085994 (by decide) (by decide) (by decide) (by decide) c8acc91 c8dbl91]
  rw [ecMulAux_step_even 115792089237316195423570985008687907852837564279074904382605163141518161494246 115792089237316195423570985008687907852837564279074904382605163141518161494245 23384026197294446691258957323460528314407594085994 11692013098647223345629478661730264157203797042997 (by decide) (by decide) (by decide) (by decide) c8dbl92]
  rw [ecMulAux_step_odd 115792089237316195423570985008687907852837564279074904382605163141518161494245 115792089237316195423570985008687907852837564279074904382605163141518161494244 11692013098647223345629478661730264157203797042997 5846006549323611672814739330865132078601898521498 (by decide) (by decide) (by decide) (by decide) c8acc93 c8dbl93]
  rw [ecMulAux_step_even 115792089237316195423570985008687907852837564279074904382605163141518161494244 115792089237316195423570985008687907852837564279074904382605163141518161494243 5846006549323611672814739330865132078601898521498 2923003274661805836407369665432566039300949260749 (by decide) (by decide) (by decide) (by decide) c8dbl94]
  rw [ecMulAux_step_odd 115792089237316195423570985008687907852837564279074904382605163141518161494243 115792089237316195423570985008687907852837564279074904382605163141518161494242 2923003274661805836407369665432566039300949260749 1461501637330902918203684832716283019650474630374 (by decide) (by decide) (by decide) (by decide) c8acc95 c8dbl95]
  rw [ecMulAux_step_even 115792089237316195423570985008687907852837564279074904382605163141518161494242 115792089237316195423570985008687907852837564279074904382605163141518161494241 1461501637330902918203684832716283019650474630374 730750818665451459101842416358141509825237315187 (by decide) (by decide) (by decide) (by decide) c8dbl96]
  rw [ecMulAux_step_odd 115792089237316195423570985008687907852837564279074904382605163141518161494241 115792089237316195423570985008687907852837564279074904382605163141518161494240 730750818665451459101842416358141509825237315187 365375409332725729550921208179070754912618657593 (by decide) (by decide) (by decide) (by decide) c8acc97 c8dbl97]
  rw [ecMulAux_step_odd 115792089237316195423570985008687907852837564279074904382605163141518161494240 115792089237316195423570985008687907852837564279074904382605163141518161494239 365375409332725729550921208179070754912618657593 182687704666362864775460604089535377456309328796 (by decide) (by decide) (by decide) (by decide) c8acc98 c8dbl98]
  rw [ecMulAux_step_even 115792089237316195423570985008687907852837564279074904382605163141518161494239 115792089237316195423570985008687907852837564279074904382605163141518161494238 182687704666362864775460604089535377456309328796 91343852333181432387730302044767688728154664398 (by decide) (by decide) (by decide) (by decide) c8dbl99]
  rw [ecMulAux_step_even 115792089237316195423570985008687907852837564279074904382605163141518161494238 115792089237316195423570985008687907852837564279074904382605163141518161494237 91343852333181432387730302044767688728154664398 45671926166590716193865151022383844364077332199 (by decide) (by decide) (by decide) (by decide) c8dbl100]
  rw [ecMulAux_step_odd 115792089237316195423570985008687907852837564279074904382605163141518161494237 115792089237316195423570985008687907852837564279074904382605163141518161494236 45671926166590716193865151022383844364077332199 22835963083295358096932575511191922182038666099 (by decide) (by decide) (by decide) (by decide) c8acc101 c8dbl101]
  rw [ecMulAux_step_odd 115792089237316195423570985008687907852837564279074904382605163141518161494236 115792089237316195423570985008687907852837564279074904382605163141518161494235 22835963083295358096932575511191922182038666099 11417981541647679048466287755595961091019333049 (by decide) (by decide) (by decide) (by decide) c8acc102 c8dbl102]
  rw [ecMulAux_step_odd 115792089237316195423570985008687907852837564279074904382605163141518161494235 115792089237316195423570985008687907852837564279074904382605163141518161494234 11417981541647679048466287755595961091019333049 5708990770823839524233143877797980545509666524 (by decide) (by decide) (by decide) (by decide) c8acc103 c8dbl103]
  rw [ecMulAux_step_even 115792089237316195423570985008687907852837564279074904382605163141518161494234 115792089237316195423570985008687907852837564279074904382605163141518161494233 5708990770823839524233143877797980545509666524 2854495385411919762116571938898990272754833262 (by decide) (by decide) (by decide) (by decide) c8dbl104]
  rw [ecMulAux_step_even 115792089237316195423570985008687907852837564279074904382605163141518161494233 115792089237316195423570985008687907852837564279074904382605163141518161494232 2854495385411919762116571938898990272754833262 1427247692705959881058285969449495136377416631 (by decide) (by decide) (by decide) (by decide) c8dbl105]
  rw [ecMulAux_step_odd 115792089237316195423570985008687907852837564279074904382605163141518161494232 115792089237316195423570985008687907852837564279074904382605163141518161494231 1427247692705959881058285969449495136377416631 713623846352979940529142984724747568188708315 (by decide) (by decide) (by decide) (by decide) c8acc106 c8dbl106]
  rw [ecMulAux_step_odd 115792089237316195423570985008687907852837564279074904382605163141518161494231 115792089237316195423570985008687907852837564279074904382605163141518161494230 713623846352979940529142984724747568188708315 356811923176489970264571492362373784094354157 (by decide) (by decide) (by decide) (by decide) c8acc107 c8dbl107]
  rw [ecMulAux_step_odd 115792089237316195423570985008687907852837564279074904382605163141518161494230 115792089237316195423570985008687907852837564279074904382605163141518161494229 356811923176489970264571492362373784094354157 178405961588244985132285746181186892047177078 (by decide) (by decide) (by decide) (by decide) c8acc108 c8dbl108]
  rw [ecMulAux_step_even 115792089237316195423570985008687907852837564279074904382605163141518161494229 115792089237316195423570985008687907852837564279074904382605163141518161494228 178405961588244985132285746181186892047177078 89202980794122492566142873090593446023588539 (by decide) (by decide) (by decide) (by decide) c8dbl109]
  rw [ecMulAux_step_odd 115792089237316195423570985008687907852837564279074904382605163141518161494228 115792089237316195423570985008687907852837564279074904382605163141518161494227 89202980794122492566142873090593446023588539 44601490397061246283071436545296723011794269 (by decide) (by decide) (by decide) (by decide) c8acc110 c8dbl110]
  rw [ecMulAux_step_odd 115792089237316195423570985008687907852837564279074904382605163141518161494227 115792089237316195423570985008687907852837564279074904382605163141518161494226 44601490397061246283071436545296723011794269 22300745198530623141535718272648361505897134 (by decide) (by decide) (by decide) (by decide) c8acc111 c8dbl111]
  rw [ecMulAux_step_even 115792089237316195423570985008687907852837564279074904382605163141518161494226 115792089237316195423570985008687907852837564279074904382605163141518161494225 22300745198530623141535718272648361505897134 11150372599265311570767859136324180752948567 (by decide) (by decide) (by decide) (by decide) c8dbl112]
  rw [ecMulAux_step_odd 115792089237316195423570985008687907852837564279074904382605163141518161494225 115792089237316195423570985008687907852837564279074904382605163141518161494224 11150372599265311570767859136324180752948567 5575186299632655785383929568162090376474283 (by decide) (by decide) (by decide) (by decide) c8acc113 c8dbl113]
  rw [ecMulAux_step_odd 115792089237316195423570985008687907852837564279074904382605163141518161494224 115792089237316195423570985008687907852837564279074904382605163141518161494223 5575186299632655785383929568162090376474283 2787593149816327892691964784081045188237141 (by decide) (by decide) (by decide) (by decide) c8acc114 c8dbl114]
  rw [ecMulAux_step_odd 115792089237316195423570985008687907852837564279074904382605163141518161494223 115792089237316195423570985008687907852837564279074904382605163141518161494222 2787593149816327892691964784081045188237141 1393796574908163946345982392040522594118570 (by decide) (by decide) (by decide) (by decide) c8acc115 c8dbl115]
  rw [ecMulAux_step_even 115792089237316195423570985008687907852837564279074904382605163141518161494222 115792089237316195423570985008687907852837564279074904382605163141518161494221 1393796574908163946345982392040522594118570 696898287454081973172991196020261297059285 (by decide) (by decide) (by decide) (by decide) c8dbl116]
  rw [ecMulAux_step_odd 115792089237316195423570985008687907852837564279074904382605163141518161494221 115792089237316195423570985008687907852837564279074904382605163141518161494220 696898287454081973172991196020261297059285 348449143727040986586495598010130648529642 (by decide) (by decide) (by decide) (by decide) c8acc117 c8dbl117]
  rw [ecMulAux_step_even 115792089237316195423570985008687907852837564279074904382605163141518161494220 115792089237316195423570985008687907852837564279074904382605163141518161494219 348449143727040986586495598010130648529642 174224571863520493293247799005065324264821 (by decide) (by decide) (by decide) (by decide) c8dbl118]
  rw [ecMulAux_step_odd 115792089237316195423570985008687907852837564279074904382605163141518161494219 115792089237316195423570985008687907852837564279074904382605163141518161494218 174224571863520493293247799005065324264821 87112285931760246646623899502532662132410 (by decide) (by decide) (by decide) (by decide) c8acc119 c8dbl119]
  rw [ecMulAux_step_even 115792089237316195423570985008687907852837564279074904382605163141518161494218 115792089237316195423570985008687907852837564279074904382605163141518161494217 87112285931760246646623899502532662132410 43556142965880123323311949751266331066205 (by decide) (by decide) (by decide) (by decide) c8dbl120]
  rw [ecMulAux_step_odd 115792089237316195423570985008687907852837564279074904382605163141518161494217 115792089237316195423570985008687907852837564279074904382605163141518161494216 43556142965880123323311949751266331066205 21778071482940061661655974875633165533102 (by decide) (by decide) (by decide) (by decide) c8acc121 c8dbl121]
  rw [ecMulAux_step_even 115792089237316195423570985008687907852837564279074904382605163141518161494216 115792089237316195423570985008687907852837564279074904382605163141518161494215 21778071482940061661655974875633165533102 10889035741470030830827987437816582766551 (by decide) (by decide) (by decide) (by decide) c8dbl122]
  rw [ecMulAux_step_odd 115792089237316195423570985008687907852837564279074904382605163141518161494215 115792089237316195423570985008687907852837564279074904382605163141518161494214 10889035741470030830827987437816582766551 5444517870735015415413993718908291383275 (by decide) (by decide) (by decide) (by decide) c8acc123 c8dbl123]
  rw [ecMulAux_step_odd 115792089237316195423570985008687907852837564279074904382605163141518161494214 115792089237316195423570985008687907852837564279074904382605163141518161494213 5444517870735015415413993718908291383275 2722258935367507707706996859454145691637 (by decide) (by decide) (by decide) (by decide) c8acc124 c8dbl124]
  rw [ecMulAux_step_odd 115792089237316195423570985008687907852837564279074904382605163141518161494213 115792089237316195423570985008687907852837564279074904382605163141518161494212 2722258935367507707706996859454145691637 1361129467683753853853498429727072845818 (by decide) (by decide) (by decide) (by decide) c8acc125 c8dbl125]
  rw [ecMulAux_step_even 115792089237316195423570985008687907852837564279074904382605163141518161494212 115792089237316195423570985008687907852837564279074904382605163141518161494211 1361129467683753853853498429727072845818 680564733841876926926749214863536422909 (by decide) (by decide) (by decide) (by decide) c8dbl126]
  rw [ecMulAux_step_odd 115792089237316195423570985008687907852837564279074904382605163141518161494211 115792089237316195423570985008687907852837564279074904382605163141518161494210 680564733841876926926749214863536422909 340282366920938463463374607431768211454 (by decide) (by decide) (by decide) (by decide) c8acc127 c8dbl127]
  rw [ecMulAux_step_even 115792089237316195423570985008687907852837564279074904382605163141518161494210 115792089237316195423570985008687907852837564279074904382605163141518161494209 340282366920938463463374607431768211454 170141183460469231731687303715884105727 (by decide) (by decide) (by decide) (by decide) c8dbl128]
  rw [ecMulAux_step_odd 115792089237316195423570985008687907852837564279074904382605163141518161494209 115792089237316195423570985008687907852837564279074904382605163141518161494208 170141183460469231731687303715884105727 85070591730234615865843651857942052863 (by decide) (by decide) (by decide) (by decide) c8acc129 c8dbl129]
  rw [ecMulAux_step_odd 115792089237316195423570985008687907852837564279074904382605163141518161494208 115792089237316195423570985008687907852837564279074904382605163141518161494207 85070591730234615865843651857942052863 42535295865117307932921825928971026431 (by decide) (by decide) (by decide) (by decide) c8acc130 c8dbl130]
  rw [ecMulAux_step_odd 115792089237316195423570985008687907852837564279074904382605163141518161494207 115792089237316195423570985008687907852837564279074904382605163141518161494206 42535295865117307932921825928971026431 21267647932558653966460912964485513215 (by decide) (by decide) (by decide) (by decide) c8acc131 c8dbl131]
  rw [ecMulAux_step_odd 115792089237316195423570985008687907852837564279074904382605163141518161494206 115792089237316195423570985008687907852837564279074904382605163141518161494205 21267647932558653966460912964485513215 10633823966279326983230456482242756607 (by decide) (by decide) (by decide) (by decide) c8acc132 c8dbl132]
  rw [ecMulAux_step_odd 115792089237316195423570985008687907852837564279074904382605163141518161494205 115792089237316195423570985008687907852837564279074904382605163141518161494204 10633823966279326983230456482242756607 5316911983139663491615228241121378303 (by decide) (by decide) (by decide) (by decide) c8acc133 c8dbl133]
  rw [ecMulAux_step_odd 115792089237316195423570985008687907852837564279074904382605163141518161494204 115792089237316195423570985008687907852837564279074904382605163141518161494203 5316911983139663491615228241121378303 2658455991569831745807614120560689151 (by decide) (by decide) (by decide) (by decide) c8acc134 c8dbl134]
  rw [ecMulAux_step_odd 115792089237316195423570985008687907852837564279074904382605163141518161494203 115792089237316195423570985008687907852837564279074904382605163141518161494202 2658455991569831745807614120560689151 1329227995784915872903807060280344575 (by decide) (by decide) (by decide) (by decide) c8acc135 c8dbl135]
  rw [ecMulAux_step_odd 115792089237316195423570985008687907852837564279074904382605163141518161494202 115792089237316195423570985008687907852837564279074904382605163141518161494201 1329227995784915872903807060280344575 664613997892457936451903530140172287 (by decide) (by decide) (by decide) (by decide) c8acc136 c8dbl136]
  rw [ecMulAux_step_odd 115792089237316195423570985008687907852837564279074904382605163141518161494201 115792089237316195423570985008687907852837564279074904382605163141518161494200 664613997892457936451903530140172287 332306998946228968225951765070086143 (by decide) (by decide) (by decide) (by decide) c8acc137 c8dbl137]
  rw [ecMulAux_step_odd 115792089237316195423570985008687907852837564279074904382605163141518161494200 115792089237316195423570985008687907852837564279074904382605163141518161494199 332306998946228968225951765070086143 166153499473114484112975882535043071 (by decide) (by decide) (by decide) (by decide) c8acc138 c8dbl138]
  rw [ecMulAux_step_odd 115792089237316195423570985008687907852837564279074904382605163141518161494199 115792089237316195423570985008687907852837564279074904382605163141518161494198 166153499473114484112975882535043071 83076749736557242056487941267521535 (by decide) (by decide) (by decide) (by decide) c8acc139 c8dbl139]
  rw [ecMulAux_step_odd 115792089237316195423570985008687907852837564279074904382605163141518161494198 115792089237316195423570985008687907852837564279074904382605163141518161494197 83076749736557242056487941267521535 41538374868278621028243970633760767 (by decide) (by decide) (by decide) (by decide) c8acc140 c8dbl140]
  rw [ecMulAux_step_odd 115792089237316195423570985008687907852837564279074904382605163141518161494197 115792089237316195423570985008687907852837564279074904382605163141518161494196 41538374868278621028243970633760767 20769187434139310514121985316880383 (by decide) (by decide) (by decide) (by decide) c8acc141 c8dbl141]
  rw [ecMulAux_step_odd 115792089237316195423570985008687907852837564279074904382605163141518161494196 115792089237316195423570985008687907852837564279074904382605163141518161494195 20769187434139310514121985316880383 10384593717069655257060992658440191 (by decide) (by decide) (by decide) (by decide) c8acc142 c8dbl142]
  rw [ecMulAux_step_odd 115792089237316195423570985008687907852837564279074904382605163141518161494195 115792089237316195423570985008687907852837564279074904382605163141518161494194 10384593717069655257060992658440191 5192296858534827628530496329220095 (by decide) (by decide) (by decide) (by decide) c8acc143 c8dbl143]
  rw [ecMulAux_step_odd 115792089237316195423570985008687907852837564279074904382605163141518161494194 115792089237316195423570985008687907852837564279074904382605163141518161494193 5192296858534827628530496329220095 2596148429267413814265248164610047 (by decide) (by decide) (by decide) (by decide) c8acc144 c8dbl144]
  rw [ecMulAux_step_odd 115792089237316195423570985008687907852837564279074904382605163141518161494193 115792089237316195423570985008687907852837564279074904382605163141518161494192 2596148429267413814265248164610047 1298074214633706907132624082305023 (by decide) (by decide) (by decide) (by decide) c8acc145 c8dbl145]
  rw [ecMulAux_step_odd 115792089237316195423570985008687907852837564279074904382605163141518161494192 115792089237316195423570985008687907852837564279074904382605163141518161494191 1298074214633706907132624082305023 649037107316853453566312041152511 (by decide) (by decide) (by decide) (by decide) c8acc146 c8dbl146]
  rw [ecMulAux_step_odd 115792089237316195423570985008687907852837564279074904382605163141518161494191 115792089237316195423570985008687907852837564279074904382605163141518161494190 649037107316853453566312041152511 324518553658426726783156020576255 (by decide) (by decide) (by decide) (by decide) c8acc147 c8dbl147]
  rw [ecMulAux_step_odd 115792089237316195423570985008687907852837564279074904382605163141518161494190 115792089237316195423570985008687907852837564279074904382605163141518161494189 324518553658426726783156020576255 162259276829213363391578010288127 (by decide) (by decide) (by decide) (by decide) c8acc148 c8dbl148]
  rw [ecMulAux_step_odd 115792089237316195423570985008687907852837564279074904382605163141518161494189 115792089237316195423570985008687907852837564279074904382605163141518161494188 162259276829213363391578010288127 81129638414606681695789005144063 (by decide) (by decide) (by decide) (by decide) c8acc149 c8dbl149]
  rw [ecMulAux_step_odd 115792089237316195423570985008687907852837564279074904382605163141518161494188 115792089237316195423570985008687907852837564279074904382605163141518161494187 81129638414606681695789005144063 40564819207303340847894502572031 (by decide) (by decide) (by decide) (by decide) c8acc150 c8dbl150]
  rw [ecMulAux_step_odd 115792089237316195423570985008687907852837564279074904382605163141518161494187 115792089237316195423570985008687907852837564279074904382605163141518161494186 40564819207303340847894502572031 20282409603651670423947251286015 (by decide) (by decide) (by decide) (by decide) c8acc151 c8dbl151]
  rw [ecMulAux_step_odd 115792089237316195423570985008687907852837564279074904382605163141518161494186 115792089237316195423570985008687907852837564279074904382605163141518161494185 20282409603651670423947251286015 10141204801825835211973625643007 (by decide) (by decide) (by decide) (by decide) c8acc152 c8dbl152]
  rw [ecMulAux_step_odd 115792089237316195423570985008687907852837564279074904382605163141518161494185 115792089237316195423570985008687907852837564279074904382605163141518161494184 10141204801825835211973625643007 5070602400912917605986812821503 (by decide) (by decide) (by decide) (by decide) c8acc153 c8dbl153]
  rw [ecMulAux_step_odd 115792089237316195423570985008687907852837564279074904382605163141518161494184 115792089237316195423570985008687907852837564279074904382605163141518161494183 5070602400912917605986812821503 2535301200456458802993406410751 (by decide) (by decide) (by decide) (by decide) c8acc154 c8dbl154]
  rw [ecMulAux_step_odd 115792089237316195423570985008687907852837564279074904382605163141518161494183 115792089237316195423570985008687907852837564279074904382605163141518161494182 2535301200456458802993406410751 1267650600228229401496703205375 (by decide) (by decide) (by decide) (by decide) c8acc155 c8dbl155]
  rw [ecMulAux_step_odd 115792089237316195423570985008687907852837564279074904382605163141518161494182 115792089237316195423570985008687907852837564279074904382605163141518161494181 1267650600228229401496703205375 633825300114114700748351602687 (by decide) (by decide) (by decide) (by decide) c8acc156 c8dbl156]
  rw [ecMulAux_step_odd 115792089237316195423570985008687907852837564279074904382605163141518161494181 115792089237316195423570985008687907852837564279074904382605163141518161494180 633825300114114700748351602687 316912650057057350374175801343 (by decide) (by decide) (by decide) (by decide) c8acc157 c8dbl157]
  rw [ecMulAux_step_odd 115792089237316195423570985008687907852837564279074904382605163141518161494180 115792089237316195423570985008687907852837564279074904382605163141518161494179 316912650057057350374175801343 158456325028528675187087900671 (by decide) (by decide) (by decide) (by decide) c8acc158 c8dbl158]
  rw [ecMulAux_step_odd 115792089237316195423570985008687907852837564279074904382605163141518161494179 115792089237316195423570985008687907852837564279074904382605163141518161494178 158456325028528675187087900671 79228162514264337593543950335 (by decide) (by decide) (by decide) (by decide) c8acc159 c8dbl159]
  rw [ecMulAux_step_odd 115792089237316195423570985008687907852837564279074904382605163141518161494178 115792089237316195423570985008687907852837564279074904382605163141518161494177 79228162514264337593543950335 39614081257132168796771975167 (by decide) (by decide) (by decide) (by decide) c8acc160 c8dbl160]
  rw [ecMulAux_step_odd 115792089237316195423570985008687907852837564279074904382605163141518161494177 115792089237316195423570985008687907852837564279074904382605163141518161494176 39614081257132168796771975167 19807040628566084398385987583 (by decide) (by decide) (by decide) (by decide) c8acc161 c8dbl161]
  rw [ecMulAux_step_odd 115792089237316195423570985008687907852837564279074904382605163141518161494176 115792089237316195423570985008687907852837564279074904382605163141518161494175 19807040628566084398385987583 9903520314283042199192993791 (by decide) (by decide) (by decide) (by decide) c8acc162 c8dbl162]
  rw [ecMulAux_step_odd 115792089237316195423570985008687907852837564279074904382605163141518161494175 115792089237316195423570985008687907852837564279074904382605163141518161494174 9903520314283042199192993791 4951760157141521099596496895 (by decide) (by decide) (by decide) (by decide) c8acc163 c8dbl163]
  rw [ecMulAux_step_odd 115792089237316195423570985008687907852837564279074904382605163141518161494174 115792089237316195423570985008687907852837564279074904382605163141518161494173 4951760157141521099596496895 2475880078570760549798248447 (by decide) (by decide) (by decide) (by decide) c8acc164 c8dbl164]
  rw [ecMulAux_step_odd 115792089237316195423570985008687907852837564279074904382605163141518161494173 115792089237316195423570985008687907852837564279074904382605163141518161494172 2475880078570760549798248447 1237940039285380274899124223 (by decide) (by decide) (by decide) (by decide) c8acc165 c8dbl165]
  rw [ecMulAux_step_odd 115792089237316195423570985008687907852837564279074904382605163141518161494172 115792089237316195423570985008687907852837564279074904382605163141518161494171 1237940039285380274899124223 618970019642690137449562111 (by decide) (by decide) (by decide) (by decide) c8acc166 c8dbl166]
  rw [ecMulAux_step_odd 115792089237316195423570985008687907852837564279074904382605163141518161494171 115792089237316195423570985008687907852837564279074904382605163141518161494170 618970019642690137449562111 309485009821345068724781055 (by decide) (by decide) (by decide) (by decide) c8acc167 c8dbl167]
  rw [ecMulAux_step_odd 115792089237316195423570985008687907852837564279074904382605163141518161494170 115792089237316195423570985008687907852837564279074904382605163141518161494169 309485009821345068724781055 154742504910672534362390527 (by decide) (by decide) (by decide) (by decide) c8acc168 c8dbl168]
  rw [ecMulAux_step_odd 115792089237316195423570985008687907852837564279074904382605163141518161494169 115792089237316195423570985008687907852837564279074904382605163141518161494168 154742504910672534362390527 77371252455336267181195263 (by decide) (by decide) (by decide) (by decide) c8acc169 c8dbl169]
  rw [ecMulAux_step_odd 115792089237316195423570985008687907852837564279074904382605163141518161494168 115792089237316195423570985008687907852837564279074904382605163141518161494167 77371252455336267181195263 38685626227668133590597631 (by decide) (by decide) (by decide) (by decide) c8acc170 c8dbl170]
  rw [ecMulAux_step_odd 115792089237316195423570985008687907852837564279074904382605163141518161494167 115792089237316195423570985008687907852837564279074904382605163141518161494166 38685626227668133590597631 19342813113834066795298815 (by decide) (by decide) (by decide) (by decide) c8acc171 c8dbl171]
  rw [ecMulAux_step_odd 115792089237316195423570985008687907852837564279074904382605163141518161494166 115792089237316195423570985008687907852837564279074904382605163141518161494165 19342813113834066795298815 9671406556917033397649407 (by decide) (by decide) (by decide) (by decide) c8acc172 c8dbl172]
  rw [ecMulAux_step_odd 115792089237316195423570985008687907852837564279074904382605163141518161494165 115792089237316195423570985008687907852837564279074904382605163141518161494164 9671406556917033397649407 4835703278458516698824703 (by decide) (by decide) (by decide) (by decide) c8acc173 c8dbl173]
  rw [ecMulAux_step_odd 115792089237316195423570985008687907852837564279074904382605163141518161494164 115792089237316195423570985008687907852837564279074904382605163141518161494163 4835703278458516698824703 2417851639229258349412351 (by decide) (by decide) (by decide) (by decide) c8acc174 c8dbl174]
  rw [ecMulAux_step_odd 115792089237316195423570985008687907852837564279074904382605163141518161494163 115792089237316195423570985008687907852837564279074904382605163141518161494162 2417851639229258349412351 1208925819614629174706175 (by decide) (by decide) (by decide) (by decide) c8acc175 c8dbl175]
  rw [ecMulAux_step_odd 115792089237316195423570985008687907852837564279074904382605163141518161494162 115792089237316195423570985008687907852837564279074904382605163141518161494161 1208925819614629174706175 604462909807314587353087 (by decide) (by decide) (by decide) (by decide) c8acc176 c8dbl176]
  rw [ecMulAux_step_odd 115792089237316195423570985008687907852837564279074904382605163141518161494161 115792089237316195423570985008687907852837564279074904382605163141518161494160 604462909807314587353087 302231454903657293676543 (by decide) (by decide) (by decide) (by decide) c8acc177 c8dbl177]
  rw [ecMulAux_step_odd 115792089237316195423570985008687907852837564279074904382605163141518161494160 115792089237316195423570985008687907852837564279074904382605163141518161494159 302231454903657293676543 151115727451828646838271 (by decide) (by decide) (by decide) (by decide) c8acc178 c8dbl178]
  rw [ecMulAux_step_odd 115792089237316195423570985008687907852837564279074904382605163141518161494159 115792089237316195423570985008687907852837564279074904382605163141518161494158 151115727451828646838271 75557863725914323419135 (by decide) (by decide) (by decide) (by decide) c8acc179 c8dbl179]
  rw [ecMulAux_step_odd 115792089237316195423570985008687907852837564279074904382605163141518161494158 115792089237316195423570985008687907852837564279074904382605163141518161494157 75557863725914323419135 37778931862957161709567 (by decide) (by decide) (by decide) (by decide) c8acc180 c8dbl180]
  rw [ecMulAux_step_odd 115792089237316195423570985008687907852837564279074904382605163141518161494157 115792089237316195423570985008687907852837564279074904382605163141518161494156 37778931862957161709567 18889465931478580854783 (by decide) (by decide) (by decide) (by decide) c8acc181 c8dbl181]
  rw [ecMulAux_step_odd 115792089237316195423570985008687907852837564279074904382605163141518161494156 115792089237316195423570985008687907852837564279074904382605163141518161494155 18889465931478580854783 9444732965739290427391 (by decide) (by decide) (by decide) (by decide) c8acc182 c8dbl182]
  rw [ecMulAux_step_odd 115792089237316195423570985008687907852837564279074904382605163141518161494155 115792089237316195423570985008687907852837564279074904382605163141518161494154 9444732965739290427391 4722366482869645213695 (by decide) (by decide) (by decide) (by decide) c8acc183 c8dbl183]
  rw [ecMulAux_step_odd 115792089237316195423570985008687907852837564279074904382605163141518161494154 115792089237316195423570985008687907852837564279074904382605163141518161494153 4722366482869645213695 2361183241434822606847 (by decide) (by decide) (by decide) (by decide) c8acc184 c8dbl184]
  rw [ecMulAux_step_odd 115792089237316195423570985008687907852837564279074904382605163141518161494153 115792089237316195423570985008687907852837564279074904382605163141518161494152 2361183241434822606847 1180591620717411303423 (by decide) (by decide) (by decide) (by decide) c8acc185 c8dbl185]
  rw [ecMulAux_step_odd 115792089237316195423570985008687907852837564279074904382605163141518161494152 115792089237316195423570985008687907852837564279074904382605163141518161494151 1180591620717411303423 590295810358705651711 (by decide) (by decide) (by decide) (by decide) c8acc186 c8dbl186]
  rw [ecMulAux_step_odd 115792089237316195423570985008687907852837564279074904382605163141518161494151 115792089237316195423570985008687907852837564279074904382605163141518161494150 590295810358705651711 295147905179352825855 (by decide) (by decide) (by decide) (by decide) c8acc187 c8dbl187]
  rw [ecMulAux_step_odd 115792089237316195423570985008687907852837564279074904382605163141518161494150 115792089237316195423570985008687907852837564279074904382605163141518161494149 295147905179352825855 147573952589676412927 (by decide) (by decide) (by decide) (by decide) c8acc188 c8dbl188]
  rw [ecMulAux_step_odd 115792089237316195423570985008687907852837564279074904382605163141518161494149 115792089237316195423570985008687907852837564279074904382605163141518161494148 147573952589676412927 73786976294838206463 (by decide) (by decide) (by decide) (by decide) c8acc189 c8dbl189]
  rw [ecMulAux_step_odd 115792089237316195423570985008687907852837564279074904382605163141518161494148 115792089237316195423570985008687907852837564279074904382605163141518161494147 73786976294838206463 36893488147419103231 (by decide) (by decide) (by decide) (by decide) c8acc190 c8dbl190]
  rw [ecMulAux_step_odd 115792089237316195423570985008687907852837564279074904382605163141518161494147 115792089237316195423570985008687907852837564279074904382605163141518161494146 36893488147419103231 18446744073709551615 (by decide) (by decide) (by decide) (by decide) c8acc191 c8dbl191]
  rw [ecMulAux_step_odd 115792089237316195423570985008687907852837564279074904382605163141518161494146 115792089237316195423570985008687907852837564279074904382605163141518161494145 18446744073709551615 9223372036854775807 (by decide) (by decide) (by decide) (by decide) c8acc192 c8dbl192]
  rw [ecMulAux_step_odd 115792089237316195423570985008687907852837564279074904382605163141518161494145 115792089237316195423570985008687907852837564279074904382605163141518161494144 9223372036854775807 4611686018427387903 (by decide) (by decide) (by decide) (by decide) c8acc193 c8dbl193]
  rw [ecMulAux_step_odd 115792089237316195423570985008687907852837564279074904382605163141518161494144 115792089237316195423570985008687907852837564279074904382605163141518161494143 4611686018427387903 2305843009213693951 (by decide) (by decide) (by decide) (by decide) c8acc194 c8dbl194]
  rw [ecMulAux_step_odd 115792089237316195423570985008687907852837564279074904382605163141518161494143 115792089237316195423570985008687907852837564279074904382605163141518161494142 2305843009213693951 1152921504606846975 (by decide) (by decide) (by decide) (by decide) c8acc195 c8dbl195]
  rw [ecMulAux_step_odd 115792089237316195423570985008687907852837564279074904382605163141518161494142 115792089237316195423570985008687907852837564279074904382605163141518161494141 1152921504606846975 576460752303423487 (by decide) (by decide) (by decide) (by decide) c8acc196 c8dbl196]
  rw [ecMulAux_step_odd 115792089237316195423570985008687907852837564279074904382605163141518161494141 115792089237316195423570985008687907852837564279074904382605163141518161494140 576460752303423487 288230376151711743 (by decide) (by decide) (by decide) (by decide) c8acc197 c8dbl197]
  rw [ecMulAux_step_odd 115792089237316195423570985008687907852837564279074904382605163141518161494140 115792089237316195423570985008687907852837564279074904382605163141518161494139 288230376151711743 144115188075855871 (by decide) (by decide) (by decide) (by decide) c8acc198 c8dbl198]
  rw [ecMulAux_step_odd 115792089237316195423570985008687907852837564279074904382605163141518161494139 115792089237316195423570985008687907852837564279074904382605163141518161494138 144115188075855871 72057594037927935 (by decide) (by decide) (by decide) (by decide) c8acc199 c8dbl199]
  rw [ecMulAux_step_odd 115792089237316195423570985008687907852837564279074904382605163141518161494138 115792089237316195423570985008687907852837564279074904382605163141518161494137 72057594037927935 36028797018963967 (by decide) (by decide) (by decide) (by decide) c8acc200 c8dbl200]
  rw [ecMulAux_step_odd 115792089237316195423570985008687907852837564279074904382605163141518161494137 115792089237316195423570985008687907852837564279074904382605163141518161494136 36028797018963967 18014398509481983 (by decide) (by decide) (by decide) (by decide) c8acc201 c8dbl201]
  rw [ecMulAux_step_odd 115792089237316195423570985008687907852837564279074904382605163141518161494136 115792089237316195423570985008687907852837564279074904382605163141518161494135 18014398509481983 9007199254740991 (by decide) (by decide) (by decide) (by decide) c8acc202 c8dbl202]
  rw [ecMulAux_step_odd 115792089237316195423570985008687907852837564279074904382605163141518161494135 115792089237316195423570985008687907852837564279074904382605163141518161494134 9007199254740991 4503599627370495 (by decide) (by decide) (by decide) (by decide) c8acc203 c8dbl203]
  rw [ecMulAux_step_odd 115792089237316195423570985008687907852837564279074904382605163141518161494134 115792089237316195423570985008687907852837564279074904382605163141518161494133 4503599627370495 2251799813685247 (by decide) (by decide) (by decide) (by decide) c8acc204 c8dbl204]
  rw [ecMulAux_step_odd 115792089237316195423570985008687907852837564279074904382605163141518161494133 115792089237316195423570985008687907852837564279074904382605163141518161494132 2251799813685247 1125899906842623 (by decide) (by decide) (by decide) (by decide) c8acc205 c8dbl205]
  rw [ecMulAux_step_odd 115792089237316195423570985008687907852837564279074904382605163141518161494132 115792089237316195423570985008687907852837564279074904382605163141518161494131 1125899906842623 562949953421311 (by decide) (by decide) (by decide) (by decide) c8acc206 c8dbl206]
  rw [ecMulAux_step_odd 115792089237316195423570985008687907852837564279074904382605163141518161494131 115792089237316195423570985008687907852837564279074904382605163141518161494130 562949953421311 281474976710655 (by decide) (by decide) (by decide) (by decide) c8acc207 c8dbl207]
  rw [ecMulAux_step_odd 115792089237316195423570985008687907852837564279074904382605163141518161494130 115792089237316195423570985008687907852837564279074904382605163141518161494129 281474976710655 140737488355327 (by decide) (by decide) (by decide) (by decide) c8acc208 c8dbl208]
  rw [ecMulAux_step_odd 115792089237316195423570985008687907852837564279074904382605163141518161494129 115792089237316195423570985008687907852837564279074904382605163141518161494128 140737488355327 70368744177663 (by decide) (by decide) (by decide) (by decide) c8acc209 c8dbl209]
  rw [ecMulAux_step_odd 115792089237316195423570985008687907852837564279074904382605163141518161494128 115792089237316195423570985008687907852837564279074904382605163141518161494127 70368744177663 35184372088831 (by decide) (by decide) (by decide) (by decide) c8acc210 c8dbl210]
  rw [ecMulAux_step_odd 115792089237316195423570985008687907852837564279074904382605163141518161494127 115792089237316195423570985008687907852837564279074904382605163141518161494126 35184372088831 17592186044415 (by decide) (by decide) (by decide) (by decide) c8acc211 c8dbl211]
  rw [ecMulAux_step_odd 115792089237316195423570985008687907852837564279074904382605163141518161494126 115792089237316195423570985008687907852837564279074904382605163141518161494125 17592186044415 8796093022207 (by decide) (by decide) (by decide) (by decide) c8acc212 c8dbl212]
  rw [ecMulAux_step_odd 115792089237316195423570985008687907852837564279074904382605163141518161494125 115792089237316195423570985008687907852837564279074904382605163141518161494124 8796093022207 4398046511103 (by decide) (by decide) (by decide) (by decide) c8acc213 c8dbl213]
  rw [ecMulAux_step_odd 115792089237316195423570985008687907852837564279074904382605163141518161494124 115792089237316195423570985008687907852837564279074904382605163141518161494123 4398046511103 2199023255551 (by decide) (by decide) (by decide) (by decide) c8acc214 c8dbl214]
  rw [ecMulAux_step_odd 115792089237316195423570985008687907852837564279074904382605163141518161494123 115792089237316195423570985008687907852837564279074904382605163141518161494122 2199023255551 1099511627775 (by decide) (by decide) (by decide) (by decide) c8acc215 c8dbl215]
  rw [ecMulAux_step_odd 115792089237316195423570985008687907852837564279074904382605163141518161494122 115792089237316195423570985008687907852837564279074904382605163141518161494121 1099511627775 549755813887 (by decide) (by decide) (by decide) (by decide) c8acc216 c8dbl216]
  rw [ecMulAux_step_odd 115792089237316195423570985008687907852837564279074904382605163141518161494121 115792089237316195423570985008687907852837564279074904382605163141518161494120 549755813887 274877906943 (by decide) (by decide) (by decide) (by decide) c8acc217 c8dbl217]
  rw [ecMulAux_step_odd 115792089237316195423570985008687907852837564279074904382605163141518161494120 115792089237316195423570985008687907852837564279074904382605163141518161494119 274877906943 137438953471 (by decide) (by decide) (by decide) (by decide) c8acc218 c8dbl218]
  rw [ecMulAux_step_odd 115792089237316195423570985008687907852837564279074904382605163141518161494119 115792089237316195423570985008687907852837564279074904382605163141518161494118 137438953471 68719476735 (by decide) (by decide) (by decide) (by decide) c8acc219 c8dbl219]
  rw [ecMulAux_step_odd 115792089237316195423570985008687907852837564279074904382605163141518161494118 115792089237316195423570985008687907852837564279074904382605163141518161494117 68719476735 34359738367 (by decide) (by decide) (by decide) (by decide) c8acc220 c8dbl220]
  rw [ecMulAux_step_odd 115792089237316195423570985008687907852837564279074904382605163141518161494117 115792089237316195423570985008687907852837564279074904382605163141518161494116 34359738367 17179869183 (by decide) (by decide) (by decide) (by decide) c8acc221 c8dbl221]
  rw [ecMulAux_step_odd 115792089237316195423570985008687907852837564279074904382605163141518161494116 115792089237316195423570985008687907852837564279074904382605163141518161494115 17179869183 8589934591 (by decide) (by decide) (by decide) (by decide) c8acc222 c8dbl222]
  rw [ecMulAux_step_odd 115792089237316195423570985008687907852837564279074904382605163141518161494115 115792089237316195423570985008687907852837564279074904382605163141518161494114 8589934591 4294967295 (by decide) (by decide) (by decide) (by decide) c8acc223 c8dbl223]
  rw [ecMulAux_step_odd 115792089237316195423570985008687907852837564279074904382605163141518161494114 115792089237316195423570985008687907852837564279074904382605163141518161494113 4294967295 2147483647 (by decide) (by decide) (by decide) (by decide) c8acc224 c8dbl224]
  rw [ecMulAux_step_odd 115792089237316195423570985008687907852837564279074904382605163141518161494113 115792089237316195423570985008687907852837564279074904382605163141518161494112 2147483647 1073741823 (by decide) (by decide) (by decide) (by decide) c8acc225 c8dbl225]
  rw [ecMulAux_step_odd 115792089237316195423570985008687907852837564279074904382605163141518161494112 115792089237316195423570985008687907852837564279074904382605163141518161494111 1073741823 536870911 (by decide) (by decide) (by decide) (by decide) c8acc226 c8dbl226]
  rw [ecMulAux_step_odd 115792089237316195423570985008687907852837564279074904382605163141518161494111 115792089237316195423570985008687907852837564279074904382605163141518161494110 536870911 268435455 (by decide) (by decide) (by decide) (by decide) c8acc227 c8dbl227]
  rw [ecMulAux_step_odd 115792089237316195423570985008687907852837564279074904382605163141518161494110 115792089237316195423570985008687907852837564279074904382605163141518161494109 268435455 134217727 (by decide) (by decide) (by decide) (by decide) c8acc228 c8dbl228]
  rw [ecMulAux_step_odd 115792089237316195423570985008687907852837564279074904382605163141518161494109 115792089237316195423570985008687907852837564279074904382605163141518161494108 134217727 67108863 (by decide) (by decide) (by decide) (by decide) c8acc229 c8dbl229]
  rw [ecMulAux_step_odd 115792089237316195423570985008687907852837564279074904382605163141518161494108 115792089237316195423570985008687907852837564279074904382605163141518161494107 67108863 33554431 (by decide) (by decide) (by decide) (by decide) c8acc230 c8dbl230]
  rw [ecMulAux_step_odd 115792089237316195423570985008687907852837564279074904382605163141518161494107 115792089237316195423570985008687907852837564279074904382605163141518161494106 33554431 16777215 (by decide) (by decide) (by decide) (by decide) c8acc231 c8dbl231]
  rw [ecMulAux_step_odd 115792089237316195423570985008687907852837564279074904382605163141518161494106 115792089237316195423570985008687907852837564279074904382605163141518161494105 16777215 8388607 (by decide) (by decide) (by decide) (by decide) c8acc232 c8dbl232]
  rw [ecMulAux_step_odd 115792089237316195423570985008687907852837564279074904382605163141518161494105 115792089237316195423570985008687907852837564279074904382605163141518161494104 8388607 4194303 (by decide) (by decide) (by decide) (by decide) c8acc233 c8dbl233]
  rw [ecMulAux_step_odd 115792089237316195423570985008687907852837564279074904382605163141518161494104 115792089237316195423570985008687907852837564279074904382605163141518161494103 4194303 2097151 (by decide) (by decide) (by decide) (by decide) c8acc234 c8dbl234]
  rw [ecMulAux_step_odd 115792089237316195423570985008687907852837564279074904382605163141518161494103 115792089237316195423570985008687907852837564279074904382605163141518161494102 2097151 1048575 (by decide) (by decide) (by decide) (by decide) c8acc235 c8dbl235]
  rw [ecMulAux_step_odd 115792089237316195423570985008687907852837564279074904382605163141518161494102 115792089237316195423570985008687907852837564279074904382605163141518161494101 1048575 524287 (by decide) (by decide) (by decide) (by decide) c8acc236 c8dbl236]
  rw [ecMulAux_step_odd 115792089237316195423570985008687907852837564279074904382605163141518161494101 115792089237316195423570985008687907852837564279074904382605163141518161494100 524287 262143 (by decide) (by decide) (by decide) (by decide) c8acc237 c8dbl237]
  rw [ecMulAux_step_odd 115792089237316195423570985008687907852837564279074904382605163141518161494100 115792089237316195423570985008687907852837564279074904382605163141518161494099 262143 131071 (by decide) (by decide) (by decide) (by decide) c8acc238 c8dbl238]
  rw [ecMulAux_step_odd 115792089237316195423570985008687907852837564279074904382605163141518161494099 115792089237316195423570985008687907852837564279074904382605163141518161494098 131071 65535 (by decide) (by decide) (by decide) (by decide) c8acc239 c8dbl239]
  rw [ecMulAux_step_odd 115792089237316195423570985008687907852837564279074904382605163141518161494098 115792089237316195423570985008687907852837564279074904382605163141518161494097 65535 32767 (by decide) (by decide) (by decide) (by decide) c8acc240 c8dbl240]
  rw [ecMulAux_step_odd 115792089237316195423570985008687907852837564279074904382605163141518161494097 115792089237316195423570985008687907852837564279074904382605163141518161494096 32767 16383 (by decide) (by decide) (by decide) (by decide) c8acc241 c8dbl241]
  rw [ecMulAux_step_odd 115792089237316195423570985008687907852837564279074904382605163141518161494096 115792089237316195423570985008687907852837564279074904382605163141518161494095 16383 8191 (by decide) (by decide) (by decide) (by decide) c8acc242 c8dbl242]
  rw [ecMulAux_step_odd 115792089237316195423570985008687907852837564279074904382605163141518161494095 115792089237316195423570985008687907852837564279074904382605163141518161494094 8191 4095 (by decide) (by decide) (by decide) (by decide) c8acc243 c8dbl243]
  rw [ecMulAux_step_odd 115792089237316195423570985008687907852837564279074904382605163141518161494094 115792089237316195423570985008687907852837564279074904382605163141518161494093 4095 2047 (by decide) (by decide) (by decide) (by decide) c8acc244 c8dbl244]
  rw [ecMulAux_step_odd 115792089237316195423570985008687907852837564279074904382605163141518161494093 115792089237316195423570985008687907852837564279074904382605163141518161494092 2047 1023 (by decide) (by decide) (by decide) (by decide) c8acc245 c8dbl245]
  rw [ecMulAux_step_odd 115792089237316195423570985008687907852837564279074904382605163141518161494092 115792089237316195423570985008687907852837564279074904382605163141518161494091 1023 511 (by decide) (by decide) (by decide) (by decide) c8acc246 c8dbl246]
  rw [ecMulAux_step_odd 115792089237316195423570985008687907852837564279074904382605163141518161494091 115792089237316195423570985008687907852837564279074904382605163141518161494090 511 255 (by decide) (by decide) (by decide) (by decide) c8acc247 c8dbl247]
  rw [ecMulAux_step_odd 115792089237316195423570985008687907852837564279074904382605163141518161494090 115792089237316195423570985008687907852837564279074904382605163141518161494089 255 127 (by decide) (by decide) (by decide) (by decide) c8acc248 c8dbl248]
  rw [ecMulAux_step_odd 115792089237316195423570985008687907852837564279074904382605163141518161494089 115792089237316195423570985008687907852837564279074904382605163141518161494088 127 63 (by decide) (by decide) (by decide) (by decide) c8acc249 c8dbl249]
  rw [ecMulAux_step_odd 115792089237316195423570985008687907852837564279074904382605163141518161494088 115792089237316195423570985008687907852837564279074904382605163141518161494087 63 31 (by decide) (by decide) (by decide) (by decide) c8acc250 c8dbl250]
  rw [ecMulAux_step_odd 115792089237316195423570985008687907852837564279074904382605163141518161494087 115792089237316195423570985008687907852837564279074904382605163141518161494086 31 15 (by decide) (by decide) (by decide) (by decide) c8acc251 c8dbl251]
  rw [ecMulAux_step_odd 115792089237316195423570985008687907852837564279074904382605163141518161494086 115792089237316195423570985008687907852837564279074904382605163141518161494085 15 7 (by decide) (by decide) (by decide) (by decide) c8acc252 c8dbl252]
  rw [ecMulAux_step_odd 115792089237316195423570985008687907852837564279074904382605163141518161494085 115792089237316195423570985008687907852837564279074904382605163141518161494084 7 3 (by decide) (by decide) (by decide) (by decide) c8acc253 c8dbl253]
  rw [ecMulAux_step_odd 115792089237316195423570985008687907852837564279074904382605163141518161494084 115792089237316195423570985008687907852837564279074904382605163141518161494083 3 1 (by decide) (by decide) (by decide) (by decide) c8acc254 c8dbl254]
  rw [ecMulAux_step_odd 115792089237316195423570985008687907852837564279074904382605163141518161494083 115792089237316195423570985008687907852837564279074904382605163141518161494082 1 0 (by decide) (by decide) (by decide) (by decide) c8acc255 c8dbl255]
  exact ecMulAux_zero _ _ _

end GalacticCredit
